import Mathlib

/-!
Boot metadata model (`dev_sm_rom.c`) and sleep orchestration
(`dev_sm_system.c`) of the i.MX95 System Manager.

Shallow embedding of the device ROM access functions and of the system sleep
sequence `DEV_SM_SystemSleep`, followed by the properties proved of them.

Conventions of the embedding:
* `uint32_t` / `uint64_t` values are natural numbers; arithmetic that can
  wrap in C is written with an explicit `% 2 ^ 32`.
* `static` variables and memory-mapped registers are fields of an explicit
  state that every function takes and returns.
* C output pointers (`uint32_t *cpuId`, ...) are in/out values: the function
  takes the value the pointee held before the call and returns the value it
  holds afterwards, so "not written" is "returned unchanged".
* `while` loops are recursive functions over a fuel argument and return
  `none` when the fuel runs out before the loop condition turns false;
  `for` loops over a fixed range are `forRange`.
* Drivers, board hooks and header constants that the two files use but do
  not define are kept abstract: constants are fields of `RomConsts` /
  `SysConsts`, answers of collaborators are fields of `SysOracle`, and calls
  with an effect are recorded as `Event`s in a trace.
-/

namespace ImxSm

/-! Status codes -/

/-- The status codes of `sm.h` used by the modelled functions.  Their numeric
values are not used, only the names and their distinctness. -/
inductive sm_err where
  | SM_ERR_SUCCESS
  | SM_ERR_NOT_SUPPORTED
  | SM_ERR_INVALID_PARAMETERS
  | SM_ERR_NOT_FOUND
  deriving DecidableEq, Repr

open sm_err

/-! Local defines of `dev_sm_rom.c` -/

def HANDOVER_BARKER : Nat := 0xC0FFEE16
def HANDOVER_VER : Nat := 0x2

def PASSOVER_TAG : Nat := 0x504F
def PASSOVER_VER : Nat := 0x2

/-- Macro `ROM_HANDOVER_IMG_CPU(x)`, defined as `(((x) & 0x00FFU) >> 0U)`. -/
def ROM_HANDOVER_IMG_CPU (x : Nat) : Nat := (x &&& 0x00FF) >>> 0

/-- Macro `ROM_HANDOVER_IMG_TYPE(x)`, defined as `(((x) & 0xFF00U) >> 8U)`. -/
def ROM_HANDOVER_IMG_TYPE (x : Nat) : Nat := (x &&& 0xFF00) >>> 8

/-- Macro `ROM_HANDOVER_IMG_MSEL(x)`, defined as `(((x) & 0x00FF0000U) >> 16U)`. -/
def ROM_HANDOVER_IMG_MSEL (x : Nat) : Nat := (x &&& 0x00FF0000) >>> 16

/-- Macro `ROM_HANDOVER_IMG_FLAGS(x)`, defined as `(((x) & 0xFF000000U) >> 24U)`. -/
def ROM_HANDOVER_IMG_FLAGS (x : Nat) : Nat := (x &&& 0xFF000000) >>> 24

def ROM_STAGE_SHIFT : Nat := 24
def ROM_STAGE_MASK : Nat := 0x0F000000

def ROM_CONTAINER_1 : Nat := 0x55CC
def ROM_CONTAINER_2 : Nat := 0xAA33

/-- Bitwise complement of a 32-bit value (`~x` on `uint32_t`). -/
def not32 (x : Nat) : Nat := 0xFFFFFFFF ^^^ (x % 2 ^ 32)

/-! Data model -/

/-- One entry of the handover image list (`rom_bootlist_t`): the packed
32-bit word `flags` (cpu, type, module select, flags) and the 64-bit load
address. -/
structure rom_bootlist_t where
  flags : Nat
  addr : Nat
  deriving DecidableEq, Repr

/-- The handover record written by the boot ROM (`rom_handover_t`).  The
image array is a list whose length is the capacity of the C array. -/
structure rom_handover_t where
  barker : Nat
  ver : Nat
  size : Nat
  num : Nat
  flags : Nat
  img : List rom_bootlist_t
  deriving DecidableEq, Repr

/-- The passover record written by the boot ROM (`rom_passover_t`). -/
structure rom_passover_t where
  tag : Nat
  size : Nat
  ver : Nat
  bootMode : Nat
  cardAddrMode : Nat
  bootStage : Nat
  imgSetSel : Nat
  romVersion : Nat
  bootDevType : Nat
  bootDevInst : Nat
  devPageSize : Nat
  cntHeaderOfs : Nat
  imgOfs : Nat
  deriving DecidableEq, Repr

/-- Constants and sizes that `dev_sm_rom.c` takes from headers:
`sizeof(rom_handover_t)`, `sizeof(rom_passover_t)`, the CPU id
`DEV_SM_CPU_M7P` and the image type `DEV_SM_ROM_IMG_EXEC`. -/
structure RomConsts where
  sizeof_rom_handover_t : Nat
  sizeof_rom_passover_t : Nat
  DEV_SM_CPU_M7P : Nat
  DEV_SM_ROM_IMG_EXEC : Nat
  deriving DecidableEq, Repr

/-- Everything `dev_sm_rom.c` reads or writes: its three `static` variables,
the two retained registers `SRC_GEN->GPR15` / `SRC_GEN->GPR16`, and the two
records at `HANDOVER_BASE` and `PASSOVER_BASE`. -/
structure RomState where
  s_imageIdx : Nat
  s_m7Addr : Nat
  s_m7AddValid : Bool
  GPR15 : Nat
  GPR16 : Nat
  handover : rom_handover_t
  passover : rom_passover_t
  deriving DecidableEq, Repr

/-- The four output pointees of the image getters. -/
structure ImgOut where
  cpuId : Nat
  addr : Nat
  mSel : Nat
  flags : Nat
  deriving DecidableEq, Repr

/-- The three output pointees of `DEV_SM_RomBootCpuGet`. -/
structure CpuOut where
  resetVector : Nat
  mSel : Nat
  flags : Nat
  deriving DecidableEq, Repr

/-- Array read `ptr->img[i]`.  Reads past the end of the array are outside
the model and yield a zero entry; every property below is stated for records
whose image count is within the array. -/
def imgAt (h : rom_handover_t) (i : Nat) : rom_bootlist_t :=
  h.img.getD i ⟨0, 0⟩

/-! Startup -/

/-- What `DEV_SM_RomInit` reads from outside the file: the register
`OSC24M->DIGPROG_DEVICE_ID`, the fuse `DEV_SM_FUSE_M33_ROM_PATCH_VER`, the
power switch of the M7 domain, and the driver call
`CPU_ResetVectorGet(DEV_SM_CPU_M7P, &s_m7Addr)`, which maps the value the
pointee held before the call to its return value and the pointee afterwards. -/
structure RomInitOracle where
  DIGPROG_DEVICE_ID : Nat
  romPatchVer : Nat
  pdMixOn : Bool
  CPU_ResetVectorGet : Nat → Bool × Nat

/-- The state at program start: the `static` variables hold their
initialisers `s_imageIdx = 0U`, `s_m7Addr = 0U`, `s_m7AddValid = false`;
registers and records are whatever the boot ROM left. -/
def romResetState (gpr15 gpr16 : Nat) (h : rom_handover_t) (p : rom_passover_t) : RomState :=
  ⟨0, 0, false, gpr15, gpr16, h, p⟩

/-- Function `DEV_SM_RomInit`.  The `printf` calls, and the first
`CPU_ResetVectorGet` call whose results are only printed, leave the state
alone and are left out. -/
def DEV_SM_RomInit (R : RomInitOracle) (st : RomState) : RomState :=
  -- Silicon rev is Ax?
  if R.DIGPROG_DEVICE_ID &&& 0xF0 = 0x10 then
    -- No ROM patch?
    if R.romPatchVer = 0 then
      if R.pdMixOn then
        -- Load address from reset vector registers
        let r := R.CPU_ResetVectorGet st.s_m7Addr
        { st with s_m7AddValid := r.1, s_m7Addr := r.2 }
      else st
    else st
  else st

/-! Record getters -/

/-- Function `DEV_SM_RomHandoverGet`: `handover` is the pointee of the output pointer
before the call; the second component is the pointee afterwards. -/
def DEV_SM_RomHandoverGet (K : RomConsts) (st : RomState)
    (handover : Option rom_handover_t) :
    sm_err × Option rom_handover_t × RomState :=
  let ptr := st.handover
  let status := SM_ERR_SUCCESS
  -- Check barker
  let status := if ptr.barker ≠ HANDOVER_BARKER then SM_ERR_NOT_SUPPORTED else status
  -- Check version
  let status :=
    if status = SM_ERR_SUCCESS ∧ ptr.ver ≠ HANDOVER_VER then SM_ERR_NOT_SUPPORTED else status
  -- Check size
  let status :=
    if status = SM_ERR_SUCCESS ∧ ptr.size < K.sizeof_rom_handover_t then SM_ERR_NOT_SUPPORTED
    else status
  -- Return pointer to data
  let handover := if status = SM_ERR_SUCCESS then some ptr else handover
  (status, handover, st)

/-- Function `DEV_SM_RomPassoverGet`, with the same conventions. -/
def DEV_SM_RomPassoverGet (K : RomConsts) (st : RomState)
    (passover : Option rom_passover_t) :
    sm_err × Option rom_passover_t × RomState :=
  let ptr := st.passover
  let status := SM_ERR_SUCCESS
  -- Check tag
  let status := if ptr.tag ≠ PASSOVER_TAG then SM_ERR_NOT_SUPPORTED else status
  -- Check version
  let status :=
    if status = SM_ERR_SUCCESS ∧ ptr.ver ≠ PASSOVER_VER then SM_ERR_NOT_SUPPORTED else status
  -- Check size
  let status :=
    if status = SM_ERR_SUCCESS ∧ ptr.size < K.sizeof_rom_passover_t then SM_ERR_NOT_SUPPORTED
    else status
  -- Return pointer to data
  let passover := if status = SM_ERR_SUCCESS then some ptr else passover
  (status, passover, st)

/-! Image iterator -/

/-- The `while` loop of `DEV_SM_RomBootImgNGet`, run with
`status == SM_ERR_SUCCESS` and `ptr` the record; the second numeric argument
is `s_imageIdx`.  Returns the value of `s_imageIdx` when the loop is left. -/
def imgScanLoop (ptr : rom_handover_t) (type : Nat) : Nat → Nat → Option Nat
  | 0, _ => none
  | fuel + 1, idx =>
    if idx < ptr.num then
      -- Image type found?
      if type = ROM_HANDOVER_IMG_TYPE (imgAt ptr idx).flags then some idx
      -- Next image
      else imgScanLoop ptr type fuel ((idx + 1) % 2 ^ 32)
    else some idx

/-- Function `DEV_SM_RomBootImgNGet`: `out` holds the pointees of `cpuId`,
`addr`, `mSel`, `flags` before the call. -/
def DEV_SM_RomBootImgNGet (K : RomConsts) (fuel : Nat) (st : RomState) (type : Nat)
    (out : ImgOut) : Option (sm_err × ImgOut × RomState) :=
  -- Get handover pointer (the local `ptr` is uninitialised before the call)
  match DEV_SM_RomHandoverGet K st none with
  | (SM_ERR_SUCCESS, some ptr, st) =>
    -- Loop looking for next image type
    (imgScanLoop ptr type fuel st.s_imageIdx).bind fun idx =>
      -- Found?
      if idx < ptr.num then
        let img := imgAt ptr idx
        -- Return data
        let cpuId := ROM_HANDOVER_IMG_CPU img.flags
        let mSel := ROM_HANDOVER_IMG_MSEL img.flags
        let flags := ROM_HANDOVER_IMG_FLAGS img.flags
        let addr := img.addr
        -- Fix for ROM address patch
        let addr := if st.s_m7AddValid ∧ cpuId = K.DEV_SM_CPU_M7P then st.s_m7Addr else addr
        -- Next image on next call
        some (SM_ERR_SUCCESS, ⟨cpuId, addr, mSel, flags⟩,
          { st with s_imageIdx := (idx + 1) % 2 ^ 32 })
      else
        some (SM_ERR_NOT_FOUND, out, { st with s_imageIdx := idx })
  | (_, _, st) =>
    -- status is not SM_ERR_SUCCESS: the loop is skipped and the else branch taken
    some (SM_ERR_NOT_FOUND, out, st)

/-- Function `DEV_SM_RomBootImg1Get`. -/
def DEV_SM_RomBootImg1Get (K : RomConsts) (fuel : Nat) (st : RomState) (type : Nat)
    (out : ImgOut) : Option (sm_err × ImgOut × RomState) :=
  DEV_SM_RomBootImgNGet K fuel { st with s_imageIdx := 0 } type out

/-- The `while (status == SM_ERR_SUCCESS)` loop of `DEV_SM_RomBootCpuGet`.
The first numeric argument bounds the iterations of this loop, `fuel` those of
the loop inside each `DEV_SM_RomBootImgNGet`; `img` holds the locals `cpu`,
`addr`, `sel`, `fl`. -/
def cpuGetLoop (K : RomConsts) (fuel : Nat) (cpuId : Nat) :
    Nat → sm_err → ImgOut → CpuOut → RomState → Option (sm_err × CpuOut × RomState)
  | 0, _, _, _, _ => none
  | n + 1, status, img, out, st =>
    if status = SM_ERR_SUCCESS then
      -- Found?
      if cpuId = img.cpuId then
        -- Return data
        some (status, ⟨img.addr, img.mSel, img.flags⟩, st)
      else
        -- Get next image
        (DEV_SM_RomBootImgNGet K fuel st K.DEV_SM_ROM_IMG_EXEC img).bind
          fun r => cpuGetLoop K fuel cpuId n r.1 r.2.1 out r.2.2
    else some (status, out, st)

/-- Function `DEV_SM_RomBootCpuGet`: `out` holds the pointees of `resetVector`,
`mSel`, `flags` before the call.  The locals `cpu`, `addr`, `sel`, `fl` are
uninitialised in C and only read after a successful getter wrote them; they
start as zero here. -/
def DEV_SM_RomBootCpuGet (K : RomConsts) (fuel : Nat) (st : RomState) (cpuId : Nat)
    (out : CpuOut) : Option (sm_err × CpuOut × RomState) :=
  -- Get first image
  (DEV_SM_RomBootImg1Get K fuel st K.DEV_SM_ROM_IMG_EXEC ⟨0, 0, 0, 0⟩).bind
    -- Loop over images
    fun r => cpuGetLoop K fuel cpuId fuel r.1 r.2.1 out r.2.2

/-! Image iterator with its array reads recorded -/

/-- The `while` loop of `DEV_SM_RomBootImgNGet` with its array reads recorded:
the value of `s_imageIdx` when the loop is left, and the indices `i` of the
reads `ptr->img[i]`, one per iteration, in program order. -/
def imgScanReads (ptr : rom_handover_t) (type : Nat) : Nat → Nat → Option (Nat × List Nat)
  | 0, _ => none
  | fuel + 1, idx =>
    if idx < ptr.num then
      -- Image type found?
      if type = ROM_HANDOVER_IMG_TYPE (imgAt ptr idx).flags then some (idx, [idx])
      -- Next image
      else (imgScanReads ptr type fuel ((idx + 1) % 2 ^ 32)).map fun r => (r.1, idx :: r.2)
    else some (idx, [])

/-- The array reads of one call of `DEV_SM_RomBootImgNGet`: those of the loop,
then the read `ptr->img[s_imageIdx]` of the branch taken when an image was
found. -/
def romBootImgNGetReads (K : RomConsts) (fuel : Nat) (st : RomState) (type : Nat) :
    Option (List Nat) :=
  match DEV_SM_RomHandoverGet K st none with
  | (SM_ERR_SUCCESS, some ptr, st) =>
    (imgScanReads ptr type fuel st.s_imageIdx).map fun r =>
      if r.1 < ptr.num then r.2 ++ [r.1] else r.2
  | _ => some []

/-! Boot stage and container -/

/-- Function `DEV_SM_RomStageSet`. -/
def DEV_SM_RomStageSet (st : RomState) (stage : Nat) : sm_err × RomState :=
  -- Configure stage
  let temp := st.GPR16 &&& not32 ROM_STAGE_MASK
  (SM_ERR_SUCCESS,
    { st with GPR16 := temp ||| (((stage <<< ROM_STAGE_SHIFT) % 2 ^ 32) &&& ROM_STAGE_MASK) })

/-- Function `DEV_SM_RomStageGet`. -/
def DEV_SM_RomStageGet (st : RomState) : Nat :=
  (st.GPR16 &&& ROM_STAGE_MASK) >>> ROM_STAGE_SHIFT

/-- Function `DEV_SM_RomContainerSet`. -/
def DEV_SM_RomContainerSet (st : RomState) (container : Nat) : sm_err × RomState :=
  -- Configure container
  if container = 0 then (SM_ERR_SUCCESS, { st with GPR15 := ROM_CONTAINER_1 })
  else if container = 1 then (SM_ERR_SUCCESS, { st with GPR15 := ROM_CONTAINER_2 })
  else (SM_ERR_INVALID_PARAMETERS, st)

/-- Function `DEV_SM_RomContainerGet`. -/
def DEV_SM_RomContainerGet (st : RomState) : Nat :=
  st.GPR15

/-! System sleep (`dev_sm_system.c`) -/

/-- The power domains `DEV_SM_PD_DDR`, `DEV_SM_PD_NOC`, `DEV_SM_PD_WAKEUP` that
`DEV_SM_SystemSleep` switches. -/
inductive PowerDomain where
  | DEV_SM_PD_DDR
  | DEV_SM_PD_NOC
  | DEV_SM_PD_WAKEUP
  deriving DecidableEq, Repr

/-- The clock roots `CLOCK_ROOT_ELE`, `CLOCK_ROOT_BUSAON`, `CLOCK_ROOT_M33` of
`s_clkRootSleepList`. -/
inductive ClockRoot where
  | CLOCK_ROOT_ELE
  | CLOCK_ROOT_BUSAON
  | CLOCK_ROOT_M33
  deriving DecidableEq, Repr

def DEV_SM_NUM_SLEEP_ROOTS : Nat := 3

/-- Table `s_clkRootSleepList` of `DEV_SM_SystemSleep`. -/
def s_clkRootSleepList : Nat → ClockRoot
  | 0 => ClockRoot.CLOCK_ROOT_ELE
  | 1 => ClockRoot.CLOCK_ROOT_BUSAON
  | _ => ClockRoot.CLOCK_ROOT_M33

/-- Calls to collaborators and writes to write-only register aliases made by
`DEV_SM_SystemSleep` and `DEV_SM_SystemIdle` (the last two are the intrinsics
`__disable_irq()` and `__enable_irq()`), recorded in program order.  Getters
are answered by the oracle and leave no event. -/
inductive Event where
  | BOARD_SystemSleepPrepare (sleepMode sleepFlags : Nat)
  | DEV_SM_SensorPowerDown
  | DEV_SM_MemDdrRetentionEnter
  | DEV_SM_PowerStateSet (domain : PowerDomain) (powerOn : Bool)
  | DEV_SM_PerfLevelSet (perfLevel : Nat)
  | NVIC_ICPR (wakeIdx val : Nat)
  | NVIC_ICER (wakeIdx val : Nat)
  | NVIC_ISER (wakeIdx val : Nat)
  | CPU_WakeMuxSet (cpuIdx : Nat) (wakeMux : Bool)
  | CPU_SleepModeSet (cpuIdx sleepMode : Nat)
  | DEV_SM_ClockSourceBypass (bypass preserve : Bool)
  | DEV_SM_PerfSystemSleep (perfLevel : Nat)
  | CLOCK_ROOT_CONTROL_CLR (root : ClockRoot) (val : Nat)
  | CLOCK_ROOT_CONTROL_SET (root : ClockRoot) (val : Nat)
  | CLOCK_SourceSetEnable (sourceIdx : Nat) (enable : Bool)
  | BOARD_SystemSleepEnter (sleepMode sleepFlags : Nat)
  | CPU_PerLpiProcess (cpuIdx sleepMode : Nat)
  | SYSCTR_FreqMode (lowFreq blocking : Bool)
  | FRO_CSR_CLR (val : Nat)
  | DSB
  | WFI
  | ISB
  | FRO_CSR_SET (val : Nat)
  | BOARD_SystemSleepExit (sleepMode sleepFlags : Nat)
  | DEV_SM_PerfSystemWake (perfLevel : Nat)
  | DEV_SM_MemDdrRetentionExit
  | DEV_SM_SensorPowerUp
  | BOARD_SystemSleepUnprepare (sleepMode sleepFlags : Nat)
  | disable_irq
  | enable_irq
  deriving DecidableEq, Repr

/-- Constants that `dev_sm_system.c` takes from headers.  The table
`s_pllVcoList` is built from such constants only and is a field too. -/
structure SysConsts where
  CPU_NUM_IDX : Nat
  CPU_IDX_M33P : Nat
  GPC_CPU_CTRL_CMC_IRQ_WAKEUP_MASK_COUNT : Nat
  PWR_NUM_MIX_SLICE : Nat
  PWR_NUM_MEM_SLICE : Nat
  CLOCK_NUM_PLL : Nat
  s_pllVcoList : Nat → Nat
  CPU_PD_LPM_ON_NEVER : Nat
  CPU_SLEEP_MODE_RUN : Nat
  CPU_SLEEP_MODE_SUSPEND : Nat
  PWR_MIX_SLICE_IDX_DDR : Nat
  PWR_MIX_SLICE_IDX_NOC : Nat
  PWR_MIX_SLICE_IDX_WAKEUP : Nat
  DEV_SM_PERF_LVL_PRK : Nat
  DEV_SM_PERF_LVL_ODV : Nat
  DEV_SM_SSF_SM_ACTIVE_MASK : Nat
  DEV_SM_SSF_OSC24M_ACTIVE_MASK : Nat
  DEV_SM_SSF_PMIC_STBY_INACTIVE_MASK : Nat
  DEV_SM_SSF_SYSCTR_ACTIVE_MASK : Nat
  DEV_SM_SSF_FRO_ACTIVE_MASK : Nat
  CoreDebug_DHCSR_C_DEBUGEN_Msk : Nat
  GPC_GLOBAL_GPC_ROSC_CTRL_ROSC_OFF_EN_MASK : Nat
  GPC_GLOBAL_GPC_PMIC_CTRL_PMIC_STBY_EN_MASK : Nat
  GPC_GLOBAL_GPC_EFUSE_CTRL_EFUSE_PD_EN_MASK : Nat
  CCM_CLOCK_ROOT_MUX_MASK : Nat
  CCM_CLOCK_ROOT_DIV_MASK : Nat
  CLOCK_SRC_SYSPLL1_VCO : Nat
  CLOCK_SRC_SYSPLL1_PFD2_DIV2 : Nat
  CLOCK_PLL_SYS1 : Nat
  FRO_CSR_FROEN_MASK : Nat
  SCB_ICSR_VECTPENDING_Msk : Nat
  SCB_ICSR_VECTPENDING_Pos : Nat

/-- Answers of the collaborators and values of the registers that
`DEV_SM_SystemSleep` only reads, one field per call site.  Every property is
proved for all oracles, or states what it asks of them. -/
structure SysOracle where
  /-- Reading number `k` of `DEV_SM_Usec64Get` since the start of the model. -/
  usec : Nat → Nat
  SRC_MixIsPwrSwitchOn : Nat → Bool
  /-- Test `(srcMem->MEM_CTRL & SRC_MEM_MEM_CTRL_MEM_LP_MODE_MASK) != 0U` of
  memory slice `memIdx`. -/
  memLpMode : Nat → Bool
  CLOCK_SourceGetEnable : Nat → Bool
  /-- Call `CPU_SleepForceGet(cpuIdx, &sleepForce)`: `none` when it returns
  false, `some f` when it returns true with `sleepForce = f`. -/
  CPU_SleepForceGet : Nat → Option Bool
  /-- Whether `CPU_IrqWakeGet(cpuIdx, wakeIdx, _)` returns true. -/
  irqWakeGetOk : Nat → Nat → Bool
  /-- Whether `CPU_IrqWakeSet(cpuIdx, wakeIdx, _)` performs the write. -/
  irqWakeSetOk : Nat → Nat → Bool
  /-- Call `SRC_MixCpuLpmGet(mixIdx, cpuIdx, &lpmSetting)`: `none` when it
  returns false. -/
  SRC_MixCpuLpmGet : Nat → Nat → Option Nat
  /-- Call `CPU_SystemSleepStatusGet(&sysSleepStat)`: `none` when it returns
  false. -/
  CPU_SystemSleepStatusGet : Option Nat
  DEV_SM_MemDdrRetentionEnter : sm_err
  ddrPowerOff : sm_err
  nocPowerOff : sm_err
  CPU_LpComputeListGet : Nat
  /-- Register `CoreDebug->DHCSR`. -/
  DHCSR : Nat
  /-- Call `DEV_SM_PerfLevelGet(DEV_SM_PERF_WAKEUP, &savedWakeupMixPerf)`. -/
  wakeupPerfLevelGet : sm_err × Nat
  wakeupPerfLevelSetPrk : sm_err
  wakeupPowerOff : sm_err
  /-- Register `NVIC->ISER[wakeIdx]` as read during suspend entry. -/
  NVIC_ISER : Nat → Nat
  /-- Register `CCM_CTRL->CLOCK_ROOT[rootIdx].CLOCK_ROOT_CONTROL.RW`. -/
  CLOCK_ROOT_CONTROL : ClockRoot → Nat
  /-- Register `SCB->ICSR` as read after the halt. -/
  ICSR : Nat
  wakeupPowerOn : sm_err
  wakeupPerfLevelRestore : sm_err
  nocPowerOn : sm_err
  ddrPowerOn : sm_err
  DEV_SM_MemDdrRetentionExit : sm_err

/-- The sleep record `g_syslog.sysSleepRecord`. -/
structure SleepRecord where
  wakeSource : Nat
  sysSleepMode : Nat
  sysSleepFlags : Nat
  mixPwrStat : Nat
  memPwrStat : Nat
  pllPwrStat : Nat
  sleepCnt : Nat
  sleepEntryUsec : Nat
  sleepExitUsec : Nat
  deriving DecidableEq, Repr

/-- The state outside `DEV_SM_SystemSleep` that it reads and writes: the
`static` sleep configuration, the sleep record, the hardware wake masks
`CMC_IRQ_WAKEUP_MASK` of every core (by cpu index and word index), the
registers it writes directly, the trace of collaborator calls and the number
of timer readings taken so far. -/
structure SysState where
  s_sysSleepMode : Nat
  s_sysSleepFlags : Nat
  sysSleepRecord : SleepRecord
  wakeMask : Nat → Nat → Nat
  LP_HANDSHAKE_SM : Nat
  LP_HANDSHAKE2_SM : Nat
  LP_HANDSHAKE_ELE : Nat
  LP_HANDSHAKE2_ELE : Nat
  GPC_ROSC_CTRL : Nat
  GPC_PMIC_CTRL : Nat
  GPC_EFUSE_CTRL : Nat
  trace : List Event
  usecReads : Nat

/-- The state of one invocation of `DEV_SM_SystemSleep`: the outside state plus
the local variables of the function. -/
structure SleepM extends SysState where
  status : sm_err
  s_clkRootCtrl : Nat → Nat
  cpuWakeMask : Nat → Nat → Nat
  sysWakeMask : Nat → Nat
  nvicISER : Nat → Nat
  sleepEntryStart : Nat
  sleepExitStart : Nat
  lpmSettingNoc : Nat
  lpmSettingWakeup : Nat
  ddrInRetention : Bool
  lpComputeActive : Bool
  wakeupMixOff : Bool
  restoreWakeupMixPerf : Bool
  savedWakeupMixPerf : Nat
  lpHsSm : Nat
  lpHs2Sm : Nat
  lpHsEle : Nat
  lpHs2Ele : Nat
  perfLevelSleep : Nat
  activeSleep : Bool

/-- The loop `for (i = 0U; i < n; i++) body`. -/
def forRange {σ : Type} (n : Nat) (body : Nat → σ → σ) (s : σ) : σ :=
  match n with
  | 0 => s
  | k + 1 => body k (forRange k body s)

/-- Array write `a[i] = v`. -/
def set1 (a : Nat → Nat) (i v : Nat) : Nat → Nat :=
  fun x => if x = i then v else a x

/-- Array write `a[i][j] = v`. -/
def set2 (a : Nat → Nat → Nat) (i j v : Nat) : Nat → Nat → Nat :=
  fun x y => if x = i ∧ y = j then v else a x y

/-- Record a collaborator call. -/
def SleepM.emit (m : SleepM) (e : Event) : SleepM :=
  { m with trace := m.trace ++ [e] }

/-- Record a collaborator call made under a condition. -/
def SleepM.emitIf (m : SleepM) (c : Bool) (e : Event) : SleepM :=
  if c then m.emit e else m

/-- Function `DEV_SM_SystemSleepModeSet`. -/
def DEV_SM_SystemSleepModeSet (s : SysState) (sleepMode sleepFlags : Nat) : SysState :=
  { s with s_sysSleepMode := sleepMode, s_sysSleepFlags := sleepFlags }

/-- Call `DEV_SM_Usec64Get()`: the next timer reading. -/
def DEV_SM_Usec64Get (O : SysOracle) (m : SleepM) : Nat × SleepM :=
  (O.usec m.usecReads, { m with usecReads := m.usecReads + 1 })

/-- Modelled from the spec: the hardware wake mask of a core is one register
per wake-mask word; the driver function `CPU_IrqWakeGet` reads it and reports
through its return value whether it did. -/
def CPU_IrqWakeGet (O : SysOracle) (m : SleepM) (cpuIdx wakeIdx : Nat) : Option Nat :=
  if O.irqWakeGetOk cpuIdx wakeIdx then some (m.wakeMask cpuIdx wakeIdx) else none

/-- Modelled from the spec: the driver function `CPU_IrqWakeSet` writes the
hardware wake mask word of a core when it accepts the indices; its return
value is discarded at every call site. -/
def CPU_IrqWakeSet (O : SysOracle) (m : SleepM) (cpuIdx wakeIdx val : Nat) : SleepM :=
  if O.irqWakeSetOk cpuIdx wakeIdx then
    { m with wakeMask := set2 m.wakeMask cpuIdx wakeIdx val }
  else m

/-- The 64-bit difference `a - b` truncated by `UINT64_L` to its low 32
bits. -/
def usecDiffL (a b : Nat) : Nat :=
  ((a + 2 ^ 64 - b % 2 ^ 64) % 2 ^ 64) % 2 ^ 32

/-! `DEV_SM_SystemSleep`, paragraph by paragraph -/

/-- Capture start of sleep entry. -/
def sleepCaptureStart (O : SysOracle) (m : SleepM) : SleepM :=
  let r := DEV_SM_Usec64Get O m
  { r.2 with sleepEntryStart := r.1, sleepExitStart := r.1 }

/-- Reset wake source, capture system sleep mode/flags and the power status
of MIXes, memories and PLLs into the sleep record. -/
def sleepRecordCapture (K : SysConsts) (O : SysOracle) (m : SleepM) : SleepM :=
  let r := m.sysSleepRecord
  let r := { r with wakeSource := 0 }
  let r := { r with sysSleepMode := m.s_sysSleepMode, sysSleepFlags := m.s_sysSleepFlags }
  let r := { r with mixPwrStat := 0 }
  let r := forRange K.PWR_NUM_MIX_SLICE (fun mixIdx r =>
    if O.SRC_MixIsPwrSwitchOn mixIdx then
      { r with mixPwrStat := r.mixPwrStat ||| ((1 <<< mixIdx) % 2 ^ 32) }
    else r) r
  let r := { r with memPwrStat := 0 }
  let r := forRange K.PWR_NUM_MEM_SLICE (fun memIdx r =>
    if O.memLpMode memIdx then
      { r with memPwrStat := r.memPwrStat ||| ((1 <<< memIdx) % 2 ^ 32) }
    else r) r
  let r := { r with pllPwrStat := 0 }
  let r := forRange K.CLOCK_NUM_PLL (fun pllIdx r =>
    let sourceIdx := K.s_pllVcoList pllIdx
    if O.CLOCK_SourceGetEnable sourceIdx then
      { r with pllPwrStat := r.pllPwrStat ||| ((1 <<< pllIdx) % 2 ^ 32) }
    else r) r
  { m with sysSleepRecord := r }

/-- Initialize wake masks. -/
def wakeMaskInit (K : SysConsts) (m : SleepM) : SleepM :=
  forRange K.GPC_CPU_CTRL_CMC_IRQ_WAKEUP_MASK_COUNT (fun wakeIdx m =>
    let m := { m with sysWakeMask := set1 m.sysWakeMask wakeIdx 0xFFFFFFFF }
    forRange K.CPU_NUM_IDX (fun cpuIdx m =>
      { m with cpuWakeMask := set2 m.cpuWakeMask cpuIdx wakeIdx 0xFFFFFFFF }) m) m

/-- Initialize NOC/WAKEUP MIX dependencies. -/
def lpmSettingInit (K : SysConsts) (m : SleepM) : SleepM :=
  { m with lpmSettingNoc := K.CPU_PD_LPM_ON_NEVER, lpmSettingWakeup := K.CPU_PD_LPM_ON_NEVER }

/-- Wake-mask loop of a CPU whose sleep is not forced: IRQs enabled at NVIC
level become GPC wake sources. -/
def scanWakeNotForced (K : SysConsts) (O : SysOracle) (cpuIdx : Nat) (m : SleepM) : SleepM :=
  forRange K.GPC_CPU_CTRL_CMC_IRQ_WAKEUP_MASK_COUNT (fun wakeIdx m =>
    match CPU_IrqWakeGet O m cpuIdx wakeIdx with
    | some wakeVal =>
      let m := { m with cpuWakeMask := set2 m.cpuWakeMask cpuIdx wakeIdx wakeVal }
      let m := { m with
        sysWakeMask := (set1 m.sysWakeMask wakeIdx (m.sysWakeMask wakeIdx &&& wakeVal)) }
      CPU_IrqWakeSet O m cpuIdx wakeIdx 0xFFFFFFFF
    | none => m) m

/-- Wake-mask loop of a CPU forced to sleep: disable GPC wakeups. -/
def scanWakeForced (K : SysConsts) (O : SysOracle) (cpuIdx : Nat) (m : SleepM) : SleepM :=
  forRange K.GPC_CPU_CTRL_CMC_IRQ_WAKEUP_MASK_COUNT (fun wakeIdx m =>
    match CPU_IrqWakeGet O m cpuIdx wakeIdx with
    | some wakeVal =>
      let m := { m with cpuWakeMask := set2 m.cpuWakeMask cpuIdx wakeIdx wakeVal }
      CPU_IrqWakeSet O m cpuIdx wakeIdx 0xFFFFFFFF
    | none => m) m

/-- Update NOCMIX and WAKEUPMIX dependency for a CPU whose sleep is not
forced. -/
def scanLpm (K : SysConsts) (O : SysOracle) (cpuIdx : Nat) (m : SleepM) : SleepM :=
  let m :=
    match O.SRC_MixCpuLpmGet K.PWR_MIX_SLICE_IDX_NOC cpuIdx with
    | some lpmSetting =>
      if lpmSetting > m.lpmSettingNoc then { m with lpmSettingNoc := lpmSetting } else m
    | none => m
  match O.SRC_MixCpuLpmGet K.PWR_MIX_SLICE_IDX_WAKEUP cpuIdx with
  | some lpmSetting =>
    if lpmSetting > m.lpmSettingWakeup then { m with lpmSettingWakeup := lpmSetting } else m
  | none => m

/-- Body of the CPU scan loop for one `cpuIdx`. -/
def scanCpu (K : SysConsts) (O : SysOracle) (cpuIdx : Nat) (m : SleepM) : SleepM :=
  if cpuIdx ≠ K.CPU_IDX_M33P then
    -- Check if sleep is forced for the CPU
    match O.CPU_SleepForceGet cpuIdx with
    | some false => scanLpm K O cpuIdx (scanWakeNotForced K O cpuIdx m)
    | some true => scanWakeForced K O cpuIdx m
    | none => m
  else m

/-- Scan CPUs, update GPC wake masks, assess NOC/WAKEUP MIX dependencies. -/
def scanCpus (K : SysConsts) (O : SysOracle) (m : SleepM) : SleepM :=
  forRange K.CPU_NUM_IDX (scanCpu K O) m

/-- Board-level sleep prepare, disable sensor, advance the sleep counter. -/
def suspendPrepare (m : SleepM) : SleepM :=
  let m := m.emit (Event.BOARD_SystemSleepPrepare m.s_sysSleepMode m.s_sysSleepFlags)
  let m := m.emit Event.DEV_SM_SensorPowerDown
  -- Check the value doesn't wrap
  if m.sysSleepRecord.sleepCnt ≤ 0xFFFFFFFF - 1 then
    { m with sysSleepRecord :=
      { m.sysSleepRecord with sleepCnt := (m.sysSleepRecord.sleepCnt + 1) % 2 ^ 32 } }
  else
    { m with sysSleepRecord := { m.sysSleepRecord with sleepCnt := 0 } }

/-- Clear bit `idx` of `mixPwrStat` in the sleep record
(`mixPwrStat &= (~(1UL << idx))`). -/
def clearMixPwrStat (idx : Nat) (m : SleepM) : SleepM :=
  { m with sysSleepRecord :=
    { m.sysSleepRecord with
      mixPwrStat := m.sysSleepRecord.mixPwrStat &&& not32 ((1 <<< idx) % 2 ^ 32) } }

/-- Attempt to place DDR into retention, then power down DDRMIX. -/
def suspendDdr (K : SysConsts) (O : SysOracle) (m : SleepM) : SleepM :=
  let m := { m with ddrInRetention := false }
  let m := m.emit Event.DEV_SM_MemDdrRetentionEnter
  if O.DEV_SM_MemDdrRetentionEnter = SM_ERR_SUCCESS then
    -- Set flag to indicate DDR retention is active
    let m := { m with ddrInRetention := true }
    -- Power down DDRMIX
    let m := m.emit (Event.DEV_SM_PowerStateSet PowerDomain.DEV_SM_PD_DDR false)
    if O.ddrPowerOff = SM_ERR_SUCCESS then clearMixPwrStat K.PWR_MIX_SLICE_IDX_DDR m else m
  else m

/-- If NOCMIX powered down during SUSPEND, force power down. -/
def suspendNoc (K : SysConsts) (O : SysOracle) (sleepMode : Nat) (m : SleepM) : SleepM :=
  if m.lpmSettingNoc ≤ sleepMode then
    let m := m.emit (Event.DEV_SM_PowerStateSet PowerDomain.DEV_SM_PD_NOC false)
    if O.nocPowerOff = SM_ERR_SUCCESS then clearMixPwrStat K.PWR_MIX_SLICE_IDX_NOC m else m
  else m

/-- Query LP compute; if WAKEUPMIX powered down during SUSPEND, force power
down, or keep it at parked level during LP compute. -/
def suspendWakeup (K : SysConsts) (O : SysOracle) (sleepMode : Nat) (m : SleepM) : SleepM :=
  let m := { m with lpComputeActive := decide (O.CPU_LpComputeListGet ≠ 0) }
  let m := { m with wakeupMixOff := false }
  let m := { m with restoreWakeupMixPerf := false }
  if m.lpmSettingWakeup ≤ sleepMode ∧ O.DHCSR &&& K.CoreDebug_DHCSR_C_DEBUGEN_Msk = 0 then
    if m.lpComputeActive then
      if O.wakeupPerfLevelGet.1 = SM_ERR_SUCCESS then
        let m := { m with savedWakeupMixPerf := O.wakeupPerfLevelGet.2 }
        let m := m.emit (Event.DEV_SM_PerfLevelSet K.DEV_SM_PERF_LVL_PRK)
        if O.wakeupPerfLevelSetPrk = SM_ERR_SUCCESS then
          { m with restoreWakeupMixPerf := true }
        else m
      else m
    else
      let m := m.emit (Event.DEV_SM_PowerStateSet PowerDomain.DEV_SM_PD_WAKEUP false)
      if O.wakeupPowerOff = SM_ERR_SUCCESS then
        let m := clearMixPwrStat K.PWR_MIX_SLICE_IDX_WAKEUP m
        { m with wakeupMixOff := true }
      else m
  else m

/-- Inhibit all GPC LP handshakes during SUSPEND. -/
def suspendHandshakes (m : SleepM) : SleepM :=
  let m := { m with lpHsSm := m.LP_HANDSHAKE_SM }
  let m := { m with LP_HANDSHAKE_SM := 0 }
  let m := { m with lpHs2Sm := m.LP_HANDSHAKE2_SM }
  let m := { m with LP_HANDSHAKE2_SM := 0 }
  let m := { m with lpHsEle := m.LP_HANDSHAKE_ELE }
  let m := { m with LP_HANDSHAKE_ELE := 0 }
  let m := { m with lpHs2Ele := m.LP_HANDSHAKE2_ELE }
  { m with LP_HANDSHAKE2_ELE := 0 }

/-- Configure SM GPC_CTRL and NVIC for system-level wake events. -/
def suspendWakeSources (K : SysConsts) (O : SysOracle) (m : SleepM) : SleepM :=
  forRange K.GPC_CPU_CTRL_CMC_IRQ_WAKEUP_MASK_COUNT (fun wakeIdx m =>
    -- Save context of SM IRQs enabled at NVIC level
    let m := { m with nvicISER := set1 m.nvicISER wakeIdx (O.NVIC_ISER wakeIdx) }
    -- Clear unused system-level IRQs
    let maskVal := not32 (m.nvicISER wakeIdx)
    let m := m.emit (Event.NVIC_ICPR wakeIdx (0xFFFFFFFF &&& maskVal))
    -- Add system-level wake events
    let maskVal := maskVal &&& m.sysWakeMask wakeIdx
    -- Update GPC wake mask
    let m := CPU_IrqWakeSet O m K.CPU_IDX_M33P wakeIdx maskVal
    -- Update NVIC wake mask
    let m := m.emit (Event.NVIC_ICER wakeIdx 0xFFFFFFFF)
    m.emit (Event.NVIC_ISER wakeIdx (not32 maskVal))) m

/-- Configure M33P to wake from GPC, set target M33P sleep mode, extract and
clamp the performance level, decide whether the system remains active during
sleep, and program OSC24M, PMIC standby and eFUSE control.  The two
`if`/`else` statements that assign one register in both branches are written
as one assignment of a conditional value. -/
def suspendSleepMode (K : SysConsts) (sleepMode : Nat) (m : SleepM) : SleepM :=
  let m := m.emit (Event.CPU_WakeMuxSet K.CPU_IDX_M33P false)
  let m := m.emit (Event.CPU_SleepModeSet K.CPU_IDX_M33P sleepMode)
  -- Extract and clamp performance level from system sleep mode
  let perfLevelSleep := (m.s_sysSleepMode &&& 0xF0) >>> 4
  let perfLevelSleep :=
    if perfLevelSleep > K.DEV_SM_PERF_LVL_ODV then K.DEV_SM_PERF_LVL_ODV else perfLevelSleep
  let m := { m with perfLevelSleep := perfLevelSleep }
  let m := { m with
    activeSleep := (decide (m.perfLevelSleep ≠ K.DEV_SM_PERF_LVL_PRK) ||
      decide (m.s_sysSleepFlags &&& K.DEV_SM_SSF_OSC24M_ACTIVE_MASK ≠ 0) ||
      m.lpComputeActive) }
  -- Check if OSC24M must remain active
  let m := { m with
    GPC_ROSC_CTRL := (if m.activeSleep then 0
      else K.GPC_GLOBAL_GPC_ROSC_CTRL_ROSC_OFF_EN_MASK) }
  -- Check PMIC_STBY system sleep mode flag
  let m := { m with
    GPC_PMIC_CTRL := (if m.s_sysSleepFlags &&& K.DEV_SM_SSF_PMIC_STBY_INACTIVE_MASK = 0 then
      K.GPC_GLOBAL_GPC_PMIC_CTRL_PMIC_STBY_EN_MASK else 0) }
  -- Power down eFUSE
  { m with GPC_EFUSE_CTRL := K.GPC_GLOBAL_GPC_EFUSE_CTRL_EFUSE_PD_EN_MASK }

/-- Disable bypass for clock sources, then move to the system sleep
performance level, or move the ELE and SM clock roots to OSC_24M. -/
def suspendClockRoots (K : SysConsts) (O : SysOracle) (m : SleepM) : SleepM :=
  let m := m.emit (Event.DEV_SM_ClockSourceBypass false true)
  if m.activeSleep then
    m.emit (Event.DEV_SM_PerfSystemSleep m.perfLevelSleep)
  else
    forRange DEV_SM_NUM_SLEEP_ROOTS (fun sleepRootIdx m =>
      let rootIdx := s_clkRootSleepList sleepRootIdx
      -- Save clock root context
      let m := { m with
        s_clkRootCtrl := (set1 m.s_clkRootCtrl sleepRootIdx (O.CLOCK_ROOT_CONTROL rootIdx)) }
      -- Set MUX = 0 (OSC_24M)
      let m := m.emit (Event.CLOCK_ROOT_CONTROL_CLR rootIdx K.CCM_CLOCK_ROOT_MUX_MASK)
      -- Set DIV = 0 (/1)
      m.emit (Event.CLOCK_ROOT_CONTROL_CLR rootIdx K.CCM_CLOCK_ROOT_DIV_MASK)) m

/-- The loop `while (clkSrcIdx >= CLOCK_SRC_SYSPLL1_VCO)` that powers down the
SYSPLL clock nodes; the second numeric argument is `clkSrcIdx`. -/
def sysPllDownLoop (K : SysConsts) : Nat → Nat → SleepM → Option SleepM
  | 0, _, _ => none
  | fuel + 1, clkSrcIdx, m =>
    if clkSrcIdx ≥ K.CLOCK_SRC_SYSPLL1_VCO then
      sysPllDownLoop K fuel ((clkSrcIdx + 2 ^ 32 - 1) % 2 ^ 32)
        (m.emit (Event.CLOCK_SourceSetEnable clkSrcIdx false))
    else some m

/-- Check if sleep performance level allows SYSPLL disable. -/
def suspendSysPll (K : SysConsts) (fuel : Nat) (m : SleepM) : Option SleepM :=
  if m.perfLevelSleep = K.DEV_SM_PERF_LVL_PRK then
    -- Power down SYSPLL clock nodes
    (sysPllDownLoop K fuel K.CLOCK_SRC_SYSPLL1_PFD2_DIV2 m).bind fun m =>
      some { m with sysSleepRecord :=
        { m.sysSleepRecord with
          pllPwrStat := m.sysSleepRecord.pllPwrStat &&&
            not32 ((1 <<< K.CLOCK_PLL_SYS1) % 2 ^ 32) } }
  else some m

/-- Capture sleep entry latency. -/
def suspendEntryLatency (O : SysOracle) (m : SleepM) : SleepM :=
  let r := DEV_SM_Usec64Get O m
  -- Check the expression values doesn't wrap
  if r.1 ≥ r.2.sleepEntryStart then
    let r := DEV_SM_Usec64Get O r.2
    { r.2 with sysSleepRecord :=
      { r.2.sysSleepRecord with sleepEntryUsec := usecDiffL r.1 r.2.sleepEntryStart } }
  else
    { r.2 with sysSleepRecord := { r.2.sysSleepRecord with sleepEntryUsec := 0 } }

/-- Board-level sleep entry, SM LPIs, entry latency, SYSCTR and FRO
management, the halt, and the first steps after wake-up up to the board-level
sleep exit. -/
def suspendHalt (K : SysConsts) (O : SysOracle) (sleepMode : Nat) (m : SleepM) : SleepM :=
  let m := m.emit (Event.BOARD_SystemSleepEnter m.s_sysSleepMode m.s_sysSleepFlags)
  let m := m.emit (Event.CPU_PerLpiProcess K.CPU_IDX_M33P sleepMode)
  let m := suspendEntryLatency O m
  -- Check SYSCTR system sleep mode flag
  let m := m.emitIf (decide (m.s_sysSleepFlags &&& K.DEV_SM_SSF_SYSCTR_ACTIVE_MASK ≠ 0))
    (Event.SYSCTR_FreqMode true true)
  -- Manage FRO based on system sleep flags and active sleep state
  let m := m.emitIf
    (decide (m.s_sysSleepFlags &&& K.DEV_SM_SSF_FRO_ACTIVE_MASK = 0) && !m.activeSleep)
    (Event.FRO_CSR_CLR K.FRO_CSR_FROEN_MASK)
  -- Enter WFI to trigger sleep entry
  let m := m.emit Event.DSB
  let m := m.emit Event.WFI
  let m := m.emit Event.ISB
  -- Power up FRO
  let m := m.emit (Event.FRO_CSR_SET K.FRO_CSR_FROEN_MASK)
  -- Check SYSCTR system sleep mode flag
  let m := m.emitIf (decide (m.s_sysSleepFlags &&& K.DEV_SM_SSF_SYSCTR_ACTIVE_MASK ≠ 0))
    (Event.SYSCTR_FreqMode false true)
  -- Capture start of sleep exit
  let r := DEV_SM_Usec64Get O m
  let m : SleepM := { r.2 with sleepExitStart := r.1 }
  -- Capture wake source
  let m := { m with sysSleepRecord :=
    { m.sysSleepRecord with
      wakeSource := (O.ICSR &&& K.SCB_ICSR_VECTPENDING_Msk) >>> K.SCB_ICSR_VECTPENDING_Pos } }
  -- Process SM LPIs for sleep exit
  let m := m.emit (Event.CPU_PerLpiProcess K.CPU_IDX_M33P K.CPU_SLEEP_MODE_RUN)
  -- Board-level sleep exit
  m.emit (Event.BOARD_SystemSleepExit m.s_sysSleepMode m.s_sysSleepFlags)

/-- The loop `while (clkSrcIdx <= CLOCK_SRC_SYSPLL1_PFD2_DIV2)` that powers up
the SYSPLL clock nodes; the second numeric argument is `clkSrcIdx`. -/
def sysPllUpLoop (K : SysConsts) : Nat → Nat → SleepM → Option SleepM
  | 0, _, _ => none
  | fuel + 1, clkSrcIdx, m =>
    if clkSrcIdx ≤ K.CLOCK_SRC_SYSPLL1_PFD2_DIV2 then
      sysPllUpLoop K fuel ((clkSrcIdx + 1) % 2 ^ 32)
        (m.emit (Event.CLOCK_SourceSetEnable clkSrcIdx true))
    else some m

/-- Check if sleep performance level requires SYSPLL enable. -/
def resumeSysPll (K : SysConsts) (fuel : Nat) (m : SleepM) : Option SleepM :=
  if m.perfLevelSleep = K.DEV_SM_PERF_LVL_PRK then
    sysPllUpLoop K fuel K.CLOCK_SRC_SYSPLL1_VCO m
  else some m

/-- Move to the system wake performance level, or restore the ELE and SM
clock roots. -/
def resumeClockRoots (K : SysConsts) (m : SleepM) : SleepM :=
  if m.activeSleep then
    m.emit (Event.DEV_SM_PerfSystemWake m.perfLevelSleep)
  else
    forRange DEV_SM_NUM_SLEEP_ROOTS (fun sleepRootIdx m =>
      let rootIdx := s_clkRootSleepList sleepRootIdx
      -- Restore DIV
      let m := m.emit (Event.CLOCK_ROOT_CONTROL_SET rootIdx
        (m.s_clkRootCtrl sleepRootIdx &&& K.CCM_CLOCK_ROOT_DIV_MASK))
      -- Restore MUX
      m.emit (Event.CLOCK_ROOT_CONTROL_SET rootIdx
        (m.s_clkRootCtrl sleepRootIdx &&& K.CCM_CLOCK_ROOT_MUX_MASK))) m

/-- Restore the clock roots or the performance level; enable bypass for clock
sources; power up eFUSE; restore the GPC LP handshakes. -/
def resumeClocks (K : SysConsts) (m : SleepM) : SleepM :=
  let m := resumeClockRoots K m
  -- Enable bypass for clock sources
  let m := m.emit (Event.DEV_SM_ClockSourceBypass true true)
  -- Power up eFUSE
  let m := { m with GPC_EFUSE_CTRL := 0 }
  -- Restore GPC LP handshakes
  let m := { m with LP_HANDSHAKE_SM := m.lpHsSm }
  let m := { m with LP_HANDSHAKE2_SM := m.lpHs2Sm }
  let m := { m with LP_HANDSHAKE_ELE := m.lpHsEle }
  { m with LP_HANDSHAKE2_ELE := m.lpHs2Ele }

/-- If WAKEUPMIX powered down during SUSPEND, force power up. -/
def resumeWakeup (O : SysOracle) (m : SleepM) : SleepM :=
  if m.wakeupMixOff then
    let m := m.emit (Event.DEV_SM_PowerStateSet PowerDomain.DEV_SM_PD_WAKEUP true)
    { m with status := O.wakeupPowerOn }
  else m

/-- Check if WAKEUPMIX forced to parked level during LP compute. -/
def resumeWakeupPerf (O : SysOracle) (m : SleepM) : SleepM :=
  if m.status = SM_ERR_SUCCESS ∧ m.restoreWakeupMixPerf then
    -- Restore saved WAKEUPMIX performance level
    let m := m.emit (Event.DEV_SM_PerfLevelSet m.savedWakeupMixPerf)
    { m with status := O.wakeupPerfLevelRestore }
  else m

/-- If NOCMIX powered down during SUSPEND, force power up. -/
def resumeNoc (O : SysOracle) (sleepMode : Nat) (m : SleepM) : SleepM :=
  if m.status = SM_ERR_SUCCESS ∧ m.lpmSettingNoc ≤ sleepMode then
    let m := m.emit (Event.DEV_SM_PowerStateSet PowerDomain.DEV_SM_PD_NOC true)
    { m with status := O.nocPowerOn }
  else m

/-- Power up DDRMIX (first `if` inside the DDR retention check). -/
def resumeDdrPower (O : SysOracle) (m : SleepM) : SleepM :=
  if m.status = SM_ERR_SUCCESS then
    let m := m.emit (Event.DEV_SM_PowerStateSet PowerDomain.DEV_SM_PD_DDR true)
    { m with status := O.ddrPowerOn }
  else m

/-- Take DDR out of retention (second `if` inside the DDR retention check). -/
def resumeDdrRetention (O : SysOracle) (m : SleepM) : SleepM :=
  if m.status = SM_ERR_SUCCESS then
    let m := m.emit Event.DEV_SM_MemDdrRetentionExit
    { m with status := O.DEV_SM_MemDdrRetentionExit }
  else m

/-- Check if DDR retention active. -/
def resumeDdr (O : SysOracle) (m : SleepM) : SleepM :=
  if m.ddrInRetention then resumeDdrRetention O (resumeDdrPower O m) else m

/-- Power WAKEUPMIX up or restore its performance level, power NOCMIX up,
power DDRMIX up and take DDR out of retention. -/
def resumeDomains (O : SysOracle) (sleepMode : Nat) (m : SleepM) : SleepM :=
  let m := resumeWakeup O m
  let m := resumeWakeupPerf O m
  let m := resumeNoc O sleepMode m
  resumeDdr O m

/-- Restore SM NVIC, enable sensor, board-level sleep unprepare. -/
def resumeFinish (K : SysConsts) (m : SleepM) : SleepM :=
  let m := forRange K.GPC_CPU_CTRL_CMC_IRQ_WAKEUP_MASK_COUNT (fun wakeIdx m =>
    let m := m.emit (Event.NVIC_ICER wakeIdx 0xFFFFFFFF)
    m.emit (Event.NVIC_ISER wakeIdx (m.nvicISER wakeIdx))) m
  let m := m.emit Event.DEV_SM_SensorPowerUp
  m.emit (Event.BOARD_SystemSleepUnprepare m.s_sysSleepMode m.s_sysSleepFlags)

/-- The SUSPEND entry/exit sequence, executed when the system sleep status is
`CPU_SLEEP_MODE_SUSPEND`. -/
def suspendSeq (K : SysConsts) (O : SysOracle) (fuel : Nat) (sleepMode : Nat) (m : SleepM) :
    Option SleepM :=
  let m := suspendPrepare m
  let m := suspendDdr K O m
  let m := suspendNoc K O sleepMode m
  let m := suspendWakeup K O sleepMode m
  let m := suspendHandshakes m
  let m := suspendWakeSources K O m
  let m := suspendSleepMode K sleepMode m
  let m := suspendClockRoots K O m
  (suspendSysPll K fuel m).bind fun m =>
    let m := suspendHalt K O sleepMode m
    (resumeSysPll K fuel m).bind fun m =>
      let m := resumeClocks K m
      let m := resumeDomains O sleepMode m
      some (resumeFinish K m)

/-- Check if system did not sleep. -/
def sleepDidNotSleep (O : SysOracle) (m : SleepM) : SleepM :=
  if m.sysSleepRecord.wakeSource = 0 then
    let r := DEV_SM_Usec64Get O m
    let m : SleepM := { r.2 with sleepExitStart := r.1 }
    -- Check the expression doesn't wrap
    if m.sleepExitStart ≥ m.sleepEntryStart then
      { m with sysSleepRecord :=
        { m.sysSleepRecord with sleepEntryUsec := usecDiffL m.sleepExitStart m.sleepEntryStart } }
    else
      { m with sysSleepRecord := { m.sysSleepRecord with sleepEntryUsec := 0 } }
  else m

/-- Restore GPC wake sources modified during sleep flow. -/
def wakeMaskRestore (K : SysConsts) (O : SysOracle) (m : SleepM) : SleepM :=
  forRange K.CPU_NUM_IDX (fun cpuIdx m =>
    if cpuIdx ≠ K.CPU_IDX_M33P then
      -- Restore saved GPC wake sources
      forRange K.GPC_CPU_CTRL_CMC_IRQ_WAKEUP_MASK_COUNT (fun wakeIdx m =>
        CPU_IrqWakeSet O m cpuIdx wakeIdx (m.cpuWakeMask cpuIdx wakeIdx)) m
    else m) m

/-- Capture sleep exit latency. -/
def sleepExitLatency (O : SysOracle) (m : SleepM) : SleepM :=
  let r := DEV_SM_Usec64Get O m
  -- Check the expression value doesn't wrap
  if r.1 ≥ r.2.sleepExitStart then
    let r := DEV_SM_Usec64Get O r.2
    { r.2 with sysSleepRecord :=
      { r.2.sysSleepRecord with sleepExitUsec := usecDiffL r.1 r.2.sleepExitStart } }
  else
    { r.2 with sysSleepRecord := { r.2.sysSleepRecord with sleepExitUsec := 0 } }

/-- The local variables of `DEV_SM_SystemSleep` on entry: `status` is
`SM_ERR_SUCCESS`; the others are not initialised in C before their first
write and start as zero here. -/
def sleepEnter (s : SysState) : SleepM :=
  { toSysState := s, status := SM_ERR_SUCCESS, s_clkRootCtrl := fun _ => 0,
    cpuWakeMask := fun _ _ => 0, sysWakeMask := fun _ => 0, nvicISER := fun _ => 0,
    sleepEntryStart := 0, sleepExitStart := 0, lpmSettingNoc := 0, lpmSettingWakeup := 0,
    ddrInRetention := false, lpComputeActive := false, wakeupMixOff := false,
    restoreWakeupMixPerf := false, savedWakeupMixPerf := 0, lpHsSm := 0, lpHs2Sm := 0,
    lpHsEle := 0, lpHs2Ele := 0, perfLevelSleep := 0, activeSleep := false }

/-- The part of `DEV_SM_SystemSleep` before the system sleep status check. -/
def sleepOpen (K : SysConsts) (O : SysOracle) (s : SysState) : SleepM :=
  let m := sleepEnter s
  let m := sleepCaptureStart O m
  let m := sleepRecordCapture K O m
  let m := wakeMaskInit K m
  let m := lpmSettingInit K m
  scanCpus K O m

/-- The part of `DEV_SM_SystemSleep` after the system sleep status check. -/
def sleepClose (K : SysConsts) (O : SysOracle) (m : SleepM) : sm_err × SysState :=
  let m := sleepDidNotSleep O m
  let m := wakeMaskRestore K O m
  let m := sleepExitLatency O m
  (m.status, m.toSysState)

/-- Function `DEV_SM_SystemSleep`.  The fuel bounds the iterations of each of
the two SYSPLL `while` loops. -/
def DEV_SM_SystemSleep (K : SysConsts) (O : SysOracle) (fuel : Nat) (s : SysState)
    (sleepMode : Nat) : Option (sm_err × SysState) :=
  let m := sleepOpen K O s
  -- Check system sleep status after clearing GPC masks
  (match O.CPU_SystemSleepStatusGet with
    | some sysSleepStat =>
      if sysSleepStat = K.CPU_SLEEP_MODE_SUSPEND then suspendSeq K O fuel sleepMode m
      else some m
    | none => some m).bind fun m => some (sleepClose K O m)

/-! System idle -/

/-- Answers to `DEV_SM_SystemIdle`: the one of its own call
`CPU_SystemSleepStatusGet(&sysSleepStat)` (`none` when it returns false), and
the answers given inside the `DEV_SM_SystemSleep` it may call. -/
structure IdleOracle where
  CPU_SystemSleepStatusGet : Option Nat
  sleep : SysOracle

/-- Record a call made by `DEV_SM_SystemIdle`. -/
def SysState.emit (s : SysState) (e : Event) : SysState :=
  { s with trace := s.trace ++ [e] }

/-- The statements `(void) CPU_SleepModeSet(CPU_IDX_M33P, CPU_SLEEP_MODE_RUN);
__DSB(); __WFI(); __ISB();` that occur twice in `DEV_SM_SystemIdle`. -/
def idleHalt (K : SysConsts) (s : SysState) : SysState :=
  let s := s.emit (Event.CPU_SleepModeSet K.CPU_IDX_M33P K.CPU_SLEEP_MODE_RUN)
  let s := s.emit Event.DSB
  let s := s.emit Event.WFI
  s.emit Event.ISB

/-- Function `DEV_SM_SystemIdle`. -/
def DEV_SM_SystemIdle (K : SysConsts) (I : IdleOracle) (fuel : Nat) (s : SysState) :
    Option (sm_err × SysState) :=
  let status := SM_ERR_SUCCESS
  let s := s.emit Event.disable_irq
  -- Check if system sleep mode flag allows system sleep
  (if s.s_sysSleepFlags &&& K.DEV_SM_SSF_SM_ACTIVE_MASK = 0 then
    -- Check if conditions allow system sleep
    match I.CPU_SystemSleepStatusGet with
    | some sysSleepStat =>
      if sysSleepStat = K.CPU_SLEEP_MODE_SUSPEND then
        DEV_SM_SystemSleep K I.sleep fuel s K.CPU_SLEEP_MODE_SUSPEND
      else
        -- Otherwise stay in RUN mode and enter WFI
        some (status, idleHalt K s)
    | none => some (status, s)
  else
    -- SM remains active, no system sleep
    some (status, idleHalt K s)).bind fun r => some (r.1, r.2.emit Event.enable_irq)

/-! Stage reset -/

/-- Modelled from the spec: the test hook `SM_TEST_MODE_ERR(mode, err)` whose
definition is not part of the sources at hand.  With test mode off (`none`)
it leaves the status alone; with the matching test mode selected it forces
the status to the given error. -/
def SM_TEST_MODE_ERR (testMode : Option sm_err) (status : sm_err) : sm_err :=
  match testMode with
  | none => status
  | some err => err

/-- Function `DEV_SM_SystemStageReset`.  The third component of the result
tells whether `RST_SystemRequestReset` was called. -/
def DEV_SM_SystemStageReset (testMode : Option sm_err) (st : RomState)
    (stage container : Nat) : sm_err × RomState × Bool :=
  -- Configure stage
  let r1 := DEV_SM_RomStageSet st stage
  -- Configure container
  let r2 := if r1.1 = SM_ERR_SUCCESS then DEV_SM_RomContainerSet r1.2 container else r1
  let status := SM_TEST_MODE_ERR testMode r2.1
  -- Request warm reset
  if status = SM_ERR_SUCCESS then (status, r2.2, true) else (status, r2.2, false)

/-! Message profiling -/

/-- One entry of the message profile log (`dev_sm_sys_msg_prof_t`), with the
fields that `dev_sm_system.c` reads or writes. -/
structure dev_sm_sys_msg_prof_t where
  scmiChannel : Nat
  chanType : Nat
  protocolId : Nat
  msgId : Nat
  msgLatUsec : Nat
  deriving DecidableEq, Repr

/-- The message profile current buffer (`dev_sm_sys_msg_cur_t`). -/
structure dev_sm_sys_msg_cur_t where
  msgStartUsec : Nat
  msgEndUsec : Nat
  msgProf : dev_sm_sys_msg_prof_t
  deriving DecidableEq, Repr

/-- What the message profiling functions read or write: the static
`s_curMsgRecord` and the log `g_syslog.sysMsgRecord.msgProf`, an array of
`DEV_SM_MSG_PROF_CNT` entries seen as a function of the index. -/
structure MsgState where
  s_curMsgRecord : dev_sm_sys_msg_cur_t
  msgProf : Nat → dev_sm_sys_msg_prof_t

/-- Array write `msgProf[i] = v`. -/
def setProf (a : Nat → dev_sm_sys_msg_prof_t) (i : Nat) (v : dev_sm_sys_msg_prof_t) :
    Nat → dev_sm_sys_msg_prof_t :=
  fun x => if x = i then v else a x

/-- Function `DEV_SM_SystemMsgProfStart`; `now` is the value returned by
`DEV_SM_Usec64Get()`. -/
def DEV_SM_SystemMsgProfStart (now : Nat) (st : MsgState) : MsgState :=
  -- Capture timestamp of message start
  { st with s_curMsgRecord := { st.s_curMsgRecord with msgStartUsec := now } }

/-- Function `DEV_SM_SystemMsgProfDescribe`. -/
def DEV_SM_SystemMsgProfDescribe (st : MsgState)
    (scmiChannel chanType protocolId messageId : Nat) : MsgState :=
  -- Capture message attributes
  { st with s_curMsgRecord := { st.s_curMsgRecord with
    msgProf := { st.s_curMsgRecord.msgProf with
      scmiChannel := scmiChannel, chanType := chanType, protocolId := protocolId,
      msgId := messageId } } }

/-- The `do ... while` loop of `DEV_SM_SystemMsgProfEnd` that searches the log
for an entry of the current message; the second numeric argument is `idx`.
Returns `bExisting` and `idx`. -/
def msgSearchLoop (CNT : Nat) (log : Nat → dev_sm_sys_msg_prof_t)
    (pCurMsgProf : dev_sm_sys_msg_prof_t) : Nat → Nat → Option (Bool × Nat)
  | 0, _ => none
  | fuel + 1, idx =>
    let pMsgProf := log idx
    -- Attempt to match all attributes except timestamp
    if pMsgProf.scmiChannel = pCurMsgProf.scmiChannel ∧
        pMsgProf.chanType = pCurMsgProf.chanType ∧
        pMsgProf.protocolId = pCurMsgProf.protocolId ∧
        pMsgProf.msgId = pCurMsgProf.msgId then
      some (true, idx)
    else
      let idx := (idx + 1) % 2 ^ 32
      if idx < CNT then msgSearchLoop CNT log pCurMsgProf fuel idx else some (false, idx)

/-- The loop `while (k < DEV_SM_MSG_PROF_CNT)` that removes an existing entry;
the numeric arguments after the fuel are `j` and `k`.  Returns `j` and the
log. -/
def msgRemoveLoop (CNT : Nat) :
    Nat → Nat → Nat → (Nat → dev_sm_sys_msg_prof_t) → Option (Nat × (Nat → dev_sm_sys_msg_prof_t))
  | 0, _, _, _ => none
  | fuel + 1, j, k, log =>
    if k < CNT then
      msgRemoveLoop CNT fuel ((j + 1) % 2 ^ 32) ((k + 1) % 2 ^ 32) (setProf log j (log k))
    else some (j, log)

/-- The loop `while (j > idx)` that shifts entries down; the numeric arguments
after the fuel are `j` and `k`. -/
def msgShiftLoop (idx : Nat) :
    Nat → Nat → Nat → (Nat → dev_sm_sys_msg_prof_t) → Option (Nat → dev_sm_sys_msg_prof_t)
  | 0, _, _, _ => none
  | fuel + 1, j, k, log =>
    if j > idx then
      msgShiftLoop idx fuel ((j + 2 ^ 32 - 1) % 2 ^ 32) ((k + 2 ^ 32 - 1) % 2 ^ 32)
        (setProf log j (log k))
    else some log

/-- The loop `while ((idx < DEV_SM_MSG_PROF_CNT) && (!bDone))` that inserts the
current message; `fuel2` bounds the shift loop, the arguments after the fuel
are `idx`, `bDone` and the log. -/
def msgInsertLoop (CNT : Nat) (pCurMsgProf : dev_sm_sys_msg_prof_t) (fuel2 : Nat) :
    Nat → Nat → Bool → (Nat → dev_sm_sys_msg_prof_t) → Option (Nat → dev_sm_sys_msg_prof_t)
  | 0, _, _, _ => none
  | fuel + 1, idx, bDone, log =>
    if idx < CNT ∧ bDone = false then
      let pMsgProf := log idx
      if pCurMsgProf.msgLatUsec > pMsgProf.msgLatUsec then
        -- Shift entries down
        let j := (CNT + 2 ^ 32 - 1) % 2 ^ 32
        let k := (j + 2 ^ 32 - 1) % 2 ^ 32
        (msgShiftLoop idx fuel2 j k log).bind fun log =>
          -- Insert log entry for this message
          msgInsertLoop CNT pCurMsgProf fuel2 fuel ((idx + 1) % 2 ^ 32) true
            (setProf log idx pCurMsgProf)
      else msgInsertLoop CNT pCurMsgProf fuel2 fuel ((idx + 1) % 2 ^ 32) bDone log
    else some log

/-- Function `DEV_SM_SystemMsgProfEnd`, for a log of `CNT` entries
(`DEV_SM_MSG_PROF_CNT`); `now` is the value returned by `DEV_SM_Usec64Get()`
and the fuel bounds the iterations of each loop. -/
def DEV_SM_SystemMsgProfEnd (CNT fuel now : Nat) (st : MsgState) : Option MsgState :=
  -- Capture timestamp of message end
  let cur := { st.s_curMsgRecord with msgEndUsec := now }
  let curMsgLatUsec := ((cur.msgEndUsec + 2 ^ 64 - cur.msgStartUsec % 2 ^ 64) % 2 ^ 64) % 2 ^ 32
  let cur := { cur with msgProf := { cur.msgProf with msgLatUsec := curMsgLatUsec } }
  let pCurMsgProf := cur.msgProf
  -- Search profile log for an existing entry of this message
  (msgSearchLoop CNT st.msgProf pCurMsgProf fuel 0).bind fun r =>
    let bExisting := r.1
    let idx := r.2
    -- Existing entry requires possible update of the profile log
    (if bExisting then
      -- Check if existing entry has smaller latency
      if curMsgLatUsec > (st.msgProf idx).msgLatUsec then
        -- Remove existing entry
        (msgRemoveLoop CNT fuel idx ((idx + 1) % 2 ^ 32) st.msgProf).map fun r =>
          -- Insert a blank entry
          let e := r.2 r.1
          let e := { e with scmiChannel := 0 }
          let e := { e with chanType := 0 }
          let e := { e with protocolId := 0 }
          let e := { e with msgId := 0 }
          let e := { e with msgLatUsec := 0 }
          (false, setProf r.2 r.1 e)
      else
        -- Existing entry has larger latency, we are done
        some (true, st.msgProf)
    else some (false, st.msgProf)).bind fun r =>
      -- Attempt to insert this message profile into the log
      (msgInsertLoop CNT pCurMsgProf fuel fuel 0 r.1 r.2).map fun log =>
        { s_curMsgRecord := cur, msgProf := log }

/-! Predicates used to state the properties -/

/-- The three checks `DEV_SM_RomHandoverGet` makes on the handover record. -/
def HandoverValid (K : RomConsts) (h : rom_handover_t) : Prop :=
  h.barker = HANDOVER_BARKER ∧ h.ver = HANDOVER_VER ∧ K.sizeof_rom_handover_t ≤ h.size

instance (K : RomConsts) (h : rom_handover_t) : Decidable (HandoverValid K h) := by
  unfold HandoverValid; infer_instance

/-- The three checks `DEV_SM_RomPassoverGet` makes on the passover record. -/
def PassoverValid (K : RomConsts) (p : rom_passover_t) : Prop :=
  p.tag = PASSOVER_TAG ∧ p.ver = PASSOVER_VER ∧ K.sizeof_rom_passover_t ≤ p.size

instance (K : RomConsts) (p : rom_passover_t) : Decidable (PassoverValid K p) := by
  unfold PassoverValid; infer_instance

/-- The listed images of a handover record: the first `num` entries of the
image array, in index order. -/
def imgList (h : rom_handover_t) : List rom_bootlist_t :=
  h.img.take h.num

/-- The values the image getters hand out for entry `e`: the decoded cpu, the
address (replaced by the recorded M7 address when the override is valid and
the cpu is `DEV_SM_CPU_M7P`), the decoded module select and flags. -/
def imgOutOf (K : RomConsts) (st : RomState) (e : rom_bootlist_t) : ImgOut :=
  ⟨ROM_HANDOVER_IMG_CPU e.flags,
    if st.s_m7AddValid ∧ ROM_HANDOVER_IMG_CPU e.flags = K.DEV_SM_CPU_M7P then st.s_m7Addr
    else e.addr,
    ROM_HANDOVER_IMG_MSEL e.flags, ROM_HANDOVER_IMG_FLAGS e.flags⟩

/-- Test "the type byte of entry `e` is `type`", the comparison of the scan
loop. -/
def typeIs (type : Nat) (e : rom_bootlist_t) : Bool :=
  decide (type = ROM_HANDOVER_IMG_TYPE e.flags)

/-- Test "the cpu byte of entry `e` is `cpuId`", the comparison of the loop of
`DEV_SM_RomBootCpuGet`. -/
def cpuIs (cpuId : Nat) (e : rom_bootlist_t) : Bool :=
  decide (cpuId = ROM_HANDOVER_IMG_CPU e.flags)

/-- The index at which a scan for `type` that starts with the cursor at `c`
stops: the first listed image of that type at or after `c`, or the image
count when there is none. -/
def scanStop (h : rom_handover_t) (type : Nat) (c : Nat) : Nat :=
  c + ((imgList h).drop c).findIdx (typeIs type)

/-- The caller protocol "first image, then next image repeatedly": call 0 is
`DEV_SM_RomBootImg1Get`, call `k + 1` is `DEV_SM_RomBootImgNGet` on the state
and output values left by call `k`.  The value is the result of call `k`. -/
def romBootImgSeq (K : RomConsts) (fuel : Nat) (type : Nat) (st : RomState) (out : ImgOut) :
    Nat → Option (sm_err × ImgOut × RomState)
  | 0 => DEV_SM_RomBootImg1Get K fuel st type out
  | k + 1 =>
    (romBootImgSeq K fuel type st out k).bind
      fun r => DEV_SM_RomBootImgNGet K fuel r.2.2 type r.2.1

/-- What the wake-mask bracket keeps for core `c` and word `w`: the hardware
wake mask and the captured copy `cpuWakeMask[c][w]`. -/
def wk (c w : Nat) (m : SleepM) : Nat × Nat :=
  (m.wakeMask c w, m.cpuWakeMask c w)

/-- The calls of one pass of `DEV_SM_SystemIdle` on its Idle-only path. -/
def idleOnlyEvents (K : SysConsts) : List Event :=
  [Event.disable_irq, Event.CPU_SleepModeSet K.CPU_IDX_M33P K.CPU_SLEEP_MODE_RUN,
    Event.DSB, Event.WFI, Event.ISB, Event.enable_irq]

/-- The Idle-only path: the keep-SM-active flag is set, or the sleep status
query of `DEV_SM_SystemIdle` reports a mode other than SUSPEND. -/
def IdleOnly (K : SysConsts) (I : IdleOracle) (s : SysState) : Prop :=
  s.s_sysSleepFlags &&& K.DEV_SM_SSF_SM_ACTIVE_MASK ≠ 0 ∨
    ∃ stat, I.CPU_SystemSleepStatusGet = some stat ∧ stat ≠ K.CPU_SLEEP_MODE_SUSPEND

/-- Whether `DEV_SM_RomInit`, run on the reset state, records an address
override: the silicon revision is Ax, there is no ROM patch, the M7 domain is
powered and the reset vector read reports success. -/
def m7OverrideRecorded (R : RomInitOracle) : Bool :=
  decide (R.DIGPROG_DEVICE_ID &&& 0xF0 = 0x10) && decide (R.romPatchVer = 0) && R.pdMixOn &&
    (R.CPU_ResetVectorGet 0).1

/-- Events of the straight-line code of `DEV_SM_SystemSleep`: every event but
the register writes made inside its loops (interrupt controller, clock roots,
clock sources). -/
def mainEvent : Event → Bool
  | Event.NVIC_ICPR _ _ => false
  | Event.NVIC_ICER _ _ => false
  | Event.NVIC_ISER _ _ => false
  | Event.CLOCK_ROOT_CONTROL_CLR _ _ => false
  | Event.CLOCK_ROOT_CONTROL_SET _ _ => false
  | Event.CLOCK_SourceSetEnable _ _ => false
  | _ => true

/-- The part of the state of an invocation that the properties below follow
through the sequence. -/
structure SleepView where
  status : sm_err
  s_sysSleepMode : Nat
  s_sysSleepFlags : Nat
  sysSleepRecord : SleepRecord
  GPC_ROSC_CTRL : Nat
  GPC_PMIC_CTRL : Nat
  GPC_EFUSE_CTRL : Nat
  usecReads : Nat
  sleepEntryStart : Nat
  sleepExitStart : Nat
  lpmSettingNoc : Nat
  lpmSettingWakeup : Nat
  ddrInRetention : Bool
  lpComputeActive : Bool
  wakeupMixOff : Bool
  restoreWakeupMixPerf : Bool
  savedWakeupMixPerf : Nat
  perfLevelSleep : Nat
  activeSleep : Bool
  calls : List Event

/-- The view of a state: the fields followed, and the main-line calls of the
trace. -/
def sv (m : SleepM) : SleepView :=
  { status := m.status, s_sysSleepMode := m.s_sysSleepMode,
    s_sysSleepFlags := m.s_sysSleepFlags, sysSleepRecord := m.sysSleepRecord,
    GPC_ROSC_CTRL := m.GPC_ROSC_CTRL, GPC_PMIC_CTRL := m.GPC_PMIC_CTRL,
    GPC_EFUSE_CTRL := m.GPC_EFUSE_CTRL, usecReads := m.usecReads,
    sleepEntryStart := m.sleepEntryStart, sleepExitStart := m.sleepExitStart,
    lpmSettingNoc := m.lpmSettingNoc, lpmSettingWakeup := m.lpmSettingWakeup,
    ddrInRetention := m.ddrInRetention, lpComputeActive := m.lpComputeActive,
    wakeupMixOff := m.wakeupMixOff, restoreWakeupMixPerf := m.restoreWakeupMixPerf,
    savedWakeupMixPerf := m.savedWakeupMixPerf, perfLevelSleep := m.perfLevelSleep,
    activeSleep := m.activeSleep, calls := m.trace.filter mainEvent }

/-- The test of `DEV_SM_SystemSleep` that allows WAKEUPMIX to be powered down
or parked: its dependency value is at most the sleep mode and no debugger is
attached. -/
def wakeupDownAllowed (K : SysConsts) (O : SysOracle) (sleepMode lpmSettingWakeup : Nat) :
    Prop :=
  lpmSettingWakeup ≤ sleepMode ∧ O.DHCSR &&& K.CoreDebug_DHCSR_C_DEBUGEN_Msk = 0

instance (K : SysConsts) (O : SysOracle) (sleepMode lpmSettingWakeup : Nat) :
    Decidable (wakeupDownAllowed K O sleepMode lpmSettingWakeup) := by
  unfold wakeupDownAllowed; infer_instance

/-- The bitmap built by the capture loops of `DEV_SM_SystemSleep`: bit `i` is
set for every `i < n` with `isOn i`. -/
def pwrBitmap (n : Nat) (isOn : Nat → Bool) : Nat :=
  forRange n (fun i a => if isOn i then a ||| ((1 <<< i) % 2 ^ 32) else a) 0

/-- One iteration of the CPU scan, seen from the dependency value of MIX
`mixIdx`. -/
def lpmStep (K : SysConsts) (O : SysOracle) (mixIdx cpuIdx a : Nat) : Nat :=
  if cpuIdx ≠ K.CPU_IDX_M33P ∧ O.CPU_SleepForceGet cpuIdx = some false then
    match O.SRC_MixCpuLpmGet mixIdx cpuIdx with
    | some lpmSetting => if lpmSetting > a then lpmSetting else a
    | none => a
  else a

/-- The steps of the SUSPEND sequence up to the SYSPLL power-down. -/
def suspendEntry (K : SysConsts) (O : SysOracle) (sleepMode : Nat) (m : SleepM) : SleepM :=
  suspendClockRoots K O (suspendSleepMode K sleepMode (suspendWakeSources K O
    (suspendHandshakes (suspendWakeup K O sleepMode (suspendNoc K O sleepMode
      (suspendDdr K O (suspendPrepare m)))))))

/-- The dependency value that the CPU scan of `DEV_SM_SystemSleep` computes for
MIX `mixIdx`. -/
def lpmDependency (K : SysConsts) (O : SysOracle) (mixIdx : Nat) : Nat :=
  forRange K.CPU_NUM_IDX (lpmStep K O mixIdx) K.CPU_PD_LPM_ON_NEVER

/-- The suspend sequence is executed: the sleep status query made after the
CPU scan reports SUSPEND. -/
def SuspendRuns (K : SysConsts) (O : SysOracle) : Prop :=
  O.CPU_SystemSleepStatusGet = some K.CPU_SLEEP_MODE_SUSPEND

instance (K : SysConsts) (O : SysOracle) : Decidable (SuspendRuns K O) := by
  unfold SuspendRuns; infer_instance

/-- The state after the part of `DEV_SM_SystemSleep` that follows the sleep
status check, before the result is formed. -/
def sleepCloseM (K : SysConsts) (O : SysOracle) (m : SleepM) : SleepM :=
  sleepExitLatency O (wakeMaskRestore K O (sleepDidNotSleep O m))

/-- Suspend step "WAKEUPMIX powered down": the power-down was allowed, no CPU
is in LP compute, and the power-off request succeeded (this is the value of
`wakeupMixOff` on resume). -/
def wakeupOffDone (K : SysConsts) (O : SysOracle) (sleepMode : Nat) : Bool :=
  decide (wakeupDownAllowed K O sleepMode (lpmDependency K O K.PWR_MIX_SLICE_IDX_WAKEUP) ∧
    O.CPU_LpComputeListGet = 0 ∧ O.wakeupPowerOff = SM_ERR_SUCCESS)

/-- Suspend step "WAKEUPMIX parked": the power-down was allowed, some CPU is in
LP compute, the performance level was read and the parked level was set
(this is the value of `restoreWakeupMixPerf` on resume). -/
def wakeupParked (K : SysConsts) (O : SysOracle) (sleepMode : Nat) : Bool :=
  decide (wakeupDownAllowed K O sleepMode (lpmDependency K O K.PWR_MIX_SLICE_IDX_WAKEUP) ∧
    O.CPU_LpComputeListGet ≠ 0 ∧ O.wakeupPerfLevelGet.1 = SM_ERR_SUCCESS ∧
    O.wakeupPerfLevelSetPrk = SM_ERR_SUCCESS)

/-- Suspend step "NOCMIX power-down requested": the dependency value of NOCMIX
is at most the sleep mode. -/
def nocOffDue (K : SysConsts) (O : SysOracle) (sleepMode : Nat) : Bool :=
  decide (lpmDependency K O K.PWR_MIX_SLICE_IDX_NOC ≤ sleepMode)

/-- Suspend step "DDR placed into retention": the retention-entry request
succeeded (this is the value of `ddrInRetention` on resume). -/
def ddrRetained (O : SysOracle) : Bool :=
  decide (O.DEV_SM_MemDdrRetentionEnter = SM_ERR_SUCCESS)

/-- The first status of a list that is not `SM_ERR_SUCCESS`, and
`SM_ERR_SUCCESS` when there is none. -/
def firstFailure : List sm_err → sm_err
  | [] => SM_ERR_SUCCESS
  | e :: es => if e = SM_ERR_SUCCESS then firstFailure es else e

/-- The answers of the restoration steps whose suspend step was taken, in
program order: WAKEUP power-on, WAKEUP performance restore, NOC power-on, DDR
power-on, DDR retention exit. -/
def restoreResults (K : SysConsts) (O : SysOracle) (sleepMode : Nat) : List sm_err :=
  (if wakeupOffDone K O sleepMode then [O.wakeupPowerOn] else []) ++
  (if wakeupParked K O sleepMode then [O.wakeupPerfLevelRestore] else []) ++
  (if nocOffDue K O sleepMode then [O.nocPowerOn] else []) ++
  (if ddrRetained O then [O.ddrPowerOn, O.DEV_SM_MemDdrRetentionExit] else [])

/-- No restoration step of WAKEUPMIX that was due reported a failure. -/
def wakeupRestoreOk (K : SysConsts) (O : SysOracle) (sleepMode : Nat) : Prop :=
  (wakeupOffDone K O sleepMode = true → O.wakeupPowerOn = SM_ERR_SUCCESS) ∧
  (wakeupParked K O sleepMode = true → O.wakeupPerfLevelRestore = SM_ERR_SUCCESS)

instance (K : SysConsts) (O : SysOracle) (sleepMode : Nat) :
    Decidable (wakeupRestoreOk K O sleepMode) := by
  unfold wakeupRestoreOk; infer_instance

/-- The saturating rule for a latency measured from `start`: a timer reading
`i` within the window `lo ≤ i < hi` of readings is compared with `start`;
below it the latency is 0, otherwise it is the low 32 bits of the 64-bit
difference between reading `j` and `start`, where `j` is the same reading or
the one that follows it, taken within the window too. -/
def SaturatedLatency (O : SysOracle) (lo hi start lat : Nat) : Prop :=
  ∃ i j, lo ≤ i ∧ i < hi ∧ (j = i ∨ j = i + 1) ∧ (start ≤ O.usec i → j < hi) ∧
    lat = if O.usec i < start then 0 else usecDiffL (O.usec j) start

/-- The low-power-mode preferences that count for MIX `mixIdx`, in core order:
those of the cores other than the M33P whose sleep-force query answers "not
forced" and whose preference query succeeds. -/
def lpmContributions (K : SysConsts) (O : SysOracle) (mixIdx : Nat) : List Nat :=
  (List.range K.CPU_NUM_IDX).filterMap fun c =>
    if c ≠ K.CPU_IDX_M33P ∧ O.CPU_SleepForceGet c = some false then
      O.SRC_MixCpuLpmGet mixIdx c
    else none

/-- The cores whose captured wake mask enters the system wake mask for word
`w`, in core order: the cores other than the M33P whose sleep-force query
answers "not forced" and whose wake-mask read of word `w` succeeds. -/
def wakeContributors (K : SysConsts) (O : SysOracle) (w : Nat) : List Nat :=
  (List.range K.CPU_NUM_IDX).filter fun c =>
    decide (c ≠ K.CPU_IDX_M33P) && decide (O.CPU_SleepForceGet c = some false) &&
      O.irqWakeGetOk c w

/-- What the scan of one core keeps for word `w`: the system wake mask and
the hardware wake mask of core `c`. -/
def sw (c w : Nat) (m : SleepM) : Nat × Nat :=
  (m.sysWakeMask w, m.wakeMask c w)

/-- The calls that concern DDR: retention entry and exit, and the power state
of DDRMIX. -/
def isDdrCall : Event → Bool
  | Event.DEV_SM_PowerStateSet PowerDomain.DEV_SM_PD_DDR _ => true
  | Event.DEV_SM_MemDdrRetentionEnter => true
  | Event.DEV_SM_MemDdrRetentionExit => true
  | _ => false

/-- The DDR calls of the suspend sequence, by the guards of the code: the
retention entry; the DDRMIX power-down when the entry succeeded; then, on
resume, the DDRMIX power-on when no earlier restoration step reported a
failure, and the retention exit when that power-on succeeded. -/
def ddrCalls (K : SysConsts) (O : SysOracle) (sleepMode : Nat) : List Event :=
  Event.DEV_SM_MemDdrRetentionEnter ::
    (if O.DEV_SM_MemDdrRetentionEnter = SM_ERR_SUCCESS then
      Event.DEV_SM_PowerStateSet PowerDomain.DEV_SM_PD_DDR false ::
        (if wakeupRestoreOk K O sleepMode ∧
            (nocOffDue K O sleepMode = true → O.nocPowerOn = SM_ERR_SUCCESS) then
          Event.DEV_SM_PowerStateSet PowerDomain.DEV_SM_PD_DDR true ::
            (if O.ddrPowerOn = SM_ERR_SUCCESS then [Event.DEV_SM_MemDdrRetentionExit] else [])
        else [])
    else [])

/-- Bits 7..4 of the stored sleep mode, clamped to at most the over-drive
level. -/
def sleepPerfLevel (K : SysConsts) (mode : Nat) : Nat :=
  min (mode / 16 % 16) K.DEV_SM_PERF_LVL_ODV

/-- The active-sleep decision: the clamped level is not the parked level, or
the keep-oscillator-active flag is set, or some CPU is in LP compute. -/
def sleepActive (K : SysConsts) (O : SysOracle) (mode flags : Nat) : Prop :=
  sleepPerfLevel K mode ≠ K.DEV_SM_PERF_LVL_PRK ∨
    flags &&& K.DEV_SM_SSF_OSC24M_ACTIVE_MASK ≠ 0 ∨ O.CPU_LpComputeListGet ≠ 0

instance (K : SysConsts) (O : SysOracle) (mode flags : Nat) :
    Decidable (sleepActive K O mode flags) := by
  unfold sleepActive; infer_instance

/-- The calls that move the system to and from the sleep performance level. -/
def isPerfSystemCall : Event → Bool
  | Event.DEV_SM_PerfSystemSleep _ => true
  | Event.DEV_SM_PerfSystemWake _ => true
  | _ => false

/-- The pending-vector field of `SCB->ICSR` as read after the halt. -/
def pendingVector (K : SysConsts) (O : SysOracle) : Nat :=
  (O.ICSR &&& K.SCB_ICSR_VECTPENDING_Msk) >>> K.SCB_ICSR_VECTPENDING_Pos

/-- The power state requests for the interconnect domain NOCMIX. -/
def isNocCall : Event → Bool
  | Event.DEV_SM_PowerStateSet PowerDomain.DEV_SM_PD_NOC _ => true
  | _ => false

/-- The NOCMIX requests of one invocation, by the guards of the code: none when
the suspend sequence is skipped; otherwise the power-off when the dependency
value of NOCMIX is at most the sleep mode, and then the power-on when that
same test holds and no WAKEUPMIX restoration failed. -/
def nocCalls (K : SysConsts) (O : SysOracle) (sleepMode : Nat) : List Event :=
  if SuspendRuns K O then
    (if nocOffDue K O sleepMode = true then
      [Event.DEV_SM_PowerStateSet PowerDomain.DEV_SM_PD_NOC false] else []) ++
    (if nocOffDue K O sleepMode = true ∧ wakeupRestoreOk K O sleepMode then
      [Event.DEV_SM_PowerStateSet PowerDomain.DEV_SM_PD_NOC true] else [])
  else []

/-- The calls made so far and the four handshake registers of a state. -/
def qv (m : SleepM) : List Event × Nat × Nat × Nat × Nat :=
  (m.trace, m.LP_HANDSHAKE_SM, m.LP_HANDSHAKE2_SM, m.LP_HANDSHAKE_ELE, m.LP_HANDSHAKE2_ELE)

/-- The writes to the clock tree: clock-root control aliases and clock-source
enables. -/
def clockEvent : Event → Bool
  | Event.CLOCK_ROOT_CONTROL_CLR _ _ => true
  | Event.CLOCK_ROOT_CONTROL_SET _ _ => true
  | Event.CLOCK_SourceSetEnable _ _ => true
  | _ => false

/-- The clock-tree writes made so far and the saved clock-root contexts
`s_clkRootCtrl` of a state. -/
def cv (m : SleepM) : List Event × (Nat → Nat) :=
  (m.trace.filter clockEvent, m.s_clkRootCtrl)

/-- The SYSPLL clock nodes in ascending index order:
`CLOCK_SRC_SYSPLL1_VCO` up to `CLOCK_SRC_SYSPLL1_PFD2_DIV2`. -/
def sysPllNodes (K : SysConsts) : List Nat :=
  List.range' K.CLOCK_SRC_SYSPLL1_VCO
    (K.CLOCK_SRC_SYSPLL1_PFD2_DIV2 + 1 - K.CLOCK_SRC_SYSPLL1_VCO)

/-- The state after the SYSPLL power-down step. -/
def suspendSysPllM (K : SysConsts) (m : SleepM) : SleepM :=
  if m.perfLevelSleep = K.DEV_SM_PERF_LVL_PRK then
    { m with
      trace := m.trace ++
        (sysPllNodes K).reverse.map (fun i => Event.CLOCK_SourceSetEnable i false),
      sysSleepRecord := { m.sysSleepRecord with
        pllPwrStat := m.sysSleepRecord.pllPwrStat &&&
          not32 ((1 <<< K.CLOCK_PLL_SYS1) % 2 ^ 32) } }
  else m

/-- The state after the SYSPLL power-up step. -/
def resumeSysPllM (K : SysConsts) (m : SleepM) : SleepM :=
  if m.perfLevelSleep = K.DEV_SM_PERF_LVL_PRK then
    { m with
      trace := m.trace ++ (sysPllNodes K).map (fun i => Event.CLOCK_SourceSetEnable i true) }
  else m

/-- The clear-writes of the suspend path on the three gated clock roots. -/
def rootClrEvents (K : SysConsts) : List Event :=
  [Event.CLOCK_ROOT_CONTROL_CLR ClockRoot.CLOCK_ROOT_ELE K.CCM_CLOCK_ROOT_MUX_MASK,
   Event.CLOCK_ROOT_CONTROL_CLR ClockRoot.CLOCK_ROOT_ELE K.CCM_CLOCK_ROOT_DIV_MASK,
   Event.CLOCK_ROOT_CONTROL_CLR ClockRoot.CLOCK_ROOT_BUSAON K.CCM_CLOCK_ROOT_MUX_MASK,
   Event.CLOCK_ROOT_CONTROL_CLR ClockRoot.CLOCK_ROOT_BUSAON K.CCM_CLOCK_ROOT_DIV_MASK,
   Event.CLOCK_ROOT_CONTROL_CLR ClockRoot.CLOCK_ROOT_M33 K.CCM_CLOCK_ROOT_MUX_MASK,
   Event.CLOCK_ROOT_CONTROL_CLR ClockRoot.CLOCK_ROOT_M33 K.CCM_CLOCK_ROOT_DIV_MASK]

/-- The set-writes of the resume path on the three gated clock roots, for the
saved contexts `saved`. -/
def rootSetEvents (K : SysConsts) (saved : Nat → Nat) : List Event :=
  [Event.CLOCK_ROOT_CONTROL_SET ClockRoot.CLOCK_ROOT_ELE (saved 0 &&& K.CCM_CLOCK_ROOT_DIV_MASK),
   Event.CLOCK_ROOT_CONTROL_SET ClockRoot.CLOCK_ROOT_ELE (saved 0 &&& K.CCM_CLOCK_ROOT_MUX_MASK),
   Event.CLOCK_ROOT_CONTROL_SET ClockRoot.CLOCK_ROOT_BUSAON
     (saved 1 &&& K.CCM_CLOCK_ROOT_DIV_MASK),
   Event.CLOCK_ROOT_CONTROL_SET ClockRoot.CLOCK_ROOT_BUSAON
     (saved 1 &&& K.CCM_CLOCK_ROOT_MUX_MASK),
   Event.CLOCK_ROOT_CONTROL_SET ClockRoot.CLOCK_ROOT_M33 (saved 2 &&& K.CCM_CLOCK_ROOT_DIV_MASK),
   Event.CLOCK_ROOT_CONTROL_SET ClockRoot.CLOCK_ROOT_M33 (saved 2 &&& K.CCM_CLOCK_ROOT_MUX_MASK)]

/-- The saved contexts after the save loop of the suspend path. -/
def rootSaved (O : SysOracle) (old : Nat → Nat) : Nat → Nat :=
  set1 (set1 (set1 old 0 (O.CLOCK_ROOT_CONTROL ClockRoot.CLOCK_ROOT_ELE))
    1 (O.CLOCK_ROOT_CONTROL ClockRoot.CLOCK_ROOT_BUSAON))
    2 (O.CLOCK_ROOT_CONTROL ClockRoot.CLOCK_ROOT_M33)

/-- The clock-source enable requests. -/
def isSourceEnable : Event → Bool
  | Event.CLOCK_SourceSetEnable _ _ => true
  | _ => false

/-- The clock-source enable requests of one invocation, by the guards of the
code: none unless the suspend sequence runs with the parked level as sleep
performance level; then the SYSPLL nodes are disabled in descending order and
enabled again in ascending order. -/
def sysPllCalls (K : SysConsts) (O : SysOracle) (mode : Nat) : List Event :=
  if SuspendRuns K O ∧ sleepPerfLevel K mode = K.DEV_SM_PERF_LVL_PRK then
    (sysPllNodes K).reverse.map (fun i => Event.CLOCK_SourceSetEnable i false) ++
      (sysPllNodes K).map (fun i => Event.CLOCK_SourceSetEnable i true)
  else []

/-- The writes to the control register aliases of clock root `root`. -/
def isRootWrite (root : ClockRoot) : Event → Bool
  | Event.CLOCK_ROOT_CONTROL_CLR r _ => decide (r = root)
  | Event.CLOCK_ROOT_CONTROL_SET r _ => decide (r = root)
  | _ => false

/-- Modelled from the spec: the effect of a write to an alias of a 32-bit
control register that holds `x`: the CLR alias clears the bits set in the
written value, the SET alias sets them. -/
def rootWriteApply (x : Nat) : Event → Nat
  | Event.CLOCK_ROOT_CONTROL_CLR _ v => x &&& not32 v
  | Event.CLOCK_ROOT_CONTROL_SET _ v => x ||| v
  | _ => x

/-- The attributes of two entries agree (everything but the latency). -/
def AttrMatch (p c : dev_sm_sys_msg_prof_t) : Prop :=
  p.scmiChannel = c.scmiChannel ∧ p.chanType = c.chanType ∧
    p.protocolId = c.protocolId ∧ p.msgId = c.msgId

instance (p c : dev_sm_sys_msg_prof_t) : Decidable (AttrMatch p c) := by
  unfold AttrMatch; infer_instance

/-- The log is in non-increasing order of latency over its `CNT` entries. -/
def LogSorted (CNT : Nat) (log : Nat → dev_sm_sys_msg_prof_t) : Prop :=
  ∀ j, j < CNT → ∀ i, i ≤ j → (log j).msgLatUsec ≤ (log i).msgLatUsec

instance (CNT : Nat) (log : Nat → dev_sm_sys_msg_prof_t) : Decidable (LogSorted CNT log) := by
  unfold LogSorted; infer_instance

/-- The latency of the current message: the low 32 bits of the 64-bit
difference between the end reading `now` and the recorded start. -/
def curLatency (now : Nat) (st : MsgState) : Nat :=
  ((now + 2 ^ 64 - st.s_curMsgRecord.msgStartUsec % 2 ^ 64) % 2 ^ 64) % 2 ^ 32

/-- The current message as `DEV_SM_SystemMsgProfEnd` offers it to the log. -/
def curMsg (now : Nat) (st : MsgState) : dev_sm_sys_msg_prof_t :=
  { st.s_curMsgRecord.msgProf with msgLatUsec := curLatency now st }

/-- Entry `i` is the first entry of the log with the attributes of `c`. -/
def FirstMatch (CNT : Nat) (log : Nat → dev_sm_sys_msg_prof_t) (c : dev_sm_sys_msg_prof_t)
    (i : Nat) : Prop :=
  i < CNT ∧ AttrMatch (log i) c ∧ ∀ j, j < i → ¬ AttrMatch (log j) c

/-- The log after the entry at `idx` was removed: later entries move up by one
and the last entry is blank. -/
def removeAt (CNT idx : Nat) (log : Nat → dev_sm_sys_msg_prof_t) :
    Nat → dev_sm_sys_msg_prof_t :=
  setProf (fun i => if idx ≤ i ∧ i < CNT - 1 then log (i + 1) else log i) (CNT - 1)
    ⟨0, 0, 0, 0, 0⟩

/-- The log after `c` was inserted at `idx`: the entries from `idx` on move
down by one and the last entry is dropped. -/
def insertAt (CNT idx : Nat) (c : dev_sm_sys_msg_prof_t) (log : Nat → dev_sm_sys_msg_prof_t) :
    Nat → dev_sm_sys_msg_prof_t :=
  setProf (fun i => if idx < i ∧ i ≤ CNT - 1 then log (i - 1) else log i) idx c

/-- Sample header constants. -/
def exK : RomConsts := ⟨0x100, 0x80, 1, 3⟩

/-- A handover record with image count 3 in an array of capacity 4: entry 0
is (cpu 0, type 3), entry 1 is (cpu 1, type 4), entry 2 is (cpu 1, type 3). -/
def exH : rom_handover_t :=
  ⟨0xC0FFEE16, 2, 0x100, 3, 0x113,
    [⟨0x00000300, 0x1000⟩, ⟨0x01020401, 0x2000⟩, ⟨0x05060301, 0x3000⟩, ⟨0x07080302, 0x4000⟩]⟩

/-- A valid passover record. -/
def exP : rom_passover_t := ⟨0x504F, 0x80, 2, 2, 1, 6, 0, 0x11, 1, 0, 512, 0, 0x8000⟩

/-- A state with a stale cursor and arbitrary register contents. -/
def exS : RomState := ⟨7, 0, false, 0x1234, 0xFFFFFFFF, exH, exP⟩

/-- Sample header constants for the sleep sequence: three cores with the M33P
at index 0, two wake-mask words, SYSPLL clock nodes 3 to 6. -/
def exSysK : SysConsts :=
  { CPU_NUM_IDX := 3, CPU_IDX_M33P := 0, GPC_CPU_CTRL_CMC_IRQ_WAKEUP_MASK_COUNT := 2,
    PWR_NUM_MIX_SLICE := 4, PWR_NUM_MEM_SLICE := 2, CLOCK_NUM_PLL := 2,
    s_pllVcoList := fun i => 3 + 4 * i, CPU_PD_LPM_ON_NEVER := 0, CPU_SLEEP_MODE_RUN := 0,
    CPU_SLEEP_MODE_SUSPEND := 3, PWR_MIX_SLICE_IDX_DDR := 1, PWR_MIX_SLICE_IDX_NOC := 2,
    PWR_MIX_SLICE_IDX_WAKEUP := 3, DEV_SM_PERF_LVL_PRK := 0, DEV_SM_PERF_LVL_ODV := 3,
    DEV_SM_SSF_SM_ACTIVE_MASK := 1, DEV_SM_SSF_OSC24M_ACTIVE_MASK := 2,
    DEV_SM_SSF_PMIC_STBY_INACTIVE_MASK := 4, DEV_SM_SSF_SYSCTR_ACTIVE_MASK := 8,
    DEV_SM_SSF_FRO_ACTIVE_MASK := 16, CoreDebug_DHCSR_C_DEBUGEN_Msk := 1,
    GPC_GLOBAL_GPC_ROSC_CTRL_ROSC_OFF_EN_MASK := 1,
    GPC_GLOBAL_GPC_PMIC_CTRL_PMIC_STBY_EN_MASK := 1,
    GPC_GLOBAL_GPC_EFUSE_CTRL_EFUSE_PD_EN_MASK := 1, CCM_CLOCK_ROOT_MUX_MASK := 0x300,
    CCM_CLOCK_ROOT_DIV_MASK := 0xFF, CLOCK_SRC_SYSPLL1_VCO := 3,
    CLOCK_SRC_SYSPLL1_PFD2_DIV2 := 6, CLOCK_PLL_SYS1 := 0, FRO_CSR_FROEN_MASK := 1,
    SCB_ICSR_VECTPENDING_Msk := 0x1FF000, SCB_ICSR_VECTPENDING_Pos := 12 }

/-- Sample collaborator answers: core 1 is not forced to sleep, core 2 is; every
accessor succeeds; the sleep status query answers `stat`. -/
def exSysO (stat : Option Nat) : SysOracle :=
  { usec := fun k => 100 + 10 * k, SRC_MixIsPwrSwitchOn := fun _ => true,
    memLpMode := fun _ => false, CLOCK_SourceGetEnable := fun _ => true,
    CPU_SleepForceGet := fun c => some (decide (c = 2)), irqWakeGetOk := fun _ _ => true,
    irqWakeSetOk := fun _ _ => true, SRC_MixCpuLpmGet := fun _ _ => some 1,
    CPU_SystemSleepStatusGet := stat, DEV_SM_MemDdrRetentionEnter := SM_ERR_SUCCESS,
    ddrPowerOff := SM_ERR_SUCCESS, nocPowerOff := SM_ERR_SUCCESS, CPU_LpComputeListGet := 0,
    DHCSR := 0, wakeupPerfLevelGet := (SM_ERR_SUCCESS, 2),
    wakeupPerfLevelSetPrk := SM_ERR_SUCCESS, wakeupPowerOff := SM_ERR_SUCCESS,
    NVIC_ISER := fun _ => 0xF0, CLOCK_ROOT_CONTROL := fun _ => 0x123, ICSR := 0x25000,
    wakeupPowerOn := SM_ERR_SUCCESS, wakeupPerfLevelRestore := SM_ERR_SUCCESS,
    nocPowerOn := SM_ERR_SUCCESS, ddrPowerOn := SM_ERR_SUCCESS,
    DEV_SM_MemDdrRetentionExit := SM_ERR_SUCCESS }

/-- A sample state before the call: the wake-mask word `w` of core `c` holds
`0x1000 + 16 * c + w`. -/
def exSysS : SysState :=
  { s_sysSleepMode := 0, s_sysSleepFlags := 0,
    sysSleepRecord := ⟨5, 0, 0, 0, 0, 0, 7, 0, 0⟩,
    wakeMask := fun c w => 0x1000 + 16 * c + w,
    LP_HANDSHAKE_SM := 1, LP_HANDSHAKE2_SM := 2, LP_HANDSHAKE_ELE := 3, LP_HANDSHAKE2_ELE := 4,
    GPC_ROSC_CTRL := 0, GPC_PMIC_CTRL := 0, GPC_EFUSE_CTRL := 0, trace := [], usecReads := 0 }

/-- Sample startup answers: revision A0, no ROM patch, M7 powered, reset vector
0x20480000 read successfully. -/
def exR : RomInitOracle := ⟨0x9510, 0, true, fun _ => (true, 0x20480000)⟩

/-- The sample answers with a failing WAKEUPMIX power-on. -/
def exSysOFail : SysOracle :=
  { exSysO (some 3) with wakeupPowerOn := SM_ERR_NOT_FOUND }

/-- The sample answers with a failing NOCMIX power-on and a DDRMIX power-on
that would fail too. -/
def exSysONocFail : SysOracle :=
  { exSysO (some 3) with nocPowerOn := SM_ERR_INVALID_PARAMETERS, ddrPowerOn := SM_ERR_NOT_FOUND }

/-- Sample answers for the CPU scan: core 1 prefers level 2 and core 2 level 4
for every MIX; core 2 is forced to sleep when `forced2` is set. -/
def exSysOLpm (forced2 : Bool) : SysOracle :=
  { exSysO none with
    CPU_SleepForceGet := fun c => some (decide (c = 2) && forced2),
    SRC_MixCpuLpmGet := fun _ c => if c = 1 then some 2 else some 4 }

/-- The sample answers with a timer that wrapped after the first reading:
reading 0 is 1000, reading `k` is `10 * k` afterwards. -/
def exSysOWrap : SysOracle :=
  { exSysO (some 3) with usec := fun k => if k = 0 then 1000 else 10 * k }

/-- The sample answers with a failing DDR retention entry. -/
def exSysORetFail : SysOracle :=
  { exSysO (some 3) with DEV_SM_MemDdrRetentionEnter := SM_ERR_NOT_SUPPORTED }

/-- A handover record whose barker is wrong, so the record check fails. -/
def exHBad : rom_handover_t := { exH with barker := 0xDEADBEEF }

/-- The sample answers with no pending vector after the halt (only a bit
outside the pending-vector field is set). -/
def exSysONoPend : SysOracle := { exSysO (some 3) with ICSR := 0x80000000 }

/-- The sample answers with a failing NOCMIX power-off. -/
def exSysONocOffFail : SysOracle :=
  { exSysO (some 3) with nocPowerOff := SM_ERR_NOT_FOUND }

/-- The sample state with the cursor at entry 1. -/
def exS1 : RomState := { exS with s_imageIdx := 1 }

/-- A log of three entries with latencies 500, 300 and 100. -/
def exMsgLog : Nat → dev_sm_sys_msg_prof_t := fun i =>
  if i = 0 then ⟨1, 0, 0x12, 3, 500⟩
  else if i = 1 then ⟨2, 0, 0x13, 4, 300⟩
  else if i = 2 then ⟨3, 0, 0x14, 5, 100⟩
  else ⟨0, 0, 0, 0, 0⟩

/-- A state whose current message started at 1000 and has the attributes of
log entry 1. -/
def exMsgS : MsgState := ⟨⟨1000, 0, ⟨2, 0, 0x13, 4, 0⟩⟩, exMsgLog⟩

/-- The same with the attributes of a message that is not in the log. -/
def exMsgSNew : MsgState := ⟨⟨1000, 0, ⟨9, 9, 9, 9, 0⟩⟩, exMsgLog⟩

/-- The sample answers with a 64-bit timer that wraps between the two readings
of the entry capture: reading 0 is `2 ^ 64 - 1000`, reading 1 is `2 ^ 64 - 1`,
reading `k` is `499 + 10 * (k - 2)` afterwards. -/
def exSysOWrapMid : SysOracle :=
  { exSysO (some 3) with
    usec := fun k => if k = 0 then 2 ^ 64 - 1000 else if k = 1 then 2 ^ 64 - 1
      else 499 + 10 * (k - 2) }

/-- The sample answers with the timer readings 1000, 2000, 500, 510, ... -/
def exSysOBack : SysOracle :=
  { exSysO (some 3) with
    usec := fun k => if k = 0 then 1000 else if k = 1 then 2000 else 500 + 10 * (k - 2) }

/-! Properties of the record getters -/

theorem romHandoverGet_eq (K : RomConsts) (st : RomState) (p : Option rom_handover_t) :
    DEV_SM_RomHandoverGet K st p =
      if HandoverValid K st.handover then (SM_ERR_SUCCESS, some st.handover, st)
      else (SM_ERR_NOT_SUPPORTED, p, st) := by
  unfold DEV_SM_RomHandoverGet HandoverValid
  by_cases hb : st.handover.barker = HANDOVER_BARKER <;>
  by_cases hv : st.handover.ver = HANDOVER_VER <;>
  by_cases hs : st.handover.size < K.sizeof_rom_handover_t <;>
  simp [hb, hv, hs, Nat.not_le.mpr, Nat.le_of_not_lt]

theorem romPassoverGet_eq (K : RomConsts) (st : RomState) (p : Option rom_passover_t) :
    DEV_SM_RomPassoverGet K st p =
      if PassoverValid K st.passover then (SM_ERR_SUCCESS, some st.passover, st)
      else (SM_ERR_NOT_SUPPORTED, p, st) := by
  unfold DEV_SM_RomPassoverGet PassoverValid
  by_cases hb : st.passover.tag = PASSOVER_TAG <;>
  by_cases hv : st.passover.ver = PASSOVER_VER <;>
  by_cases hs : st.passover.size < K.sizeof_rom_passover_t <;>
  simp [hb, hv, hs, Nat.not_le.mpr, Nat.le_of_not_lt]

/-- C4: `DEV_SM_RomHandoverGet` returns `SM_ERR_SUCCESS` exactly when the barker
is 0xC0FFEE16, the version is 2 and the size field is at least the structure
size, and then the output view is the record; in every other case (so for
every mismatched barker, whatever the other fields) it returns
`SM_ERR_NOT_SUPPORTED` and leaves the output view as it was; the state, scan
cursor included, is never changed. -/
theorem romHandoverGet_spec (K : RomConsts) (st : RomState) (p : Option rom_handover_t) :
    ((DEV_SM_RomHandoverGet K st p).1 = SM_ERR_SUCCESS ↔
      (st.handover.barker = 0xC0FFEE16 ∧ st.handover.ver = 2 ∧
        K.sizeof_rom_handover_t ≤ st.handover.size)) ∧
    ((DEV_SM_RomHandoverGet K st p).1 = SM_ERR_SUCCESS →
      (DEV_SM_RomHandoverGet K st p).2.1 = some st.handover) ∧
    ((DEV_SM_RomHandoverGet K st p).1 ≠ SM_ERR_SUCCESS →
      (DEV_SM_RomHandoverGet K st p).1 = SM_ERR_NOT_SUPPORTED ∧
      (DEV_SM_RomHandoverGet K st p).2.1 = p) ∧
    (st.handover.barker ≠ 0xC0FFEE16 →
      (DEV_SM_RomHandoverGet K st p).1 = SM_ERR_NOT_SUPPORTED ∧
      (DEV_SM_RomHandoverGet K st p).2.1 = p) ∧
    (DEV_SM_RomHandoverGet K st p).2.2 = st ∧
    (DEV_SM_RomHandoverGet K st p).2.2.s_imageIdx = st.s_imageIdx := by
  rw [romHandoverGet_eq]
  by_cases h : HandoverValid K st.handover
  · have h2 := h
    simp only [HandoverValid, HANDOVER_BARKER, HANDOVER_VER] at h2
    simp [h, h2]
  · have h2 := h
    simp only [HandoverValid, HANDOVER_BARKER, HANDOVER_VER] at h2
    simp [h, h2]

/-- C4 instance: a record whose barker is wrong and whose version and size are
fine is refused, the output view and the state left as they were. -/
theorem romHandoverGet_spec_witness :
    (DEV_SM_RomHandoverGet exK { exS with handover := { exH with barker := 0xC0FFEE17 } } none).1
        = SM_ERR_NOT_SUPPORTED ∧
    (DEV_SM_RomHandoverGet exK { exS with handover := { exH with barker := 0xC0FFEE17 } } none).2.1
        = none :=
  (romHandoverGet_spec exK { exS with handover := { exH with barker := 0xC0FFEE17 } } none).2.2.2.1
    (by decide)

/-- C5: `DEV_SM_RomPassoverGet` returns `SM_ERR_SUCCESS` exactly when the 16-bit
tag is 0x504F, the version is 2 and the size field is at least the structure
size, and then the output view is the record; otherwise it returns
`SM_ERR_NOT_SUPPORTED` and leaves the output view as it was. -/
theorem romPassoverGet_spec (K : RomConsts) (st : RomState) (p : Option rom_passover_t) :
    ((DEV_SM_RomPassoverGet K st p).1 = SM_ERR_SUCCESS ↔
      (st.passover.tag = 0x504F ∧ st.passover.ver = 2 ∧
        K.sizeof_rom_passover_t ≤ st.passover.size)) ∧
    ((DEV_SM_RomPassoverGet K st p).1 = SM_ERR_SUCCESS →
      (DEV_SM_RomPassoverGet K st p).2.1 = some st.passover) ∧
    ((DEV_SM_RomPassoverGet K st p).1 ≠ SM_ERR_SUCCESS →
      (DEV_SM_RomPassoverGet K st p).1 = SM_ERR_NOT_SUPPORTED ∧
      (DEV_SM_RomPassoverGet K st p).2.1 = p) ∧
    (DEV_SM_RomPassoverGet K st p).2.2 = st := by
  rw [romPassoverGet_eq]
  by_cases h : PassoverValid K st.passover
  · have h2 := h
    simp only [PassoverValid, PASSOVER_TAG, PASSOVER_VER] at h2
    simp [h, h2]
  · have h2 := h
    simp only [PassoverValid, PASSOVER_TAG, PASSOVER_VER] at h2
    simp [h, h2]

/-- C5 instance: a passover record of version 3 is refused and the output view
is not written. -/
theorem romPassoverGet_spec_witness :
    (DEV_SM_RomPassoverGet exK { exS with passover := { exP with ver := 3 } } none).1
        = SM_ERR_NOT_SUPPORTED ∧
    (DEV_SM_RomPassoverGet exK { exS with passover := { exP with ver := 3 } } none).2.1
        = none :=
  (romPassoverGet_spec exK { exS with passover := { exP with ver := 3 } } none).2.2.1
    (by decide)

/-! Bit-field lemmas -/

theorem and_shiftLeft_shiftRight (w m k : Nat) : (w &&& (m <<< k)) >>> k = (w >>> k) &&& m := by
  apply Nat.eq_of_testBit_eq
  intro i
  simp [Nat.testBit_shiftRight, Nat.testBit_and, Nat.testBit_shiftLeft]

theorem byte_field (w k : Nat) : (w &&& (255 <<< k)) >>> k = w / 2 ^ k % 256 := by
  rw [and_shiftLeft_shiftRight, Nat.shiftRight_eq_div_pow]
  exact Nat.and_pow_two_sub_one_eq_mod _ 8

theorem img_cpu_eq (w : Nat) : ROM_HANDOVER_IMG_CPU w = w % 256 := by
  simpa using byte_field w 0

theorem img_type_eq (w : Nat) : ROM_HANDOVER_IMG_TYPE w = w / 2 ^ 8 % 256 := byte_field w 8

theorem img_msel_eq (w : Nat) : ROM_HANDOVER_IMG_MSEL w = w / 2 ^ 16 % 256 := byte_field w 16

theorem img_flags_eq (w : Nat) : ROM_HANDOVER_IMG_FLAGS w = w / 2 ^ 24 % 256 := byte_field w 24

/-- C9: for every 32-bit packed image word the four decoders return its four
bytes (cpu is bits 7..0, type bits 15..8, module select bits 23..16, flags
bits 31..24), each value is below 256, and the word is recovered as
cpu + type * 2^8 + msel * 2^16 + flags * 2^24. -/
theorem img_word_decode (w : Nat) (hw : w < 2 ^ 32) :
    ROM_HANDOVER_IMG_CPU w = w % 2 ^ 8 ∧
    ROM_HANDOVER_IMG_TYPE w = w / 2 ^ 8 % 2 ^ 8 ∧
    ROM_HANDOVER_IMG_MSEL w = w / 2 ^ 16 % 2 ^ 8 ∧
    ROM_HANDOVER_IMG_FLAGS w = w / 2 ^ 24 ∧
    ROM_HANDOVER_IMG_CPU w < 256 ∧ ROM_HANDOVER_IMG_TYPE w < 256 ∧
    ROM_HANDOVER_IMG_MSEL w < 256 ∧ ROM_HANDOVER_IMG_FLAGS w < 256 ∧
    ROM_HANDOVER_IMG_CPU w + ROM_HANDOVER_IMG_TYPE w * 2 ^ 8 +
      ROM_HANDOVER_IMG_MSEL w * 2 ^ 16 + ROM_HANDOVER_IMG_FLAGS w * 2 ^ 24 = w := by
  rw [img_cpu_eq, img_type_eq, img_msel_eq, img_flags_eq]
  refine ⟨by norm_num, by norm_num, by norm_num, ?_, ?_, ?_, ?_, ?_, ?_⟩ <;> omega

/-- C9 instance: the word 0x07080302 decodes to cpu 2, type 3, module select
8 and flags 7. -/
theorem img_word_decode_witness :
    ROM_HANDOVER_IMG_CPU 0x07080302 = 0x07080302 % 2 ^ 8 ∧
    ROM_HANDOVER_IMG_TYPE 0x07080302 = 0x07080302 / 2 ^ 8 % 2 ^ 8 ∧
    ROM_HANDOVER_IMG_MSEL 0x07080302 = 0x07080302 / 2 ^ 16 % 2 ^ 8 ∧
    ROM_HANDOVER_IMG_FLAGS 0x07080302 = 0x07080302 / 2 ^ 24 ∧
    ROM_HANDOVER_IMG_CPU 0x07080302 < 256 ∧ ROM_HANDOVER_IMG_TYPE 0x07080302 < 256 ∧
    ROM_HANDOVER_IMG_MSEL 0x07080302 < 256 ∧ ROM_HANDOVER_IMG_FLAGS 0x07080302 < 256 ∧
    ROM_HANDOVER_IMG_CPU 0x07080302 + ROM_HANDOVER_IMG_TYPE 0x07080302 * 2 ^ 8 +
      ROM_HANDOVER_IMG_MSEL 0x07080302 * 2 ^ 16 + ROM_HANDOVER_IMG_FLAGS 0x07080302 * 2 ^ 24
        = 0x07080302 :=
  img_word_decode 0x07080302 (by decide)

/-! Properties of the stage and container registers -/

theorem stage_field_roundtrip (g s : Nat) (hs : s < 16) :
    (((g &&& not32 ROM_STAGE_MASK) |||
        (((s <<< ROM_STAGE_SHIFT) % 2 ^ 32) &&& ROM_STAGE_MASK)) &&& ROM_STAGE_MASK)
      >>> ROM_STAGE_SHIFT = s := by
  have hn : not32 ROM_STAGE_MASK &&& ROM_STAGE_MASK = 0 := by decide
  have hm : ROM_STAGE_MASK = 15 <<< 24 := by decide
  have hlt : s <<< 24 < 2 ^ 32 := by
    rw [Nat.shiftLeft_eq]; omega
  rw [Nat.and_distrib_right, Nat.and_assoc, Nat.and_assoc, hn, Nat.and_self]
  simp only [ROM_STAGE_SHIFT, Nat.and_zero, Nat.zero_or, Nat.mod_eq_of_lt hlt]
  rw [hm, and_shiftLeft_shiftRight, Nat.shiftLeft_shiftRight]
  have := Nat.and_pow_two_sub_one_eq_mod s 4
  simp only [show (2 : Nat) ^ 4 - 1 = 15 by decide] at this
  rw [this]
  omega

/-- C6: whatever the two retained registers held before, and for every stage
code below 16, `DEV_SM_RomStageGet` after `DEV_SM_RomStageSet s` returns `s`
(the setter reports success and does not touch the container register). -/
theorem romStage_set_get (st : RomState) (s : Nat) (hs : s < 16) :
    DEV_SM_RomStageGet (DEV_SM_RomStageSet st s).2 = s ∧
    (DEV_SM_RomStageSet st s).1 = SM_ERR_SUCCESS ∧
    (DEV_SM_RomStageSet st s).2.GPR15 = st.GPR15 := by
  refine ⟨?_, rfl, rfl⟩
  simp only [DEV_SM_RomStageGet, DEV_SM_RomStageSet]
  exact stage_field_roundtrip st.GPR16 s hs

/-- C6 instance: stage code 6 written over an all-ones stage register, with a
container value already stored, is read back as 6. -/
theorem romStage_set_get_witness :
    DEV_SM_RomStageGet (DEV_SM_RomStageSet exS 6).2 = 6 ∧
    (DEV_SM_RomStageSet exS 6).1 = SM_ERR_SUCCESS ∧
    (DEV_SM_RomStageSet exS 6).2.GPR15 = exS.GPR15 :=
  romStage_set_get exS 6 (by decide)

/-- C7: for every selector other than 0 and 1 `DEV_SM_RomContainerSet` returns
`SM_ERR_INVALID_PARAMETERS` and leaves the whole state, the container and
stage registers included, unchanged; for selector 0 or 1 it returns
`SM_ERR_SUCCESS`. -/
theorem romContainerSet_status (st : RomState) (c : Nat) :
    (c ≠ 0 ∧ c ≠ 1 →
      DEV_SM_RomContainerSet st c = (SM_ERR_INVALID_PARAMETERS, st) ∧
      (DEV_SM_RomContainerSet st c).2.GPR15 = st.GPR15 ∧
      (DEV_SM_RomContainerSet st c).2.GPR16 = st.GPR16) ∧
    (c = 0 ∨ c = 1 → (DEV_SM_RomContainerSet st c).1 = SM_ERR_SUCCESS) := by
  constructor
  · rintro ⟨h0, h1⟩
    simp [DEV_SM_RomContainerSet, h0, h1]
  · rintro (h | h) <;> simp [DEV_SM_RomContainerSet, h]

/-- C7 instance: selector 2 is refused and the state is unchanged. -/
theorem romContainerSet_status_witness :
    DEV_SM_RomContainerSet exS 2 = (SM_ERR_INVALID_PARAMETERS, exS) ∧
    (DEV_SM_RomContainerSet exS 2).2.GPR15 = exS.GPR15 ∧
    (DEV_SM_RomContainerSet exS 2).2.GPR16 = exS.GPR16 :=
  (romContainerSet_status exS 2).1 ⟨by decide, by decide⟩

/-- C8: whatever the registers held before, after `DEV_SM_RomContainerSet 0`
followed by `DEV_SM_RomContainerSet 1` (both succeed) `DEV_SM_RomContainerGet`
returns the value the second call wrote to the container register, which is
the tag `ROM_CONTAINER_2` (0xAA33), not the value of the first call. -/
theorem romContainer_set_set_get (st : RomState) :
    (DEV_SM_RomContainerSet st 0).1 = SM_ERR_SUCCESS ∧
    (DEV_SM_RomContainerSet (DEV_SM_RomContainerSet st 0).2 1).1 = SM_ERR_SUCCESS ∧
    DEV_SM_RomContainerGet (DEV_SM_RomContainerSet (DEV_SM_RomContainerSet st 0).2 1).2
      = (DEV_SM_RomContainerSet (DEV_SM_RomContainerSet st 0).2 1).2.GPR15 ∧
    DEV_SM_RomContainerGet (DEV_SM_RomContainerSet (DEV_SM_RomContainerSet st 0).2 1).2
      = 0xAA33 ∧
    DEV_SM_RomContainerGet (DEV_SM_RomContainerSet (DEV_SM_RomContainerSet st 0).2 1).2
      ≠ DEV_SM_RomContainerGet (DEV_SM_RomContainerSet st 0).2 := by
  simp [DEV_SM_RomContainerSet, DEV_SM_RomContainerGet, ROM_CONTAINER_1, ROM_CONTAINER_2]

/-! Properties of the image iterator -/

theorem imgList_length (h : rom_handover_t) (hcap : h.num ≤ h.img.length) :
    (imgList h).length = h.num := by
  simp [imgList, List.length_take, hcap]

theorem imgAt_eq_getElem (h : rom_handover_t) (hcap : h.num ≤ h.img.length) (i : Nat)
    (hi : i < (imgList h).length) : imgAt h i = (imgList h)[i] := by
  have hi2 : i < h.num := by rwa [imgList_length h hcap] at hi
  have hi3 : i < h.img.length := lt_of_lt_of_le hi2 hcap
  unfold imgAt
  rw [List.getD_eq_getElem _ _ hi3]
  simp [imgList, List.getElem_take]

/-- The scan loop stops at the first listed image of the requested type at or
after the cursor, or at the image count when there is none. -/
theorem imgScanLoop_eq (ptr : rom_handover_t) (type : Nat) (hcap : ptr.num ≤ ptr.img.length)
    (hwf : ptr.num < 2 ^ 32) :
    ∀ (fuel idx : Nat), idx ≤ ptr.num → ptr.num - idx < fuel →
      imgScanLoop ptr type fuel idx = some (scanStop ptr type idx) := by
  unfold scanStop
  intro fuel
  induction fuel with
  | zero => intro idx _ hf; omega
  | succ n ih =>
    intro idx hle hf
    have hlen := imgList_length ptr hcap
    unfold imgScanLoop
    by_cases hlt : idx < ptr.num
    · have hlt2 : idx < (imgList ptr).length := by rw [hlen]; exact hlt
      rw [if_pos hlt, List.drop_eq_getElem_cons hlt2, List.findIdx_cons,
        imgAt_eq_getElem ptr hcap idx hlt2]
      by_cases hp : type = ROM_HANDOVER_IMG_TYPE (imgList ptr)[idx].flags
      · simp [hp, typeIs]
      · have hmod : (idx + 1) % 2 ^ 32 = idx + 1 := Nat.mod_eq_of_lt (by omega)
        rw [if_neg hp, hmod, ih (idx + 1) (by omega) (by omega)]
        simp [hp, typeIs]
        omega
    · have hge : (imgList ptr).length ≤ idx := by rw [hlen]; omega
      rw [if_neg hlt, List.drop_eq_nil_of_le hge]
      simp

theorem imgList_getElem? (h : rom_handover_t) (hcap : h.num ≤ h.img.length) (j : Nat) :
    (imgList h)[j]? = if j < h.num then some (imgAt h j) else none := by
  have hlen := imgList_length h hcap
  by_cases hj : j < h.num
  · have hj2 : j < (imgList h).length := by rw [hlen]; exact hj
    rw [if_pos hj, List.getElem?_eq_getElem hj2, imgAt_eq_getElem h hcap j hj2]
  · rw [if_neg hj, List.getElem?_eq_none (by rw [hlen]; omega)]

theorem scanStop_le (h : rom_handover_t) (type c : Nat) (hcap : h.num ≤ h.img.length)
    (hc : c ≤ h.num) : scanStop h type c ≤ h.num := by
  have h1 := @List.findIdx_le_length _ (typeIs type) ((imgList h).drop c)
  rw [List.length_drop, imgList_length _ hcap] at h1
  unfold scanStop
  omega

/-- One call of `DEV_SM_RomBootImgNGet` on a valid record with the cursor at
`c`, in terms of the index where the scan stops. -/
theorem romBootImgNGet_eq (K : RomConsts) (st : RomState) (type : Nat) (out : ImgOut)
    (fuel c : Nat) (hv : HandoverValid K st.handover)
    (hcap : st.handover.num ≤ st.handover.img.length) (hwf : st.handover.num < 2 ^ 32)
    (hc : c ≤ st.handover.num) (hf : st.handover.num - c < fuel) :
    DEV_SM_RomBootImgNGet K fuel { st with s_imageIdx := c } type out =
      some (
        if scanStop st.handover type c < st.handover.num then
          (SM_ERR_SUCCESS, imgOutOf K st (imgAt st.handover (scanStop st.handover type c)),
            { st with s_imageIdx := scanStop st.handover type c + 1 })
        else (SM_ERR_NOT_FOUND, out, { st with s_imageIdx := st.handover.num })) := by
  have hle := scanStop_le st.handover type c hcap hc
  unfold DEV_SM_RomBootImgNGet
  rw [romHandoverGet_eq]
  have hv2 : HandoverValid K ({ st with s_imageIdx := c } : RomState).handover := hv
  rw [if_pos hv2]
  dsimp only
  rw [imgScanLoop_eq st.handover type hcap hwf fuel c hc hf]
  rw [Option.some_bind]
  by_cases hlt : scanStop st.handover type c < st.handover.num
  · rw [if_pos hlt, if_pos hlt, Nat.mod_eq_of_lt (by omega)]
    rfl
  · have heq : scanStop st.handover type c = st.handover.num := by omega
    rw [if_neg hlt, if_neg hlt, heq]

theorem filter_eq_of_findIdx {α : Type} (p : α → Bool) (l : List α) :
    l.filter p =
      match l[l.findIdx p]? with
      | some e => e :: (l.drop (l.findIdx p + 1)).filter p
      | none => [] := by
  induction l with
  | nil => simp
  | cons a l ih =>
    by_cases hp : p a = true
    · simp [List.findIdx_cons, hp]
    · simp only [List.findIdx_cons, hp, List.filter_cons, if_false, cond_false, Bool.false_eq_true,
        List.getElem?_cons_succ, List.drop_succ_cons]
      exact ih

/-- The listed images of the requested type from the cursor on: the one the
scan stops at, then those after it. -/
theorem filter_drop_scanStop (h : rom_handover_t) (type c : Nat)
    (hcap : h.num ≤ h.img.length) :
    ((imgList h).drop c).filter (typeIs type) =
      if scanStop h type c < h.num then
        imgAt h (scanStop h type c) ::
          ((imgList h).drop (scanStop h type c + 1)).filter (typeIs type)
      else [] := by
  rw [filter_eq_of_findIdx, List.getElem?_drop, List.drop_drop, imgList_getElem? h hcap]
  unfold scanStop
  by_cases hlt : c + List.findIdx (typeIs type) (List.drop c (imgList h)) < h.num
  · simp only [if_pos hlt]
    rw [Nat.add_assoc]
  · simp only [if_neg hlt]

/-- One call of `DEV_SM_RomBootImgNGet` on a valid record with the cursor at
`c`, in terms of the listed images of the requested type that remain. -/
theorem romBootImgNGet_filter (K : RomConsts) (st : RomState) (type : Nat) (out : ImgOut)
    (fuel c : Nat) (hv : HandoverValid K st.handover)
    (hcap : st.handover.num ≤ st.handover.img.length) (hwf : st.handover.num < 2 ^ 32)
    (hc : c ≤ st.handover.num) (hf : st.handover.num - c < fuel) :
    (∀ e rest, ((imgList st.handover).drop c).filter (typeIs type) = e :: rest →
      ∃ c2, c2 ≤ st.handover.num ∧
        ((imgList st.handover).drop c2).filter (typeIs type) = rest ∧
        DEV_SM_RomBootImgNGet K fuel { st with s_imageIdx := c } type out =
          some (SM_ERR_SUCCESS, imgOutOf K st e, { st with s_imageIdx := c2 })) ∧
    (((imgList st.handover).drop c).filter (typeIs type) = [] →
      DEV_SM_RomBootImgNGet K fuel { st with s_imageIdx := c } type out =
        some (SM_ERR_NOT_FOUND, out, { st with s_imageIdx := st.handover.num })) := by
  have hle := scanStop_le st.handover type c hcap hc
  rw [romBootImgNGet_eq K st type out fuel c hv hcap hwf hc hf,
    filter_drop_scanStop st.handover type c hcap]
  by_cases hlt : scanStop st.handover type c < st.handover.num
  · simp only [if_pos hlt]
    refine ⟨?_, fun h => by cases h⟩
    intro e rest he
    injection he with h1 h2
    refine ⟨scanStop st.handover type c + 1, hlt, h2, ?_⟩
    rw [h1]
  · simp only [if_neg hlt]
    exact ⟨fun e rest h => (by cases h), fun _ => trivial⟩

/-- Invariant of the first/next protocol: after call `k` the cursor is within
the image count, the listed images of the requested type from the cursor on
are the matches after the `k`-th one, and call `k` returned the `k`-th match
or, when there is none, `SM_ERR_NOT_FOUND`. -/
theorem romBootImgSeq_inv (K : RomConsts) (st : RomState) (type : Nat) (out : ImgOut)
    (fuel : Nat) (hv : HandoverValid K st.handover)
    (hcap : st.handover.num ≤ st.handover.img.length) (hwf : st.handover.num < 2 ^ 32)
    (hf : st.handover.num < fuel) (k : Nat) :
    ∃ c o, c ≤ st.handover.num ∧
      ((imgList st.handover).drop c).filter (typeIs type) =
        ((imgList st.handover).filter (typeIs type)).drop (k + 1) ∧
      romBootImgSeq K fuel type st out k =
        some (if k < ((imgList st.handover).filter (typeIs type)).length then SM_ERR_SUCCESS
          else SM_ERR_NOT_FOUND, o, { st with s_imageIdx := c }) ∧
      (∀ e, ((imgList st.handover).filter (typeIs type))[k]? = some e → o = imgOutOf K st e) := by
  have hstep : ∀ (c : Nat) (o : ImgOut) (n : Nat), c ≤ st.handover.num →
      ((imgList st.handover).drop c).filter (typeIs type) =
        ((imgList st.handover).filter (typeIs type)).drop n →
      ∃ c2 o2, c2 ≤ st.handover.num ∧
        ((imgList st.handover).drop c2).filter (typeIs type) =
          ((imgList st.handover).filter (typeIs type)).drop (n + 1) ∧
        DEV_SM_RomBootImgNGet K fuel { st with s_imageIdx := c } type o =
          some (if n < ((imgList st.handover).filter (typeIs type)).length then SM_ERR_SUCCESS
            else SM_ERR_NOT_FOUND, o2, { st with s_imageIdx := c2 }) ∧
        (∀ e, ((imgList st.handover).filter (typeIs type))[n]? = some e →
          o2 = imgOutOf K st e) := by
    intro c o n hc hrem
    have hN := romBootImgNGet_filter K st type o fuel c hv hcap hwf hc (by omega)
    by_cases hn : n < ((imgList st.handover).filter (typeIs type)).length
    · rw [List.drop_eq_getElem_cons hn] at hrem
      obtain ⟨c2, hc2, hrest, hcall⟩ := hN.1 _ _ hrem
      refine ⟨c2, imgOutOf K st (((imgList st.handover).filter (typeIs type))[n]), hc2, hrest,
        ?_, ?_⟩
      · rw [if_pos hn]; exact hcall
      · intro e he
        rw [List.getElem?_eq_getElem hn] at he
        injection he with he
        rw [he]
    · have hlen : ((imgList st.handover).filter (typeIs type)).length ≤ n := by omega
      rw [List.drop_eq_nil_of_le hlen] at hrem
      refine ⟨st.handover.num, o, le_refl _, ?_, ?_, ?_⟩
      · have h1 : (imgList st.handover).drop st.handover.num = [] :=
          List.drop_eq_nil_of_le (by rw [imgList_length _ hcap])
        have h2 : ((imgList st.handover).filter (typeIs type)).drop (n + 1) = [] :=
          List.drop_eq_nil_of_le (by omega)
        rw [h1, h2]
        rfl
      · rw [if_neg hn]; exact hN.2 hrem
      · intro e he
        rw [List.getElem?_eq_none hlen] at he
        cases he
  induction k with
  | zero =>
    exact hstep 0 out 0 (Nat.zero_le _) (by simp)
  | succ k ih =>
    obtain ⟨c, o, hc, hrem, hcall, _⟩ := ih
    obtain ⟨c2, o2, hc2, hrem2, hcall2, ho2⟩ := hstep c o (k + 1) hc hrem
    refine ⟨c2, o2, hc2, hrem2, ?_, ho2⟩
    simp only [romBootImgSeq, hcall, Option.some_bind]
    exact hcall2

/-- C1: on a valid handover record whose image count is within the image
array, with no M7 address override recorded, `DEV_SM_RomBootImg1Get t` followed
by repeated `DEV_SM_RomBootImgNGet t` returns, call after call, the entries
among the first `num` whose type byte is `t`, in ascending index order, each as
its decoded cpu, its address, its decoded module select and flags; every call
after the last match returns `SM_ERR_NOT_FOUND`. -/
theorem romBootImg_first_next (K : RomConsts) (st : RomState) (t : Nat) (out : ImgOut)
    (fuel : Nat)
    (hbarker : st.handover.barker = 0xC0FFEE16) (hver : st.handover.ver = 2)
    (hsize : K.sizeof_rom_handover_t ≤ st.handover.size)
    (hcap : st.handover.num ≤ st.handover.img.length) (hwf : st.handover.num < 2 ^ 32)
    (hm7 : st.s_m7AddValid = false) (hf : st.handover.num < fuel) :
    (∀ (k : Nat) (e : rom_bootlist_t), ((imgList st.handover).filter (typeIs t))[k]? = some e →
      ∃ s, romBootImgSeq K fuel t st out k =
        some (SM_ERR_SUCCESS,
          ⟨ROM_HANDOVER_IMG_CPU e.flags, e.addr, ROM_HANDOVER_IMG_MSEL e.flags,
            ROM_HANDOVER_IMG_FLAGS e.flags⟩, s)) ∧
    (∀ k, ((imgList st.handover).filter (typeIs t)).length ≤ k →
      ∃ o s, romBootImgSeq K fuel t st out k = some (SM_ERR_NOT_FOUND, o, s)) := by
  have hv : HandoverValid K st.handover := ⟨hbarker, hver, hsize⟩
  constructor
  · intro k e he
    obtain ⟨c, o, _, _, hcall, ho⟩ := romBootImgSeq_inv K st t out fuel hv hcap hwf hf k
    have hk : k < ((imgList st.handover).filter (typeIs t)).length := by
      by_contra hcon
      rw [List.getElem?_eq_none (by omega)] at he
      cases he
    rw [if_pos hk] at hcall
    have ho2 := ho _ he
    refine ⟨{ st with s_imageIdx := c }, ?_⟩
    rw [hcall, ho2]
    simp only [imgOutOf, hm7, Bool.false_eq_true, false_and, if_false]
  · intro k hk
    obtain ⟨c, o, _, _, hcall, _⟩ := romBootImgSeq_inv K st t out fuel hv hcap hwf hf k
    rw [if_neg (by omega)] at hcall
    exact ⟨_, _, hcall⟩

/-- C1 instance, image count 3: the record `exH` lists (cpu 0, type 3),
(cpu 1, type 4), (cpu 1, type 3); scanning for type 3 returns entry 0, then
entry 2, then `SM_ERR_NOT_FOUND`. -/
theorem romBootImg_first_next_witness :
    (∃ s, romBootImgSeq exK 4 3 exS ⟨9, 9, 9, 9⟩ 0 =
      some (SM_ERR_SUCCESS, ⟨0, 0x1000, 0, 0⟩, s)) ∧
    (∃ s, romBootImgSeq exK 4 3 exS ⟨9, 9, 9, 9⟩ 1 =
      some (SM_ERR_SUCCESS, ⟨1, 0x3000, 6, 5⟩, s)) ∧
    (∃ o s, romBootImgSeq exK 4 3 exS ⟨9, 9, 9, 9⟩ 2 = some (SM_ERR_NOT_FOUND, o, s)) := by
  have h := romBootImg_first_next exK exS 3 ⟨9, 9, 9, 9⟩ 4 (by decide) (by decide) (by decide)
    (by decide) (by decide) (by decide) (by decide)
  exact ⟨h.1 0 ⟨0x00000300, 0x1000⟩ (by decide), h.1 1 ⟨0x05060301, 0x3000⟩ (by decide),
    h.2 2 (by decide)⟩

/-! Properties of the CPU lookup -/

/-- The loop of `DEV_SM_RomBootCpuGet`, entered through a getter call with the
cursor at `c`: `R` are the listed EXEC images from the cursor on.  The loop
returns the first of them whose cpu byte is `cpuId`, or `SM_ERR_NOT_FOUND` with
the cursor at the image count and the outputs untouched. -/
theorem cpuGetLoop_spec (K : RomConsts) (st : RomState) (cpuId : Nat)
    (fuel : Nat) (hv : HandoverValid K st.handover)
    (hcap : st.handover.num ≤ st.handover.img.length) (hwf : st.handover.num < 2 ^ 32)
    (hf : st.handover.num < fuel) :
    ∀ (R : List rom_bootlist_t) (c n : Nat) (img : ImgOut), c ≤ st.handover.num →
      ((imgList st.handover).drop c).filter (typeIs K.DEV_SM_ROM_IMG_EXEC) = R →
      R.length < n →
      (R.find? (cpuIs cpuId) = none → ∀ out : CpuOut,
        (DEV_SM_RomBootImgNGet K fuel { st with s_imageIdx := c } K.DEV_SM_ROM_IMG_EXEC img).bind
            (fun r => cpuGetLoop K fuel cpuId n r.1 r.2.1 out r.2.2) =
          some (SM_ERR_NOT_FOUND, out, { st with s_imageIdx := st.handover.num })) ∧
      (∀ e, R.find? (cpuIs cpuId) = some e →
        ∃ c2, c2 ≤ st.handover.num ∧ ∀ out : CpuOut,
          (DEV_SM_RomBootImgNGet K fuel { st with s_imageIdx := c } K.DEV_SM_ROM_IMG_EXEC img).bind
              (fun r => cpuGetLoop K fuel cpuId n r.1 r.2.1 out r.2.2) =
            some (SM_ERR_SUCCESS,
              ⟨(imgOutOf K st e).addr, ROM_HANDOVER_IMG_MSEL e.flags,
                ROM_HANDOVER_IMG_FLAGS e.flags⟩,
              { st with s_imageIdx := c2 })) := by
  intro R
  induction R with
  | nil =>
    intro c n img hc hR hn
    have hN := (romBootImgNGet_filter K st K.DEV_SM_ROM_IMG_EXEC img fuel c hv hcap hwf hc
      (by omega)).2 hR
    obtain ⟨m, rfl⟩ : ∃ m, n = m + 1 := ⟨n - 1, by omega⟩
    refine ⟨fun _ out => ?_, fun e he => by simp at he⟩
    rw [hN, Option.some_bind]
    simp [cpuGetLoop]
  | cons a R ih =>
    intro c n img hc hR hn
    obtain ⟨c2, hc2, hrest, hN⟩ := (romBootImgNGet_filter K st K.DEV_SM_ROM_IMG_EXEC img fuel c
      hv hcap hwf hc (by omega)).1 a R hR
    obtain ⟨m, rfl⟩ : ∃ m, n = m + 1 := ⟨n - 1, by omega⟩
    have hm : R.length < m := by simpa using hn
    simp only [hN, Option.some_bind]
    by_cases hcpu : cpuId = ROM_HANDOVER_IMG_CPU a.flags
    · have hfind : (a :: R).find? (cpuIs cpuId) = some a := by
        simp [List.find?_cons, cpuIs, hcpu]
      rw [hfind]
      refine ⟨fun h => (by cases h), fun e he => ?_⟩
      injection he with he
      subst he
      refine ⟨c2, hc2, fun out => ?_⟩
      simp [cpuGetLoop, imgOutOf, ← hcpu]
    · have hfind : (a :: R).find? (cpuIs cpuId) = R.find? (cpuIs cpuId) := by
        simp [List.find?_cons, cpuIs, hcpu]
      rw [hfind]
      have hstep : ∀ out : CpuOut,
          cpuGetLoop K fuel cpuId (m + 1) SM_ERR_SUCCESS (imgOutOf K st a) out
            { st with s_imageIdx := c2 } =
          (DEV_SM_RomBootImgNGet K fuel { st with s_imageIdx := c2 } K.DEV_SM_ROM_IMG_EXEC
              (imgOutOf K st a)).bind
            (fun r => cpuGetLoop K fuel cpuId m r.1 r.2.1 out r.2.2) := by
        intro out
        simp [cpuGetLoop, imgOutOf, hcpu]
      simp only [hstep]
      exact ih c2 m (imgOutOf K st a) hc2 hrest hm

theorem find?_of_first {α : Type} (q : α → Bool) :
    ∀ (l : List α) (i : Nat) (e : α), l[i]? = some e → q e = true →
      (∀ j, j < i → ∀ x, l[j]? = some x → q x = false) → l.find? q = some e := by
  intro l
  induction l with
  | nil => intro i e he; simp at he
  | cons a l ih =>
    intro i e he hq hmin
    cases i with
    | zero =>
      simp only [List.getElem?_cons_zero, Option.some.injEq] at he
      subst he
      simp [List.find?_cons, hq]
    | succ i =>
      have ha : q a = false := hmin 0 (Nat.succ_pos i) a (by simp)
      simp only [List.getElem?_cons_succ] at he
      rw [List.find?_cons, ha]
      exact ih i e he hq (fun j hj x hx => hmin (j + 1) (by omega) x (by simpa using hx))

/-- The result of `DEV_SM_RomBootCpuGet` on a valid record, in terms of the
first listed image that has type EXEC and cpu byte `cpuId`. -/
theorem romBootCpuGet_spec (K : RomConsts) (st : RomState) (cpuId : Nat)
    (fuel : Nat) (hv : HandoverValid K st.handover)
    (hcap : st.handover.num ≤ st.handover.img.length) (hwf : st.handover.num < 2 ^ 32)
    (hf : st.handover.num < fuel) :
    ((imgList st.handover).find?
        (fun a => decide (typeIs K.DEV_SM_ROM_IMG_EXEC a = true ∧ cpuIs cpuId a = true)) = none →
      ∀ out : CpuOut, DEV_SM_RomBootCpuGet K fuel st cpuId out =
        some (SM_ERR_NOT_FOUND, out, { st with s_imageIdx := st.handover.num })) ∧
    (∀ e, (imgList st.handover).find?
        (fun a => decide (typeIs K.DEV_SM_ROM_IMG_EXEC a = true ∧ cpuIs cpuId a = true)) = some e →
      ∃ c2, c2 ≤ st.handover.num ∧ ∀ out : CpuOut,
        DEV_SM_RomBootCpuGet K fuel st cpuId out =
          some (SM_ERR_SUCCESS,
            ⟨(imgOutOf K st e).addr, ROM_HANDOVER_IMG_MSEL e.flags,
              ROM_HANDOVER_IMG_FLAGS e.flags⟩,
            { st with s_imageIdx := c2 })) := by
  have hlen : ((imgList st.handover).filter (typeIs K.DEV_SM_ROM_IMG_EXEC)).length < fuel :=
    lt_of_le_of_lt (List.length_filter_le _ _) (by rw [imgList_length _ hcap]; exact hf)
  have h := cpuGetLoop_spec K st cpuId fuel hv hcap hwf hf
    ((imgList st.handover).filter (typeIs K.DEV_SM_ROM_IMG_EXEC)) 0 fuel ⟨0, 0, 0, 0⟩
    (Nat.zero_le _) (by rw [List.drop_zero]) hlen
  rw [List.find?_filter] at h
  exact h

/-- C2: on a valid handover record whose image count is within the image
array, if entry `i` is the lowest-index listed image with image type EXEC and
cpu byte `cpuId`, then `DEV_SM_RomBootCpuGet cpuId` returns `SM_ERR_SUCCESS`
with the module select and flags of entry `i` and, as reset vector, the
address of entry `i` (the recorded M7 address instead when the override is
valid and `cpuId` is `DEV_SM_CPU_M7P`). -/
theorem romBootCpuGet_found (K : RomConsts) (st : RomState) (cpuId : Nat) (out : CpuOut)
    (fuel : Nat)
    (hbarker : st.handover.barker = 0xC0FFEE16) (hver : st.handover.ver = 2)
    (hsize : K.sizeof_rom_handover_t ≤ st.handover.size)
    (hcap : st.handover.num ≤ st.handover.img.length) (hwf : st.handover.num < 2 ^ 32)
    (hf : st.handover.num < fuel)
    (i : Nat) (hi : i < st.handover.num)
    (htype : ROM_HANDOVER_IMG_TYPE (imgAt st.handover i).flags = K.DEV_SM_ROM_IMG_EXEC)
    (hcpu : ROM_HANDOVER_IMG_CPU (imgAt st.handover i).flags = cpuId)
    (hmin : ∀ j, j < i →
      ¬ (ROM_HANDOVER_IMG_TYPE (imgAt st.handover j).flags = K.DEV_SM_ROM_IMG_EXEC ∧
          ROM_HANDOVER_IMG_CPU (imgAt st.handover j).flags = cpuId)) :
    ∃ s, DEV_SM_RomBootCpuGet K fuel st cpuId out =
      some (SM_ERR_SUCCESS,
        ⟨if st.s_m7AddValid = true ∧ cpuId = K.DEV_SM_CPU_M7P then st.s_m7Addr
            else (imgAt st.handover i).addr,
          ROM_HANDOVER_IMG_MSEL (imgAt st.handover i).flags,
          ROM_HANDOVER_IMG_FLAGS (imgAt st.handover i).flags⟩, s) := by
  have hv : HandoverValid K st.handover := ⟨hbarker, hver, hsize⟩
  have hfind : (imgList st.handover).find?
      (fun a => decide (typeIs K.DEV_SM_ROM_IMG_EXEC a = true ∧ cpuIs cpuId a = true)) =
      some (imgAt st.handover i) := by
    apply find?_of_first _ _ i
    · rw [imgList_getElem? _ hcap, if_pos hi]
    · simp [typeIs, cpuIs, htype, hcpu]
    · intro j hj x hx
      rw [imgList_getElem? _ hcap, if_pos (by omega)] at hx
      injection hx with hx
      subst hx
      have := hmin j hj
      simp only [typeIs, cpuIs, decide_eq_true_eq, decide_eq_false_iff_not]
      intro hc
      exact this ⟨hc.1.symm, hc.2.symm⟩
  obtain ⟨c2, _, hcall⟩ := (romBootCpuGet_spec K st cpuId fuel hv hcap hwf hf).2 _ hfind
  refine ⟨{ st with s_imageIdx := c2 }, ?_⟩
  rw [hcall out]
  simp only [imgOutOf, hcpu]

/-- C2 instance: in `exH` the cpu byte 1 occurs in entry 1 (type 4) and entry 2
(type EXEC = 3); the lookup of cpu 1 returns the data of entry 2. -/
theorem romBootCpuGet_found_witness :
    ∃ s, DEV_SM_RomBootCpuGet exK 4 exS 1 ⟨7, 7, 7⟩ =
      some (SM_ERR_SUCCESS, ⟨0x3000, 6, 5⟩, s) :=
  romBootCpuGet_found exK exS 1 ⟨7, 7, 7⟩ 4 (by decide) (by decide) (by decide) (by decide)
    (by decide) (by decide) 2 (by decide) (by decide) (by decide) (by decide)

/-- C3: on a valid handover record, a `cpuId` that matches no listed EXEC image
makes `DEV_SM_RomBootCpuGet` return `SM_ERR_NOT_FOUND` with the outputs
untouched and the scan cursor equal to the image count; for every `cpuId` the
whole result is the same whatever the cursor held before the call, the call
returns, and calling again with the same id on the state and outputs it left
gives the same result. -/
theorem romBootCpuGet_not_found (K : RomConsts) (st : RomState) (cpuId : Nat) (out : CpuOut)
    (fuel : Nat)
    (hbarker : st.handover.barker = 0xC0FFEE16) (hver : st.handover.ver = 2)
    (hsize : K.sizeof_rom_handover_t ≤ st.handover.size)
    (hcap : st.handover.num ≤ st.handover.img.length) (hwf : st.handover.num < 2 ^ 32)
    (hf : st.handover.num < fuel) :
    ((∀ i, i < st.handover.num →
        ¬ (ROM_HANDOVER_IMG_TYPE (imgAt st.handover i).flags = K.DEV_SM_ROM_IMG_EXEC ∧
            ROM_HANDOVER_IMG_CPU (imgAt st.handover i).flags = cpuId)) →
      DEV_SM_RomBootCpuGet K fuel st cpuId out =
        some (SM_ERR_NOT_FOUND, out, { st with s_imageIdx := st.handover.num })) ∧
    (∀ c, DEV_SM_RomBootCpuGet K fuel { st with s_imageIdx := c } cpuId out =
      DEV_SM_RomBootCpuGet K fuel st cpuId out) ∧
    (∃ r, DEV_SM_RomBootCpuGet K fuel st cpuId out = some r ∧
      DEV_SM_RomBootCpuGet K fuel r.2.2 cpuId r.2.1 = some r) := by
  have hv : HandoverValid K st.handover := ⟨hbarker, hver, hsize⟩
  have hspec := romBootCpuGet_spec K st cpuId fuel hv hcap hwf hf
  refine ⟨?_, fun c => rfl, ?_⟩
  · intro hno
    apply hspec.1
    rw [List.find?_eq_none]
    intro x hx
    obtain ⟨i, hi, rfl⟩ := List.getElem_of_mem hx
    have hi2 : i < st.handover.num := by rwa [imgList_length _ hcap] at hi
    rw [← imgAt_eq_getElem _ hcap i hi]
    have := hno i hi2
    simp only [typeIs, cpuIs, decide_eq_true_eq]
    intro hc
    exact this ⟨hc.1.symm, hc.2.symm⟩
  · cases hfind : (imgList st.handover).find?
        (fun a => decide (typeIs K.DEV_SM_ROM_IMG_EXEC a = true ∧ cpuIs cpuId a = true)) with
    | none =>
      refine ⟨_, hspec.1 hfind out, ?_⟩
      exact hspec.1 hfind out
    | some e =>
      obtain ⟨c2, _, hcall⟩ := hspec.2 e hfind
      refine ⟨_, hcall out, ?_⟩
      exact hcall _

/-- C3 instance: no listed EXEC image of `exH` has cpu byte 2 (entry 3, which
has, lies beyond the image count), so the lookup of cpu 2 fails, leaves the
outputs as they were and the cursor at the image count 3. -/
theorem romBootCpuGet_not_found_witness :
    DEV_SM_RomBootCpuGet exK 4 exS 2 ⟨7, 7, 7⟩ =
      some (SM_ERR_NOT_FOUND, ⟨7, 7, 7⟩, { exS with s_imageIdx := 3 }) :=
  (romBootCpuGet_not_found exK exS 2 ⟨7, 7, 7⟩ 4 (by decide) (by decide) (by decide)
    (by decide) (by decide) (by decide)).1 (by decide)

/-! Properties of the wake-mask bracket of `DEV_SM_SystemSleep` -/

theorem forRange_frame {σ α : Type} (proj : σ → α) (body : Nat → σ → σ) (n : Nat)
    (h : ∀ i s, i < n → proj (body i s) = proj s) (s : σ) :
    proj (forRange n body s) = proj s := by
  induction n with
  | zero => rfl
  | succ k ih =>
    show proj (body k (forRange k body s)) = proj s
    rw [h k _ (Nat.lt_succ_self k)]
    exact ih (fun i s hi => h i s (Nat.lt_succ_of_lt hi))

theorem forRange_at {σ α : Type} (proj : σ → α) (body : Nat → σ → σ) (i0 : Nat) (F : α → α)
    (hother : ∀ i s, i ≠ i0 → proj (body i s) = proj s)
    (hat : ∀ s, proj (body i0 s) = F (proj s)) (n : Nat) (hn : i0 < n) (s : σ) :
    proj (forRange n body s) = F (proj s) := by
  induction n with
  | zero => omega
  | succ k ih =>
    show proj (body k (forRange k body s)) = F (proj s)
    by_cases hk : k = i0
    · subst hk
      rw [hat, forRange_frame proj body k (fun i s hi => hother i s (by omega))]
    · rw [hother k _ hk]
      exact ih (by omega)

theorem irqWakeSet_wakeMask (O : SysOracle) (m : SleepM) (cpuIdx wakeIdx val c w : Nat) :
    (CPU_IrqWakeSet O m cpuIdx wakeIdx val).wakeMask c w =
      if O.irqWakeSetOk cpuIdx wakeIdx = true ∧ c = cpuIdx ∧ w = wakeIdx then val
      else m.wakeMask c w := by
  unfold CPU_IrqWakeSet
  by_cases hok : O.irqWakeSetOk cpuIdx wakeIdx = true
  · by_cases hc : c = cpuIdx ∧ w = wakeIdx
    · simp [hok, hc, set2]
    · have hc2 : ¬ (O.irqWakeSetOk cpuIdx wakeIdx = true ∧ c = cpuIdx ∧ w = wakeIdx) :=
        fun h => hc h.2
      rw [if_pos hok, if_neg hc2]
      simp only [set2]
      rw [if_neg hc]
  · simp [hok]

theorem irqWakeSet_cpuWakeMask (O : SysOracle) (m : SleepM) (cpuIdx wakeIdx val : Nat) :
    (CPU_IrqWakeSet O m cpuIdx wakeIdx val).cpuWakeMask = m.cpuWakeMask := by
  unfold CPU_IrqWakeSet
  split <;> rfl

theorem irqWakeSet_wk_other (O : SysOracle) (m : SleepM) (cpuIdx wakeIdx val c w : Nat)
    (h : ¬ (c = cpuIdx ∧ w = wakeIdx)) :
    wk c w (CPU_IrqWakeSet O m cpuIdx wakeIdx val) = wk c w m := by
  unfold wk
  rw [irqWakeSet_wakeMask, irqWakeSet_cpuWakeMask, if_neg (fun hh => h hh.2)]

/-- The wake-mask loop of the CPU scan, for a core other than `c`, leaves the
mask and the captured copy of core `c` alone. -/
theorem scanWakeNotForced_other (K : SysConsts) (O : SysOracle) (cpuIdx c w : Nat)
    (h : c ≠ cpuIdx) (m : SleepM) : wk c w (scanWakeNotForced K O cpuIdx m) = wk c w m := by
  unfold scanWakeNotForced
  apply forRange_frame
  intro i s _
  dsimp only [CPU_IrqWakeGet]
  split
  · next wakeVal _ =>
    rw [irqWakeSet_wk_other _ _ _ _ _ _ _ (fun hh => h hh.1)]
    simp [wk, set2, h]
  · rfl

theorem scanWakeForced_other (K : SysConsts) (O : SysOracle) (cpuIdx c w : Nat)
    (h : c ≠ cpuIdx) (m : SleepM) : wk c w (scanWakeForced K O cpuIdx m) = wk c w m := by
  unfold scanWakeForced
  apply forRange_frame
  intro i s _
  dsimp only [CPU_IrqWakeGet]
  split
  · next wakeVal _ =>
    rw [irqWakeSet_wk_other _ _ _ _ _ _ _ (fun hh => h hh.1)]
    simp [wk, set2, h]
  · rfl

/-- The wake-mask loop of the CPU scan for core `c` itself, word `w` in range
and read successfully: the mask is captured, and set to all-ones when the
write is accepted. -/
theorem scanWakeNotForced_same (K : SysConsts) (O : SysOracle) (c w : Nat)
    (hw : w < K.GPC_CPU_CTRL_CMC_IRQ_WAKEUP_MASK_COUNT) (hget : O.irqWakeGetOk c w = true)
    (m : SleepM) :
    wk c w (scanWakeNotForced K O c m) =
      (if O.irqWakeSetOk c w = true then 0xFFFFFFFF else m.wakeMask c w, m.wakeMask c w) := by
  unfold scanWakeNotForced
  refine forRange_at (wk c w) _ w
    (fun p => (if O.irqWakeSetOk c w = true then 0xFFFFFFFF else p.1, p.1)) ?_ ?_ _ hw m
  · intro i s hi
    dsimp only [CPU_IrqWakeGet]
    split
    · next wakeVal _ =>
      rw [irqWakeSet_wk_other _ _ _ _ _ _ _ (fun hh => hi hh.2.symm)]
      simp [wk, set2, Ne.symm hi]
    · rfl
  · intro s
    simp only [CPU_IrqWakeGet, hget, if_true]
    simp [wk, irqWakeSet_wakeMask, irqWakeSet_cpuWakeMask, set2]

theorem scanWakeForced_same (K : SysConsts) (O : SysOracle) (c w : Nat)
    (hw : w < K.GPC_CPU_CTRL_CMC_IRQ_WAKEUP_MASK_COUNT) (hget : O.irqWakeGetOk c w = true)
    (m : SleepM) :
    wk c w (scanWakeForced K O c m) =
      (if O.irqWakeSetOk c w = true then 0xFFFFFFFF else m.wakeMask c w, m.wakeMask c w) := by
  unfold scanWakeForced
  refine forRange_at (wk c w) _ w
    (fun p => (if O.irqWakeSetOk c w = true then 0xFFFFFFFF else p.1, p.1)) ?_ ?_ _ hw m
  · intro i s hi
    dsimp only [CPU_IrqWakeGet]
    split
    · next wakeVal _ =>
      rw [irqWakeSet_wk_other _ _ _ _ _ _ _ (fun hh => hi hh.2.symm)]
      simp [wk, set2, Ne.symm hi]
    · rfl
  · intro s
    simp only [CPU_IrqWakeGet, hget, if_true]
    simp [wk, irqWakeSet_wakeMask, irqWakeSet_cpuWakeMask, set2]

theorem scanLpm_wk (K : SysConsts) (O : SysOracle) (cpuIdx c w : Nat) (m : SleepM) :
    wk c w (scanLpm K O cpuIdx m) = wk c w m := by
  unfold scanLpm
  cases O.SRC_MixCpuLpmGet K.PWR_MIX_SLICE_IDX_NOC cpuIdx <;>
  cases O.SRC_MixCpuLpmGet K.PWR_MIX_SLICE_IDX_WAKEUP cpuIdx <;>
  simp only [wk] <;> split_ifs <;> rfl

theorem scanCpu_other (K : SysConsts) (O : SysOracle) (cpuIdx c w : Nat) (h : c ≠ cpuIdx)
    (m : SleepM) : wk c w (scanCpu K O cpuIdx m) = wk c w m := by
  unfold scanCpu
  split
  · split
    · rw [scanLpm_wk, scanWakeNotForced_other K O cpuIdx c w h]
    · rw [scanWakeForced_other K O cpuIdx c w h]
    · rfl
  · rfl

/-- The scan of core `c` itself, a secondary core whose sleep-force query
succeeds: word `w` is captured and the hardware mask set to all-ones when
the write is accepted. -/
theorem scanCpu_same (K : SysConsts) (O : SysOracle) (c w : Nat)
    (hc : c ≠ K.CPU_IDX_M33P) (hforce : (O.CPU_SleepForceGet c).isSome = true)
    (hw : w < K.GPC_CPU_CTRL_CMC_IRQ_WAKEUP_MASK_COUNT) (hget : O.irqWakeGetOk c w = true)
    (m : SleepM) :
    wk c w (scanCpu K O c m) =
      (if O.irqWakeSetOk c w = true then 0xFFFFFFFF else m.wakeMask c w, m.wakeMask c w) := by
  unfold scanCpu
  rw [if_pos hc]
  cases hf : O.CPU_SleepForceGet c with
  | none => rw [hf] at hforce; cases hforce
  | some f =>
    cases f with
    | false =>
      dsimp only
      rw [scanLpm_wk, scanWakeNotForced_same K O c w hw hget]
    | true =>
      dsimp only
      rw [scanWakeForced_same K O c w hw hget]

/-- A word outside the wake-mask range is not touched by the scan. -/
theorem scanCpu_word_out (K : SysConsts) (O : SysOracle) (cpuIdx c w : Nat)
    (hw : ¬ w < K.GPC_CPU_CTRL_CMC_IRQ_WAKEUP_MASK_COUNT) (m : SleepM) :
    wk c w (scanCpu K O cpuIdx m) = wk c w m := by
  have hbody : ∀ (i : Nat) (s : SleepM) (v : Nat),
      i < K.GPC_CPU_CTRL_CMC_IRQ_WAKEUP_MASK_COUNT →
      wk c w (CPU_IrqWakeSet O s cpuIdx i v) = wk c w s := by
    intro i s v hi
    exact irqWakeSet_wk_other _ _ _ _ _ _ _ (fun hh => hw (hh.2 ▸ hi))
  have hset : ∀ (i : Nat) (a : Nat → Nat → Nat) (v : Nat),
      i < K.GPC_CPU_CTRL_CMC_IRQ_WAKEUP_MASK_COUNT → set2 a cpuIdx i v c w = a c w := by
    intro i a v hi
    have : ¬ (c = cpuIdx ∧ w = i) := fun hh => hw (hh.2 ▸ hi)
    simp [set2, this]
  unfold scanCpu
  split
  · split
    · rw [scanLpm_wk]
      unfold scanWakeNotForced
      apply forRange_frame
      intro i s hi
      dsimp only [CPU_IrqWakeGet]
      split
      · rw [hbody _ _ _ hi]
        simp only [wk, hset _ _ _ hi]
      · rfl
    · unfold scanWakeForced
      apply forRange_frame
      intro i s hi
      dsimp only [CPU_IrqWakeGet]
      split
      · rw [hbody _ _ _ hi]
        simp only [wk, hset _ _ _ hi]
      · rfl
    · rfl
  · rfl

/-- Effect of the whole CPU scan on the hardware mask word `w` of a secondary
core `c` and on its captured copy. -/
theorem scanCpus_wk (K : SysConsts) (O : SysOracle) (c w : Nat)
    (hc : c ≠ K.CPU_IDX_M33P)
    (hforce : c < K.CPU_NUM_IDX → (O.CPU_SleepForceGet c).isSome = true)
    (hget : c < K.CPU_NUM_IDX → w < K.GPC_CPU_CTRL_CMC_IRQ_WAKEUP_MASK_COUNT →
      O.irqWakeGetOk c w = true)
    (m : SleepM) :
    (scanCpus K O m).wakeMask c w =
      (if c < K.CPU_NUM_IDX ∧ w < K.GPC_CPU_CTRL_CMC_IRQ_WAKEUP_MASK_COUNT ∧
          O.irqWakeSetOk c w = true then 0xFFFFFFFF else m.wakeMask c w) ∧
    (c < K.CPU_NUM_IDX → w < K.GPC_CPU_CTRL_CMC_IRQ_WAKEUP_MASK_COUNT →
      (scanCpus K O m).cpuWakeMask c w = m.wakeMask c w) := by
  unfold scanCpus
  by_cases hcn : c < K.CPU_NUM_IDX
  · by_cases hw : w < K.GPC_CPU_CTRL_CMC_IRQ_WAKEUP_MASK_COUNT
    · have h := forRange_at (wk c w) (scanCpu K O) c
        (fun p => (if O.irqWakeSetOk c w = true then 0xFFFFFFFF else p.1, p.1))
        (fun i s hi => scanCpu_other K O i c w (Ne.symm hi) s)
        (fun s => scanCpu_same K O c w hc (hforce hcn) hw (hget hcn hw) s)
        K.CPU_NUM_IDX hcn m
      simp only [wk, Prod.mk.injEq] at h
      refine ⟨?_, fun _ _ => h.2⟩
      rw [h.1]
      simp [hcn, hw]
    · have h := forRange_frame (wk c w) (scanCpu K O) K.CPU_NUM_IDX
        (fun i s _ => scanCpu_word_out K O i c w hw s) m
      simp only [wk, Prod.mk.injEq] at h
      refine ⟨?_, fun _ hw2 => absurd hw2 hw⟩
      rw [h.1]
      simp [hw]
  · have h := forRange_frame (wk c w) (scanCpu K O) K.CPU_NUM_IDX
      (fun i s hi => scanCpu_other K O i c w (by omega) s) m
    simp only [wk, Prod.mk.injEq] at h
    refine ⟨?_, fun hcn2 _ => absurd hcn2 hcn⟩
    rw [h.1]
    simp [hcn]

/-- Effect of the restore loop on the hardware mask word `w` of a secondary
core `c`. -/
theorem wakeMaskRestore_wakeMask (K : SysConsts) (O : SysOracle) (c w : Nat)
    (hc : c ≠ K.CPU_IDX_M33P) (m : SleepM) :
    (wakeMaskRestore K O m).wakeMask c w =
      if c < K.CPU_NUM_IDX ∧ w < K.GPC_CPU_CTRL_CMC_IRQ_WAKEUP_MASK_COUNT ∧
          O.irqWakeSetOk c w = true then m.cpuWakeMask c w else m.wakeMask c w := by
  have hinner_other : ∀ (i : Nat) (s : SleepM), i ≠ c →
      wk c w (forRange K.GPC_CPU_CTRL_CMC_IRQ_WAKEUP_MASK_COUNT (fun wakeIdx m =>
        CPU_IrqWakeSet O m i wakeIdx (m.cpuWakeMask i wakeIdx)) s) = wk c w s := by
    intro i s hi
    apply forRange_frame
    intro j t _
    exact irqWakeSet_wk_other _ _ _ _ _ _ _ (fun hh => hi hh.1.symm)
  have hbody_other : ∀ (i : Nat) (s : SleepM), i ≠ c →
      wk c w (if i ≠ K.CPU_IDX_M33P then
        forRange K.GPC_CPU_CTRL_CMC_IRQ_WAKEUP_MASK_COUNT (fun wakeIdx m =>
          CPU_IrqWakeSet O m i wakeIdx (m.cpuWakeMask i wakeIdx)) s else s) = wk c w s := by
    intro i s hi
    split
    · exact hinner_other i s hi
    · rfl
  unfold wakeMaskRestore
  by_cases hcn : c < K.CPU_NUM_IDX
  · by_cases hw : w < K.GPC_CPU_CTRL_CMC_IRQ_WAKEUP_MASK_COUNT
    · have h := forRange_at (wk c w) _ c
        (fun p => (if O.irqWakeSetOk c w = true then p.2 else p.1, p.2))
        hbody_other
        (fun s => by
          rw [if_pos hc]
          refine forRange_at (wk c w) _ w
            (fun p => (if O.irqWakeSetOk c w = true then p.2 else p.1, p.2)) ?_ ?_ _ hw s
          · intro j t hj
            exact irqWakeSet_wk_other _ _ _ _ _ _ _ (fun hh => hj hh.2.symm)
          · intro t
            simp [wk, irqWakeSet_wakeMask, irqWakeSet_cpuWakeMask])
        K.CPU_NUM_IDX hcn m
      simp only [wk, Prod.mk.injEq] at h
      rw [h.1]
      simp [hcn, hw]
    · have h := forRange_frame (wk c w) (fun cpuIdx m =>
          if cpuIdx ≠ K.CPU_IDX_M33P then
            forRange K.GPC_CPU_CTRL_CMC_IRQ_WAKEUP_MASK_COUNT (fun wakeIdx m =>
              CPU_IrqWakeSet O m cpuIdx wakeIdx (m.cpuWakeMask cpuIdx wakeIdx)) m
          else m) K.CPU_NUM_IDX
        (fun i s _ => by
          dsimp only
          split
          · apply forRange_frame
            intro j t hj
            exact irqWakeSet_wk_other _ _ _ _ _ _ _ (fun hh => hw (hh.2 ▸ hj))
          · rfl) m
      simp only [wk, Prod.mk.injEq] at h
      rw [h.1]
      simp [hw]
  · have h := forRange_frame (wk c w) (fun cpuIdx m =>
        if cpuIdx ≠ K.CPU_IDX_M33P then
          forRange K.GPC_CPU_CTRL_CMC_IRQ_WAKEUP_MASK_COUNT (fun wakeIdx m =>
            CPU_IrqWakeSet O m cpuIdx wakeIdx (m.cpuWakeMask cpuIdx wakeIdx)) m
        else m) K.CPU_NUM_IDX
      (fun i s hi => hbody_other i s (by omega)) m
    simp only [wk, Prod.mk.injEq] at h
    rw [h.1]
    simp [hcn]

/-! Steps that leave the wake masks alone -/

theorem sleepCaptureStart_wakeMask (O : SysOracle) (m : SleepM) :
    (sleepCaptureStart O m).wakeMask = m.wakeMask := rfl

theorem sleepRecordCapture_wakeMask (K : SysConsts) (O : SysOracle) (m : SleepM) :
    (sleepRecordCapture K O m).wakeMask = m.wakeMask := rfl

theorem wakeMaskInit_wakeMask (K : SysConsts) (m : SleepM) :
    (wakeMaskInit K m).wakeMask = m.wakeMask := by
  unfold wakeMaskInit
  apply forRange_frame (fun m : SleepM => m.wakeMask)
  intro i s _
  dsimp only
  refine Eq.trans (forRange_frame (fun m : SleepM => m.wakeMask) _ _ ?_ _) rfl
  intro j t _
  rfl

theorem lpmSettingInit_wakeMask (K : SysConsts) (m : SleepM) :
    (lpmSettingInit K m).wakeMask = m.wakeMask := rfl

theorem suspendPrepare_wk (c w : Nat) (m : SleepM) :
    wk c w (suspendPrepare m) = wk c w m := by
  simp only [suspendPrepare, wk, SleepM.emit]
  split_ifs <;> rfl

theorem suspendDdr_wk (K : SysConsts) (O : SysOracle) (c w : Nat) (m : SleepM) :
    wk c w (suspendDdr K O m) = wk c w m := by
  simp only [suspendDdr, wk, SleepM.emit, clearMixPwrStat]
  split_ifs <;> rfl

theorem suspendNoc_wk (K : SysConsts) (O : SysOracle) (sleepMode c w : Nat) (m : SleepM) :
    wk c w (suspendNoc K O sleepMode m) = wk c w m := by
  simp only [suspendNoc, wk, SleepM.emit, clearMixPwrStat]
  split_ifs <;> rfl

theorem suspendWakeup_wk (K : SysConsts) (O : SysOracle) (sleepMode c w : Nat) (m : SleepM) :
    wk c w (suspendWakeup K O sleepMode m) = wk c w m := by
  simp only [suspendWakeup, wk, SleepM.emit, clearMixPwrStat]
  split_ifs <;> rfl

theorem suspendHandshakes_wk (c w : Nat) (m : SleepM) :
    wk c w (suspendHandshakes m) = wk c w m := rfl

/-- Programming the system-level wake sources writes the wake mask of the
M33P only. -/
theorem suspendWakeSources_wk (K : SysConsts) (O : SysOracle) (c w : Nat)
    (hc : c ≠ K.CPU_IDX_M33P) (m : SleepM) :
    wk c w (suspendWakeSources K O m) = wk c w m := by
  unfold suspendWakeSources
  apply forRange_frame
  intro i s _
  simp only [wk, SleepM.emit, irqWakeSet_wakeMask, irqWakeSet_cpuWakeMask]
  rw [if_neg (fun hh => hc hh.2.1)]

theorem suspendSleepMode_wk (K : SysConsts) (sleepMode c w : Nat) (m : SleepM) :
    wk c w (suspendSleepMode K sleepMode m) = wk c w m := rfl

theorem emit_wk (c w : Nat) (m : SleepM) (e : Event) : wk c w (m.emit e) = wk c w m := rfl

theorem emitIf_wk (c w : Nat) (m : SleepM) (b : Bool) (e : Event) :
    wk c w (m.emitIf b e) = wk c w m := by
  unfold SleepM.emitIf
  split <;> rfl

theorem suspendEntryLatency_wk (O : SysOracle) (c w : Nat) (m : SleepM) :
    wk c w (suspendEntryLatency O m) = wk c w m := by
  simp only [suspendEntryLatency, DEV_SM_Usec64Get, wk]
  split_ifs <;> rfl

theorem suspendClockRoots_wk (K : SysConsts) (O : SysOracle) (c w : Nat) (m : SleepM) :
    wk c w (suspendClockRoots K O m) = wk c w m := by
  unfold suspendClockRoots
  dsimp only
  split
  · rfl
  · refine Eq.trans (forRange_frame (wk c w) _ _ ?_ _) rfl
    intro i s _
    rfl

/-- The power-down loop of the SYSPLL clock nodes terminates and only appends
to the trace. -/
theorem sysPllDownLoop_trace (K : SysConsts) (hvco : 0 < K.CLOCK_SRC_SYSPLL1_VCO) :
    ∀ (fuel idx : Nat) (m : SleepM), idx < 2 ^ 32 →
      idx + 1 - K.CLOCK_SRC_SYSPLL1_VCO < fuel →
      ∃ evs, sysPllDownLoop K fuel idx m = some { m with trace := m.trace ++ evs } := by
  intro fuel
  induction fuel with
  | zero => intro idx m _ hf; omega
  | succ n ih =>
    intro idx m hidx hf
    unfold sysPllDownLoop
    by_cases hge : idx ≥ K.CLOCK_SRC_SYSPLL1_VCO
    · have hdec : (idx + 2 ^ 32 - 1) % 2 ^ 32 = idx - 1 := by omega
      rw [if_pos hge, hdec]
      obtain ⟨evs, hevs⟩ := ih (idx - 1)
        (m.emit (Event.CLOCK_SourceSetEnable idx false)) (by omega) (by omega)
      refine ⟨[Event.CLOCK_SourceSetEnable idx false] ++ evs, ?_⟩
      rw [hevs]
      simp [SleepM.emit, List.append_assoc]
    · rw [if_neg hge]
      exact ⟨[], by simp⟩

/-- The power-up loop of the SYSPLL clock nodes terminates and only appends to
the trace. -/
theorem sysPllUpLoop_trace (K : SysConsts) (hpfd : K.CLOCK_SRC_SYSPLL1_PFD2_DIV2 + 1 < 2 ^ 32) :
    ∀ (fuel idx : Nat) (m : SleepM),
      K.CLOCK_SRC_SYSPLL1_PFD2_DIV2 + 1 - idx < fuel →
      ∃ evs, sysPllUpLoop K fuel idx m = some { m with trace := m.trace ++ evs } := by
  intro fuel
  induction fuel with
  | zero => intro idx m hf; omega
  | succ n ih =>
    intro idx m hf
    unfold sysPllUpLoop
    by_cases hle : idx ≤ K.CLOCK_SRC_SYSPLL1_PFD2_DIV2
    · have hinc : (idx + 1) % 2 ^ 32 = idx + 1 := Nat.mod_eq_of_lt (by omega)
      rw [if_pos hle, hinc]
      obtain ⟨evs, hevs⟩ := ih (idx + 1)
        (m.emit (Event.CLOCK_SourceSetEnable idx true)) (by omega)
      refine ⟨[Event.CLOCK_SourceSetEnable idx true] ++ evs, ?_⟩
      rw [hevs]
      simp [SleepM.emit, List.append_assoc]
    · rw [if_neg hle]
      exact ⟨[], by simp⟩

theorem suspendSysPll_wk (K : SysConsts) (fuel c w : Nat) (m : SleepM)
    (hvco : 0 < K.CLOCK_SRC_SYSPLL1_VCO) (hpfd : K.CLOCK_SRC_SYSPLL1_PFD2_DIV2 + 1 < 2 ^ 32)
    (hfuel : K.CLOCK_SRC_SYSPLL1_PFD2_DIV2 + 1 - K.CLOCK_SRC_SYSPLL1_VCO < fuel) :
    ∃ m2, suspendSysPll K fuel m = some m2 ∧ wk c w m2 = wk c w m := by
  unfold suspendSysPll
  split
  · obtain ⟨evs, hevs⟩ := sysPllDownLoop_trace K hvco fuel K.CLOCK_SRC_SYSPLL1_PFD2_DIV2 m
      (by omega) hfuel
    rw [hevs]
    exact ⟨_, rfl, rfl⟩
  · exact ⟨m, rfl, rfl⟩

theorem suspendHalt_wk (K : SysConsts) (O : SysOracle) (sleepMode c w : Nat) (m : SleepM) :
    wk c w (suspendHalt K O sleepMode m) = wk c w m := by
  unfold suspendHalt
  dsimp only
  rw [emit_wk, emit_wk]
  show wk c w (SleepM.emitIf _ _ _) = _
  rw [emitIf_wk, emit_wk, emit_wk, emit_wk, emit_wk, emitIf_wk, emitIf_wk,
    suspendEntryLatency_wk, emit_wk, emit_wk]

theorem resumeSysPll_wk (K : SysConsts) (fuel c w : Nat) (m : SleepM)
    (hpfd : K.CLOCK_SRC_SYSPLL1_PFD2_DIV2 + 1 < 2 ^ 32)
    (hfuel : K.CLOCK_SRC_SYSPLL1_PFD2_DIV2 + 1 - K.CLOCK_SRC_SYSPLL1_VCO < fuel) :
    ∃ m2, resumeSysPll K fuel m = some m2 ∧ wk c w m2 = wk c w m := by
  unfold resumeSysPll
  split
  · obtain ⟨evs, hevs⟩ := sysPllUpLoop_trace K hpfd fuel K.CLOCK_SRC_SYSPLL1_VCO m hfuel
    rw [hevs]
    exact ⟨_, rfl, rfl⟩
  · exact ⟨m, rfl, rfl⟩

theorem resumeClockRoots_wk (K : SysConsts) (c w : Nat) (m : SleepM) :
    wk c w (resumeClockRoots K m) = wk c w m := by
  unfold resumeClockRoots
  split
  · rfl
  · refine Eq.trans (forRange_frame (wk c w) _ _ ?_ m) rfl
    intro i s _
    rfl

theorem resumeClocks_wk (K : SysConsts) (c w : Nat) (m : SleepM) :
    wk c w (resumeClocks K m) = wk c w m :=
  Eq.trans rfl (resumeClockRoots_wk K c w m)

theorem resumeWakeup_wk (O : SysOracle) (c w : Nat) (m : SleepM) :
    wk c w (resumeWakeup O m) = wk c w m := by
  unfold resumeWakeup
  split <;> rfl

theorem resumeWakeupPerf_wk (O : SysOracle) (c w : Nat) (m : SleepM) :
    wk c w (resumeWakeupPerf O m) = wk c w m := by
  unfold resumeWakeupPerf
  split <;> rfl

theorem resumeNoc_wk (O : SysOracle) (sleepMode c w : Nat) (m : SleepM) :
    wk c w (resumeNoc O sleepMode m) = wk c w m := by
  unfold resumeNoc
  split <;> rfl

theorem resumeDdrPower_wk (O : SysOracle) (c w : Nat) (m : SleepM) :
    wk c w (resumeDdrPower O m) = wk c w m := by
  unfold resumeDdrPower
  split <;> rfl

theorem resumeDdrRetention_wk (O : SysOracle) (c w : Nat) (m : SleepM) :
    wk c w (resumeDdrRetention O m) = wk c w m := by
  unfold resumeDdrRetention
  split <;> rfl

theorem resumeDdr_wk (O : SysOracle) (c w : Nat) (m : SleepM) :
    wk c w (resumeDdr O m) = wk c w m := by
  unfold resumeDdr
  split
  · rw [resumeDdrRetention_wk, resumeDdrPower_wk]
  · rfl

theorem resumeDomains_wk (O : SysOracle) (sleepMode c w : Nat) (m : SleepM) :
    wk c w (resumeDomains O sleepMode m) = wk c w m := by
  unfold resumeDomains
  dsimp only
  rw [resumeDdr_wk, resumeNoc_wk, resumeWakeupPerf_wk, resumeWakeup_wk]

theorem resumeFinish_wk (K : SysConsts) (c w : Nat) (m : SleepM) :
    wk c w (resumeFinish K m) = wk c w m := by
  unfold resumeFinish
  refine Eq.trans (forRange_frame (wk c w) _ _ ?_ m) rfl
  intro i s _
  rfl

theorem sleepDidNotSleep_wk (O : SysOracle) (c w : Nat) (m : SleepM) :
    wk c w (sleepDidNotSleep O m) = wk c w m := by
  simp only [sleepDidNotSleep, DEV_SM_Usec64Get, wk]
  split_ifs <;> rfl

theorem sleepExitLatency_wakeMask (O : SysOracle) (m : SleepM) :
    (sleepExitLatency O m).wakeMask = m.wakeMask := by
  simp only [sleepExitLatency, DEV_SM_Usec64Get]
  split_ifs <;> rfl

/-- The SUSPEND sequence returns and leaves the wake masks of the secondary
cores and their captured copies as they were. -/
theorem suspendSeq_wk (K : SysConsts) (O : SysOracle) (fuel sleepMode c w : Nat) (m : SleepM)
    (hc : c ≠ K.CPU_IDX_M33P)
    (hvco : 0 < K.CLOCK_SRC_SYSPLL1_VCO) (hpfd : K.CLOCK_SRC_SYSPLL1_PFD2_DIV2 + 1 < 2 ^ 32)
    (hfuel : K.CLOCK_SRC_SYSPLL1_PFD2_DIV2 + 1 - K.CLOCK_SRC_SYSPLL1_VCO < fuel) :
    ∃ m2, suspendSeq K O fuel sleepMode m = some m2 ∧ wk c w m2 = wk c w m := by
  unfold suspendSeq
  dsimp only
  obtain ⟨m1, h1, hw1⟩ := suspendSysPll_wk K fuel c w
    (suspendClockRoots K O (suspendSleepMode K sleepMode (suspendWakeSources K O
      (suspendHandshakes (suspendWakeup K O sleepMode (suspendNoc K O sleepMode
        (suspendDdr K O (suspendPrepare m)))))))) hvco hpfd hfuel
  obtain ⟨m2, h2, hw2⟩ := resumeSysPll_wk K fuel c w (suspendHalt K O sleepMode m1) hpfd hfuel
  rw [h1, Option.some_bind, h2, Option.some_bind]
  refine ⟨_, rfl, ?_⟩
  rw [resumeFinish_wk, resumeDomains_wk, resumeClocks_wk, hw2, suspendHalt_wk, hw1,
    suspendClockRoots_wk, suspendSleepMode_wk, suspendWakeSources_wk K O c w hc,
    suspendHandshakes_wk, suspendWakeup_wk, suspendNoc_wk, suspendDdr_wk, suspendPrepare_wk]

/-- The part of `DEV_SM_SystemSleep` before the sleep status check, seen from
word `w` of a secondary core `c`. -/
theorem sleepOpen_wk (K : SysConsts) (O : SysOracle) (s : SysState) (c w : Nat)
    (hc : c ≠ K.CPU_IDX_M33P)
    (hforce : c < K.CPU_NUM_IDX → (O.CPU_SleepForceGet c).isSome = true)
    (hget : c < K.CPU_NUM_IDX → w < K.GPC_CPU_CTRL_CMC_IRQ_WAKEUP_MASK_COUNT →
      O.irqWakeGetOk c w = true) :
    (sleepOpen K O s).wakeMask c w =
      (if c < K.CPU_NUM_IDX ∧ w < K.GPC_CPU_CTRL_CMC_IRQ_WAKEUP_MASK_COUNT ∧
          O.irqWakeSetOk c w = true then 0xFFFFFFFF else s.wakeMask c w) ∧
    (c < K.CPU_NUM_IDX → w < K.GPC_CPU_CTRL_CMC_IRQ_WAKEUP_MASK_COUNT →
      (sleepOpen K O s).cpuWakeMask c w = s.wakeMask c w) := by
  have hpre : (lpmSettingInit K (wakeMaskInit K (sleepRecordCapture K O
      (sleepCaptureStart O (sleepEnter s))))).wakeMask = s.wakeMask := by
    rw [lpmSettingInit_wakeMask, wakeMaskInit_wakeMask, sleepRecordCapture_wakeMask,
      sleepCaptureStart_wakeMask]
    rfl
  have h := scanCpus_wk K O c w hc hforce hget (lpmSettingInit K (wakeMaskInit K
    (sleepRecordCapture K O (sleepCaptureStart O (sleepEnter s)))))
  rw [hpre] at h
  exact h

/-- The part of `DEV_SM_SystemSleep` after the sleep status check, seen from
word `w` of a secondary core `c`. -/
theorem sleepClose_wakeMask (K : SysConsts) (O : SysOracle) (m : SleepM) (c w : Nat)
    (hc : c ≠ K.CPU_IDX_M33P) :
    (sleepClose K O m).2.wakeMask c w =
      if c < K.CPU_NUM_IDX ∧ w < K.GPC_CPU_CTRL_CMC_IRQ_WAKEUP_MASK_COUNT ∧
          O.irqWakeSetOk c w = true then m.cpuWakeMask c w else m.wakeMask c w := by
  have h1 : (sleepClose K O m).2.wakeMask =
      (wakeMaskRestore K O (sleepDidNotSleep O m)).wakeMask :=
    sleepExitLatency_wakeMask O _
  have h2 := sleepDidNotSleep_wk O c w m
  simp only [wk, Prod.mk.injEq] at h2
  rw [h1, wakeMaskRestore_wakeMask K O c w hc, h2.1, h2.2]

/-- C10: for every secondary core `c` (any index other than the M33P) and every
wake-mask word `w`, `DEV_SM_SystemSleep` returns and the hardware wake mask
afterwards equals the one before the call, whatever the sleep status query
answers, so whether or not the suspend sequence and the halt are executed.
Asked of the collaborators: the sleep-force query and the wake-mask read
report success for the core when its index is in range. -/
theorem systemSleep_wakeMask_restored (K : SysConsts) (O : SysOracle) (fuel : Nat)
    (s : SysState) (sleepMode c w : Nat)
    (hc : c ≠ K.CPU_IDX_M33P)
    (hforce : c < K.CPU_NUM_IDX → (O.CPU_SleepForceGet c).isSome = true)
    (hget : c < K.CPU_NUM_IDX → w < K.GPC_CPU_CTRL_CMC_IRQ_WAKEUP_MASK_COUNT →
      O.irqWakeGetOk c w = true)
    (hvco : 0 < K.CLOCK_SRC_SYSPLL1_VCO) (hpfd : K.CLOCK_SRC_SYSPLL1_PFD2_DIV2 + 1 < 2 ^ 32)
    (hfuel : K.CLOCK_SRC_SYSPLL1_PFD2_DIV2 + 1 - K.CLOCK_SRC_SYSPLL1_VCO < fuel) :
    ∃ r, DEV_SM_SystemSleep K O fuel s sleepMode = some r ∧
      r.2.wakeMask c w = s.wakeMask c w := by
  have hopen := sleepOpen_wk K O s c w hc hforce hget
  have hmid : ∃ m1,
      (match O.CPU_SystemSleepStatusGet with
        | some sysSleepStat =>
          if sysSleepStat = K.CPU_SLEEP_MODE_SUSPEND then
            suspendSeq K O fuel sleepMode (sleepOpen K O s)
          else some (sleepOpen K O s)
        | none => some (sleepOpen K O s)) = some m1 ∧
      wk c w m1 = wk c w (sleepOpen K O s) := by
    cases O.CPU_SystemSleepStatusGet with
    | none => exact ⟨_, rfl, rfl⟩
    | some stat =>
      dsimp only
      split
      · exact suspendSeq_wk K O fuel sleepMode c w _ hc hvco hpfd hfuel
      · exact ⟨_, rfl, rfl⟩
  obtain ⟨m1, hm1, hwk⟩ := hmid
  simp only [wk, Prod.mk.injEq] at hwk
  refine ⟨sleepClose K O m1, ?_, ?_⟩
  · unfold DEV_SM_SystemSleep
    dsimp only
    rw [hm1]
    rfl
  · rw [sleepClose_wakeMask K O m1 c w hc, hwk.1, hwk.2, hopen.1]
    by_cases hin : c < K.CPU_NUM_IDX ∧ w < K.GPC_CPU_CTRL_CMC_IRQ_WAKEUP_MASK_COUNT ∧
        O.irqWakeSetOk c w = true
    · rw [if_pos hin]
      exact hopen.2 hin.1 hin.2.1
    · rw [if_neg hin, if_neg hin]

/-- C10 instance: word 1 of core 1 holds 0x1011 before the call; the bracket
sets it to all-ones after the CPU scan; it holds 0x1011 again after the call,
both when the sleep status is SUSPEND (the trace then contains the halt) and
when it is not (no halt). -/
theorem systemSleep_wakeMask_restored_witness :
    (∃ r, DEV_SM_SystemSleep exSysK (exSysO (some 3)) 5 exSysS 3 = some r ∧
      r.2.wakeMask 1 1 = exSysS.wakeMask 1 1) ∧
    (∃ r, DEV_SM_SystemSleep exSysK (exSysO (some 0)) 5 exSysS 3 = some r ∧
      r.2.wakeMask 1 1 = exSysS.wakeMask 1 1) ∧
    exSysS.wakeMask 1 1 = 0x1011 ∧
    (sleepOpen exSysK (exSysO (some 3)) exSysS).wakeMask 1 1 = 0xFFFFFFFF ∧
    (DEV_SM_SystemSleep exSysK (exSysO (some 3)) 5 exSysS 3).map
      (fun r => decide (Event.WFI ∈ r.2.trace)) = some true ∧
    (DEV_SM_SystemSleep exSysK (exSysO (some 0)) 5 exSysS 3).map
      (fun r => decide (Event.WFI ∈ r.2.trace)) = some false :=
  ⟨systemSleep_wakeMask_restored exSysK (exSysO (some 3)) 5 exSysS 3 1 1 (by decide)
      (by decide) (by decide) (by decide) (by decide) (by decide),
    systemSleep_wakeMask_restored exSysK (exSysO (some 0)) 5 exSysS 3 1 1 (by decide)
      (by decide) (by decide) (by decide) (by decide) (by decide),
    by decide, by decide, by decide, by decide⟩

/-! Properties of `DEV_SM_SystemIdle` -/

/-- One call of `DEV_SM_SystemIdle` on the Idle-only path. -/
theorem systemIdle_idleOnly_eq (K : SysConsts) (I : IdleOracle) (fuel : Nat) (s : SysState)
    (h : IdleOnly K I s) :
    DEV_SM_SystemIdle K I fuel s =
      some (SM_ERR_SUCCESS, { s with trace := s.trace ++ idleOnlyEvents K }) := by
  unfold DEV_SM_SystemIdle
  dsimp only [SysState.emit]
  by_cases hf : s.s_sysSleepFlags &&& K.DEV_SM_SSF_SM_ACTIVE_MASK = 0
  · rw [if_pos hf]
    rcases h with h | ⟨stat, hs, hne⟩
    · exact absurd hf h
    · rw [hs]
      dsimp only
      rw [if_neg hne]
      simp [idleHalt, SysState.emit, idleOnlyEvents]
  · rw [if_neg hf]
    simp [idleHalt, SysState.emit, idleOnlyEvents]

/-- C15: on the Idle-only path (keep-SM-active flag set, or the sleep status
query of `DEV_SM_SystemIdle` reports a mode other than SUSPEND) a call returns
`SM_ERR_SUCCESS` and changes nothing of the state but the trace, to which it
appends: interrupts disabled, RUN sleep mode for the M33P, DSB, one WFI, ISB,
interrupts enabled.  Two successive calls on that path append that list twice,
so two halts, and leave every other part of the state as it was. -/
theorem systemIdle_idle_only (K : SysConsts) (I1 I2 : IdleOracle) (fuel : Nat) (s : SysState)
    (h1 : IdleOnly K I1 s) (h2 : IdleOnly K I2 s) :
    DEV_SM_SystemIdle K I1 fuel s =
        some (SM_ERR_SUCCESS, { s with trace := s.trace ++ idleOnlyEvents K }) ∧
      (idleOnlyEvents K).count Event.WFI = 1 ∧
      ((DEV_SM_SystemIdle K I1 fuel s).bind fun r => DEV_SM_SystemIdle K I2 fuel r.2) =
        some (SM_ERR_SUCCESS,
          { s with trace := s.trace ++ (idleOnlyEvents K ++ idleOnlyEvents K) }) ∧
      (idleOnlyEvents K ++ idleOnlyEvents K).count Event.WFI = 2 := by
  refine ⟨systemIdle_idleOnly_eq K I1 fuel s h1, by simp [idleOnlyEvents], ?_,
    by simp [idleOnlyEvents]⟩
  rw [systemIdle_idleOnly_eq K I1 fuel s h1, Option.some_bind]
  show DEV_SM_SystemIdle K I2 fuel { s with trace := s.trace ++ idleOnlyEvents K } = _
  rw [systemIdle_idleOnly_eq K I2 fuel { s with trace := s.trace ++ idleOnlyEvents K } h2]
  simp only [List.append_assoc]

/-- C15 instance: keep-SM-active flag clear, sleep status RUN (0) at the first
call and 1 at the second, SUSPEND being 3. -/
theorem systemIdle_idle_only_witness :
    DEV_SM_SystemIdle exSysK ⟨some 0, exSysO (some 0)⟩ 5 exSysS =
        some (SM_ERR_SUCCESS, { exSysS with trace := exSysS.trace ++ idleOnlyEvents exSysK }) ∧
      (idleOnlyEvents exSysK).count Event.WFI = 1 ∧
      ((DEV_SM_SystemIdle exSysK ⟨some 0, exSysO (some 0)⟩ 5 exSysS).bind
          fun r => DEV_SM_SystemIdle exSysK ⟨some 1, exSysO (some 3)⟩ 5 r.2) =
        some (SM_ERR_SUCCESS,
          { exSysS with trace := exSysS.trace ++ (idleOnlyEvents exSysK ++ idleOnlyEvents exSysK) }) ∧
      (idleOnlyEvents exSysK ++ idleOnlyEvents exSysK).count Event.WFI = 2 :=
  systemIdle_idle_only exSysK ⟨some 0, exSysO (some 0)⟩ ⟨some 1, exSysO (some 3)⟩ 5 exSysS
    (Or.inr ⟨0, rfl, by decide⟩) (Or.inr ⟨1, rfl, by decide⟩)

/-! The address override of `DEV_SM_RomBootCpuGet` -/

/-- The lookup result when entry `i` is the first listed EXEC image of
`cpuId`. -/
theorem romBootCpuGet_first (K : RomConsts) (st : RomState) (cpuId : Nat) (out : CpuOut)
    (fuel : Nat) (hv : HandoverValid K st.handover)
    (hcap : st.handover.num ≤ st.handover.img.length) (hwf : st.handover.num < 2 ^ 32)
    (hf : st.handover.num < fuel)
    (i : Nat) (hi : i < st.handover.num)
    (htype : ROM_HANDOVER_IMG_TYPE (imgAt st.handover i).flags = K.DEV_SM_ROM_IMG_EXEC)
    (hcpu : ROM_HANDOVER_IMG_CPU (imgAt st.handover i).flags = cpuId)
    (hmin : ∀ j, j < i →
      ¬ (ROM_HANDOVER_IMG_TYPE (imgAt st.handover j).flags = K.DEV_SM_ROM_IMG_EXEC ∧
          ROM_HANDOVER_IMG_CPU (imgAt st.handover j).flags = cpuId)) :
    ∃ s, DEV_SM_RomBootCpuGet K fuel st cpuId out =
      some (SM_ERR_SUCCESS,
        ⟨if st.s_m7AddValid = true ∧ cpuId = K.DEV_SM_CPU_M7P then st.s_m7Addr
            else (imgAt st.handover i).addr,
          ROM_HANDOVER_IMG_MSEL (imgAt st.handover i).flags,
          ROM_HANDOVER_IMG_FLAGS (imgAt st.handover i).flags⟩, s) := by
  have hfind : (imgList st.handover).find?
      (fun a => decide (typeIs K.DEV_SM_ROM_IMG_EXEC a = true ∧ cpuIs cpuId a = true)) =
      some (imgAt st.handover i) := by
    apply find?_of_first _ _ i
    · rw [imgList_getElem? _ hcap, if_pos hi]
    · simp [typeIs, cpuIs, htype, hcpu]
    · intro j hj x hx
      rw [imgList_getElem? _ hcap, if_pos (by omega)] at hx
      injection hx with hx
      subst hx
      have := hmin j hj
      simp only [typeIs, cpuIs, decide_eq_true_eq, decide_eq_false_iff_not]
      intro hc
      exact this ⟨hc.1.symm, hc.2.symm⟩
  obtain ⟨c2, _, hcall⟩ := (romBootCpuGet_spec K st cpuId fuel hv hcap hwf hf).2 _ hfind
  refine ⟨{ st with s_imageIdx := c2 }, ?_⟩
  rw [hcall out]
  simp only [imgOutOf, hcpu]

/-- What `DEV_SM_RomInit` leaves in the override variables when run on the
reset state. -/
theorem romInit_reset (R : RomInitOracle) (gpr15 gpr16 : Nat) (h : rom_handover_t)
    (p : rom_passover_t) :
    (DEV_SM_RomInit R (romResetState gpr15 gpr16 h p)).s_m7AddValid = m7OverrideRecorded R ∧
    (m7OverrideRecorded R = true →
      (DEV_SM_RomInit R (romResetState gpr15 gpr16 h p)).s_m7Addr =
        (R.CPU_ResetVectorGet 0).2) ∧
    (DEV_SM_RomInit R (romResetState gpr15 gpr16 h p)).handover = h := by
  unfold DEV_SM_RomInit m7OverrideRecorded romResetState
  by_cases h1 : R.DIGPROG_DEVICE_ID &&& 0xF0 = 0x10 <;>
  by_cases h2 : R.romPatchVer = 0 <;>
  cases h3 : R.pdMixOn <;> simp [h1, h2, h3]

/-- C16: after `DEV_SM_RomInit` has run on the reset state, the override is
valid exactly when startup recorded one (`m7OverrideRecorded`).  On a valid
handover record, if entry `i` is the lowest-index listed EXEC image of
`cpuId`, `DEV_SM_RomBootCpuGet cpuId` then returns `SM_ERR_SUCCESS` with, as
reset vector, the address read at startup when an override was recorded and
`cpuId` is `DEV_SM_CPU_M7P`, and the address of entry `i` for every other
`cpuId` or when no override was recorded; module select and flags are those
of entry `i` in both cases. -/
theorem romBootCpuGet_override (K : RomConsts) (R : RomInitOracle) (gpr15 gpr16 : Nat)
    (h : rom_handover_t) (p : rom_passover_t) (cpuId : Nat) (out : CpuOut) (fuel : Nat)
    (hbarker : h.barker = 0xC0FFEE16) (hver : h.ver = 2)
    (hsize : K.sizeof_rom_handover_t ≤ h.size)
    (hcap : h.num ≤ h.img.length) (hwf : h.num < 2 ^ 32) (hf : h.num < fuel)
    (i : Nat) (hi : i < h.num)
    (htype : ROM_HANDOVER_IMG_TYPE (imgAt h i).flags = K.DEV_SM_ROM_IMG_EXEC)
    (hcpu : ROM_HANDOVER_IMG_CPU (imgAt h i).flags = cpuId)
    (hmin : ∀ j, j < i →
      ¬ (ROM_HANDOVER_IMG_TYPE (imgAt h j).flags = K.DEV_SM_ROM_IMG_EXEC ∧
          ROM_HANDOVER_IMG_CPU (imgAt h j).flags = cpuId)) :
    (DEV_SM_RomInit R (romResetState gpr15 gpr16 h p)).s_m7AddValid = m7OverrideRecorded R ∧
    ∃ s, DEV_SM_RomBootCpuGet K fuel (DEV_SM_RomInit R (romResetState gpr15 gpr16 h p))
        cpuId out =
      some (SM_ERR_SUCCESS,
        ⟨if m7OverrideRecorded R = true ∧ cpuId = K.DEV_SM_CPU_M7P then
            (R.CPU_ResetVectorGet 0).2
          else (imgAt h i).addr,
          ROM_HANDOVER_IMG_MSEL (imgAt h i).flags,
          ROM_HANDOVER_IMG_FLAGS (imgAt h i).flags⟩, s) := by
  obtain ⟨hvalid, haddr, hh⟩ := romInit_reset R gpr15 gpr16 h p
  refine ⟨hvalid, ?_⟩
  have hv : HandoverValid K (DEV_SM_RomInit R (romResetState gpr15 gpr16 h p)).handover := by
    rw [hh]; exact ⟨hbarker, hver, hsize⟩
  obtain ⟨s, hs⟩ := romBootCpuGet_first K (DEV_SM_RomInit R (romResetState gpr15 gpr16 h p))
    cpuId out fuel hv (by rw [hh]; exact hcap) (by rw [hh]; exact hwf) (by rw [hh]; exact hf)
    i (by rw [hh]; exact hi) (by rw [hh]; exact htype) (by rw [hh]; exact hcpu)
    (by rw [hh]; exact hmin)
  refine ⟨s, ?_⟩
  rw [hs, hh, hvalid]
  by_cases hc : m7OverrideRecorded R = true ∧ cpuId = K.DEV_SM_CPU_M7P
  · rw [if_pos hc, if_pos hc, haddr hc.1]
  · rw [if_neg hc, if_neg hc]

/-- C16 instance: with an override recorded, the lookup of cpu 1 (the M7P of
`exK`) returns the recorded address 0x20480000 with module select and flags
of entry 2, the lookup of cpu 0 returns the address of entry 0, and without
`DEV_SM_RomInit` the lookup of cpu 1 returns the address of entry 2. -/
theorem romBootCpuGet_override_witness :
    ((DEV_SM_RomInit exR (romResetState 0 0 exH exP)).s_m7AddValid = m7OverrideRecorded exR ∧
      ∃ s, DEV_SM_RomBootCpuGet exK 4 (DEV_SM_RomInit exR (romResetState 0 0 exH exP))
          1 ⟨7, 7, 7⟩ =
        some (SM_ERR_SUCCESS,
          ⟨if m7OverrideRecorded exR = true ∧ 1 = exK.DEV_SM_CPU_M7P then
              (exR.CPU_ResetVectorGet 0).2
            else (imgAt exH 2).addr,
            ROM_HANDOVER_IMG_MSEL (imgAt exH 2).flags,
            ROM_HANDOVER_IMG_FLAGS (imgAt exH 2).flags⟩, s)) ∧
    m7OverrideRecorded exR = true ∧
    (DEV_SM_RomBootCpuGet exK 4 (DEV_SM_RomInit exR (romResetState 0 0 exH exP))
        1 ⟨7, 7, 7⟩).map (fun r => r.2.1) = some ⟨0x20480000, 6, 5⟩ ∧
    (DEV_SM_RomBootCpuGet exK 4 (DEV_SM_RomInit exR (romResetState 0 0 exH exP))
        0 ⟨7, 7, 7⟩).map (fun r => r.2.1) = some ⟨0x1000, 0, 0⟩ ∧
    (DEV_SM_RomBootCpuGet exK 4 (romResetState 0 0 exH exP)
        1 ⟨7, 7, 7⟩).map (fun r => r.2.1) = some ⟨0x3000, 6, 5⟩ :=
  ⟨romBootCpuGet_override exK exR 0 0 exH exP 1 ⟨7, 7, 7⟩ 4 (by decide) (by decide) (by decide)
    (by decide) (by decide) (by decide) 2 (by decide) (by decide) (by decide) (by decide),
    by decide, by decide, by decide, by decide⟩

/-! The sleep sequence step by step, seen through `sv` -/

theorem sleepCaptureStart_sv (O : SysOracle) (m : SleepM) :
    sv (sleepCaptureStart O m) =
      { sv m with usecReads := (sv m).usecReads + 1,
                  sleepEntryStart := O.usec (sv m).usecReads,
                  sleepExitStart := O.usec (sv m).usecReads } := rfl

theorem suspendPrepare_sv (m : SleepM) :
    sv (suspendPrepare m) =
      { sv m with
        calls := (sv m).calls ++
          [Event.BOARD_SystemSleepPrepare (sv m).s_sysSleepMode (sv m).s_sysSleepFlags,
            Event.DEV_SM_SensorPowerDown],
        sysSleepRecord := { (sv m).sysSleepRecord with
          sleepCnt := (if (sv m).sysSleepRecord.sleepCnt ≤ 0xFFFFFFFF - 1 then
            ((sv m).sysSleepRecord.sleepCnt + 1) % 2 ^ 32 else 0) } } := by
  simp only [suspendPrepare, sv, SleepM.emit, List.filter_append, List.append_assoc]
  split_ifs <;> simp [mainEvent]

theorem suspendDdr_sv (K : SysConsts) (O : SysOracle) (m : SleepM) :
    sv (suspendDdr K O m) =
      { sv m with
        ddrInRetention := decide (O.DEV_SM_MemDdrRetentionEnter = SM_ERR_SUCCESS),
        calls := (sv m).calls ++ (Event.DEV_SM_MemDdrRetentionEnter ::
          if O.DEV_SM_MemDdrRetentionEnter = SM_ERR_SUCCESS then
            [Event.DEV_SM_PowerStateSet PowerDomain.DEV_SM_PD_DDR false] else []),
        sysSleepRecord := { (sv m).sysSleepRecord with
          mixPwrStat := (if O.DEV_SM_MemDdrRetentionEnter = SM_ERR_SUCCESS ∧
              O.ddrPowerOff = SM_ERR_SUCCESS then
            (sv m).sysSleepRecord.mixPwrStat &&&
              not32 ((1 <<< K.PWR_MIX_SLICE_IDX_DDR) % 2 ^ 32)
            else (sv m).sysSleepRecord.mixPwrStat) } } := by
  simp only [suspendDdr, sv, SleepM.emit, clearMixPwrStat, List.filter_append]
  split_ifs <;> simp_all [mainEvent]

theorem suspendNoc_sv (K : SysConsts) (O : SysOracle) (sleepMode : Nat) (m : SleepM) :
    sv (suspendNoc K O sleepMode m) =
      { sv m with
        calls := (sv m).calls ++
          (if (sv m).lpmSettingNoc ≤ sleepMode then
            [Event.DEV_SM_PowerStateSet PowerDomain.DEV_SM_PD_NOC false] else []),
        sysSleepRecord := { (sv m).sysSleepRecord with
          mixPwrStat := (if (sv m).lpmSettingNoc ≤ sleepMode ∧
              O.nocPowerOff = SM_ERR_SUCCESS then
            (sv m).sysSleepRecord.mixPwrStat &&&
              not32 ((1 <<< K.PWR_MIX_SLICE_IDX_NOC) % 2 ^ 32)
            else (sv m).sysSleepRecord.mixPwrStat) } } := by
  simp only [suspendNoc, sv, SleepM.emit, clearMixPwrStat, List.filter_append]
  split_ifs <;> simp_all [mainEvent]

theorem suspendWakeup_sv (K : SysConsts) (O : SysOracle) (sleepMode : Nat) (m : SleepM) :
    sv (suspendWakeup K O sleepMode m) =
      { sv m with
        lpComputeActive := decide (O.CPU_LpComputeListGet ≠ 0),
        wakeupMixOff := decide (wakeupDownAllowed K O sleepMode (sv m).lpmSettingWakeup ∧
          O.CPU_LpComputeListGet = 0 ∧ O.wakeupPowerOff = SM_ERR_SUCCESS),
        restoreWakeupMixPerf :=
          decide (wakeupDownAllowed K O sleepMode (sv m).lpmSettingWakeup ∧
            O.CPU_LpComputeListGet ≠ 0 ∧ O.wakeupPerfLevelGet.1 = SM_ERR_SUCCESS ∧
            O.wakeupPerfLevelSetPrk = SM_ERR_SUCCESS),
        savedWakeupMixPerf :=
          (if wakeupDownAllowed K O sleepMode (sv m).lpmSettingWakeup ∧
              O.CPU_LpComputeListGet ≠ 0 ∧ O.wakeupPerfLevelGet.1 = SM_ERR_SUCCESS then
            O.wakeupPerfLevelGet.2 else (sv m).savedWakeupMixPerf),
        calls := (sv m).calls ++
          (if wakeupDownAllowed K O sleepMode (sv m).lpmSettingWakeup then
            (if O.CPU_LpComputeListGet ≠ 0 then
              (if O.wakeupPerfLevelGet.1 = SM_ERR_SUCCESS then
                [Event.DEV_SM_PerfLevelSet K.DEV_SM_PERF_LVL_PRK] else [])
            else [Event.DEV_SM_PowerStateSet PowerDomain.DEV_SM_PD_WAKEUP false])
          else []),
        sysSleepRecord := { (sv m).sysSleepRecord with
          mixPwrStat := (if wakeupDownAllowed K O sleepMode (sv m).lpmSettingWakeup ∧
              O.CPU_LpComputeListGet = 0 ∧ O.wakeupPowerOff = SM_ERR_SUCCESS then
            (sv m).sysSleepRecord.mixPwrStat &&&
              not32 ((1 <<< K.PWR_MIX_SLICE_IDX_WAKEUP) % 2 ^ 32)
            else (sv m).sysSleepRecord.mixPwrStat) } } := by
  simp only [suspendWakeup, sv, SleepM.emit, clearMixPwrStat, List.filter_append,
    wakeupDownAllowed]
  split_ifs <;> simp_all [mainEvent]

theorem suspendHandshakes_sv (m : SleepM) : sv (suspendHandshakes m) = sv m := rfl

theorem irqWakeSet_sv (O : SysOracle) (m : SleepM) (c w v : Nat) :
    sv (CPU_IrqWakeSet O m c w v) = sv m := by
  unfold CPU_IrqWakeSet
  split <;> rfl

theorem emit_sv (m : SleepM) (e : Event) :
    sv (m.emit e) = { sv m with calls := (sv m).calls ++ (if mainEvent e then [e] else []) } := by
  simp only [sv, SleepM.emit, List.filter_append]
  cases h : mainEvent e <;> simp [List.filter, h]

theorem suspendWakeSources_sv (K : SysConsts) (O : SysOracle) (m : SleepM) :
    sv (suspendWakeSources K O m) = sv m := by
  unfold suspendWakeSources
  apply forRange_frame
  intro i s _
  simp only [emit_sv, irqWakeSet_sv, mainEvent]
  simp [sv]

theorem suspendSleepMode_sv (K : SysConsts) (sleepMode : Nat) (m : SleepM) :
    sv (suspendSleepMode K sleepMode m) =
      { sv m with
        calls := (sv m).calls ++ [Event.CPU_WakeMuxSet K.CPU_IDX_M33P false,
          Event.CPU_SleepModeSet K.CPU_IDX_M33P sleepMode],
        perfLevelSleep :=
          (if ((sv m).s_sysSleepMode &&& 0xF0) >>> 4 > K.DEV_SM_PERF_LVL_ODV then
            K.DEV_SM_PERF_LVL_ODV else ((sv m).s_sysSleepMode &&& 0xF0) >>> 4),
        activeSleep :=
          (decide ((if ((sv m).s_sysSleepMode &&& 0xF0) >>> 4 > K.DEV_SM_PERF_LVL_ODV then
              K.DEV_SM_PERF_LVL_ODV else ((sv m).s_sysSleepMode &&& 0xF0) >>> 4) ≠
              K.DEV_SM_PERF_LVL_PRK) ||
            decide ((sv m).s_sysSleepFlags &&& K.DEV_SM_SSF_OSC24M_ACTIVE_MASK ≠ 0) ||
            (sv m).lpComputeActive),
        GPC_ROSC_CTRL :=
          (if (decide ((if ((sv m).s_sysSleepMode &&& 0xF0) >>> 4 > K.DEV_SM_PERF_LVL_ODV then
              K.DEV_SM_PERF_LVL_ODV else ((sv m).s_sysSleepMode &&& 0xF0) >>> 4) ≠
              K.DEV_SM_PERF_LVL_PRK) ||
            decide ((sv m).s_sysSleepFlags &&& K.DEV_SM_SSF_OSC24M_ACTIVE_MASK ≠ 0) ||
            (sv m).lpComputeActive) = true then 0
          else K.GPC_GLOBAL_GPC_ROSC_CTRL_ROSC_OFF_EN_MASK),
        GPC_PMIC_CTRL :=
          (if (sv m).s_sysSleepFlags &&& K.DEV_SM_SSF_PMIC_STBY_INACTIVE_MASK = 0 then
            K.GPC_GLOBAL_GPC_PMIC_CTRL_PMIC_STBY_EN_MASK else 0),
        GPC_EFUSE_CTRL := K.GPC_GLOBAL_GPC_EFUSE_CTRL_EFUSE_PD_EN_MASK } := by
  simp only [suspendSleepMode, sv, SleepM.emit, List.filter_append, List.append_assoc]
  simp [mainEvent]

theorem suspendClockRoots_sv (K : SysConsts) (O : SysOracle) (m : SleepM) :
    sv (suspendClockRoots K O m) =
      { sv m with
        calls := (sv m).calls ++ (Event.DEV_SM_ClockSourceBypass false true ::
          if (sv m).activeSleep = true then [Event.DEV_SM_PerfSystemSleep (sv m).perfLevelSleep]
          else []) } := by
  unfold suspendClockRoots
  dsimp only
  split
  · rename_i h
    simp only [emit_sv, mainEvent]
    have h2 : m.activeSleep = true := h
    simp [sv, h2, SleepM.emit]
  · rename_i h
    have h2 : ¬ m.activeSleep = true := h
    rw [forRange_frame sv _ _ (by
      intro i s _
      simp only [emit_sv, mainEvent]
      simp [sv])]
    simp only [emit_sv, mainEvent]
    simp [sv, h2, SleepM.emit]

theorem sysPllDownLoop_sv (K : SysConsts) (hvco : 0 < K.CLOCK_SRC_SYSPLL1_VCO) :
    ∀ (fuel idx : Nat) (m : SleepM), idx < 2 ^ 32 →
      idx + 1 - K.CLOCK_SRC_SYSPLL1_VCO < fuel →
      ∃ m2, sysPllDownLoop K fuel idx m = some m2 ∧ sv m2 = sv m ∧
        m2.sysSleepRecord = m.sysSleepRecord := by
  intro fuel
  induction fuel with
  | zero => intro idx m _ hf; omega
  | succ n ih =>
    intro idx m hidx hf
    unfold sysPllDownLoop
    by_cases hge : idx ≥ K.CLOCK_SRC_SYSPLL1_VCO
    · have hdec : (idx + 2 ^ 32 - 1) % 2 ^ 32 = idx - 1 := by omega
      rw [if_pos hge, hdec]
      obtain ⟨m2, h2, hs, hr⟩ := ih (idx - 1)
        (m.emit (Event.CLOCK_SourceSetEnable idx false)) (by omega) (by omega)
      refine ⟨m2, h2, ?_, hr⟩
      rw [hs, emit_sv]
      simp [mainEvent]
    · rw [if_neg hge]
      exact ⟨m, rfl, rfl, rfl⟩

theorem sysPllUpLoop_sv (K : SysConsts) (hpfd : K.CLOCK_SRC_SYSPLL1_PFD2_DIV2 + 1 < 2 ^ 32) :
    ∀ (fuel idx : Nat) (m : SleepM),
      K.CLOCK_SRC_SYSPLL1_PFD2_DIV2 + 1 - idx < fuel →
      ∃ m2, sysPllUpLoop K fuel idx m = some m2 ∧ sv m2 = sv m := by
  intro fuel
  induction fuel with
  | zero => intro idx m hf; omega
  | succ n ih =>
    intro idx m hf
    unfold sysPllUpLoop
    by_cases hle : idx ≤ K.CLOCK_SRC_SYSPLL1_PFD2_DIV2
    · have hinc : (idx + 1) % 2 ^ 32 = idx + 1 := Nat.mod_eq_of_lt (by omega)
      rw [if_pos hle, hinc]
      obtain ⟨m2, h2, hs⟩ := ih (idx + 1)
        (m.emit (Event.CLOCK_SourceSetEnable idx true)) (by omega)
      refine ⟨m2, h2, ?_⟩
      rw [hs, emit_sv]
      simp [mainEvent]
    · rw [if_neg hle]
      exact ⟨m, rfl, rfl⟩

theorem suspendSysPll_sv (K : SysConsts) (fuel : Nat) (m : SleepM)
    (hvco : 0 < K.CLOCK_SRC_SYSPLL1_VCO) (hpfd : K.CLOCK_SRC_SYSPLL1_PFD2_DIV2 + 1 < 2 ^ 32)
    (hfuel : K.CLOCK_SRC_SYSPLL1_PFD2_DIV2 + 1 - K.CLOCK_SRC_SYSPLL1_VCO < fuel) :
    ∃ m2, suspendSysPll K fuel m = some m2 ∧
      sv m2 = { sv m with
        sysSleepRecord := { (sv m).sysSleepRecord with
          pllPwrStat := (if (sv m).perfLevelSleep = K.DEV_SM_PERF_LVL_PRK then
            (sv m).sysSleepRecord.pllPwrStat &&& not32 ((1 <<< K.CLOCK_PLL_SYS1) % 2 ^ 32)
            else (sv m).sysSleepRecord.pllPwrStat) } } := by
  unfold suspendSysPll
  split
  · rename_i h
    obtain ⟨m2, h2, hs, hr⟩ := sysPllDownLoop_sv K hvco fuel K.CLOCK_SRC_SYSPLL1_PFD2_DIV2 m
      (by omega) hfuel
    rw [h2]
    refine ⟨_, rfl, ?_⟩
    have h3 : (sv m).perfLevelSleep = K.DEV_SM_PERF_LVL_PRK := h
    rw [if_pos h3, ← hs]
    simp only [sv]
  · rename_i h
    have h3 : ¬ (sv m).perfLevelSleep = K.DEV_SM_PERF_LVL_PRK := h
    exact ⟨m, rfl, by rw [if_neg h3]⟩

theorem resumeSysPll_sv (K : SysConsts) (fuel : Nat) (m : SleepM)
    (hpfd : K.CLOCK_SRC_SYSPLL1_PFD2_DIV2 + 1 < 2 ^ 32)
    (hfuel : K.CLOCK_SRC_SYSPLL1_PFD2_DIV2 + 1 - K.CLOCK_SRC_SYSPLL1_VCO < fuel) :
    ∃ m2, resumeSysPll K fuel m = some m2 ∧ sv m2 = sv m := by
  unfold resumeSysPll
  split
  · exact sysPllUpLoop_sv K hpfd fuel K.CLOCK_SRC_SYSPLL1_VCO m hfuel
  · exact ⟨m, rfl, rfl⟩

theorem emitIf_sv (m : SleepM) (c : Bool) (e : Event) :
    sv (m.emitIf c e) =
      { sv m with calls := (sv m).calls ++ (if c = true ∧ mainEvent e = true then [e] else []) } := by
  unfold SleepM.emitIf
  cases c
  · simp [sv]
  · simp only [if_true, emit_sv]
    simp

theorem suspendEntryLatency_sv (O : SysOracle) (m : SleepM) :
    sv (suspendEntryLatency O m) =
      { sv m with
        usecReads := (sv m).usecReads +
          (if O.usec (sv m).usecReads ≥ (sv m).sleepEntryStart then 2 else 1),
        sysSleepRecord := { (sv m).sysSleepRecord with
          sleepEntryUsec := (if O.usec (sv m).usecReads ≥ (sv m).sleepEntryStart then
            usecDiffL (O.usec ((sv m).usecReads + 1)) (sv m).sleepEntryStart else 0) } } := by
  simp only [suspendEntryLatency, DEV_SM_Usec64Get, sv]
  split_ifs <;> rfl

theorem sv_mode (m : SleepM) : m.s_sysSleepMode = (sv m).s_sysSleepMode := rfl

theorem sv_flags (m : SleepM) : m.s_sysSleepFlags = (sv m).s_sysSleepFlags := rfl

theorem sv_activeSleep (m : SleepM) : m.activeSleep = (sv m).activeSleep := rfl

theorem sv_perfLevelSleep (m : SleepM) : m.perfLevelSleep = (sv m).perfLevelSleep := rfl

theorem haltTail_sv (K : SysConsts) (O : SysOracle) (m : SleepM) :
    sv (SleepM.emit (SleepM.emit
      ({ ({ (DEV_SM_Usec64Get O m).2 with sleepExitStart := (DEV_SM_Usec64Get O m).1 } : SleepM)
        with sysSleepRecord :=
          { m.sysSleepRecord with
            wakeSource :=
              (O.ICSR &&& K.SCB_ICSR_VECTPENDING_Msk) >>> K.SCB_ICSR_VECTPENDING_Pos } })
      (Event.CPU_PerLpiProcess K.CPU_IDX_M33P K.CPU_SLEEP_MODE_RUN))
      (Event.BOARD_SystemSleepExit m.s_sysSleepMode m.s_sysSleepFlags)) =
    { sv m with
      calls := (sv m).calls ++ [Event.CPU_PerLpiProcess K.CPU_IDX_M33P K.CPU_SLEEP_MODE_RUN,
        Event.BOARD_SystemSleepExit (sv m).s_sysSleepMode (sv m).s_sysSleepFlags],
      usecReads := (sv m).usecReads + 1,
      sleepExitStart := O.usec (sv m).usecReads,
      sysSleepRecord := { (sv m).sysSleepRecord with
        wakeSource :=
          (O.ICSR &&& K.SCB_ICSR_VECTPENDING_Msk) >>> K.SCB_ICSR_VECTPENDING_Pos } } := by
  simp [sv, SleepM.emit, DEV_SM_Usec64Get, mainEvent, List.filter_append]

theorem suspendHalt_sv (K : SysConsts) (O : SysOracle) (sleepMode : Nat) (m : SleepM) :
    sv (suspendHalt K O sleepMode m) =
      { sv m with
        calls := (sv m).calls ++
          ([Event.BOARD_SystemSleepEnter (sv m).s_sysSleepMode (sv m).s_sysSleepFlags,
            Event.CPU_PerLpiProcess K.CPU_IDX_M33P sleepMode] ++
          (if (sv m).s_sysSleepFlags &&& K.DEV_SM_SSF_SYSCTR_ACTIVE_MASK ≠ 0 then
            [Event.SYSCTR_FreqMode true true] else []) ++
          (if (sv m).s_sysSleepFlags &&& K.DEV_SM_SSF_FRO_ACTIVE_MASK = 0 ∧
              (sv m).activeSleep = false then
            [Event.FRO_CSR_CLR K.FRO_CSR_FROEN_MASK] else []) ++
          [Event.DSB, Event.WFI, Event.ISB, Event.FRO_CSR_SET K.FRO_CSR_FROEN_MASK] ++
          (if (sv m).s_sysSleepFlags &&& K.DEV_SM_SSF_SYSCTR_ACTIVE_MASK ≠ 0 then
            [Event.SYSCTR_FreqMode false true] else []) ++
          [Event.CPU_PerLpiProcess K.CPU_IDX_M33P K.CPU_SLEEP_MODE_RUN,
            Event.BOARD_SystemSleepExit (sv m).s_sysSleepMode (sv m).s_sysSleepFlags]),
        usecReads := (sv m).usecReads +
          (if O.usec (sv m).usecReads ≥ (sv m).sleepEntryStart then 2 else 1) + 1,
        sleepExitStart := O.usec ((sv m).usecReads +
          (if O.usec (sv m).usecReads ≥ (sv m).sleepEntryStart then 2 else 1)),
        sysSleepRecord := { (sv m).sysSleepRecord with
          sleepEntryUsec := (if O.usec (sv m).usecReads ≥ (sv m).sleepEntryStart then
            usecDiffL (O.usec ((sv m).usecReads + 1)) (sv m).sleepEntryStart else 0),
          wakeSource :=
            (O.ICSR &&& K.SCB_ICSR_VECTPENDING_Msk) >>> K.SCB_ICSR_VECTPENDING_Pos } } := by
  unfold suspendHalt
  dsimp only
  refine Eq.trans (haltTail_sv K O _) ?_
  simp only [sv_mode, sv_flags, sv_activeSleep, emit_sv, emitIf_sv, suspendEntryLatency_sv,
    mainEvent]
  simp only [if_true, and_true, List.append_assoc, decide_eq_true_eq, Bool.and_eq_true,
    Bool.not_eq_true', List.cons_append, List.nil_append, List.singleton_append]

theorem resumeClockRoots_sv (K : SysConsts) (m : SleepM) :
    sv (resumeClockRoots K m) =
      { sv m with
        calls := (sv m).calls ++
          (if (sv m).activeSleep = true then [Event.DEV_SM_PerfSystemWake (sv m).perfLevelSleep]
          else []) } := by
  unfold resumeClockRoots
  split
  · rename_i h
    have h2 : (sv m).activeSleep = true := h
    simp only [sv_perfLevelSleep, emit_sv, mainEvent, h2]
  · rename_i h
    have h2 : ¬ m.activeSleep = true := h
    rw [forRange_frame sv _ _ (by
      intro i s _
      simp only [emit_sv, mainEvent]
      simp [sv])]
    simp [sv, h2]

theorem resumeClocks_sv (K : SysConsts) (m : SleepM) :
    sv (resumeClocks K m) =
      { sv m with
        calls := (sv m).calls ++
          ((if (sv m).activeSleep = true then [Event.DEV_SM_PerfSystemWake (sv m).perfLevelSleep]
          else []) ++ [Event.DEV_SM_ClockSourceBypass true true]),
        GPC_EFUSE_CTRL := 0 } := by
  have h : sv (resumeClocks K m) =
      { sv ((resumeClockRoots K m).emit (Event.DEV_SM_ClockSourceBypass true true)) with
        GPC_EFUSE_CTRL := 0 } := rfl
  rw [h, emit_sv, resumeClockRoots_sv]
  simp [mainEvent]

theorem resumeWakeup_sv (O : SysOracle) (m : SleepM) :
    sv (resumeWakeup O m) =
      { sv m with
        status := (if (sv m).wakeupMixOff = true then O.wakeupPowerOn else (sv m).status),
        calls := (sv m).calls ++
          (if (sv m).wakeupMixOff = true then
            [Event.DEV_SM_PowerStateSet PowerDomain.DEV_SM_PD_WAKEUP true] else []) } := by
  simp only [resumeWakeup, sv, SleepM.emit, List.filter_append]
  split_ifs <;> simp_all [mainEvent]

theorem resumeWakeupPerf_sv (O : SysOracle) (m : SleepM) :
    sv (resumeWakeupPerf O m) =
      { sv m with
        status := (if (sv m).status = SM_ERR_SUCCESS ∧ (sv m).restoreWakeupMixPerf = true then
          O.wakeupPerfLevelRestore else (sv m).status),
        calls := (sv m).calls ++
          (if (sv m).status = SM_ERR_SUCCESS ∧ (sv m).restoreWakeupMixPerf = true then
            [Event.DEV_SM_PerfLevelSet (sv m).savedWakeupMixPerf] else []) } := by
  simp only [resumeWakeupPerf, sv, SleepM.emit, List.filter_append]
  split_ifs <;> simp_all [mainEvent]

theorem resumeNoc_sv (O : SysOracle) (sleepMode : Nat) (m : SleepM) :
    sv (resumeNoc O sleepMode m) =
      { sv m with
        status := (if (sv m).status = SM_ERR_SUCCESS ∧ (sv m).lpmSettingNoc ≤ sleepMode then
          O.nocPowerOn else (sv m).status),
        calls := (sv m).calls ++
          (if (sv m).status = SM_ERR_SUCCESS ∧ (sv m).lpmSettingNoc ≤ sleepMode then
            [Event.DEV_SM_PowerStateSet PowerDomain.DEV_SM_PD_NOC true] else []) } := by
  simp only [resumeNoc, sv, SleepM.emit, List.filter_append]
  split_ifs <;> simp_all [mainEvent]

theorem resumeDdrPower_sv (O : SysOracle) (m : SleepM) :
    sv (resumeDdrPower O m) =
      { sv m with
        status := (if (sv m).status = SM_ERR_SUCCESS then O.ddrPowerOn else (sv m).status),
        calls := (sv m).calls ++
          (if (sv m).status = SM_ERR_SUCCESS then
            [Event.DEV_SM_PowerStateSet PowerDomain.DEV_SM_PD_DDR true] else []) } := by
  simp only [resumeDdrPower, sv, SleepM.emit, List.filter_append]
  split_ifs <;> simp_all [mainEvent]

theorem resumeDdrRetention_sv (O : SysOracle) (m : SleepM) :
    sv (resumeDdrRetention O m) =
      { sv m with
        status := (if (sv m).status = SM_ERR_SUCCESS then O.DEV_SM_MemDdrRetentionExit
          else (sv m).status),
        calls := (sv m).calls ++
          (if (sv m).status = SM_ERR_SUCCESS then [Event.DEV_SM_MemDdrRetentionExit]
          else []) } := by
  simp only [resumeDdrRetention, sv, SleepM.emit, List.filter_append]
  split_ifs <;> simp_all [mainEvent]

theorem resumeDdr_sv (O : SysOracle) (m : SleepM) :
    sv (resumeDdr O m) =
      { sv m with
        status := (if (sv m).ddrInRetention = true ∧ (sv m).status = SM_ERR_SUCCESS then
          (if O.ddrPowerOn = SM_ERR_SUCCESS then O.DEV_SM_MemDdrRetentionExit else O.ddrPowerOn)
          else (sv m).status),
        calls := (sv m).calls ++
          (if (sv m).ddrInRetention = true ∧ (sv m).status = SM_ERR_SUCCESS then
            Event.DEV_SM_PowerStateSet PowerDomain.DEV_SM_PD_DDR true ::
              (if O.ddrPowerOn = SM_ERR_SUCCESS then [Event.DEV_SM_MemDdrRetentionExit] else [])
          else []) } := by
  unfold resumeDdr
  split
  · rename_i h
    have h2 : (sv m).ddrInRetention = true := h
    rw [resumeDdrRetention_sv, resumeDdrPower_sv]
    by_cases hs : (sv m).status = SM_ERR_SUCCESS
    · by_cases hp : O.ddrPowerOn = SM_ERR_SUCCESS <;> simp [h2, hs, hp]
    · simp [h2, hs]
  · rename_i h
    have h2 : ¬ (sv m).ddrInRetention = true := h
    rw [if_neg (fun hh => h2 hh.1), if_neg (fun hh => h2 hh.1)]
    simp

theorem resumeFinish_sv (K : SysConsts) (m : SleepM) :
    sv (resumeFinish K m) =
      { sv m with
        calls := (sv m).calls ++ [Event.DEV_SM_SensorPowerUp,
          Event.BOARD_SystemSleepUnprepare (sv m).s_sysSleepMode (sv m).s_sysSleepFlags] } := by
  unfold resumeFinish
  dsimp only
  simp only [sv_mode, sv_flags, emit_sv, mainEvent]
  rw [forRange_frame sv _ _ (by
    intro i s _
    simp only [emit_sv, mainEvent]
    simp)]
  simp

theorem sleepDidNotSleep_sv (O : SysOracle) (m : SleepM) :
    sv (sleepDidNotSleep O m) =
      { sv m with
        usecReads := (sv m).usecReads + (if (sv m).sysSleepRecord.wakeSource = 0 then 1 else 0),
        sleepExitStart := (if (sv m).sysSleepRecord.wakeSource = 0 then
          O.usec (sv m).usecReads else (sv m).sleepExitStart),
        sysSleepRecord := { (sv m).sysSleepRecord with
          sleepEntryUsec := (if (sv m).sysSleepRecord.wakeSource = 0 then
            (if O.usec (sv m).usecReads ≥ (sv m).sleepEntryStart then
              usecDiffL (O.usec (sv m).usecReads) (sv m).sleepEntryStart else 0)
            else (sv m).sysSleepRecord.sleepEntryUsec) } } := by
  simp only [sleepDidNotSleep, DEV_SM_Usec64Get, sv]
  split_ifs <;> simp_all

theorem wakeMaskRestore_sv (K : SysConsts) (O : SysOracle) (m : SleepM) :
    sv (wakeMaskRestore K O m) = sv m := by
  unfold wakeMaskRestore
  apply forRange_frame
  intro i s _
  split
  · apply forRange_frame
    intro j t _
    exact irqWakeSet_sv O t _ _ _
  · rfl

theorem sleepExitLatency_sv (O : SysOracle) (m : SleepM) :
    sv (sleepExitLatency O m) =
      { sv m with
        usecReads := (sv m).usecReads +
          (if O.usec (sv m).usecReads ≥ (sv m).sleepExitStart then 2 else 1),
        sysSleepRecord := { (sv m).sysSleepRecord with
          sleepExitUsec := (if O.usec (sv m).usecReads ≥ (sv m).sleepExitStart then
            usecDiffL (O.usec ((sv m).usecReads + 1)) (sv m).sleepExitStart else 0) } } := by
  simp only [sleepExitLatency, DEV_SM_Usec64Get, sv]
  split_ifs <;> rfl

theorem forRange_map {σ α : Type} (proj : σ → α) (body : Nat → σ → σ) (body2 : Nat → α → α)
    (n : Nat) (h : ∀ i s, i < n → proj (body i s) = body2 i (proj s)) (s : σ) :
    proj (forRange n body s) = forRange n body2 (proj s) := by
  induction n with
  | zero => rfl
  | succ k ih =>
    show proj (body k (forRange k body s)) = body2 k (forRange k body2 (proj s))
    rw [h k _ (Nat.lt_succ_self k), ih (fun i s hi => h i s (Nat.lt_succ_of_lt hi))]

theorem sleepEnter_sv (s : SysState) :
    sv (sleepEnter s) =
      { status := SM_ERR_SUCCESS, s_sysSleepMode := s.s_sysSleepMode,
        s_sysSleepFlags := s.s_sysSleepFlags, sysSleepRecord := s.sysSleepRecord,
        GPC_ROSC_CTRL := s.GPC_ROSC_CTRL, GPC_PMIC_CTRL := s.GPC_PMIC_CTRL,
        GPC_EFUSE_CTRL := s.GPC_EFUSE_CTRL, usecReads := s.usecReads,
        sleepEntryStart := 0, sleepExitStart := 0, lpmSettingNoc := 0, lpmSettingWakeup := 0,
        ddrInRetention := false, lpComputeActive := false, wakeupMixOff := false,
        restoreWakeupMixPerf := false, savedWakeupMixPerf := 0, perfLevelSleep := 0,
        activeSleep := false, calls := s.trace.filter mainEvent } := rfl

theorem forRange_mixPwrStat (c : Nat → Bool) (n : Nat) (r : SleepRecord) :
    forRange n (fun i (r : SleepRecord) =>
      if c i then { r with mixPwrStat := r.mixPwrStat ||| ((1 <<< i) % 2 ^ 32) } else r) r =
    { r with mixPwrStat :=
        forRange n (fun i a => if c i then a ||| ((1 <<< i) % 2 ^ 32) else a) r.mixPwrStat } := by
  induction n with
  | zero => rfl
  | succ k ih =>
    show (fun i (r : SleepRecord) =>
      if c i then { r with mixPwrStat := r.mixPwrStat ||| ((1 <<< i) % 2 ^ 32) } else r) k
        (forRange k _ r) = _
    rw [ih]
    show _ = { r with mixPwrStat := ((fun i a => if c i then a ||| ((1 <<< i) % 2 ^ 32) else a) k
      (forRange k _ r.mixPwrStat)) }
    dsimp only
    cases c k <;> rfl

theorem forRange_memPwrStat (c : Nat → Bool) (n : Nat) (r : SleepRecord) :
    forRange n (fun i (r : SleepRecord) =>
      if c i then { r with memPwrStat := r.memPwrStat ||| ((1 <<< i) % 2 ^ 32) } else r) r =
    { r with memPwrStat :=
        forRange n (fun i a => if c i then a ||| ((1 <<< i) % 2 ^ 32) else a) r.memPwrStat } := by
  induction n with
  | zero => rfl
  | succ k ih =>
    show (fun i (r : SleepRecord) =>
      if c i then { r with memPwrStat := r.memPwrStat ||| ((1 <<< i) % 2 ^ 32) } else r) k
        (forRange k _ r) = _
    rw [ih]
    show _ = { r with memPwrStat := ((fun i a => if c i then a ||| ((1 <<< i) % 2 ^ 32) else a) k
      (forRange k _ r.memPwrStat)) }
    dsimp only
    cases c k <;> rfl

theorem forRange_pllPwrStat (c : Nat → Bool) (n : Nat) (r : SleepRecord) :
    forRange n (fun i (r : SleepRecord) =>
      if c i then { r with pllPwrStat := r.pllPwrStat ||| ((1 <<< i) % 2 ^ 32) } else r) r =
    { r with pllPwrStat :=
        forRange n (fun i a => if c i then a ||| ((1 <<< i) % 2 ^ 32) else a) r.pllPwrStat } := by
  induction n with
  | zero => rfl
  | succ k ih =>
    show (fun i (r : SleepRecord) =>
      if c i then { r with pllPwrStat := r.pllPwrStat ||| ((1 <<< i) % 2 ^ 32) } else r) k
        (forRange k _ r) = _
    rw [ih]
    show _ = { r with pllPwrStat := ((fun i a => if c i then a ||| ((1 <<< i) % 2 ^ 32) else a) k
      (forRange k _ r.pllPwrStat)) }
    dsimp only
    cases c k <;> rfl

theorem sleepRecordCapture_sv (K : SysConsts) (O : SysOracle) (m : SleepM) :
    sv (sleepRecordCapture K O m) =
      { sv m with
        sysSleepRecord := { (sv m).sysSleepRecord with
          wakeSource := 0,
          sysSleepMode := (sv m).s_sysSleepMode,
          sysSleepFlags := (sv m).s_sysSleepFlags,
          mixPwrStat := pwrBitmap K.PWR_NUM_MIX_SLICE O.SRC_MixIsPwrSwitchOn,
          memPwrStat := pwrBitmap K.PWR_NUM_MEM_SLICE O.memLpMode,
          pllPwrStat := pwrBitmap K.CLOCK_NUM_PLL
            (fun pllIdx => O.CLOCK_SourceGetEnable (K.s_pllVcoList pllIdx)) } } := by
  unfold sleepRecordCapture
  dsimp only
  rw [forRange_mixPwrStat, forRange_memPwrStat,
    forRange_pllPwrStat (fun pllIdx => O.CLOCK_SourceGetEnable (K.s_pllVcoList pllIdx))]
  rfl

theorem wakeMaskInit_sv (K : SysConsts) (m : SleepM) : sv (wakeMaskInit K m) = sv m := by
  unfold wakeMaskInit
  apply forRange_frame
  intro i s _
  dsimp only
  refine Eq.trans (forRange_frame sv _ _ ?_ _) rfl
  intro j t _
  rfl

theorem lpmSettingInit_sv (K : SysConsts) (m : SleepM) :
    sv (lpmSettingInit K m) =
      { sv m with lpmSettingNoc := K.CPU_PD_LPM_ON_NEVER,
                  lpmSettingWakeup := K.CPU_PD_LPM_ON_NEVER } := rfl

theorem scanWakeNotForced_sv (K : SysConsts) (O : SysOracle) (cpuIdx : Nat) (m : SleepM) :
    sv (scanWakeNotForced K O cpuIdx m) = sv m := by
  unfold scanWakeNotForced
  apply forRange_frame
  intro i s _
  dsimp only
  split
  · rw [irqWakeSet_sv]; rfl
  · rfl

theorem scanWakeForced_sv (K : SysConsts) (O : SysOracle) (cpuIdx : Nat) (m : SleepM) :
    sv (scanWakeForced K O cpuIdx m) = sv m := by
  unfold scanWakeForced
  apply forRange_frame
  intro i s _
  dsimp only
  split
  · rw [irqWakeSet_sv]; rfl
  · rfl

theorem scanLpm_sv (K : SysConsts) (O : SysOracle) (cpuIdx : Nat) (m : SleepM) :
    sv (scanLpm K O cpuIdx m) =
      { sv m with
        lpmSettingNoc := (match O.SRC_MixCpuLpmGet K.PWR_MIX_SLICE_IDX_NOC cpuIdx with
          | some v => if v > (sv m).lpmSettingNoc then v else (sv m).lpmSettingNoc
          | none => (sv m).lpmSettingNoc),
        lpmSettingWakeup := (match O.SRC_MixCpuLpmGet K.PWR_MIX_SLICE_IDX_WAKEUP cpuIdx with
          | some v => if v > (sv m).lpmSettingWakeup then v else (sv m).lpmSettingWakeup
          | none => (sv m).lpmSettingWakeup) } := by
  simp only [scanLpm, sv]
  cases O.SRC_MixCpuLpmGet K.PWR_MIX_SLICE_IDX_NOC cpuIdx <;>
  cases O.SRC_MixCpuLpmGet K.PWR_MIX_SLICE_IDX_WAKEUP cpuIdx <;>
  dsimp only <;> split_ifs <;> rfl

theorem scanCpu_sv (K : SysConsts) (O : SysOracle) (cpuIdx : Nat) (m : SleepM) :
    sv (scanCpu K O cpuIdx m) =
      { sv m with
        lpmSettingNoc := lpmStep K O K.PWR_MIX_SLICE_IDX_NOC cpuIdx (sv m).lpmSettingNoc,
        lpmSettingWakeup :=
          lpmStep K O K.PWR_MIX_SLICE_IDX_WAKEUP cpuIdx (sv m).lpmSettingWakeup } := by
  unfold scanCpu lpmStep
  by_cases hc : cpuIdx ≠ K.CPU_IDX_M33P
  · rw [if_pos hc]
    cases hf : O.CPU_SleepForceGet cpuIdx with
    | none => simp [hc]
    | some f =>
      cases f
      · dsimp only
        rw [scanLpm_sv, scanWakeNotForced_sv]
        simp [hc]
      · dsimp only
        rw [scanWakeForced_sv]
        simp [hc]
  · rw [if_neg hc]
    simp [hc]

theorem forRange_lpm (K : SysConsts) (O : SysOracle) (n : Nat) (v : SleepView) :
    forRange n (fun cpuIdx (v : SleepView) =>
      { v with
        lpmSettingNoc := lpmStep K O K.PWR_MIX_SLICE_IDX_NOC cpuIdx v.lpmSettingNoc,
        lpmSettingWakeup := lpmStep K O K.PWR_MIX_SLICE_IDX_WAKEUP cpuIdx v.lpmSettingWakeup }) v =
    { v with
      lpmSettingNoc := forRange n (lpmStep K O K.PWR_MIX_SLICE_IDX_NOC) v.lpmSettingNoc,
      lpmSettingWakeup :=
        forRange n (lpmStep K O K.PWR_MIX_SLICE_IDX_WAKEUP) v.lpmSettingWakeup } := by
  induction n with
  | zero => rfl
  | succ k ih =>
    show (fun cpuIdx (v : SleepView) =>
      { v with
        lpmSettingNoc := lpmStep K O K.PWR_MIX_SLICE_IDX_NOC cpuIdx v.lpmSettingNoc,
        lpmSettingWakeup := lpmStep K O K.PWR_MIX_SLICE_IDX_WAKEUP cpuIdx v.lpmSettingWakeup }) k
      (forRange k _ v) = _
    rw [ih]
    rfl

theorem scanCpus_sv (K : SysConsts) (O : SysOracle) (m : SleepM) :
    sv (scanCpus K O m) =
      { sv m with
        lpmSettingNoc :=
          forRange K.CPU_NUM_IDX (lpmStep K O K.PWR_MIX_SLICE_IDX_NOC) (sv m).lpmSettingNoc,
        lpmSettingWakeup :=
          forRange K.CPU_NUM_IDX (lpmStep K O K.PWR_MIX_SLICE_IDX_WAKEUP)
            (sv m).lpmSettingWakeup } := by
  unfold scanCpus
  rw [forRange_map sv (scanCpu K O) (fun cpuIdx (v : SleepView) =>
      { v with
        lpmSettingNoc := lpmStep K O K.PWR_MIX_SLICE_IDX_NOC cpuIdx v.lpmSettingNoc,
        lpmSettingWakeup := lpmStep K O K.PWR_MIX_SLICE_IDX_WAKEUP cpuIdx v.lpmSettingWakeup })
      K.CPU_NUM_IDX (fun i s _ => scanCpu_sv K O i s) m,
    forRange_lpm]

theorem sleepOpen_sv (K : SysConsts) (O : SysOracle) (s : SysState) :
    sv (sleepOpen K O s) =
      { status := SM_ERR_SUCCESS, s_sysSleepMode := s.s_sysSleepMode,
        s_sysSleepFlags := s.s_sysSleepFlags,
        sysSleepRecord := { s.sysSleepRecord with
          wakeSource := 0,
          sysSleepMode := s.s_sysSleepMode,
          sysSleepFlags := s.s_sysSleepFlags,
          mixPwrStat := pwrBitmap K.PWR_NUM_MIX_SLICE O.SRC_MixIsPwrSwitchOn,
          memPwrStat := pwrBitmap K.PWR_NUM_MEM_SLICE O.memLpMode,
          pllPwrStat := pwrBitmap K.CLOCK_NUM_PLL
            (fun pllIdx => O.CLOCK_SourceGetEnable (K.s_pllVcoList pllIdx)) },
        GPC_ROSC_CTRL := s.GPC_ROSC_CTRL, GPC_PMIC_CTRL := s.GPC_PMIC_CTRL,
        GPC_EFUSE_CTRL := s.GPC_EFUSE_CTRL, usecReads := s.usecReads + 1,
        sleepEntryStart := O.usec s.usecReads, sleepExitStart := O.usec s.usecReads,
        lpmSettingNoc :=
          forRange K.CPU_NUM_IDX (lpmStep K O K.PWR_MIX_SLICE_IDX_NOC) K.CPU_PD_LPM_ON_NEVER,
        lpmSettingWakeup :=
          forRange K.CPU_NUM_IDX (lpmStep K O K.PWR_MIX_SLICE_IDX_WAKEUP) K.CPU_PD_LPM_ON_NEVER,
        ddrInRetention := false, lpComputeActive := false, wakeupMixOff := false,
        restoreWakeupMixPerf := false, savedWakeupMixPerf := 0, perfLevelSleep := 0,
        activeSleep := false, calls := s.trace.filter mainEvent } := by
  unfold sleepOpen
  dsimp only
  rw [scanCpus_sv, lpmSettingInit_sv, wakeMaskInit_sv, sleepRecordCapture_sv,
    sleepCaptureStart_sv, sleepEnter_sv]

theorem suspendSeq_some (K : SysConsts) (O : SysOracle) (fuel sleepMode : Nat) (m : SleepM)
    (hvco : 0 < K.CLOCK_SRC_SYSPLL1_VCO) (hpfd : K.CLOCK_SRC_SYSPLL1_PFD2_DIV2 + 1 < 2 ^ 32)
    (hfuel : K.CLOCK_SRC_SYSPLL1_PFD2_DIV2 + 1 - K.CLOCK_SRC_SYSPLL1_VCO < fuel) :
    ∃ mA mB,
      sv mA = { sv (suspendEntry K O sleepMode m) with
        sysSleepRecord := { (sv (suspendEntry K O sleepMode m)).sysSleepRecord with
          pllPwrStat :=
            (if (sv (suspendEntry K O sleepMode m)).perfLevelSleep = K.DEV_SM_PERF_LVL_PRK then
              (sv (suspendEntry K O sleepMode m)).sysSleepRecord.pllPwrStat &&&
                not32 ((1 <<< K.CLOCK_PLL_SYS1) % 2 ^ 32)
            else (sv (suspendEntry K O sleepMode m)).sysSleepRecord.pllPwrStat) } } ∧
      sv mB = sv (suspendHalt K O sleepMode mA) ∧
      suspendSeq K O fuel sleepMode m =
        some (resumeFinish K (resumeDomains O sleepMode (resumeClocks K mB))) := by
  obtain ⟨mA, hA, hsA⟩ := suspendSysPll_sv K fuel (suspendEntry K O sleepMode m) hvco hpfd hfuel
  obtain ⟨mB, hB, hsB⟩ := resumeSysPll_sv K fuel (suspendHalt K O sleepMode mA) hpfd hfuel
  refine ⟨mA, mB, hsA, hsB, ?_⟩
  unfold suspendSeq
  dsimp only
  unfold suspendEntry at hA
  rw [hA, Option.some_bind, hB, Option.some_bind]

theorem resumeDomains_sv (O : SysOracle) (sleepMode : Nat) (m : SleepM) :
    sv (resumeDomains O sleepMode m) =
      sv (resumeDdr O (resumeNoc O sleepMode (resumeWakeupPerf O (resumeWakeup O m)))) := rfl

theorem suspendEntry_sv (K : SysConsts) (O : SysOracle) (sleepMode : Nat) (m : SleepM) :
    sv (suspendEntry K O sleepMode m) =
      sv (suspendClockRoots K O (suspendSleepMode K sleepMode (suspendWakeSources K O
        (suspendHandshakes (suspendWakeup K O sleepMode (suspendNoc K O sleepMode
          (suspendDdr K O (suspendPrepare m)))))))) := rfl

/-! The whole of `DEV_SM_SystemSleep`: status, sleep counter, power-up requests -/

/-- The result of the closing part in terms of `sleepCloseM`. -/
theorem sleepClose_eq (K : SysConsts) (O : SysOracle) (m : SleepM) :
    sleepClose K O m = ((sleepCloseM K O m).status, (sleepCloseM K O m).toSysState) := rfl

theorem sleepCloseM_sv (K : SysConsts) (O : SysOracle) (m : SleepM) :
    sv (sleepCloseM K O m) =
      sv (sleepExitLatency O (wakeMaskRestore K O (sleepDidNotSleep O m))) := rfl

/-- With the sleep status SUSPEND, `DEV_SM_SystemSleep` returns, and its result
is that of the straight-line steps around two states `mA`, `mB` left by the
SYSPLL loops, which change nothing of the view but the PLL bitmap. -/
theorem systemSleep_suspend (K : SysConsts) (O : SysOracle) (fuel sleepMode : Nat) (s : SysState)
    (hrun : SuspendRuns K O)
    (hvco : 0 < K.CLOCK_SRC_SYSPLL1_VCO) (hpfd : K.CLOCK_SRC_SYSPLL1_PFD2_DIV2 + 1 < 2 ^ 32)
    (hfuel : K.CLOCK_SRC_SYSPLL1_PFD2_DIV2 + 1 - K.CLOCK_SRC_SYSPLL1_VCO < fuel) :
    ∃ mA mB,
      sv mA = { sv (suspendEntry K O sleepMode (sleepOpen K O s)) with
        sysSleepRecord :=
          { (sv (suspendEntry K O sleepMode (sleepOpen K O s))).sysSleepRecord with
          pllPwrStat :=
            (if (sv (suspendEntry K O sleepMode (sleepOpen K O s))).perfLevelSleep =
                K.DEV_SM_PERF_LVL_PRK then
              (sv (suspendEntry K O sleepMode (sleepOpen K O s))).sysSleepRecord.pllPwrStat &&&
                not32 ((1 <<< K.CLOCK_PLL_SYS1) % 2 ^ 32)
            else (sv (suspendEntry K O sleepMode (sleepOpen K O s))).sysSleepRecord.pllPwrStat) } } ∧
      sv mB = sv (suspendHalt K O sleepMode mA) ∧
      DEV_SM_SystemSleep K O fuel s sleepMode =
        some (sleepClose K O (resumeFinish K (resumeDomains O sleepMode (resumeClocks K mB)))) := by
  obtain ⟨mA, mB, hA, hB, hseq⟩ :=
    suspendSeq_some K O fuel sleepMode (sleepOpen K O s) hvco hpfd hfuel
  refine ⟨mA, mB, hA, hB, ?_⟩
  unfold DEV_SM_SystemSleep
  dsimp only
  unfold SuspendRuns at hrun
  rw [hrun]
  dsimp only
  rw [if_pos rfl, hseq]
  rfl

/-- With any other answer of the sleep status query the suspend sequence is
skipped. -/
theorem systemSleep_skip (K : SysConsts) (O : SysOracle) (fuel sleepMode : Nat) (s : SysState)
    (hrun : ¬ SuspendRuns K O) :
    DEV_SM_SystemSleep K O fuel s sleepMode = some (sleepClose K O (sleepOpen K O s)) := by
  unfold DEV_SM_SystemSleep
  dsimp only
  unfold SuspendRuns at hrun
  cases h : O.CPU_SystemSleepStatusGet with
  | none => rfl
  | some stat =>
    dsimp only
    rw [if_neg (fun hh => hrun (by rw [h, hh]))]
    rfl

/-- C13: `DEV_SM_SystemSleep` returns, and the sleep counter of the record
afterwards is, for every prior value `c`: `c + 1` when the suspend sequence
runs and `c < 2 ^ 32 - 1`, `0` when it runs and `c` is not below `2 ^ 32 - 1`,
and `c` when the suspend sequence is skipped. -/
theorem systemSleep_sleepCnt (K : SysConsts) (O : SysOracle) (fuel sleepMode : Nat)
    (s : SysState)
    (hvco : 0 < K.CLOCK_SRC_SYSPLL1_VCO) (hpfd : K.CLOCK_SRC_SYSPLL1_PFD2_DIV2 + 1 < 2 ^ 32)
    (hfuel : K.CLOCK_SRC_SYSPLL1_PFD2_DIV2 + 1 - K.CLOCK_SRC_SYSPLL1_VCO < fuel) :
    ∃ r, DEV_SM_SystemSleep K O fuel s sleepMode = some r ∧
      r.2.sysSleepRecord.sleepCnt =
        if SuspendRuns K O then
          (if s.sysSleepRecord.sleepCnt < 2 ^ 32 - 1 then s.sysSleepRecord.sleepCnt + 1 else 0)
        else s.sysSleepRecord.sleepCnt := by
  by_cases hrun : SuspendRuns K O
  · obtain ⟨mA, mB, hA, hB, hcall⟩ := systemSleep_suspend K O fuel sleepMode s hrun hvco hpfd hfuel
    refine ⟨_, hcall, ?_⟩
    rw [if_pos hrun, sleepClose_eq]
    show (sv (sleepCloseM K O _)).sysSleepRecord.sleepCnt = _
    simp only [sleepCloseM_sv, sleepExitLatency_sv, wakeMaskRestore_sv, sleepDidNotSleep_sv,
      resumeFinish_sv, resumeDomains_sv, resumeDdr_sv, resumeNoc_sv, resumeWakeupPerf_sv,
      resumeWakeup_sv, resumeClocks_sv, hB, suspendHalt_sv, hA, suspendEntry_sv,
      suspendClockRoots_sv, suspendSleepMode_sv, suspendWakeSources_sv, suspendHandshakes_sv,
      suspendWakeup_sv, suspendNoc_sv, suspendDdr_sv, suspendPrepare_sv, sleepOpen_sv]
    split_ifs <;> omega
  · refine ⟨_, systemSleep_skip K O fuel sleepMode s hrun, ?_⟩
    rw [if_neg hrun, sleepClose_eq]
    show (sv (sleepCloseM K O _)).sysSleepRecord.sleepCnt = _
    simp only [sleepCloseM_sv, sleepExitLatency_sv, wakeMaskRestore_sv, sleepDidNotSleep_sv,
      sleepOpen_sv]

/-- C13 instance: from 7 the counter goes to 8 when the sleep status is SUSPEND
and stays 7 when it is not; from `0xFFFFFFFF` it goes to 0. -/
theorem systemSleep_sleepCnt_witness :
    (∃ r, DEV_SM_SystemSleep exSysK (exSysO (some 3)) 5 exSysS 3 = some r ∧
      r.2.sysSleepRecord.sleepCnt =
        if SuspendRuns exSysK (exSysO (some 3)) then
          (if exSysS.sysSleepRecord.sleepCnt < 2 ^ 32 - 1 then
            exSysS.sysSleepRecord.sleepCnt + 1 else 0)
        else exSysS.sysSleepRecord.sleepCnt) ∧
    (DEV_SM_SystemSleep exSysK (exSysO (some 3)) 5 exSysS 3).map
      (fun r => r.2.sysSleepRecord.sleepCnt) = some 8 ∧
    (DEV_SM_SystemSleep exSysK (exSysO (some 0)) 5 exSysS 3).map
      (fun r => r.2.sysSleepRecord.sleepCnt) = some 7 ∧
    (DEV_SM_SystemSleep exSysK (exSysO (some 3)) 5
      { exSysS with sysSleepRecord := { exSysS.sysSleepRecord with sleepCnt := 0xFFFFFFFF } } 3).map
      (fun r => r.2.sysSleepRecord.sleepCnt) = some 0 :=
  ⟨systemSleep_sleepCnt exSysK (exSysO (some 3)) 5 3 exSysS (by decide) (by decide) (by decide),
    by decide, by decide, by decide⟩

/-- The chain of guarded status assignments of the resume part returns the
first failure. -/
theorem restoreChain_eq (a b : Bool) (c : Prop) [Decidable c] (d : Bool)
    (e1 e2 e3 e4 e5 : sm_err) :
    (if d = true ∧
        (if (if (if a = true then e1 else SM_ERR_SUCCESS) = SM_ERR_SUCCESS ∧ b = true then e2
              else (if a = true then e1 else SM_ERR_SUCCESS)) = SM_ERR_SUCCESS ∧ c then e3
          else (if (if a = true then e1 else SM_ERR_SUCCESS) = SM_ERR_SUCCESS ∧ b = true then e2
              else (if a = true then e1 else SM_ERR_SUCCESS))) = SM_ERR_SUCCESS then
        (if e4 = SM_ERR_SUCCESS then e5 else e4)
      else
        (if (if (if a = true then e1 else SM_ERR_SUCCESS) = SM_ERR_SUCCESS ∧ b = true then e2
              else (if a = true then e1 else SM_ERR_SUCCESS)) = SM_ERR_SUCCESS ∧ c then e3
          else (if (if a = true then e1 else SM_ERR_SUCCESS) = SM_ERR_SUCCESS ∧ b = true then e2
              else (if a = true then e1 else SM_ERR_SUCCESS)))) =
    firstFailure ((if a = true then [e1] else []) ++ (if b = true then [e2] else []) ++
      (if decide c = true then [e3] else []) ++ (if d = true then [e4, e5] else [])) := by
  cases a <;> cases b <;> cases d <;> by_cases hc : c <;>
    simp only [firstFailure, hc, if_true, if_false, and_true, and_false, true_and, false_and,
      decide_True, decide_False, List.nil_append, List.cons_append, List.append_nil,
      Bool.false_eq_true] <;>
    (try split_ifs) <;> simp_all [firstFailure]

/-- The status that `DEV_SM_SystemSleep` returns when the suspend sequence
runs. -/
theorem systemSleep_suspend_status (K : SysConsts) (O : SysOracle) (fuel sleepMode : Nat)
    (s : SysState) (hrun : SuspendRuns K O)
    (hvco : 0 < K.CLOCK_SRC_SYSPLL1_VCO) (hpfd : K.CLOCK_SRC_SYSPLL1_PFD2_DIV2 + 1 < 2 ^ 32)
    (hfuel : K.CLOCK_SRC_SYSPLL1_PFD2_DIV2 + 1 - K.CLOCK_SRC_SYSPLL1_VCO < fuel) :
    ∃ r, DEV_SM_SystemSleep K O fuel s sleepMode = some r ∧
      r.1 = firstFailure (restoreResults K O sleepMode) := by
  obtain ⟨mA, mB, hA, hB, hcall⟩ := systemSleep_suspend K O fuel sleepMode s hrun hvco hpfd hfuel
  refine ⟨_, hcall, ?_⟩
  rw [sleepClose_eq]
  show (sv (sleepCloseM K O _)).status = _
  simp only [sleepCloseM_sv, sleepExitLatency_sv, wakeMaskRestore_sv, sleepDidNotSleep_sv,
    resumeFinish_sv, resumeDomains_sv, resumeDdr_sv, resumeNoc_sv, resumeWakeupPerf_sv,
    resumeWakeup_sv, resumeClocks_sv, hB, suspendHalt_sv, hA, suspendEntry_sv,
    suspendClockRoots_sv, suspendSleepMode_sv, suspendWakeSources_sv, suspendHandshakes_sv,
    suspendWakeup_sv, suspendNoc_sv, suspendDdr_sv, suspendPrepare_sv, sleepOpen_sv]
  exact restoreChain_eq _ _ _ _ _ _ _ _ _

/-- Filtering the main-line calls by a predicate that only main-line events
satisfy is filtering the trace. -/
theorem filter_main (p : Event → Bool) (h : ∀ e, p e = true → mainEvent e = true)
    (l : List Event) : (l.filter mainEvent).filter p = l.filter p := by
  rw [List.filter_filter]
  congr 1
  funext e
  cases hp : p e
  · simp
  · simp [h e hp]

/-- C12: `DEV_SM_SystemSleep` returns; when the suspend sequence runs, the
status returned is the first status other than `SM_ERR_SUCCESS` among the
answers of the restoration steps whose suspend step was taken (WAKEUP
power-on, WAKEUP performance restore, NOC power-on, DDR power-on, DDR
retention exit, in that order), and `SM_ERR_SUCCESS` when there is none; when
the suspend sequence is skipped it is `SM_ERR_SUCCESS`.  A step that follows
the first failure is not requested, so the first failure in that list is the
first one reported. -/
theorem systemSleep_status (K : SysConsts) (O : SysOracle) (fuel sleepMode : Nat)
    (s : SysState)
    (hvco : 0 < K.CLOCK_SRC_SYSPLL1_VCO) (hpfd : K.CLOCK_SRC_SYSPLL1_PFD2_DIV2 + 1 < 2 ^ 32)
    (hfuel : K.CLOCK_SRC_SYSPLL1_PFD2_DIV2 + 1 - K.CLOCK_SRC_SYSPLL1_VCO < fuel) :
    ∃ r, DEV_SM_SystemSleep K O fuel s sleepMode = some r ∧
      r.1 = if SuspendRuns K O then firstFailure (restoreResults K O sleepMode)
        else SM_ERR_SUCCESS := by
  by_cases hrun : SuspendRuns K O
  · rw [if_pos hrun]
    exact systemSleep_suspend_status K O fuel sleepMode s hrun hvco hpfd hfuel
  · refine ⟨_, systemSleep_skip K O fuel sleepMode s hrun, ?_⟩
    rw [if_neg hrun, sleepClose_eq]
    show (sv (sleepCloseM K O _)).status = _
    simp only [sleepCloseM_sv, sleepExitLatency_sv, wakeMaskRestore_sv, sleepDidNotSleep_sv,
      sleepOpen_sv]

/-- C12 instance: the NOCMIX power-on answers `SM_ERR_INVALID_PARAMETERS` and
the DDRMIX power-on would answer `SM_ERR_NOT_FOUND`; the call returns the
former.  With all answers successful, or with the suspend sequence skipped, it
returns `SM_ERR_SUCCESS`. -/
theorem systemSleep_status_witness :
    (∃ r, DEV_SM_SystemSleep exSysK exSysONocFail 5 exSysS 3 = some r ∧
      r.1 = if SuspendRuns exSysK exSysONocFail then
          firstFailure (restoreResults exSysK exSysONocFail 3)
        else SM_ERR_SUCCESS) ∧
    restoreResults exSysK exSysONocFail 3 =
      [SM_ERR_SUCCESS, SM_ERR_INVALID_PARAMETERS, SM_ERR_NOT_FOUND, SM_ERR_SUCCESS] ∧
    (DEV_SM_SystemSleep exSysK exSysONocFail 5 exSysS 3).map (fun r => r.1) =
      some SM_ERR_INVALID_PARAMETERS ∧
    (DEV_SM_SystemSleep exSysK (exSysO (some 3)) 5 exSysS 3).map (fun r => r.1) =
      some SM_ERR_SUCCESS ∧
    (DEV_SM_SystemSleep exSysK { exSysOFail with CPU_SystemSleepStatusGet := some 0 } 5 exSysS 3).map
      (fun r => r.1) = some SM_ERR_SUCCESS :=
  ⟨systemSleep_status exSysK exSysONocFail 5 3 exSysS (by decide) (by decide) (by decide),
    by decide, by decide, by decide, by decide⟩

/-- The form in which the code computes a saturated latency. -/
theorem saturated_intro (O : SysOracle) (lo hi start i j : Nat) (hlo : lo ≤ i)
    (hj : j = i ∨ j = i + 1) (hi1 : i < hi) (hi2 : start ≤ O.usec i → j < hi) :
    SaturatedLatency O lo hi start
      (if O.usec i ≥ start then usecDiffL (O.usec j) start else 0) := by
  refine ⟨i, j, hlo, hi1, hj, hi2, ?_⟩
  by_cases h : O.usec i < start
  · rw [if_pos h, if_neg (by omega)]
  · rw [if_neg h, if_pos (by omega)]

/-- Without wrap the truncated difference is the elapsed time. -/
theorem usecDiffL_of_le (a b : Nat) (hab : b ≤ a) (ha : a < 2 ^ 64) :
    usecDiffL a b = (a - b) % 2 ^ 32 := by
  unfold usecDiffL
  have hb : b % 2 ^ 64 = b := Nat.mod_eq_of_lt (by omega)
  rw [hb]
  have : (a + 2 ^ 64 - b) % 2 ^ 64 = a - b := by omega
  rw [this]

/-- The latencies as the code records them: `DEV_SM_SystemSleep` returns, and
both latencies of the record follow the rule `SaturatedLatency` on the timer
readings of the call, whatever these are: the
entry latency is measured from the first reading of the call, the exit latency
from a later reading `k`; a reading taken afterwards is compared with that
start, the latency is 0 when it is below the start and otherwise the low 32
bits of the 64-bit difference between the capture reading and the start (the
capture reading is the compared one or the one that follows it).  Both are
below `2 ^ 32`, and the difference is the elapsed time `(a - b) % 2 ^ 32`
whenever the capture reading `a` is not below the start `b`. -/
theorem systemSleep_latency (K : SysConsts) (O : SysOracle) (fuel sleepMode : Nat)
    (s : SysState)
    (hvco : 0 < K.CLOCK_SRC_SYSPLL1_VCO) (hpfd : K.CLOCK_SRC_SYSPLL1_PFD2_DIV2 + 1 < 2 ^ 32)
    (hfuel : K.CLOCK_SRC_SYSPLL1_PFD2_DIV2 + 1 - K.CLOCK_SRC_SYSPLL1_VCO < fuel) :
    ∃ r, DEV_SM_SystemSleep K O fuel s sleepMode = some r ∧
      SaturatedLatency O (s.usecReads + 1) r.2.usecReads (O.usec s.usecReads)
        r.2.sysSleepRecord.sleepEntryUsec ∧
      (∃ k, s.usecReads < k ∧
        SaturatedLatency O (k + 1) r.2.usecReads (O.usec k) r.2.sysSleepRecord.sleepExitUsec) ∧
      r.2.sysSleepRecord.sleepEntryUsec < 2 ^ 32 ∧ r.2.sysSleepRecord.sleepExitUsec < 2 ^ 32 ∧
      ∀ a b, b ≤ a → a < 2 ^ 64 → usecDiffL a b = (a - b) % 2 ^ 32 := by
  have hlt : ∀ (c : Prop) [Decidable c] (a b : Nat),
      (if c then usecDiffL a b else 0) < 2 ^ 32 := by
    intro c _ a b
    split_ifs
    · unfold usecDiffL
      exact Nat.mod_lt _ (by norm_num)
    · norm_num
  by_cases hrun : SuspendRuns K O
  · obtain ⟨mA, mB, hA, hB, hcall⟩ := systemSleep_suspend K O fuel sleepMode s hrun hvco hpfd hfuel
    refine ⟨_, hcall, ?_⟩
    rw [sleepClose_eq]
    show SaturatedLatency O _ (sv (sleepCloseM K O _)).usecReads _
        (sv (sleepCloseM K O _)).sysSleepRecord.sleepEntryUsec ∧
      (∃ k, s.usecReads < k ∧ SaturatedLatency O (k + 1) (sv (sleepCloseM K O _)).usecReads
        (O.usec k) (sv (sleepCloseM K O _)).sysSleepRecord.sleepExitUsec) ∧
      (sv (sleepCloseM K O _)).sysSleepRecord.sleepEntryUsec < 2 ^ 32 ∧
      (sv (sleepCloseM K O _)).sysSleepRecord.sleepExitUsec < 2 ^ 32 ∧
      ∀ a b, b ≤ a → a < 2 ^ 64 → usecDiffL a b = (a - b) % 2 ^ 32
    clear hcall
    simp only [sleepCloseM_sv, sleepExitLatency_sv, wakeMaskRestore_sv, sleepDidNotSleep_sv,
      resumeFinish_sv, resumeDomains_sv, resumeDdr_sv, resumeNoc_sv, resumeWakeupPerf_sv,
      resumeWakeup_sv, resumeClocks_sv, hB, suspendHalt_sv, hA, suspendEntry_sv,
      suspendClockRoots_sv, suspendSleepMode_sv, suspendWakeSources_sv, suspendHandshakes_sv,
      suspendWakeup_sv, suspendNoc_sv, suspendDdr_sv, suspendPrepare_sv, sleepOpen_sv]
    clear hA hB
    by_cases hW : (O.ICSR &&& K.SCB_ICSR_VECTPENDING_Msk) >>> K.SCB_ICSR_VECTPENDING_Pos = 0
    · simp only [if_pos hW]
      refine ⟨?_, ⟨(s.usecReads + 1 +
        if O.usec (s.usecReads + 1) ≥ O.usec s.usecReads then 2 else 1) + 1, ?_, ?_⟩,
        hlt _ _ _, hlt _ _ _, usecDiffL_of_le⟩
      · exact saturated_intro O _ _ _ _ _ (by split_ifs <;> omega) (Or.inl rfl)
          (by split_ifs <;> omega) (by intro h; split_ifs at h ⊢ <;> omega)
      · split_ifs <;> omega
      · exact saturated_intro O _ _ _ _ _ (by split_ifs <;> omega) (Or.inr rfl)
          (by split_ifs <;> omega) (by intro h; split_ifs at h ⊢ <;> omega)
    · simp only [if_neg hW]
      refine ⟨?_, ⟨s.usecReads + 1 +
        if O.usec (s.usecReads + 1) ≥ O.usec s.usecReads then 2 else 1, ?_, ?_⟩,
        hlt _ _ _, hlt _ _ _, usecDiffL_of_le⟩
      · exact saturated_intro O _ _ _ _ _ (by omega) (Or.inr rfl)
          (by split_ifs <;> omega) (by intro h; split_ifs at h ⊢ <;> omega)
      · split_ifs <;> omega
      · exact saturated_intro O _ _ _ _ _ (by split_ifs <;> omega) (Or.inr rfl)
          (by split_ifs <;> omega) (by intro h; split_ifs at h ⊢ <;> omega)
  · refine ⟨_, systemSleep_skip K O fuel sleepMode s hrun, ?_⟩
    rw [sleepClose_eq]
    show SaturatedLatency O _ (sv (sleepCloseM K O _)).usecReads _
        (sv (sleepCloseM K O _)).sysSleepRecord.sleepEntryUsec ∧
      (∃ k, s.usecReads < k ∧ SaturatedLatency O (k + 1) (sv (sleepCloseM K O _)).usecReads
        (O.usec k) (sv (sleepCloseM K O _)).sysSleepRecord.sleepExitUsec) ∧
      (sv (sleepCloseM K O _)).sysSleepRecord.sleepEntryUsec < 2 ^ 32 ∧
      (sv (sleepCloseM K O _)).sysSleepRecord.sleepExitUsec < 2 ^ 32 ∧
      ∀ a b, b ≤ a → a < 2 ^ 64 → usecDiffL a b = (a - b) % 2 ^ 32
    simp only [sleepCloseM_sv, sleepExitLatency_sv, wakeMaskRestore_sv, sleepDidNotSleep_sv,
      sleepOpen_sv, if_true]
    refine ⟨?_, ⟨s.usecReads + 1, by omega, ?_⟩, hlt _ _ _, hlt _ _ _, usecDiffL_of_le⟩
    · exact saturated_intro O _ _ _ _ _ (by omega) (Or.inl rfl)
          (by split_ifs <;> omega) (by intro h; split_ifs at h ⊢ <;> omega)
    · exact saturated_intro O _ _ _ _ _ (by omega) (Or.inr rfl)
          (by split_ifs <;> omega) (by intro h; split_ifs at h ⊢ <;> omega)

/-- The scan loop over the cores as a fold over the contributions. -/
theorem forRange_lpmStep (K : SysConsts) (O : SysOracle) (mixIdx : Nat) (n a : Nat) :
    forRange n (lpmStep K O mixIdx) a =
      ((List.range n).filterMap fun c =>
        if c ≠ K.CPU_IDX_M33P ∧ O.CPU_SleepForceGet c = some false then
          O.SRC_MixCpuLpmGet mixIdx c
        else none).foldl max a := by
  induction n with
  | zero => rfl
  | succ k ih =>
    show lpmStep K O mixIdx k (forRange k (lpmStep K O mixIdx) a) = _
    rw [ih, List.range_succ, List.filterMap_append, List.foldl_append]
    unfold lpmStep
    by_cases hc : k ≠ K.CPU_IDX_M33P ∧ O.CPU_SleepForceGet k = some false
    · rw [if_pos hc]
      cases hg : O.SRC_MixCpuLpmGet mixIdx k with
      | none => simp [hc, hg]
      | some v =>
        simp only [List.filterMap_cons, List.filterMap_nil, if_pos hc, hg, List.foldl_cons,
          List.foldl_nil]
        split_ifs with h
        · exact (Nat.max_eq_right (Nat.le_of_lt h)).symm
        · exact (Nat.max_eq_left (Nat.le_of_not_lt h)).symm
    · rw [if_neg hc]
      simp [hc]

/-- A fold with `max` is the maximum of the start value and the list. -/
theorem foldl_max_spec (l : List Nat) (a : Nat) :
    a ≤ l.foldl max a ∧ (∀ v ∈ l, v ≤ l.foldl max a) ∧ (l.foldl max a = a ∨ l.foldl max a ∈ l) := by
  induction l generalizing a with
  | nil => simp
  | cons x xs ih =>
    obtain ⟨h1, h2, h3⟩ := ih (max a x)
    simp only [List.foldl_cons, List.mem_cons]
    refine ⟨le_trans (le_max_left a x) h1, ?_, ?_⟩
    · intro v hv
      rcases hv with hv | hv
      · subst hv
        exact le_trans (le_max_right a v) h1
      · exact h2 v hv
    · rcases h3 with h3 | h3
      · rw [h3]
        rcases le_total a x with hax | hax
        · right; left; exact max_eq_right hax
        · left; exact max_eq_left hax
      · right; right; exact h3

/-- C17: after the CPU scan of `DEV_SM_SystemSleep` the dependency values of
NOCMIX and WAKEUPMIX are the maximum of the baseline `CPU_PD_LPM_ON_NEVER` and
the preferences `lpmContributions` of the cores that are not forced to sleep:
not below the baseline, not below any contribution, and equal to the baseline
or to one of the contributions.  Cores forced to sleep are not in the list,
and the value is a function of the constants and the answers of this call
only, not of the state before it. -/
theorem sleepOpen_lpmSetting (K : SysConsts) (O : SysOracle) (s : SysState) :
    (sleepOpen K O s).lpmSettingNoc =
      (lpmContributions K O K.PWR_MIX_SLICE_IDX_NOC).foldl max K.CPU_PD_LPM_ON_NEVER ∧
    (sleepOpen K O s).lpmSettingWakeup =
      (lpmContributions K O K.PWR_MIX_SLICE_IDX_WAKEUP).foldl max K.CPU_PD_LPM_ON_NEVER ∧
    ∀ mixIdx,
      K.CPU_PD_LPM_ON_NEVER ≤
        (lpmContributions K O mixIdx).foldl max K.CPU_PD_LPM_ON_NEVER ∧
      (∀ v ∈ lpmContributions K O mixIdx,
        v ≤ (lpmContributions K O mixIdx).foldl max K.CPU_PD_LPM_ON_NEVER) ∧
      ((lpmContributions K O mixIdx).foldl max K.CPU_PD_LPM_ON_NEVER = K.CPU_PD_LPM_ON_NEVER ∨
        (lpmContributions K O mixIdx).foldl max K.CPU_PD_LPM_ON_NEVER ∈
          lpmContributions K O mixIdx) := by
  have hview := sleepOpen_sv K O s
  have hn : (sleepOpen K O s).lpmSettingNoc = lpmDependency K O K.PWR_MIX_SLICE_IDX_NOC :=
    congrArg SleepView.lpmSettingNoc hview
  have hw : (sleepOpen K O s).lpmSettingWakeup =
      lpmDependency K O K.PWR_MIX_SLICE_IDX_WAKEUP :=
    congrArg SleepView.lpmSettingWakeup hview
  refine ⟨?_, ?_, fun mixIdx => foldl_max_spec _ _⟩
  · rw [hn]
    exact forRange_lpmStep K O _ K.CPU_NUM_IDX K.CPU_PD_LPM_ON_NEVER
  · rw [hw]
    exact forRange_lpmStep K O _ K.CPU_NUM_IDX K.CPU_PD_LPM_ON_NEVER

/-- C17 instance: core 1 prefers 2 and core 2 prefers 4; the value is 4 when
neither is forced to sleep, 2 when core 2 is, and the baseline 0 when both
are. -/
theorem sleepOpen_lpmSetting_witness :
    ((sleepOpen exSysK (exSysOLpm true) exSysS).lpmSettingNoc =
        (lpmContributions exSysK (exSysOLpm true) exSysK.PWR_MIX_SLICE_IDX_NOC).foldl max
          exSysK.CPU_PD_LPM_ON_NEVER) ∧
    lpmContributions exSysK (exSysOLpm true) exSysK.PWR_MIX_SLICE_IDX_NOC = [2] ∧
    lpmContributions exSysK (exSysOLpm false) exSysK.PWR_MIX_SLICE_IDX_NOC = [2, 4] ∧
    (sleepOpen exSysK (exSysOLpm true) exSysS).lpmSettingNoc = 2 ∧
    (sleepOpen exSysK (exSysOLpm false) exSysS).lpmSettingNoc = 4 ∧
    (sleepOpen exSysK (exSysOLpm false) exSysS).lpmSettingWakeup = 4 ∧
    (sleepOpen exSysK { exSysOLpm false with CPU_SleepForceGet := fun _ => some true }
      exSysS).lpmSettingNoc = 0 :=
  ⟨(sleepOpen_lpmSetting exSysK (exSysOLpm true) exSysS).1, by decide, by decide, by decide,
    by decide, by decide, by decide⟩

theorem irqWakeSet_sysWakeMask (O : SysOracle) (m : SleepM) (cpuIdx wakeIdx val : Nat) :
    (CPU_IrqWakeSet O m cpuIdx wakeIdx val).sysWakeMask = m.sysWakeMask := by
  unfold CPU_IrqWakeSet
  split <;> rfl

theorem scanWakeNotForced_sw (K : SysConsts) (O : SysOracle) (c w : Nat)
    (hw : w < K.GPC_CPU_CTRL_CMC_IRQ_WAKEUP_MASK_COUNT) (m : SleepM) :
    sw c w (scanWakeNotForced K O c m) =
      if O.irqWakeGetOk c w = true then
        (m.sysWakeMask w &&& m.wakeMask c w,
          if O.irqWakeSetOk c w = true then 0xFFFFFFFF else m.wakeMask c w)
      else (m.sysWakeMask w, m.wakeMask c w) := by
  unfold scanWakeNotForced
  refine forRange_at (sw c w) _ w
    (fun p => if O.irqWakeGetOk c w = true then
      (p.1 &&& p.2, if O.irqWakeSetOk c w = true then 0xFFFFFFFF else p.2) else p)
    ?_ ?_ K.GPC_CPU_CTRL_CMC_IRQ_WAKEUP_MASK_COUNT hw m
  · intro i s hi
    dsimp only [CPU_IrqWakeGet]
    split
    · next wakeVal _ =>
      simp only [sw, irqWakeSet_sysWakeMask, irqWakeSet_wakeMask]
      have h1 : ¬ (O.irqWakeSetOk c i = true ∧ c = c ∧ w = i) := fun hh => hi hh.2.2.symm
      simp [set1, h1, Ne.symm hi]
    · rfl
  · intro s
    dsimp only [CPU_IrqWakeGet]
    by_cases hg : O.irqWakeGetOk c w = true
    · simp only [hg, if_true, sw, irqWakeSet_sysWakeMask, irqWakeSet_wakeMask]
      simp [set1]
    · simp only [hg, if_false]
      simp

theorem scanWakeForced_sys (K : SysConsts) (O : SysOracle) (c : Nat) (m : SleepM) :
    (scanWakeForced K O c m).sysWakeMask = m.sysWakeMask := by
  unfold scanWakeForced
  refine forRange_frame (fun m : SleepM => m.sysWakeMask) _ _ ?_ m
  intro i s _
  dsimp only [CPU_IrqWakeGet]
  split
  · simp only [irqWakeSet_sysWakeMask]
  · rfl

theorem scanLpm_sys (K : SysConsts) (O : SysOracle) (c : Nat) (m : SleepM) :
    (scanLpm K O c m).sysWakeMask = m.sysWakeMask := by
  unfold scanLpm
  cases O.SRC_MixCpuLpmGet K.PWR_MIX_SLICE_IDX_NOC c <;>
  cases O.SRC_MixCpuLpmGet K.PWR_MIX_SLICE_IDX_WAKEUP c <;>
  dsimp only <;> split_ifs <;> rfl

/-- The scan of one core, seen from word `w` of the system wake mask. -/
theorem scanCpu_sys (K : SysConsts) (O : SysOracle) (c w : Nat)
    (hw : w < K.GPC_CPU_CTRL_CMC_IRQ_WAKEUP_MASK_COUNT) (m : SleepM) :
    (scanCpu K O c m).sysWakeMask w =
      if (decide (c ≠ K.CPU_IDX_M33P) && decide (O.CPU_SleepForceGet c = some false) &&
          O.irqWakeGetOk c w) = true then m.sysWakeMask w &&& m.wakeMask c w
      else m.sysWakeMask w := by
  unfold scanCpu
  by_cases hc : c ≠ K.CPU_IDX_M33P
  · rw [if_pos hc]
    cases hf : O.CPU_SleepForceGet c with
    | none => simp [hc]
    | some f =>
      cases f
      · dsimp only
        rw [scanLpm_sys]
        have h := congrArg Prod.fst (scanWakeNotForced_sw K O c w hw m)
        simp only [sw] at h
        rw [h]
        by_cases hg : O.irqWakeGetOk c w = true <;> simp [hc, hg]
      · dsimp only
        rw [scanWakeForced_sys]
        simp [hc]
  · rw [if_neg hc]
    simp [hc]

/-- The scan of the first `n` cores, seen from word `w`: the system wake mask
is ANDed with the masks that the contributing cores had before the scan, and
the masks of the cores not scanned yet are as before. -/
theorem scanCpus_sys (K : SysConsts) (O : SysOracle) (w : Nat)
    (hw : w < K.GPC_CPU_CTRL_CMC_IRQ_WAKEUP_MASK_COUNT) (m : SleepM) (n : Nat) :
    (forRange n (scanCpu K O) m).sysWakeMask w =
      (((List.range n).filter fun c =>
          decide (c ≠ K.CPU_IDX_M33P) && decide (O.CPU_SleepForceGet c = some false) &&
            O.irqWakeGetOk c w).map fun c => m.wakeMask c w).foldl (fun a b => a &&& b)
        (m.sysWakeMask w) ∧
    ∀ c, n ≤ c → (forRange n (scanCpu K O) m).wakeMask c w = m.wakeMask c w := by
  induction n with
  | zero => exact ⟨rfl, fun c _ => rfl⟩
  | succ k ih =>
    obtain ⟨ih1, ih2⟩ := ih
    constructor
    · show (scanCpu K O k (forRange k (scanCpu K O) m)).sysWakeMask w = _
      rw [scanCpu_sys K O k w hw, ih1, ih2 k (Nat.le_refl k), List.range_succ,
        List.filter_append, List.map_append, List.foldl_append]
      by_cases he : (decide (k ≠ K.CPU_IDX_M33P) &&
          decide (O.CPU_SleepForceGet k = some false) && O.irqWakeGetOk k w) = true
      · simp only [List.filter_cons, List.filter_nil]
        rw [if_pos he, if_pos he]
        rfl
      · simp only [List.filter_cons, List.filter_nil]
        rw [if_neg he, if_neg he]
        rfl
    · intro c hc
      show (scanCpu K O k (forRange k (scanCpu K O) m)).wakeMask c w = _
      have h := scanCpu_other K O k c w (by omega) (forRange k (scanCpu K O) m)
      simp only [wk, Prod.mk.injEq] at h
      rw [h.1]
      exact ih2 c (by omega)

theorem wakeMaskInit_sysWakeMask (K : SysConsts) (w : Nat)
    (hw : w < K.GPC_CPU_CTRL_CMC_IRQ_WAKEUP_MASK_COUNT) (m : SleepM) :
    (wakeMaskInit K m).sysWakeMask w = 0xFFFFFFFF := by
  unfold wakeMaskInit
  refine forRange_at (fun m : SleepM => m.sysWakeMask w) _ w (fun _ => 0xFFFFFFFF) ?_ ?_
    K.GPC_CPU_CTRL_CMC_IRQ_WAKEUP_MASK_COUNT hw m
  · intro i s hi
    dsimp only
    refine Eq.trans (forRange_frame (fun m : SleepM => m.sysWakeMask w) _ _ ?_ _) ?_
    · intro j t _
      rfl
    · simp [set1, Ne.symm hi]
  · intro s
    dsimp only
    refine Eq.trans (forRange_frame (fun m : SleepM => m.sysWakeMask w) _ _ ?_ _) ?_
    · intro j t _
      rfl
    · simp [set1]

/-- C18: for every wake-mask word `w` in range, the system wake mask built by
the CPU scan is the bitwise AND, from all-ones, of the wake masks that the
cores of `wakeContributors` had before the call; a secondary core whose
sleep-force query and wake-mask read succeed has its mask captured, is among
the contributors exactly when it is not forced to sleep, and has its hardware
mask set to all-ones when the write is accepted. -/
theorem sleepOpen_sysWakeMask (K : SysConsts) (O : SysOracle) (s : SysState) (w : Nat)
    (hw : w < K.GPC_CPU_CTRL_CMC_IRQ_WAKEUP_MASK_COUNT) :
    (sleepOpen K O s).sysWakeMask w =
      ((wakeContributors K O w).map fun c => s.wakeMask c w).foldl (fun a b => a &&& b)
        0xFFFFFFFF ∧
    ∀ c, c < K.CPU_NUM_IDX → c ≠ K.CPU_IDX_M33P → ∀ f, O.CPU_SleepForceGet c = some f →
      O.irqWakeGetOk c w = true →
      (sleepOpen K O s).cpuWakeMask c w = s.wakeMask c w ∧
      (c ∈ wakeContributors K O w ↔ f = false) ∧
      (O.irqWakeSetOk c w = true → (sleepOpen K O s).wakeMask c w = 0xFFFFFFFF) := by
  constructor
  · have h := (scanCpus_sys K O w hw (lpmSettingInit K (wakeMaskInit K
      (sleepRecordCapture K O (sleepCaptureStart O (sleepEnter s))))) K.CPU_NUM_IDX).1
    have hsys : (lpmSettingInit K (wakeMaskInit K (sleepRecordCapture K O
        (sleepCaptureStart O (sleepEnter s))))).sysWakeMask w = 0xFFFFFFFF :=
      wakeMaskInit_sysWakeMask K w hw _
    have hmask : (lpmSettingInit K (wakeMaskInit K (sleepRecordCapture K O
        (sleepCaptureStart O (sleepEnter s))))).wakeMask = s.wakeMask := by
      rw [lpmSettingInit_wakeMask, wakeMaskInit_wakeMask, sleepRecordCapture_wakeMask,
        sleepCaptureStart_wakeMask]
      rfl
    rw [hsys, hmask] at h
    exact h
  · intro c hc hm f hf hget
    have h := sleepOpen_wk K O s c w hm (fun _ => by rw [hf]; rfl) (fun _ _ => hget)
    refine ⟨h.2 hc hw, ?_, ?_⟩
    · unfold wakeContributors
      simp only [List.mem_filter, List.mem_range, hc, hm, hf, hget, true_and, Bool.and_true,
        ne_eq, not_false_eq_true, decide_True, Bool.true_and, decide_eq_true_eq,
        Option.some.injEq]
    · intro hset
      rw [h.1, if_pos ⟨hc, hw, hset⟩]

/-- C18 instance: word 1 of cores 1 and 2 holds 0x1011 and 0x1021; the system
mask is 0x1001 when neither is forced to sleep and 0x1011 when core 2 is, whose
mask is then still captured and set to all-ones. -/
theorem sleepOpen_sysWakeMask_witness :
    ((sleepOpen exSysK (exSysOLpm false) exSysS).sysWakeMask 1 =
        ((wakeContributors exSysK (exSysOLpm false) 1).map
          fun c => exSysS.wakeMask c 1).foldl (fun a b => a &&& b) 0xFFFFFFFF ∧
      ∀ c, c < exSysK.CPU_NUM_IDX → c ≠ exSysK.CPU_IDX_M33P →
        ∀ f, (exSysOLpm false).CPU_SleepForceGet c = some f →
        (exSysOLpm false).irqWakeGetOk c 1 = true →
        (sleepOpen exSysK (exSysOLpm false) exSysS).cpuWakeMask c 1 = exSysS.wakeMask c 1 ∧
        (c ∈ wakeContributors exSysK (exSysOLpm false) 1 ↔ f = false) ∧
        ((exSysOLpm false).irqWakeSetOk c 1 = true →
          (sleepOpen exSysK (exSysOLpm false) exSysS).wakeMask c 1 = 0xFFFFFFFF)) ∧
    wakeContributors exSysK (exSysOLpm false) 1 = [1, 2] ∧
    (sleepOpen exSysK (exSysOLpm false) exSysS).sysWakeMask 1 = 0x1001 ∧
    wakeContributors exSysK (exSysOLpm true) 1 = [1] ∧
    (sleepOpen exSysK (exSysOLpm true) exSysS).sysWakeMask 1 = 0x1011 ∧
    (sleepOpen exSysK (exSysOLpm true) exSysS).cpuWakeMask 2 1 = 0x1021 ∧
    (sleepOpen exSysK (exSysOLpm true) exSysS).wakeMask 2 1 = 0xFFFFFFFF :=
  ⟨sleepOpen_sysWakeMask exSysK (exSysOLpm false) exSysS 1 (by decide), by decide, by decide,
    by decide, by decide, by decide, by decide⟩

/-- Bit `j` after clearing bit `i` of a 32-bit bitmap. -/
theorem testBit_clear (x i j : Nat) (hj : j < 32) :
    (x &&& not32 ((1 <<< i) % 2 ^ 32)).testBit j = (x.testBit j && !decide (j = i)) := by
  have h1 : (0xFFFFFFFF : Nat) = 2 ^ 32 - 1 := by norm_num
  unfold not32
  rw [h1, Nat.testBit_and, Nat.testBit_xor, Nat.testBit_two_pow_sub_one, Nat.mod_mod,
    Nat.testBit_mod_two_pow, Nat.one_shiftLeft, Nat.testBit_two_pow]
  by_cases hji : j = i
  · subst hji
    simp [hj]
  · have : ¬ i = j := fun h => hji h.symm
    simp [hj, hji, this]

/-- The guards of the DDR calls, written as "no earlier step failed". -/
theorem ddrChain_eq (a b : Bool) (c : Prop) [Decidable c] (r : Prop) [Decidable r]
    (e1 e2 e3 e4 : sm_err) (E F D R : Event) :
    ((E :: if r then [F] else []) ++
      (if decide r = true ∧
          (if (if (if a = true then e1 else SM_ERR_SUCCESS) = SM_ERR_SUCCESS ∧ b = true then e2
                else (if a = true then e1 else SM_ERR_SUCCESS)) = SM_ERR_SUCCESS ∧ c then e3
            else (if (if a = true then e1 else SM_ERR_SUCCESS) = SM_ERR_SUCCESS ∧ b = true then e2
                else (if a = true then e1 else SM_ERR_SUCCESS))) = SM_ERR_SUCCESS then
        D :: (if e4 = SM_ERR_SUCCESS then [R] else [])
      else [])) =
    E :: (if r then
      F :: (if ((a = true → e1 = SM_ERR_SUCCESS) ∧ (b = true → e2 = SM_ERR_SUCCESS)) ∧
          (decide c = true → e3 = SM_ERR_SUCCESS) then
        D :: (if e4 = SM_ERR_SUCCESS then [R] else [])
      else [])
    else []) := by
  cases a <;> cases b <;> by_cases hr : r <;> by_cases hc : c <;>
    by_cases h1 : e1 = SM_ERR_SUCCESS <;> by_cases h2 : e2 = SM_ERR_SUCCESS <;>
    by_cases h3 : e3 = SM_ERR_SUCCESS <;> simp [hr, hc, h1, h2, h3]

/-- C19: when the suspend sequence runs, the DDR calls that
`DEV_SM_SystemSleep` adds to the trace are exactly `ddrCalls`; when the
retention entry fails that is the retention-entry request alone, so neither a
DDRMIX power-off nor a power-on nor a retention exit.  The sequence is
completed in every case (the halt and the board unprepare hook are in the
trace), and the DDRMIX bit of the recorded bitmap is the snapshot bit, cleared
exactly when the retention entry and the DDRMIX power-off both succeeded.
Asked of the constants: the DDRMIX slice index is below 32 and differs from
those of NOCMIX and WAKEUPMIX. -/
theorem systemSleep_ddr_retention (K : SysConsts) (O : SysOracle) (fuel sleepMode : Nat)
    (s : SysState) (hrun : SuspendRuns K O)
    (hddr : K.PWR_MIX_SLICE_IDX_DDR < 32)
    (hnoc : K.PWR_MIX_SLICE_IDX_DDR ≠ K.PWR_MIX_SLICE_IDX_NOC)
    (hwakeup : K.PWR_MIX_SLICE_IDX_DDR ≠ K.PWR_MIX_SLICE_IDX_WAKEUP)
    (hvco : 0 < K.CLOCK_SRC_SYSPLL1_VCO) (hpfd : K.CLOCK_SRC_SYSPLL1_PFD2_DIV2 + 1 < 2 ^ 32)
    (hfuel : K.CLOCK_SRC_SYSPLL1_PFD2_DIV2 + 1 - K.CLOCK_SRC_SYSPLL1_VCO < fuel) :
    ∃ r, DEV_SM_SystemSleep K O fuel s sleepMode = some r ∧
      r.2.trace.filter isDdrCall = s.trace.filter isDdrCall ++ ddrCalls K O sleepMode ∧
      (O.DEV_SM_MemDdrRetentionEnter ≠ SM_ERR_SUCCESS →
        ddrCalls K O sleepMode = [Event.DEV_SM_MemDdrRetentionEnter]) ∧
      Event.WFI ∈ r.2.trace ∧
      Event.BOARD_SystemSleepUnprepare s.s_sysSleepMode s.s_sysSleepFlags ∈ r.2.trace ∧
      r.2.sysSleepRecord.mixPwrStat.testBit K.PWR_MIX_SLICE_IDX_DDR =
        ((pwrBitmap K.PWR_NUM_MIX_SLICE O.SRC_MixIsPwrSwitchOn).testBit K.PWR_MIX_SLICE_IDX_DDR &&
          !decide (O.DEV_SM_MemDdrRetentionEnter = SM_ERR_SUCCESS ∧
            O.ddrPowerOff = SM_ERR_SUCCESS)) := by
  obtain ⟨mA, mB, hA, hB, hcall⟩ := systemSleep_suspend K O fuel sleepMode s hrun hvco hpfd hfuel
  refine ⟨_, hcall, ?_, ?_, ?_, ?_, ?_⟩
  · have hmain : ∀ e, isDdrCall e = true → mainEvent e = true := by
      intro e he
      cases e <;> simp_all [isDdrCall, mainEvent]
    rw [sleepClose_eq, ← filter_main isDdrCall hmain, ← filter_main isDdrCall hmain s.trace]
    show List.filter isDdrCall (sv (sleepCloseM K O _)).calls = _
    simp only [sleepCloseM_sv, sleepExitLatency_sv, wakeMaskRestore_sv, sleepDidNotSleep_sv,
      resumeFinish_sv, resumeDomains_sv, resumeDdr_sv, resumeNoc_sv, resumeWakeupPerf_sv,
      resumeWakeup_sv, resumeClocks_sv, hB, suspendHalt_sv, hA, suspendEntry_sv,
      suspendClockRoots_sv, suspendSleepMode_sv, suspendWakeSources_sv, suspendHandshakes_sv,
      suspendWakeup_sv, suspendNoc_sv, suspendDdr_sv, suspendPrepare_sv, sleepOpen_sv]
    simp only [List.filter_append, apply_ite (List.filter isDdrCall), List.filter_cons,
      List.filter_nil, isDdrCall, if_true, if_false, ite_self, List.append_nil,
      List.nil_append, Bool.false_eq_true]
    rw [List.append_assoc]
    refine congrArg
      (fun l : List Event => List.filter isDdrCall (List.filter mainEvent s.trace) ++ l) ?_
    exact ddrChain_eq _ _ _ _ _ _ _ _ _ _ _ _
  · intro hfail
    simp [ddrCalls, hfail]
  · rw [sleepClose_eq]
    refine List.mem_of_mem_filter (?_ : Event.WFI ∈ (sv (sleepCloseM K O _)).calls)
    simp only [sleepCloseM_sv, sleepExitLatency_sv, wakeMaskRestore_sv, sleepDidNotSleep_sv,
      resumeFinish_sv, resumeDomains_sv, resumeDdr_sv, resumeNoc_sv, resumeWakeupPerf_sv,
      resumeWakeup_sv, resumeClocks_sv, hB, suspendHalt_sv, hA, suspendEntry_sv,
      suspendClockRoots_sv, suspendSleepMode_sv, suspendWakeSources_sv, suspendHandshakes_sv,
      suspendWakeup_sv, suspendNoc_sv, suspendDdr_sv, suspendPrepare_sv, sleepOpen_sv]
    simp
  · rw [sleepClose_eq]
    refine List.mem_of_mem_filter (?_ :
      Event.BOARD_SystemSleepUnprepare s.s_sysSleepMode s.s_sysSleepFlags ∈
        (sv (sleepCloseM K O _)).calls)
    simp only [sleepCloseM_sv, sleepExitLatency_sv, wakeMaskRestore_sv, sleepDidNotSleep_sv,
      resumeFinish_sv, resumeDomains_sv, resumeDdr_sv, resumeNoc_sv, resumeWakeupPerf_sv,
      resumeWakeup_sv, resumeClocks_sv, hB, suspendHalt_sv, hA, suspendEntry_sv,
      suspendClockRoots_sv, suspendSleepMode_sv, suspendWakeSources_sv, suspendHandshakes_sv,
      suspendWakeup_sv, suspendNoc_sv, suspendDdr_sv, suspendPrepare_sv, sleepOpen_sv]
    simp
  · rw [sleepClose_eq]
    show (sv (sleepCloseM K O _)).sysSleepRecord.mixPwrStat.testBit _ = _
    simp only [sleepCloseM_sv, sleepExitLatency_sv, wakeMaskRestore_sv, sleepDidNotSleep_sv,
      resumeFinish_sv, resumeDomains_sv, resumeDdr_sv, resumeNoc_sv, resumeWakeupPerf_sv,
      resumeWakeup_sv, resumeClocks_sv, hB, suspendHalt_sv, hA, suspendEntry_sv,
      suspendClockRoots_sv, suspendSleepMode_sv, suspendWakeSources_sv, suspendHandshakes_sv,
      suspendWakeup_sv, suspendNoc_sv, suspendDdr_sv, suspendPrepare_sv, sleepOpen_sv]
    simp only [apply_ite (fun x : Nat => x.testBit K.PWR_MIX_SLICE_IDX_DDR),
      testBit_clear _ _ _ hddr, hnoc, hwakeup, decide_False, Bool.not_false, Bool.and_true,
      ite_self, decide_True, Bool.not_true, Bool.and_false]
    by_cases h : O.DEV_SM_MemDdrRetentionEnter = SM_ERR_SUCCESS ∧ O.ddrPowerOff = SM_ERR_SUCCESS
    · simp [h]
    · simp [h]

/-- The extraction and clamp of the code is `sleepPerfLevel`. -/
theorem perfLevel_extract (K : SysConsts) (mode : Nat) :
    (if (mode &&& 0xF0) >>> 4 > K.DEV_SM_PERF_LVL_ODV then K.DEV_SM_PERF_LVL_ODV
      else (mode &&& 0xF0) >>> 4) = sleepPerfLevel K mode := by
  have h : (mode &&& 0xF0) >>> 4 = mode / 16 % 16 := by
    have h1 : (0xF0 : Nat) = 15 <<< 4 := by decide
    have h2 : (15 : Nat) = 2 ^ 4 - 1 := by decide
    rw [h1, and_shiftLeft_shiftRight, Nat.shiftRight_eq_div_pow, h2,
      Nat.and_pow_two_sub_one_eq_mod]
  rw [h]
  unfold sleepPerfLevel
  split_ifs with hc
  · exact (Nat.min_eq_right (Nat.le_of_lt hc)).symm
  · exact (Nat.min_eq_left (Nat.le_of_not_lt hc)).symm

/-- C20: for every sleep mode and flags stored by
`DEV_SM_SystemSleepModeSet`, a call of `DEV_SM_SystemSleep` that runs the
suspend sequence uses as sleep performance level bits 7..4 of the mode clamped
to the over-drive level (`sleepPerfLevel`): the oscillator control register is
left at 0 when the active-sleep decision `sleepActive` holds and at the
ROSC-off enable mask when it does not, and the performance-level calls of the
call are the move to and from that level when it holds and none otherwise. -/
theorem systemSleep_active_sleep (K : SysConsts) (O : SysOracle) (fuel sleepMode : Nat)
    (s : SysState) (mode flags : Nat) (hrun : SuspendRuns K O)
    (hvco : 0 < K.CLOCK_SRC_SYSPLL1_VCO) (hpfd : K.CLOCK_SRC_SYSPLL1_PFD2_DIV2 + 1 < 2 ^ 32)
    (hfuel : K.CLOCK_SRC_SYSPLL1_PFD2_DIV2 + 1 - K.CLOCK_SRC_SYSPLL1_VCO < fuel) :
    ∃ r, DEV_SM_SystemSleep K O fuel (DEV_SM_SystemSleepModeSet s mode flags) sleepMode =
        some r ∧
      r.2.GPC_ROSC_CTRL =
        (if sleepActive K O mode flags then 0
          else K.GPC_GLOBAL_GPC_ROSC_CTRL_ROSC_OFF_EN_MASK) ∧
      r.2.trace.filter isPerfSystemCall = s.trace.filter isPerfSystemCall ++
        (if sleepActive K O mode flags then
          [Event.DEV_SM_PerfSystemSleep (sleepPerfLevel K mode),
            Event.DEV_SM_PerfSystemWake (sleepPerfLevel K mode)]
        else []) := by
  obtain ⟨mA, mB, hA, hB, hcall⟩ := systemSleep_suspend K O fuel sleepMode
    (DEV_SM_SystemSleepModeSet s mode flags) hrun hvco hpfd hfuel
  have hact : ((decide (sleepPerfLevel K mode ≠ K.DEV_SM_PERF_LVL_PRK) ||
      decide (flags &&& K.DEV_SM_SSF_OSC24M_ACTIVE_MASK ≠ 0) ||
      decide (O.CPU_LpComputeListGet ≠ 0)) = true) ↔ sleepActive K O mode flags := by
    unfold sleepActive
    simp only [Bool.or_eq_true, decide_eq_true_eq, or_assoc]
  refine ⟨_, hcall, ?_, ?_⟩
  · rw [sleepClose_eq]
    show (sv (sleepCloseM K O _)).GPC_ROSC_CTRL = _
    simp only [sleepCloseM_sv, sleepExitLatency_sv, wakeMaskRestore_sv, sleepDidNotSleep_sv,
      resumeFinish_sv, resumeDomains_sv, resumeDdr_sv, resumeNoc_sv, resumeWakeupPerf_sv,
      resumeWakeup_sv, resumeClocks_sv, hB, suspendHalt_sv, hA, suspendEntry_sv,
      suspendClockRoots_sv, suspendSleepMode_sv, suspendWakeSources_sv, suspendHandshakes_sv,
      suspendWakeup_sv, suspendNoc_sv, suspendDdr_sv, suspendPrepare_sv, sleepOpen_sv,
      DEV_SM_SystemSleepModeSet, perfLevel_extract, hact]
  · have hmain : ∀ e, isPerfSystemCall e = true → mainEvent e = true := by
      intro e he
      cases e <;> simp_all [isPerfSystemCall, mainEvent]
    rw [sleepClose_eq, ← filter_main isPerfSystemCall hmain,
      ← filter_main isPerfSystemCall hmain s.trace]
    show List.filter isPerfSystemCall (sv (sleepCloseM K O _)).calls = _
    simp only [sleepCloseM_sv, sleepExitLatency_sv, wakeMaskRestore_sv, sleepDidNotSleep_sv,
      resumeFinish_sv, resumeDomains_sv, resumeDdr_sv, resumeNoc_sv, resumeWakeupPerf_sv,
      resumeWakeup_sv, resumeClocks_sv, hB, suspendHalt_sv, hA, suspendEntry_sv,
      suspendClockRoots_sv, suspendSleepMode_sv, suspendWakeSources_sv, suspendHandshakes_sv,
      suspendWakeup_sv, suspendNoc_sv, suspendDdr_sv, suspendPrepare_sv, sleepOpen_sv,
      DEV_SM_SystemSleepModeSet, perfLevel_extract, hact]
    simp only [List.filter_append, apply_ite (List.filter isPerfSystemCall), List.filter_cons,
      List.filter_nil, isPerfSystemCall, if_true, if_false, ite_self, List.append_nil,
      List.nil_append, Bool.false_eq_true]
    by_cases h : sleepActive K O mode flags
    · simp [h]
    · simp [h]

/-- Instances of the latency rule: with a timer that wrapped after the first
reading the entry
latency is 0 and the exit latency 20; with the timer 100, 110, 120, ... both
are 20 when the suspend sequence runs, and 10 and 20 when it is skipped. -/
theorem systemSleep_latency_witness :
    (∃ r, DEV_SM_SystemSleep exSysK exSysOWrap 5 exSysS 3 = some r ∧
      SaturatedLatency exSysOWrap (exSysS.usecReads + 1) r.2.usecReads
        (exSysOWrap.usec exSysS.usecReads) r.2.sysSleepRecord.sleepEntryUsec ∧
      (∃ k, exSysS.usecReads < k ∧
        SaturatedLatency exSysOWrap (k + 1) r.2.usecReads (exSysOWrap.usec k)
          r.2.sysSleepRecord.sleepExitUsec) ∧
      r.2.sysSleepRecord.sleepEntryUsec < 2 ^ 32 ∧
      r.2.sysSleepRecord.sleepExitUsec < 2 ^ 32 ∧
      ∀ a b, b ≤ a → a < 2 ^ 64 → usecDiffL a b = (a - b) % 2 ^ 32) ∧
    (DEV_SM_SystemSleep exSysK exSysOWrap 5 exSysS 3).map
      (fun r => (r.2.sysSleepRecord.sleepEntryUsec, r.2.sysSleepRecord.sleepExitUsec)) =
        some (0, 20) ∧
    (DEV_SM_SystemSleep exSysK (exSysO (some 3)) 5 exSysS 3).map
      (fun r => (r.2.sysSleepRecord.sleepEntryUsec, r.2.sysSleepRecord.sleepExitUsec)) =
        some (20, 20) ∧
    (DEV_SM_SystemSleep exSysK (exSysO (some 0)) 5 exSysS 3).map
      (fun r => (r.2.sysSleepRecord.sleepEntryUsec, r.2.sysSleepRecord.sleepExitUsec)) =
        some (10, 20) :=
  ⟨systemSleep_latency exSysK exSysOWrap 5 3 exSysS (by decide) (by decide) (by decide),
    by decide, by decide, by decide⟩

/-- C19 instance: with a failing retention entry the call returns
`SM_ERR_SUCCESS`, its only DDR call is the retention entry and the bitmap is
0x3 (DDRMIX bit 1 still set); with a successful one the four DDR calls are
made and the bitmap is 0x1; with a failing DDRMIX power-off the bit stays. -/
theorem systemSleep_ddr_retention_witness :
    (∃ r, DEV_SM_SystemSleep exSysK exSysORetFail 5 exSysS 3 = some r ∧
      r.2.trace.filter isDdrCall =
        exSysS.trace.filter isDdrCall ++ ddrCalls exSysK exSysORetFail 3 ∧
      (exSysORetFail.DEV_SM_MemDdrRetentionEnter ≠ SM_ERR_SUCCESS →
        ddrCalls exSysK exSysORetFail 3 = [Event.DEV_SM_MemDdrRetentionEnter]) ∧
      Event.WFI ∈ r.2.trace ∧
      Event.BOARD_SystemSleepUnprepare exSysS.s_sysSleepMode exSysS.s_sysSleepFlags ∈
        r.2.trace ∧
      r.2.sysSleepRecord.mixPwrStat.testBit exSysK.PWR_MIX_SLICE_IDX_DDR =
        ((pwrBitmap exSysK.PWR_NUM_MIX_SLICE exSysORetFail.SRC_MixIsPwrSwitchOn).testBit
            exSysK.PWR_MIX_SLICE_IDX_DDR &&
          !decide (exSysORetFail.DEV_SM_MemDdrRetentionEnter = SM_ERR_SUCCESS ∧
            exSysORetFail.ddrPowerOff = SM_ERR_SUCCESS))) ∧
    (DEV_SM_SystemSleep exSysK exSysORetFail 5 exSysS 3).map
      (fun r => (r.1, r.2.trace.filter isDdrCall, r.2.sysSleepRecord.mixPwrStat)) =
        some (SM_ERR_SUCCESS, [Event.DEV_SM_MemDdrRetentionEnter], 0x3) ∧
    (DEV_SM_SystemSleep exSysK (exSysO (some 3)) 5 exSysS 3).map
      (fun r => (r.1, r.2.trace.filter isDdrCall, r.2.sysSleepRecord.mixPwrStat)) =
        some (SM_ERR_SUCCESS,
          [Event.DEV_SM_MemDdrRetentionEnter,
            Event.DEV_SM_PowerStateSet PowerDomain.DEV_SM_PD_DDR false,
            Event.DEV_SM_PowerStateSet PowerDomain.DEV_SM_PD_DDR true,
            Event.DEV_SM_MemDdrRetentionExit], 0x1) ∧
    (DEV_SM_SystemSleep exSysK { exSysO (some 3) with ddrPowerOff := SM_ERR_NOT_FOUND } 5
        exSysS 3).map (fun r => r.2.sysSleepRecord.mixPwrStat) = some 0x3 :=
  ⟨systemSleep_ddr_retention exSysK exSysORetFail 5 3 exSysS (by decide) (by decide)
    (by decide) (by decide) (by decide) (by decide) (by decide), by decide, by decide,
    by decide⟩

/-- C20 instance: mode 0xF0 is clamped from 15 to level 3, mode 0x2F gives 2,
mode 0x0F gives the parked level 0; with level 0 and no flag the oscillator is
gated and no performance call is made, with the keep-oscillator flag (2) it is
not gated. -/
theorem systemSleep_active_sleep_witness :
    (∃ r, DEV_SM_SystemSleep exSysK (exSysO (some 3)) 5
          (DEV_SM_SystemSleepModeSet exSysS 0xF0 0) 3 = some r ∧
      r.2.GPC_ROSC_CTRL =
        (if sleepActive exSysK (exSysO (some 3)) 0xF0 0 then 0
          else exSysK.GPC_GLOBAL_GPC_ROSC_CTRL_ROSC_OFF_EN_MASK) ∧
      r.2.trace.filter isPerfSystemCall = exSysS.trace.filter isPerfSystemCall ++
        (if sleepActive exSysK (exSysO (some 3)) 0xF0 0 then
          [Event.DEV_SM_PerfSystemSleep (sleepPerfLevel exSysK 0xF0),
            Event.DEV_SM_PerfSystemWake (sleepPerfLevel exSysK 0xF0)]
        else [])) ∧
    sleepPerfLevel exSysK 0xF0 = 3 ∧ sleepPerfLevel exSysK 0x2F = 2 ∧
    sleepPerfLevel exSysK 0x0F = 0 ∧
    (DEV_SM_SystemSleep exSysK (exSysO (some 3)) 5
        (DEV_SM_SystemSleepModeSet exSysS 0xF0 0) 3).map
      (fun r => (r.2.GPC_ROSC_CTRL, r.2.trace.filter isPerfSystemCall)) =
      some (0, [Event.DEV_SM_PerfSystemSleep 3, Event.DEV_SM_PerfSystemWake 3]) ∧
    (DEV_SM_SystemSleep exSysK (exSysO (some 3)) 5
        (DEV_SM_SystemSleepModeSet exSysS 0x0F 0) 3).map
      (fun r => (r.2.GPC_ROSC_CTRL, r.2.trace.filter isPerfSystemCall)) = some (1, []) ∧
    (DEV_SM_SystemSleep exSysK (exSysO (some 3)) 5
        (DEV_SM_SystemSleepModeSet exSysS 0x0F 2) 3).map
      (fun r => (r.2.GPC_ROSC_CTRL, r.2.trace.filter isPerfSystemCall)) =
      some (0, [Event.DEV_SM_PerfSystemSleep 0, Event.DEV_SM_PerfSystemWake 0]) :=
  ⟨systemSleep_active_sleep exSysK (exSysO (some 3)) 5 3 exSysS 0xF0 0 (by decide) (by decide)
    (by decide) (by decide), by decide, by decide, by decide, by decide, by decide, by decide⟩

/-! Invalid handover record and container tags -/

/-- C25: when the handover record is invalid, the record check reports
`SM_ERR_NOT_SUPPORTED`, yet `DEV_SM_RomBootImgNGet` and `DEV_SM_RomBootImg1Get`
return `SM_ERR_NOT_FOUND` for every fuel, hand back the four outputs as they
were passed in, and `DEV_SM_RomBootImgNGet` leaves the whole state, hence the
scan cursor, unchanged (`DEV_SM_RomBootImg1Get` has reset the cursor to 0
before the check). -/
theorem romBootImg_invalid_record (K : RomConsts) (fuel : Nat) (st : RomState) (type : Nat)
    (out : ImgOut) (hinv : ¬ HandoverValid K st.handover) :
    (DEV_SM_RomHandoverGet K st none).1 = SM_ERR_NOT_SUPPORTED ∧
    DEV_SM_RomBootImgNGet K fuel st type out = some (SM_ERR_NOT_FOUND, out, st) ∧
    DEV_SM_RomBootImg1Get K fuel st type out =
      some (SM_ERR_NOT_FOUND, out, { st with s_imageIdx := 0 }) := by
  have h1 : DEV_SM_RomHandoverGet K st none = (SM_ERR_NOT_SUPPORTED, none, st) := by
    rw [romHandoverGet_eq, if_neg hinv]
  have h2 : DEV_SM_RomHandoverGet K { st with s_imageIdx := 0 } none =
      (SM_ERR_NOT_SUPPORTED, none, { st with s_imageIdx := 0 }) := by
    rw [romHandoverGet_eq, if_neg hinv]
  refine ⟨by rw [h1], ?_, ?_⟩
  · unfold DEV_SM_RomBootImgNGet
    rw [h1]
  · unfold DEV_SM_RomBootImg1Get DEV_SM_RomBootImgNGet
    rw [h2]

/-- C25 instance: a record with a wrong barker and cursor 7. -/
theorem romBootImg_invalid_record_witness :
    ((DEV_SM_RomHandoverGet exK { exS with handover := exHBad } none).1 = SM_ERR_NOT_SUPPORTED ∧
      DEV_SM_RomBootImgNGet exK 4 { exS with handover := exHBad } 3 ⟨9, 9, 9, 9⟩ =
        some (SM_ERR_NOT_FOUND, ⟨9, 9, 9, 9⟩, { exS with handover := exHBad }) ∧
      DEV_SM_RomBootImg1Get exK 4 { exS with handover := exHBad } 3 ⟨9, 9, 9, 9⟩ =
        some (SM_ERR_NOT_FOUND, ⟨9, 9, 9, 9⟩,
          { ({ exS with handover := exHBad } : RomState) with s_imageIdx := 0 })) ∧
    ({ exS with handover := exHBad } : RomState).s_imageIdx = 7 :=
  ⟨romBootImg_invalid_record exK 4 { exS with handover := exHBad } 3 ⟨9, 9, 9, 9⟩ (by decide),
    by decide⟩

/-- C26: `DEV_SM_RomContainerSet` stores the tag 0x55CC for container 0 and the
tag 0xAA33 for container 1 in the retained register, `DEV_SM_RomContainerGet`
returns the raw register value, so a get after a set of c in {0, 1} returns
the tag and never c itself. -/
theorem romContainer_tag (st : RomState) :
    DEV_SM_RomContainerSet st 0 = (SM_ERR_SUCCESS, { st with GPR15 := 0x55CC }) ∧
    DEV_SM_RomContainerSet st 1 = (SM_ERR_SUCCESS, { st with GPR15 := 0xAA33 }) ∧
    DEV_SM_RomContainerGet st = st.GPR15 ∧
    DEV_SM_RomContainerGet (DEV_SM_RomContainerSet st 0).2 = 0x55CC ∧
    DEV_SM_RomContainerGet (DEV_SM_RomContainerSet st 1).2 = 0xAA33 ∧
    DEV_SM_RomContainerGet (DEV_SM_RomContainerSet st 0).2 ≠ 0 ∧
    DEV_SM_RomContainerGet (DEV_SM_RomContainerSet st 1).2 ≠ 1 := by
  refine ⟨rfl, rfl, rfl, rfl, rfl, ?_, ?_⟩
  · show (0x55CC : Nat) ≠ 0
    decide
  · show (0xAA33 : Nat) ≠ 1
    decide

/-! Stage reset -/

/-- C28: with test mode off, `DEV_SM_SystemStageReset` with a container other
than 0 and 1 returns `SM_ERR_INVALID_PARAMETERS` and requests no warm reset,
yet the state it leaves is the one after `DEV_SM_RomStageSet`: the stage field
of the retained register holds the requested stage (read back exactly for a
stage below 16) while the container register is untouched.  A warm reset is
requested exactly when both the stage write and the container write succeed,
which is exactly when the call returns success, which is exactly when the
container is 0 or 1. -/
theorem systemStageReset_not_atomic (st : RomState) (stage container : Nat) :
    (container ≠ 0 ∧ container ≠ 1 →
      DEV_SM_SystemStageReset none st stage container =
        (SM_ERR_INVALID_PARAMETERS, (DEV_SM_RomStageSet st stage).2, false) ∧
      (DEV_SM_SystemStageReset none st stage container).2.1.GPR16 =
        (st.GPR16 &&& not32 ROM_STAGE_MASK) |||
          (((stage <<< ROM_STAGE_SHIFT) % 2 ^ 32) &&& ROM_STAGE_MASK) ∧
      (DEV_SM_SystemStageReset none st stage container).2.1.GPR15 = st.GPR15 ∧
      (stage < 16 →
        DEV_SM_RomStageGet (DEV_SM_SystemStageReset none st stage container).2.1 = stage)) ∧
    ((DEV_SM_SystemStageReset none st stage container).2.2 = true ↔
      (DEV_SM_RomStageSet st stage).1 = SM_ERR_SUCCESS ∧
      (DEV_SM_RomContainerSet (DEV_SM_RomStageSet st stage).2 container).1 = SM_ERR_SUCCESS) ∧
    ((DEV_SM_SystemStageReset none st stage container).2.2 = true ↔
      (DEV_SM_SystemStageReset none st stage container).1 = SM_ERR_SUCCESS) ∧
    ((DEV_SM_SystemStageReset none st stage container).2.2 = true ↔
      container = 0 ∨ container = 1) := by
  have hc : ∀ s : RomState, DEV_SM_RomContainerSet s container =
      if container = 0 then (SM_ERR_SUCCESS, { s with GPR15 := ROM_CONTAINER_1 })
      else if container = 1 then (SM_ERR_SUCCESS, { s with GPR15 := ROM_CONTAINER_2 })
      else (SM_ERR_INVALID_PARAMETERS, s) := fun s => rfl
  have hr : DEV_SM_SystemStageReset none st stage container =
      if (DEV_SM_RomContainerSet (DEV_SM_RomStageSet st stage).2 container).1 = SM_ERR_SUCCESS
      then (SM_ERR_SUCCESS, (DEV_SM_RomContainerSet (DEV_SM_RomStageSet st stage).2 container).2,
        true)
      else ((DEV_SM_RomContainerSet (DEV_SM_RomStageSet st stage).2 container).1,
        (DEV_SM_RomContainerSet (DEV_SM_RomStageSet st stage).2 container).2, false) := by
    simp only [DEV_SM_SystemStageReset, SM_TEST_MODE_ERR, DEV_SM_RomStageSet, if_true]
    split_ifs with h
    · rw [h]
    · rfl
  by_cases h0 : container = 0
  · subst h0
    rw [hr]
    simp [hc]
    rfl
  by_cases h1 : container = 1
  · subst h1
    rw [hr]
    simp [hc]
    rfl
  have hi : DEV_SM_RomContainerSet (DEV_SM_RomStageSet st stage).2 container =
      (SM_ERR_INVALID_PARAMETERS, (DEV_SM_RomStageSet st stage).2) := by
    rw [hc, if_neg h0, if_neg h1]
  rw [hr, hi]
  simp only [if_neg (show ¬ SM_ERR_INVALID_PARAMETERS = SM_ERR_SUCCESS by decide)]
  refine ⟨fun _ => ⟨trivial, rfl, rfl, fun hs => ?_⟩, ?_, ?_, ?_⟩
  · simp only [DEV_SM_RomStageGet, DEV_SM_RomStageSet]
    exact stage_field_roundtrip st.GPR16 stage hs
  · simp
  · simp
  · simp [h0, h1]

/-- C28 instance: container 0xFFFFFFFF (what the monitor passes for a typed
container 0) with stage 6 over a register whose stage field held 15. -/
theorem systemStageReset_not_atomic_witness :
    (0xFFFFFFFF ≠ 0 ∧ 0xFFFFFFFF ≠ 1) ∧ (6 : Nat) < 16 ∧
    DEV_SM_SystemStageReset none exS 6 0xFFFFFFFF =
      (SM_ERR_INVALID_PARAMETERS, (DEV_SM_RomStageSet exS 6).2, false) ∧
    DEV_SM_RomStageGet exS = 15 ∧
    DEV_SM_RomStageGet (DEV_SM_SystemStageReset none exS 6 0xFFFFFFFF).2.1 = 6 :=
  ⟨by decide, by decide,
    ((systemStageReset_not_atomic exS 6 0xFFFFFFFF).1 (by decide)).1,
    by decide,
    ((systemStageReset_not_atomic exS 6 0xFFFFFFFF).1 (by decide)).2.2.2 (by decide)⟩

/-! Wake source and the did-not-sleep rule -/

/-- C29: `DEV_SM_SystemSleep` returns; the recorded wake source is 0 when the
suspend sequence is skipped and the pending-vector field read after the halt
when it runs.  When the sequence ran with a non-zero pending vector the entry
latency is the one captured before the halt (readings 1 and 2 after the start
reading).  When it ran and the pending vector is 0, a later timer reading `k`
(after those of the entry capture) replaces both: the entry latency becomes the
low 32 bits of reading `k` minus the start reading of the call, or 0 when
reading `k` is below the start, and the exit latency is measured from reading
`k` by the saturating rule. -/
theorem systemSleep_wake_source (K : SysConsts) (O : SysOracle) (fuel sleepMode : Nat)
    (s : SysState)
    (hvco : 0 < K.CLOCK_SRC_SYSPLL1_VCO) (hpfd : K.CLOCK_SRC_SYSPLL1_PFD2_DIV2 + 1 < 2 ^ 32)
    (hfuel : K.CLOCK_SRC_SYSPLL1_PFD2_DIV2 + 1 - K.CLOCK_SRC_SYSPLL1_VCO < fuel) :
    ∃ r, DEV_SM_SystemSleep K O fuel s sleepMode = some r ∧
      (¬ SuspendRuns K O → r.2.sysSleepRecord.wakeSource = 0) ∧
      (SuspendRuns K O → r.2.sysSleepRecord.wakeSource = pendingVector K O) ∧
      (SuspendRuns K O → pendingVector K O ≠ 0 →
        r.2.sysSleepRecord.sleepEntryUsec =
          if O.usec (s.usecReads + 1) ≥ O.usec s.usecReads then
            usecDiffL (O.usec (s.usecReads + 2)) (O.usec s.usecReads) else 0) ∧
      (SuspendRuns K O → pendingVector K O = 0 →
        ∃ k, s.usecReads + 2 < k ∧ k < r.2.usecReads ∧
          r.2.sysSleepRecord.sleepEntryUsec =
            (if O.usec k ≥ O.usec s.usecReads then usecDiffL (O.usec k) (O.usec s.usecReads)
              else 0) ∧
          SaturatedLatency O (k + 1) r.2.usecReads (O.usec k)
            r.2.sysSleepRecord.sleepExitUsec) := by
  by_cases hrun : SuspendRuns K O
  · obtain ⟨mA, mB, hA, hB, hcall⟩ := systemSleep_suspend K O fuel sleepMode s hrun hvco hpfd hfuel
    refine ⟨_, hcall, ?_⟩
    rw [sleepClose_eq]
    show (¬ SuspendRuns K O → (sv (sleepCloseM K O _)).sysSleepRecord.wakeSource = 0) ∧
      (SuspendRuns K O → (sv (sleepCloseM K O _)).sysSleepRecord.wakeSource = pendingVector K O) ∧
      (SuspendRuns K O → pendingVector K O ≠ 0 →
        (sv (sleepCloseM K O _)).sysSleepRecord.sleepEntryUsec =
          if O.usec (s.usecReads + 1) ≥ O.usec s.usecReads then
            usecDiffL (O.usec (s.usecReads + 2)) (O.usec s.usecReads) else 0) ∧
      (SuspendRuns K O → pendingVector K O = 0 →
        ∃ k, s.usecReads + 2 < k ∧ k < (sv (sleepCloseM K O _)).usecReads ∧
          (sv (sleepCloseM K O _)).sysSleepRecord.sleepEntryUsec =
            (if O.usec k ≥ O.usec s.usecReads then usecDiffL (O.usec k) (O.usec s.usecReads)
              else 0) ∧
          SaturatedLatency O (k + 1) (sv (sleepCloseM K O _)).usecReads (O.usec k)
            (sv (sleepCloseM K O _)).sysSleepRecord.sleepExitUsec)
    clear hcall
    simp only [sleepCloseM_sv, sleepExitLatency_sv, wakeMaskRestore_sv, sleepDidNotSleep_sv,
      resumeFinish_sv, resumeDomains_sv, resumeDdr_sv, resumeNoc_sv, resumeWakeupPerf_sv,
      resumeWakeup_sv, resumeClocks_sv, hB, suspendHalt_sv, hA, suspendEntry_sv,
      suspendClockRoots_sv, suspendSleepMode_sv, suspendWakeSources_sv, suspendHandshakes_sv,
      suspendWakeup_sv, suspendNoc_sv, suspendDdr_sv, suspendPrepare_sv, sleepOpen_sv]
    clear hA hB
    unfold pendingVector
    by_cases hW : (O.ICSR &&& K.SCB_ICSR_VECTPENDING_Msk) >>> K.SCB_ICSR_VECTPENDING_Pos = 0
    · simp only [if_pos hW]
      refine ⟨fun h => absurd hrun h, fun _ => ?_, fun _ h => absurd hW h, fun _ _ => ?_⟩
      · trivial
      · refine ⟨(s.usecReads + 1 +
          if O.usec (s.usecReads + 1) ≥ O.usec s.usecReads then 2 else 1) + 1, ?_, ?_, rfl, ?_⟩
        · split_ifs <;> omega
        · split_ifs <;> omega
        · exact saturated_intro O _ _ _ _ _ (by split_ifs <;> omega) (Or.inr rfl)
            (by split_ifs <;> omega) (by intro h; split_ifs at h ⊢ <;> omega)
    · simp only [if_neg hW]
      refine ⟨fun h => absurd hrun h, fun _ => ?_, fun _ _ => ?_, fun _ h => absurd h hW⟩
      · trivial
      · trivial
  · refine ⟨_, systemSleep_skip K O fuel sleepMode s hrun, ?_⟩
    rw [sleepClose_eq]
    refine ⟨fun _ => ?_, fun h => absurd h hrun, fun h => absurd h hrun, fun h => absurd h hrun⟩
    show (sv (sleepCloseM K O _)).sysSleepRecord.wakeSource = 0
    simp only [sleepCloseM_sv, sleepExitLatency_sv, wakeMaskRestore_sv, sleepDidNotSleep_sv,
      sleepOpen_sv]

/-- C29 instance: a pending-vector field of 0 after the halt gives wake source
0 (it was 5 before the call), entry latency 40 instead of the captured 20 and
exit latency 20; a pending vector 0x25 is recorded with latencies 20 and 20;
a skipped sequence records wake source 0. -/
theorem systemSleep_wake_source_witness :
    (∃ r, DEV_SM_SystemSleep exSysK exSysONoPend 5 exSysS 3 = some r ∧
      (¬ SuspendRuns exSysK exSysONoPend → r.2.sysSleepRecord.wakeSource = 0) ∧
      (SuspendRuns exSysK exSysONoPend →
        r.2.sysSleepRecord.wakeSource = pendingVector exSysK exSysONoPend) ∧
      (SuspendRuns exSysK exSysONoPend → pendingVector exSysK exSysONoPend ≠ 0 →
        r.2.sysSleepRecord.sleepEntryUsec =
          if exSysONoPend.usec (exSysS.usecReads + 1) ≥ exSysONoPend.usec exSysS.usecReads then
            usecDiffL (exSysONoPend.usec (exSysS.usecReads + 2))
              (exSysONoPend.usec exSysS.usecReads) else 0) ∧
      (SuspendRuns exSysK exSysONoPend → pendingVector exSysK exSysONoPend = 0 →
        ∃ k, exSysS.usecReads + 2 < k ∧ k < r.2.usecReads ∧
          r.2.sysSleepRecord.sleepEntryUsec =
            (if exSysONoPend.usec k ≥ exSysONoPend.usec exSysS.usecReads then
              usecDiffL (exSysONoPend.usec k) (exSysONoPend.usec exSysS.usecReads) else 0) ∧
          SaturatedLatency exSysONoPend (k + 1) r.2.usecReads (exSysONoPend.usec k)
            r.2.sysSleepRecord.sleepExitUsec)) ∧
    SuspendRuns exSysK exSysONoPend ∧ pendingVector exSysK exSysONoPend = 0 ∧
    exSysS.sysSleepRecord.wakeSource = 5 ∧
    (DEV_SM_SystemSleep exSysK exSysONoPend 5 exSysS 3).map
      (fun r => (r.2.sysSleepRecord.wakeSource, r.2.sysSleepRecord.sleepEntryUsec,
        r.2.sysSleepRecord.sleepExitUsec)) = some (0, 40, 20) ∧
    (DEV_SM_SystemSleep exSysK (exSysO (some 3)) 5 exSysS 3).map
      (fun r => (r.2.sysSleepRecord.wakeSource, r.2.sysSleepRecord.sleepEntryUsec,
        r.2.sysSleepRecord.sleepExitUsec)) = some (0x25, 20, 20) ∧
    (DEV_SM_SystemSleep exSysK (exSysO (some 0)) 5 exSysS 3).map
      (fun r => r.2.sysSleepRecord.wakeSource) = some 0 :=
  ⟨systemSleep_wake_source exSysK exSysONoPend 5 3 exSysS (by decide) (by decide) (by decide),
    by decide, by decide, by decide, by decide, by decide, by decide⟩

/-! Interconnect domain -/

/-- The guards of the NOCMIX requests, written as "no earlier step failed". -/
theorem nocChain_eq (a b : Bool) (c : Prop) [Decidable c] (e1 e2 : sm_err) (F N : Event) :
    ((if c then [F] else []) ++
      (if (if (if a = true then e1 else SM_ERR_SUCCESS) = SM_ERR_SUCCESS ∧ b = true then e2
            else (if a = true then e1 else SM_ERR_SUCCESS)) = SM_ERR_SUCCESS ∧ c then [N]
        else [])) =
    (if decide c = true then [F] else []) ++
      (if decide c = true ∧ ((a = true → e1 = SM_ERR_SUCCESS) ∧ (b = true → e2 = SM_ERR_SUCCESS))
        then [N] else []) := by
  cases a <;> cases b <;> by_cases hc : c <;>
    by_cases h1 : e1 = SM_ERR_SUCCESS <;> by_cases h2 : e2 = SM_ERR_SUCCESS <;>
    simp [hc, h1, h2]

/-- C22, as the code has it: `DEV_SM_SystemSleep` returns and the NOCMIX requests it adds
to the trace are exactly `nocCalls`: the power-off is requested exactly when
the suspend sequence runs and the dependency value of NOCMIX is at most the
sleep mode; the power-on is requested exactly when, in addition, no WAKEUPMIX
restoration step failed.  The answer of the power-off request plays no part in
the power-on. -/
theorem systemSleep_noc (K : SysConsts) (O : SysOracle) (fuel sleepMode : Nat)
    (s : SysState)
    (hvco : 0 < K.CLOCK_SRC_SYSPLL1_VCO) (hpfd : K.CLOCK_SRC_SYSPLL1_PFD2_DIV2 + 1 < 2 ^ 32)
    (hfuel : K.CLOCK_SRC_SYSPLL1_PFD2_DIV2 + 1 - K.CLOCK_SRC_SYSPLL1_VCO < fuel) :
    ∃ r, DEV_SM_SystemSleep K O fuel s sleepMode = some r ∧
      r.2.trace.filter isNocCall = s.trace.filter isNocCall ++ nocCalls K O sleepMode ∧
      (Event.DEV_SM_PowerStateSet PowerDomain.DEV_SM_PD_NOC false ∈ nocCalls K O sleepMode ↔
        SuspendRuns K O ∧ lpmDependency K O K.PWR_MIX_SLICE_IDX_NOC ≤ sleepMode) ∧
      (Event.DEV_SM_PowerStateSet PowerDomain.DEV_SM_PD_NOC true ∈ nocCalls K O sleepMode ↔
        SuspendRuns K O ∧ lpmDependency K O K.PWR_MIX_SLICE_IDX_NOC ≤ sleepMode ∧
          wakeupRestoreOk K O sleepMode) := by
  have hmem : (Event.DEV_SM_PowerStateSet PowerDomain.DEV_SM_PD_NOC false ∈
        nocCalls K O sleepMode ↔
        SuspendRuns K O ∧ lpmDependency K O K.PWR_MIX_SLICE_IDX_NOC ≤ sleepMode) ∧
      (Event.DEV_SM_PowerStateSet PowerDomain.DEV_SM_PD_NOC true ∈ nocCalls K O sleepMode ↔
        SuspendRuns K O ∧ lpmDependency K O K.PWR_MIX_SLICE_IDX_NOC ≤ sleepMode ∧
          wakeupRestoreOk K O sleepMode) := by
    unfold nocCalls nocOffDue
    by_cases h1 : SuspendRuns K O <;>
      by_cases h2 : lpmDependency K O K.PWR_MIX_SLICE_IDX_NOC ≤ sleepMode <;>
      by_cases h3 : wakeupRestoreOk K O sleepMode <;> simp [h1, h2, h3]
  have hmain : ∀ e, isNocCall e = true → mainEvent e = true := by
    intro e he
    cases e <;> simp_all [isNocCall, mainEvent]
  by_cases hrun : SuspendRuns K O
  · obtain ⟨mA, mB, hA, hB, hcall⟩ := systemSleep_suspend K O fuel sleepMode s hrun hvco hpfd hfuel
    refine ⟨_, hcall, ?_, hmem⟩
    rw [sleepClose_eq, ← filter_main isNocCall hmain, ← filter_main isNocCall hmain s.trace]
    show List.filter isNocCall (sv (sleepCloseM K O _)).calls = _
    simp only [sleepCloseM_sv, sleepExitLatency_sv, wakeMaskRestore_sv, sleepDidNotSleep_sv,
      resumeFinish_sv, resumeDomains_sv, resumeDdr_sv, resumeNoc_sv, resumeWakeupPerf_sv,
      resumeWakeup_sv, resumeClocks_sv, hB, suspendHalt_sv, hA, suspendEntry_sv,
      suspendClockRoots_sv, suspendSleepMode_sv, suspendWakeSources_sv, suspendHandshakes_sv,
      suspendWakeup_sv, suspendNoc_sv, suspendDdr_sv, suspendPrepare_sv, sleepOpen_sv]
    simp only [List.filter_append, apply_ite (List.filter isNocCall), List.filter_cons,
      List.filter_nil, isNocCall, if_true, if_false, ite_self, List.append_nil,
      List.nil_append, Bool.false_eq_true]
    rw [List.append_assoc, nocCalls, if_pos hrun]
    refine congrArg
      (fun l : List Event => List.filter isNocCall (List.filter mainEvent s.trace) ++ l) ?_
    exact nocChain_eq _ _ _ _ _ _ _
  · refine ⟨_, systemSleep_skip K O fuel sleepMode s hrun, ?_, hmem⟩
    rw [sleepClose_eq, ← filter_main isNocCall hmain, ← filter_main isNocCall hmain s.trace]
    show List.filter isNocCall (sv (sleepCloseM K O _)).calls = _
    simp only [sleepCloseM_sv, sleepExitLatency_sv, wakeMaskRestore_sv, sleepDidNotSleep_sv,
      sleepOpen_sv]
    simp [nocCalls, hrun]

/-- C22 instance: the sample constants and answers. -/
theorem systemSleep_noc_witness :
    ∃ r, DEV_SM_SystemSleep exSysK (exSysO (some 3)) 5 exSysS 3 = some r ∧
      r.2.trace.filter isNocCall =
        exSysS.trace.filter isNocCall ++ nocCalls exSysK (exSysO (some 3)) 3 ∧
      (Event.DEV_SM_PowerStateSet PowerDomain.DEV_SM_PD_NOC false ∈
          nocCalls exSysK (exSysO (some 3)) 3 ↔
        SuspendRuns exSysK (exSysO (some 3)) ∧
          lpmDependency exSysK (exSysO (some 3)) exSysK.PWR_MIX_SLICE_IDX_NOC ≤ 3) ∧
      (Event.DEV_SM_PowerStateSet PowerDomain.DEV_SM_PD_NOC true ∈
          nocCalls exSysK (exSysO (some 3)) 3 ↔
        SuspendRuns exSysK (exSysO (some 3)) ∧
          lpmDependency exSysK (exSysO (some 3)) exSysK.PWR_MIX_SLICE_IDX_NOC ≤ 3 ∧
          wakeupRestoreOk exSysK (exSysO (some 3)) 3) :=
  systemSleep_noc exSysK (exSysO (some 3)) 5 3 exSysS (by decide) (by decide) (by decide)

/-- C22 does not hold as stated, in either direction: with a failing NOCMIX power-off
(the NOCMIX bit of the recorded bitmap stays set) the power-on is requested
all the same; with a successful power-off and a failing WAKEUPMIX power-on no
NOCMIX power-on is requested. -/
theorem systemSleep_noc_on_without_off :
    (exSysONocOffFail.nocPowerOff ≠ SM_ERR_SUCCESS ∧
      (DEV_SM_SystemSleep exSysK exSysONocOffFail 5 exSysS 3).map
        (fun r => (r.1, r.2.trace.filter isNocCall,
          r.2.sysSleepRecord.mixPwrStat.testBit exSysK.PWR_MIX_SLICE_IDX_NOC)) =
        some (SM_ERR_SUCCESS,
          [Event.DEV_SM_PowerStateSet PowerDomain.DEV_SM_PD_NOC false,
            Event.DEV_SM_PowerStateSet PowerDomain.DEV_SM_PD_NOC true], true)) ∧
    (exSysOFail.nocPowerOff = SM_ERR_SUCCESS ∧
      (DEV_SM_SystemSleep exSysK exSysOFail 5 exSysS 3).map
        (fun r => (r.1, r.2.trace.filter isNocCall,
          r.2.sysSleepRecord.mixPwrStat.testBit exSysK.PWR_MIX_SLICE_IDX_NOC)) =
        some (SM_ERR_NOT_FOUND,
          [Event.DEV_SM_PowerStateSet PowerDomain.DEV_SM_PD_NOC false], false)) := by
  decide

/-! The skipped suspend sequence -/

theorem irqWakeSet_qv (O : SysOracle) (m : SleepM) (c w v : Nat) :
    qv (CPU_IrqWakeSet O m c w v) = qv m := by
  unfold CPU_IrqWakeSet
  split <;> rfl

theorem wakeMaskInit_qv (K : SysConsts) (m : SleepM) : qv (wakeMaskInit K m) = qv m := by
  unfold wakeMaskInit
  apply forRange_frame
  intro i s _
  dsimp only
  refine Eq.trans (forRange_frame qv _ _ ?_ _) rfl
  intro j t _
  rfl

theorem scanWakeNotForced_qv (K : SysConsts) (O : SysOracle) (cpuIdx : Nat) (m : SleepM) :
    qv (scanWakeNotForced K O cpuIdx m) = qv m := by
  unfold scanWakeNotForced
  apply forRange_frame
  intro i s _
  dsimp only
  split
  · rw [irqWakeSet_qv]; rfl
  · rfl

theorem scanWakeForced_qv (K : SysConsts) (O : SysOracle) (cpuIdx : Nat) (m : SleepM) :
    qv (scanWakeForced K O cpuIdx m) = qv m := by
  unfold scanWakeForced
  apply forRange_frame
  intro i s _
  dsimp only
  split
  · rw [irqWakeSet_qv]; rfl
  · rfl

theorem scanLpm_qv (K : SysConsts) (O : SysOracle) (cpuIdx : Nat) (m : SleepM) :
    qv (scanLpm K O cpuIdx m) = qv m := by
  simp only [scanLpm, qv]
  cases O.SRC_MixCpuLpmGet K.PWR_MIX_SLICE_IDX_NOC cpuIdx <;>
    cases O.SRC_MixCpuLpmGet K.PWR_MIX_SLICE_IDX_WAKEUP cpuIdx <;>
    dsimp only <;> split_ifs <;> rfl

theorem scanCpus_qv (K : SysConsts) (O : SysOracle) (m : SleepM) :
    qv (scanCpus K O m) = qv m := by
  unfold scanCpus
  apply forRange_frame
  intro i s _
  unfold scanCpu
  split_ifs with hc
  · cases hf : O.CPU_SleepForceGet i with
    | none => rfl
    | some f =>
      cases f
      · dsimp only
        rw [scanLpm_qv, scanWakeNotForced_qv]
      · dsimp only
        rw [scanWakeForced_qv]
  · rfl

/-- The part before the sleep status check adds nothing to the trace and leaves the
handshake registers alone. -/
theorem sleepOpen_qv (K : SysConsts) (O : SysOracle) (s : SysState) :
    qv (sleepOpen K O s) =
      (s.trace, s.LP_HANDSHAKE_SM, s.LP_HANDSHAKE2_SM, s.LP_HANDSHAKE_ELE,
        s.LP_HANDSHAKE2_ELE) := by
  unfold sleepOpen
  dsimp only
  rw [scanCpus_qv]
  refine Eq.trans (wakeMaskInit_qv K _) ?_
  rfl

/-- The part after the sleep status check adds nothing to the trace and leaves the
handshake registers alone. -/
theorem sleepCloseM_qv (K : SysConsts) (O : SysOracle) (m : SleepM) :
    qv (sleepCloseM K O m) = qv m := by
  unfold sleepCloseM
  have h1 : ∀ m, qv (sleepExitLatency O m) = qv m := by
    intro m
    simp only [sleepExitLatency, DEV_SM_Usec64Get, qv]
    split_ifs <;> rfl
  have h2 : ∀ m, qv (wakeMaskRestore K O m) = qv m := by
    intro m
    unfold wakeMaskRestore
    apply forRange_frame
    intro i s _
    split
    · apply forRange_frame
      intro j t _
      exact irqWakeSet_qv O t _ _ _
    · rfl
  have h3 : ∀ m, qv (sleepDidNotSleep O m) = qv m := by
    intro m
    simp only [sleepDidNotSleep, DEV_SM_Usec64Get, qv]
    split_ifs <;> rfl
  rw [h1, h2, h3]

/-- C23, as the code has it: when the sleep status query made inside
`DEV_SM_SystemSleep` does not report SUSPEND, the call returns
`SM_ERR_SUCCESS` and consists of the part before the query and the part after
it only (`sleepOpen`, `sleepClose`): the suspend sequence is skipped as a
whole.  The trace, which records every request and register-alias write of
the suspend sequence, is unchanged: no halt instruction, no board hook, no
sensor, retention, power-state, performance-level, clock or
interrupt-controller request.  The handshake registers, the GPC control
registers, the stored sleep mode and flags and the sleep counter are as they
were.  The wake-mask bracket is executed: a mask word of a secondary core that
the scan reads and may write is all-ones after the opening part and holds its
prior value at the end.  (Timer reads, status and power getters and the
wake-mask accesses of the bracket are not entries of the trace; they are made
on this path too.) -/
theorem systemSleep_skip_quiet (K : SysConsts) (O : SysOracle) (fuel sleepMode : Nat)
    (s : SysState) (hskip : ¬ SuspendRuns K O) :
    ∃ r, DEV_SM_SystemSleep K O fuel s sleepMode = some r ∧
      r = sleepClose K O (sleepOpen K O s) ∧
      r.1 = SM_ERR_SUCCESS ∧
      r.2.trace = s.trace ∧
      r.2.LP_HANDSHAKE_SM = s.LP_HANDSHAKE_SM ∧ r.2.LP_HANDSHAKE2_SM = s.LP_HANDSHAKE2_SM ∧
      r.2.LP_HANDSHAKE_ELE = s.LP_HANDSHAKE_ELE ∧ r.2.LP_HANDSHAKE2_ELE = s.LP_HANDSHAKE2_ELE ∧
      r.2.GPC_ROSC_CTRL = s.GPC_ROSC_CTRL ∧ r.2.GPC_PMIC_CTRL = s.GPC_PMIC_CTRL ∧
      r.2.GPC_EFUSE_CTRL = s.GPC_EFUSE_CTRL ∧
      r.2.s_sysSleepMode = s.s_sysSleepMode ∧ r.2.s_sysSleepFlags = s.s_sysSleepFlags ∧
      r.2.sysSleepRecord.sleepCnt = s.sysSleepRecord.sleepCnt ∧
      ∀ c w, c ≠ K.CPU_IDX_M33P →
        (c < K.CPU_NUM_IDX → (O.CPU_SleepForceGet c).isSome = true) →
        (c < K.CPU_NUM_IDX → w < K.GPC_CPU_CTRL_CMC_IRQ_WAKEUP_MASK_COUNT →
          O.irqWakeGetOk c w = true) →
        (sleepOpen K O s).wakeMask c w =
          (if c < K.CPU_NUM_IDX ∧ w < K.GPC_CPU_CTRL_CMC_IRQ_WAKEUP_MASK_COUNT ∧
            O.irqWakeSetOk c w = true then 0xFFFFFFFF else s.wakeMask c w) ∧
        r.2.wakeMask c w = s.wakeMask c w := by
  refine ⟨_, systemSleep_skip K O fuel sleepMode s hskip, rfl, ?_⟩
  have hq : qv (sleepCloseM K O (sleepOpen K O s)) = _ :=
    (sleepCloseM_qv K O _).trans (sleepOpen_qv K O s)
  rw [sleepClose_eq]
  refine ⟨?_, congrArg (fun q => q.1) hq, congrArg (fun q => q.2.1) hq,
    congrArg (fun q => q.2.2.1) hq, congrArg (fun q => q.2.2.2.1) hq,
    congrArg (fun q => q.2.2.2.2) hq, ?_, ?_, ?_, ?_, ?_, ?_, ?_⟩
  · show (sv (sleepCloseM K O _)).status = _
    simp only [sleepCloseM_sv, sleepExitLatency_sv, wakeMaskRestore_sv, sleepDidNotSleep_sv,
      sleepOpen_sv]
  · show (sv (sleepCloseM K O _)).GPC_ROSC_CTRL = _
    simp only [sleepCloseM_sv, sleepExitLatency_sv, wakeMaskRestore_sv, sleepDidNotSleep_sv,
      sleepOpen_sv]
  · show (sv (sleepCloseM K O _)).GPC_PMIC_CTRL = _
    simp only [sleepCloseM_sv, sleepExitLatency_sv, wakeMaskRestore_sv, sleepDidNotSleep_sv,
      sleepOpen_sv]
  · show (sv (sleepCloseM K O _)).GPC_EFUSE_CTRL = _
    simp only [sleepCloseM_sv, sleepExitLatency_sv, wakeMaskRestore_sv, sleepDidNotSleep_sv,
      sleepOpen_sv]
  · show (sv (sleepCloseM K O _)).s_sysSleepMode = _
    simp only [sleepCloseM_sv, sleepExitLatency_sv, wakeMaskRestore_sv, sleepDidNotSleep_sv,
      sleepOpen_sv]
  · show (sv (sleepCloseM K O _)).s_sysSleepFlags = _
    simp only [sleepCloseM_sv, sleepExitLatency_sv, wakeMaskRestore_sv, sleepDidNotSleep_sv,
      sleepOpen_sv]
  · show (sv (sleepCloseM K O _)).sysSleepRecord.sleepCnt = _
    simp only [sleepCloseM_sv, sleepExitLatency_sv, wakeMaskRestore_sv, sleepDidNotSleep_sv,
      sleepOpen_sv]
  · intro c w hc hforce hget
    have ho := sleepOpen_wk K O s c w hc hforce hget
    refine ⟨ho.1, ?_⟩
    rw [← sleepClose_eq, sleepClose_wakeMask K O _ c w hc]
    split_ifs with h
    · exact ho.2 h.1 h.2.1
    · rw [ho.1, if_neg h]

/-- C23 instance: the sleep status query answers RUN. -/
theorem systemSleep_skip_quiet_witness :
    ¬ SuspendRuns exSysK (exSysO (some 0)) ∧
    (∃ r, DEV_SM_SystemSleep exSysK (exSysO (some 0)) 5 exSysS 3 = some r ∧
      r = sleepClose exSysK (exSysO (some 0)) (sleepOpen exSysK (exSysO (some 0)) exSysS) ∧
      r.1 = SM_ERR_SUCCESS ∧
      r.2.trace = exSysS.trace ∧
      r.2.LP_HANDSHAKE_SM = exSysS.LP_HANDSHAKE_SM ∧ r.2.LP_HANDSHAKE2_SM = exSysS.LP_HANDSHAKE2_SM ∧
      r.2.LP_HANDSHAKE_ELE = exSysS.LP_HANDSHAKE_ELE ∧ r.2.LP_HANDSHAKE2_ELE = exSysS.LP_HANDSHAKE2_ELE ∧
      r.2.GPC_ROSC_CTRL = exSysS.GPC_ROSC_CTRL ∧ r.2.GPC_PMIC_CTRL = exSysS.GPC_PMIC_CTRL ∧
      r.2.GPC_EFUSE_CTRL = exSysS.GPC_EFUSE_CTRL ∧
      r.2.s_sysSleepMode = exSysS.s_sysSleepMode ∧ r.2.s_sysSleepFlags = exSysS.s_sysSleepFlags ∧
      r.2.sysSleepRecord.sleepCnt = exSysS.sysSleepRecord.sleepCnt ∧
      ∀ c w, c ≠ exSysK.CPU_IDX_M33P →
        (c < exSysK.CPU_NUM_IDX → ((exSysO (some 0)).CPU_SleepForceGet c).isSome = true) →
        (c < exSysK.CPU_NUM_IDX → w < exSysK.GPC_CPU_CTRL_CMC_IRQ_WAKEUP_MASK_COUNT →
          (exSysO (some 0)).irqWakeGetOk c w = true) →
        (sleepOpen exSysK (exSysO (some 0)) exSysS).wakeMask c w =
          (if c < exSysK.CPU_NUM_IDX ∧ w < exSysK.GPC_CPU_CTRL_CMC_IRQ_WAKEUP_MASK_COUNT ∧
            (exSysO (some 0)).irqWakeSetOk c w = true then 0xFFFFFFFF else exSysS.wakeMask c w) ∧
        r.2.wakeMask c w = exSysS.wakeMask c w) ∧
    (sleepOpen exSysK (exSysO (some 0)) exSysS).wakeMask 1 0 = 0xFFFFFFFF ∧
    exSysS.wakeMask 1 0 = 0x1010 :=
  ⟨by decide, systemSleep_skip_quiet exSysK (exSysO (some 0)) 5 3 exSysS (by decide),
    by decide, by decide⟩

/-- C23 does not hold as stated: with the sleep status query answering RUN, a class
shallower than SUSPEND, `DEV_SM_SystemSleep` returns `SM_ERR_SUCCESS` with an
empty trace, so no wait-for-interrupt was executed. -/
theorem systemSleep_skip_no_halt :
    (exSysO (some 0)).CPU_SystemSleepStatusGet = some exSysK.CPU_SLEEP_MODE_RUN ∧
    exSysK.CPU_SLEEP_MODE_RUN < exSysK.CPU_SLEEP_MODE_SUSPEND ∧
    (DEV_SM_SystemSleep exSysK (exSysO (some 0)) 5 exSysS 3).map
      (fun r => (r.1, r.2.trace, decide (Event.WFI ∈ r.2.trace))) =
        some (SM_ERR_SUCCESS, [], false) := by
  decide

/-! Bounds of the image scan -/

/-- The recording loop returns with enough fuel, stops where `imgScanLoop`
stops, makes at most `num - idx` iterations, reads only below the image count
and does not move the cursor back. -/
theorem imgScanReads_spec (ptr : rom_handover_t) (type : Nat) (hwf : ptr.num < 2 ^ 32) :
    ∀ (fuel idx : Nat), ptr.num - idx < fuel →
      ∃ j reads, imgScanReads ptr type fuel idx = some (j, reads) ∧
        imgScanLoop ptr type fuel idx = some j ∧
        reads.length ≤ ptr.num - idx ∧ (∀ i ∈ reads, i < ptr.num) ∧ idx ≤ j ∧
        (j < ptr.num → j + 1 ≤ ptr.num) := by
  intro fuel
  induction fuel with
  | zero => intro idx hf; omega
  | succ n ih =>
    intro idx hf
    unfold imgScanReads imgScanLoop
    by_cases hlt : idx < ptr.num
    · rw [if_pos hlt, if_pos hlt]
      by_cases hp : type = ROM_HANDOVER_IMG_TYPE (imgAt ptr idx).flags
      · rw [if_pos hp, if_pos hp]
        refine ⟨idx, [idx], rfl, rfl, ?_, ?_, le_refl _, fun _ => hlt⟩
        · simp only [List.length_singleton]; omega
        · intro i hi
          rw [List.mem_singleton] at hi
          omega
      · have hmod : (idx + 1) % 2 ^ 32 = idx + 1 := Nat.mod_eq_of_lt (by omega)
        rw [if_neg hp, if_neg hp, hmod]
        obtain ⟨j, reads, h1, h2, h3, h4, h5, h6⟩ := ih (idx + 1) (by omega)
        refine ⟨j, idx :: reads, ?_, h2, ?_, ?_, by omega, h6⟩
        · rw [h1]; rfl
        · simp only [List.length_cons]; omega
        · intro i hi
          rw [List.mem_cons] at hi
          rcases hi with hi | hi
          · omega
          · exact h4 i hi
    · rw [if_neg hlt, if_neg hlt]
      exact ⟨idx, [], rfl, rfl, Nat.zero_le _, fun i hi => absurd hi (List.not_mem_nil i),
        le_refl _, fun h => h⟩

/-- C27: on a valid handover record whose image count is within the image
array, and for every cursor value, the scan loop of `DEV_SM_RomBootImgNGet`
returns with any fuel above `num - cursor` after at most `num - cursor`
iterations (one array read each), every array read of the call (those of the
loop and the read of the found entry) uses an index below the image count and
so within the array, the call returns, and the cursor afterwards is not below
the cursor before: it is one past the index where the scan stopped when an
image was found and that index otherwise. -/
theorem romBootImgNGet_bounds (K : RomConsts) (fuel : Nat) (st : RomState) (type : Nat)
    (out : ImgOut) (hv : HandoverValid K st.handover)
    (hcap : st.handover.num ≤ st.handover.img.length) (hwf : st.handover.num < 2 ^ 32)
    (hf : st.handover.num - st.s_imageIdx < fuel) :
    ∃ j loopReads reads r,
      imgScanReads st.handover type fuel st.s_imageIdx = some (j, loopReads) ∧
      imgScanLoop st.handover type fuel st.s_imageIdx = some j ∧
      loopReads.length ≤ st.handover.num - st.s_imageIdx ∧
      romBootImgNGetReads K fuel st type = some reads ∧
      (∀ i ∈ reads, i < st.handover.num ∧ i < st.handover.img.length) ∧
      DEV_SM_RomBootImgNGet K fuel st type out = some r ∧
      st.s_imageIdx ≤ r.2.2.s_imageIdx ∧
      r.2.2.s_imageIdx = (if j < st.handover.num then j + 1 else j) := by
  obtain ⟨j, loopReads, h1, h2, h3, h4, h5, h6⟩ :=
    imgScanReads_spec st.handover type hwf fuel st.s_imageIdx hf
  have hg : DEV_SM_RomHandoverGet K st none = (SM_ERR_SUCCESS, some st.handover, st) := by
    rw [romHandoverGet_eq, if_pos hv]
  refine ⟨j, loopReads, if j < st.handover.num then loopReads ++ [j] else loopReads,
    if j < st.handover.num then
      (SM_ERR_SUCCESS, imgOutOf K st (imgAt st.handover j), { st with s_imageIdx := j + 1 })
    else (SM_ERR_NOT_FOUND, out, { st with s_imageIdx := j }), h1, h2, h3, ?_, ?_, ?_, ?_, ?_⟩
  · unfold romBootImgNGetReads
    rw [hg]
    dsimp only
    rw [h1]
    rfl
  · intro i hi
    have : i < st.handover.num := by
      split_ifs at hi with hj
      · rw [List.mem_append, List.mem_singleton] at hi
        rcases hi with hi | hi
        · exact h4 i hi
        · omega
      · exact h4 i hi
    exact ⟨this, by omega⟩
  · unfold DEV_SM_RomBootImgNGet
    rw [hg]
    dsimp only
    rw [h2, Option.some_bind]
    by_cases hj : j < st.handover.num
    · rw [if_pos hj, if_pos hj, Nat.mod_eq_of_lt (by omega)]
      rfl
    · rw [if_neg hj, if_neg hj]
  · split_ifs <;> simp only <;> omega
  · split_ifs <;> rfl

/-- C27 instance: from cursor 1 the scan for type 3 reads entries 1 and 2,
then entry 2 again to return it, and leaves the cursor at 3; from the stale
cursor 7 nothing is read and the cursor stays at 7. -/
theorem romBootImgNGet_bounds_witness :
    (∃ j loopReads reads r,
      imgScanReads exS1.handover 3 4 exS1.s_imageIdx = some (j, loopReads) ∧
      imgScanLoop exS1.handover 3 4 exS1.s_imageIdx = some j ∧
      loopReads.length ≤ exS1.handover.num - exS1.s_imageIdx ∧
      romBootImgNGetReads exK 4 exS1 3 = some reads ∧
      (∀ i ∈ reads, i < exS1.handover.num ∧ i < exS1.handover.img.length) ∧
      DEV_SM_RomBootImgNGet exK 4 exS1 3 ⟨9, 9, 9, 9⟩ = some r ∧
      exS1.s_imageIdx ≤ r.2.2.s_imageIdx ∧
      r.2.2.s_imageIdx = (if j < exS1.handover.num then j + 1 else j)) ∧
    imgScanReads exS1.handover 3 4 exS1.s_imageIdx = some (2, [1, 2]) ∧
    romBootImgNGetReads exK 4 exS1 3 = some [1, 2, 2] ∧
    (DEV_SM_RomBootImgNGet exK 4 exS1 3 ⟨9, 9, 9, 9⟩).map (fun r => r.2.2.s_imageIdx) = some 3 ∧
    romBootImgNGetReads exK 1 exS 3 = some [] ∧
    (DEV_SM_RomBootImgNGet exK 1 exS 3 ⟨9, 9, 9, 9⟩).map (fun r => (r.1, r.2.2.s_imageIdx)) =
      some (SM_ERR_NOT_FOUND, 7) :=
  ⟨romBootImgNGet_bounds exK 4 exS1 3 ⟨9, 9, 9, 9⟩ (by decide) (by decide) (by decide)
    (by decide), by decide, by decide, by decide, by decide, by decide⟩

/-! Clock roots and SYSPLL clock nodes -/

theorem emit_cv (m : SleepM) (e : Event) :
    cv (m.emit e) = ((cv m).1 ++ (if clockEvent e then [e] else []), (cv m).2) := by
  simp only [cv, SleepM.emit, List.filter_append]
  cases h : clockEvent e <;> simp [List.filter, h]

theorem emit_cv_frame (m : SleepM) (e : Event) (h : clockEvent e = false) :
    cv (m.emit e) = cv m := by
  rw [emit_cv, h]
  simp

theorem emitIf_cv_frame (m : SleepM) (c : Bool) (e : Event) (h : clockEvent e = false) :
    cv (m.emitIf c e) = cv m := by
  unfold SleepM.emitIf
  split
  · exact emit_cv_frame m e h
  · rfl

theorem irqWakeSet_cv (O : SysOracle) (m : SleepM) (c w v : Nat) :
    cv (CPU_IrqWakeSet O m c w v) = cv m := by
  unfold CPU_IrqWakeSet
  split <;> rfl

theorem wakeMaskInit_cv (K : SysConsts) (m : SleepM) : cv (wakeMaskInit K m) = cv m := by
  unfold wakeMaskInit
  apply forRange_frame
  intro i s _
  dsimp only
  refine Eq.trans (forRange_frame cv _ _ ?_ _) rfl
  intro j t _
  rfl

theorem scanWakeNotForced_cv (K : SysConsts) (O : SysOracle) (cpuIdx : Nat) (m : SleepM) :
    cv (scanWakeNotForced K O cpuIdx m) = cv m := by
  unfold scanWakeNotForced
  apply forRange_frame
  intro i s _
  dsimp only
  split
  · rw [irqWakeSet_cv]; rfl
  · rfl

theorem scanWakeForced_cv (K : SysConsts) (O : SysOracle) (cpuIdx : Nat) (m : SleepM) :
    cv (scanWakeForced K O cpuIdx m) = cv m := by
  unfold scanWakeForced
  apply forRange_frame
  intro i s _
  dsimp only
  split
  · rw [irqWakeSet_cv]; rfl
  · rfl

theorem scanLpm_cv (K : SysConsts) (O : SysOracle) (cpuIdx : Nat) (m : SleepM) :
    cv (scanLpm K O cpuIdx m) = cv m := by
  simp only [scanLpm, cv]
  cases O.SRC_MixCpuLpmGet K.PWR_MIX_SLICE_IDX_NOC cpuIdx <;>
    cases O.SRC_MixCpuLpmGet K.PWR_MIX_SLICE_IDX_WAKEUP cpuIdx <;>
    dsimp only <;> split_ifs <;> rfl

theorem scanCpus_cv (K : SysConsts) (O : SysOracle) (m : SleepM) :
    cv (scanCpus K O m) = cv m := by
  unfold scanCpus
  apply forRange_frame
  intro i s _
  unfold scanCpu
  split_ifs with hc
  · cases hf : O.CPU_SleepForceGet i with
    | none => rfl
    | some f =>
      cases f
      · dsimp only
        rw [scanLpm_cv, scanWakeNotForced_cv]
      · dsimp only
        rw [scanWakeForced_cv]
  · rfl

theorem sleepOpen_cv (K : SysConsts) (O : SysOracle) (s : SysState) :
    cv (sleepOpen K O s) = (s.trace.filter clockEvent, fun _ => 0) := by
  unfold sleepOpen
  dsimp only
  rw [scanCpus_cv]
  refine Eq.trans (wakeMaskInit_cv K _) ?_
  rfl

theorem sleepCloseM_cv (K : SysConsts) (O : SysOracle) (m : SleepM) :
    cv (sleepCloseM K O m) = cv m := by
  unfold sleepCloseM
  have h1 : ∀ m, cv (sleepExitLatency O m) = cv m := by
    intro m
    simp only [sleepExitLatency, DEV_SM_Usec64Get, cv]
    split_ifs <;> rfl
  have h2 : ∀ m, cv (wakeMaskRestore K O m) = cv m := by
    intro m
    unfold wakeMaskRestore
    apply forRange_frame
    intro i s _
    split
    · apply forRange_frame
      intro j t _
      exact irqWakeSet_cv O t _ _ _
    · rfl
  have h3 : ∀ m, cv (sleepDidNotSleep O m) = cv m := by
    intro m
    simp only [sleepDidNotSleep, DEV_SM_Usec64Get, cv]
    split_ifs <;> rfl
  rw [h1, h2, h3]

theorem suspendPrepare_cv (m : SleepM) : cv (suspendPrepare m) = cv m := by
  simp only [suspendPrepare, cv, SleepM.emit]
  split_ifs <;> simp [clockEvent]

theorem suspendDdr_cv (K : SysConsts) (O : SysOracle) (m : SleepM) :
    cv (suspendDdr K O m) = cv m := by
  simp only [suspendDdr, cv, SleepM.emit, clearMixPwrStat]
  split_ifs <;> simp [clockEvent]

theorem suspendNoc_cv (K : SysConsts) (O : SysOracle) (sleepMode : Nat) (m : SleepM) :
    cv (suspendNoc K O sleepMode m) = cv m := by
  simp only [suspendNoc, cv, SleepM.emit, clearMixPwrStat]
  split_ifs <;> simp [clockEvent]

theorem suspendWakeup_cv (K : SysConsts) (O : SysOracle) (sleepMode : Nat) (m : SleepM) :
    cv (suspendWakeup K O sleepMode m) = cv m := by
  simp only [suspendWakeup, cv, SleepM.emit, clearMixPwrStat]
  split_ifs <;> simp [clockEvent]

theorem suspendHandshakes_cv (m : SleepM) : cv (suspendHandshakes m) = cv m := rfl

theorem suspendWakeSources_cv (K : SysConsts) (O : SysOracle) (m : SleepM) :
    cv (suspendWakeSources K O m) = cv m := by
  unfold suspendWakeSources
  apply forRange_frame
  intro i s _
  simp only [emit_cv, irqWakeSet_cv, clockEvent]
  simp [cv]

theorem suspendSleepMode_cv (K : SysConsts) (sleepMode : Nat) (m : SleepM) :
    cv (suspendSleepMode K sleepMode m) = cv m := by
  simp only [suspendSleepMode, cv, SleepM.emit]
  simp [clockEvent]

theorem suspendClockRoots_cv (K : SysConsts) (O : SysOracle) (m : SleepM) :
    cv (suspendClockRoots K O m) =
      if (sv m).activeSleep = true then cv m
      else ((cv m).1 ++ rootClrEvents K, rootSaved O (cv m).2) := by
  unfold suspendClockRoots
  dsimp only
  by_cases h : m.activeSleep = true
  · have h2 : (sv m).activeSleep = true := h
    have h3 : (m.emit (Event.DEV_SM_ClockSourceBypass false true)).activeSleep = true := h
    rw [if_pos h2, if_pos h3]
    simp [cv, SleepM.emit, clockEvent]
  · have h2 : ¬ (sv m).activeSleep = true := h
    have h3 : ¬ (m.emit (Event.DEV_SM_ClockSourceBypass false true)).activeSleep = true := h
    rw [if_neg h2, if_neg h3]
    simp [cv, SleepM.emit, clockEvent, forRange, DEV_SM_NUM_SLEEP_ROOTS, s_clkRootSleepList,
      rootClrEvents, rootSaved]

theorem resumeClockRoots_cv (K : SysConsts) (m : SleepM) :
    cv (resumeClockRoots K m) =
      if (sv m).activeSleep = true then cv m
      else ((cv m).1 ++ rootSetEvents K (cv m).2, (cv m).2) := by
  unfold resumeClockRoots
  by_cases h : m.activeSleep = true
  · have h2 : (sv m).activeSleep = true := h
    rw [if_pos h2, if_pos h]
    simp [cv, SleepM.emit, clockEvent]
  · have h2 : ¬ (sv m).activeSleep = true := h
    rw [if_neg h2, if_neg h]
    simp [cv, SleepM.emit, clockEvent, forRange, DEV_SM_NUM_SLEEP_ROOTS, s_clkRootSleepList,
      rootSetEvents]

theorem resumeClocks_cv (K : SysConsts) (m : SleepM) :
    cv (resumeClocks K m) =
      if (sv m).activeSleep = true then cv m
      else ((cv m).1 ++ rootSetEvents K (cv m).2, (cv m).2) := by
  rw [← resumeClockRoots_cv]
  simp only [resumeClocks, cv, SleepM.emit]
  simp [clockEvent]

theorem resumeDomains_cv (O : SysOracle) (sleepMode : Nat) (m : SleepM) :
    cv (resumeDomains O sleepMode m) = cv m := by
  have h1 : ∀ m, cv (resumeWakeup O m) = cv m := by
    intro m
    simp only [resumeWakeup, cv, SleepM.emit]
    split_ifs <;> simp [clockEvent]
  have h2 : ∀ m, cv (resumeWakeupPerf O m) = cv m := by
    intro m
    simp only [resumeWakeupPerf, cv, SleepM.emit]
    split_ifs <;> simp [clockEvent]
  have h3 : ∀ m, cv (resumeNoc O sleepMode m) = cv m := by
    intro m
    simp only [resumeNoc, cv, SleepM.emit]
    split_ifs <;> simp [clockEvent]
  have h4 : ∀ m, cv (resumeDdrPower O m) = cv m := by
    intro m
    simp only [resumeDdrPower, cv, SleepM.emit]
    split_ifs <;> simp [clockEvent]
  have h5 : ∀ m, cv (resumeDdrRetention O m) = cv m := by
    intro m
    simp only [resumeDdrRetention, cv, SleepM.emit]
    split_ifs <;> simp [clockEvent]
  have h6 : ∀ m, cv (resumeDdr O m) = cv m := by
    intro m
    unfold resumeDdr
    split_ifs
    · rw [h5, h4]
    · rfl
  unfold resumeDomains
  dsimp only
  rw [h6, h3, h2, h1]

theorem resumeFinish_cv (K : SysConsts) (m : SleepM) : cv (resumeFinish K m) = cv m := by
  unfold resumeFinish
  dsimp only
  have hloop : ∀ m : SleepM, cv (forRange K.GPC_CPU_CTRL_CMC_IRQ_WAKEUP_MASK_COUNT
      (fun wakeIdx m =>
        (m.emit (Event.NVIC_ICER wakeIdx 0xFFFFFFFF)).emit
          (Event.NVIC_ISER wakeIdx
            ((m.emit (Event.NVIC_ICER wakeIdx 0xFFFFFFFF)).nvicISER wakeIdx))) m) = cv m := by
    intro m
    apply forRange_frame
    intro i s _
    simp only [emit_cv, clockEvent]
    simp
  simp only [emit_cv, clockEvent]
  rw [hloop]
  simp

theorem suspendHalt_cv (K : SysConsts) (O : SysOracle) (sleepMode : Nat) (m : SleepM) :
    cv (suspendHalt K O sleepMode m) = cv m := by
  have hl : ∀ m, cv (suspendEntryLatency O m) = cv m := by
    intro m
    simp only [suspendEntryLatency, DEV_SM_Usec64Get, cv]
    split_ifs <;> rfl
  have he : ∀ (m : SleepM) (c : Bool) (e : Event), clockEvent e = false →
      cv (m.emitIf c e) = cv m := emitIf_cv_frame
  unfold suspendHalt
  dsimp only
  rw [emit_cv_frame _ _ (by rfl), emit_cv_frame _ _ (by rfl)]
  show cv (SleepM.emitIf _ _ _) = _
  rw [he _ _ _ (by rfl), emit_cv_frame _ _ (by rfl), emit_cv_frame _ _ (by rfl),
    emit_cv_frame _ _ (by rfl), emit_cv_frame _ _ (by rfl), he _ _ _ (by rfl),
    he _ _ _ (by rfl), hl, emit_cv_frame _ _ (by rfl), emit_cv_frame _ _ (by rfl)]

/-- The power-down loop returns and appends the disable requests in descending
index order. -/
theorem sysPllDownLoop_events (K : SysConsts) (hvco : 0 < K.CLOCK_SRC_SYSPLL1_VCO) :
    ∀ (fuel idx : Nat) (m : SleepM), idx < 2 ^ 32 →
      idx + 1 - K.CLOCK_SRC_SYSPLL1_VCO < fuel →
      sysPllDownLoop K fuel idx m = some { m with trace := (m.trace ++
        (List.range' K.CLOCK_SRC_SYSPLL1_VCO (idx + 1 - K.CLOCK_SRC_SYSPLL1_VCO)).reverse.map
          (fun i => Event.CLOCK_SourceSetEnable i false)) } := by
  intro fuel
  induction fuel with
  | zero => intro idx m _ hf; omega
  | succ n ih =>
    intro idx m hidx hf
    unfold sysPllDownLoop
    by_cases hge : idx ≥ K.CLOCK_SRC_SYSPLL1_VCO
    · have hdec : (idx + 2 ^ 32 - 1) % 2 ^ 32 = idx - 1 := by omega
      rw [if_pos hge, hdec, ih (idx - 1) _ (by omega) (by omega)]
      have h1 : idx + 1 - K.CLOCK_SRC_SYSPLL1_VCO = (idx - 1 + 1 - K.CLOCK_SRC_SYSPLL1_VCO) + 1 := by
        omega
      have h2 : K.CLOCK_SRC_SYSPLL1_VCO + (idx - 1 + 1 - K.CLOCK_SRC_SYSPLL1_VCO) = idx := by
        omega
      rw [h1, List.range'_1_concat, h2]
      simp [SleepM.emit, List.append_assoc]
    · rw [if_neg hge]
      have h1 : idx + 1 - K.CLOCK_SRC_SYSPLL1_VCO = 0 := by omega
      rw [h1]
      simp

/-- The power-up loop returns and appends the enable requests in ascending
index order. -/
theorem sysPllUpLoop_events (K : SysConsts) (hpfd : K.CLOCK_SRC_SYSPLL1_PFD2_DIV2 + 1 < 2 ^ 32) :
    ∀ (fuel idx : Nat) (m : SleepM),
      K.CLOCK_SRC_SYSPLL1_PFD2_DIV2 + 1 - idx < fuel →
      sysPllUpLoop K fuel idx m = some { m with trace := (m.trace ++
        (List.range' idx (K.CLOCK_SRC_SYSPLL1_PFD2_DIV2 + 1 - idx)).map
          (fun i => Event.CLOCK_SourceSetEnable i true)) } := by
  intro fuel
  induction fuel with
  | zero => intro idx m hf; omega
  | succ n ih =>
    intro idx m hf
    unfold sysPllUpLoop
    by_cases hle : idx ≤ K.CLOCK_SRC_SYSPLL1_PFD2_DIV2
    · have hinc : (idx + 1) % 2 ^ 32 = idx + 1 := Nat.mod_eq_of_lt (by omega)
      rw [if_pos hle, hinc, ih (idx + 1) _ (by omega)]
      have h1 : K.CLOCK_SRC_SYSPLL1_PFD2_DIV2 + 1 - idx =
          (K.CLOCK_SRC_SYSPLL1_PFD2_DIV2 + 1 - (idx + 1)) + 1 := by omega
      rw [h1, List.range'_succ]
      simp [SleepM.emit, List.append_assoc]
    · rw [if_neg hle]
      have h1 : K.CLOCK_SRC_SYSPLL1_PFD2_DIV2 + 1 - idx = 0 := by omega
      rw [h1]
      simp

theorem suspendSysPll_eq (K : SysConsts) (fuel : Nat) (m : SleepM)
    (hvco : 0 < K.CLOCK_SRC_SYSPLL1_VCO) (hpfd : K.CLOCK_SRC_SYSPLL1_PFD2_DIV2 + 1 < 2 ^ 32)
    (hfuel : K.CLOCK_SRC_SYSPLL1_PFD2_DIV2 + 1 - K.CLOCK_SRC_SYSPLL1_VCO < fuel) :
    suspendSysPll K fuel m = some (suspendSysPllM K m) := by
  unfold suspendSysPll suspendSysPllM
  split_ifs
  · rw [sysPllDownLoop_events K hvco fuel _ m (by omega) hfuel]
    rfl
  · rfl

theorem resumeSysPll_eq (K : SysConsts) (fuel : Nat) (m : SleepM)
    (hpfd : K.CLOCK_SRC_SYSPLL1_PFD2_DIV2 + 1 < 2 ^ 32)
    (hfuel : K.CLOCK_SRC_SYSPLL1_PFD2_DIV2 + 1 - K.CLOCK_SRC_SYSPLL1_VCO < fuel) :
    resumeSysPll K fuel m = some (resumeSysPllM K m) := by
  unfold resumeSysPll resumeSysPllM
  split_ifs
  · rw [sysPllUpLoop_events K hpfd fuel _ m hfuel]
    rfl
  · rfl

theorem filter_map_clock (l : List Nat) (b : Bool) (p : Event → Bool)
    (h : ∀ i, p (Event.CLOCK_SourceSetEnable i b) = true) :
    (l.map (fun i => Event.CLOCK_SourceSetEnable i b)).filter p =
      l.map (fun i => Event.CLOCK_SourceSetEnable i b) := by
  rw [List.filter_eq_self]
  intro e he
  rw [List.mem_map] at he
  obtain ⟨i, _, rfl⟩ := he
  exact h i

theorem filter_map_clock_nil (l : List Nat) (b : Bool) (p : Event → Bool)
    (h : ∀ i, p (Event.CLOCK_SourceSetEnable i b) = false) :
    (l.map (fun i => Event.CLOCK_SourceSetEnable i b)).filter p = [] := by
  rw [List.filter_eq_nil_iff]
  intro e he
  rw [List.mem_map] at he
  obtain ⟨i, _, rfl⟩ := he
  rw [h i]
  simp

theorem suspendSysPllM_sv (K : SysConsts) (m : SleepM) :
    sv (suspendSysPllM K m) = { sv m with
      sysSleepRecord := { (sv m).sysSleepRecord with
        pllPwrStat := (if (sv m).perfLevelSleep = K.DEV_SM_PERF_LVL_PRK then
          (sv m).sysSleepRecord.pllPwrStat &&& not32 ((1 <<< K.CLOCK_PLL_SYS1) % 2 ^ 32)
          else (sv m).sysSleepRecord.pllPwrStat) } } := by
  unfold suspendSysPllM
  by_cases h : m.perfLevelSleep = K.DEV_SM_PERF_LVL_PRK
  · have h3 : (sv m).perfLevelSleep = K.DEV_SM_PERF_LVL_PRK := h
    rw [if_pos h, if_pos h3]
    simp only [sv, List.filter_append,
      filter_map_clock_nil _ false mainEvent (fun _ => rfl), List.append_nil]
  · have h3 : ¬ (sv m).perfLevelSleep = K.DEV_SM_PERF_LVL_PRK := h
    rw [if_neg h, if_neg h3]

theorem resumeSysPllM_sv (K : SysConsts) (m : SleepM) :
    sv (resumeSysPllM K m) = sv m := by
  unfold resumeSysPllM
  split_ifs
  · simp only [sv, List.filter_append,
      filter_map_clock_nil _ true mainEvent (fun _ => rfl), List.append_nil]
  · rfl

theorem suspendSysPllM_cv (K : SysConsts) (m : SleepM) :
    cv (suspendSysPllM K m) =
      ((cv m).1 ++ (if (sv m).perfLevelSleep = K.DEV_SM_PERF_LVL_PRK then
        (sysPllNodes K).reverse.map (fun i => Event.CLOCK_SourceSetEnable i false) else []),
        (cv m).2) := by
  unfold suspendSysPllM
  by_cases h : m.perfLevelSleep = K.DEV_SM_PERF_LVL_PRK
  · have h3 : (sv m).perfLevelSleep = K.DEV_SM_PERF_LVL_PRK := h
    rw [if_pos h, if_pos h3]
    simp only [cv, List.filter_append, filter_map_clock _ false clockEvent (fun _ => rfl)]
  · have h3 : ¬ (sv m).perfLevelSleep = K.DEV_SM_PERF_LVL_PRK := h
    rw [if_neg h, if_neg h3, List.append_nil]

theorem resumeSysPllM_cv (K : SysConsts) (m : SleepM) :
    cv (resumeSysPllM K m) =
      ((cv m).1 ++ (if (sv m).perfLevelSleep = K.DEV_SM_PERF_LVL_PRK then
        (sysPllNodes K).map (fun i => Event.CLOCK_SourceSetEnable i true) else []),
        (cv m).2) := by
  unfold resumeSysPllM
  by_cases h : m.perfLevelSleep = K.DEV_SM_PERF_LVL_PRK
  · have h3 : (sv m).perfLevelSleep = K.DEV_SM_PERF_LVL_PRK := h
    rw [if_pos h, if_pos h3]
    simp only [cv, List.filter_append, filter_map_clock _ true clockEvent (fun _ => rfl)]
  · have h3 : ¬ (sv m).perfLevelSleep = K.DEV_SM_PERF_LVL_PRK := h
    rw [if_neg h, if_neg h3, List.append_nil]

theorem suspendEntry_cv (K : SysConsts) (O : SysOracle) (sleepMode : Nat) (m : SleepM) :
    cv (suspendEntry K O sleepMode m) =
      cv (suspendClockRoots K O (suspendSleepMode K sleepMode (suspendWakeSources K O
        (suspendHandshakes (suspendWakeup K O sleepMode (suspendNoc K O sleepMode
          (suspendDdr K O (suspendPrepare m)))))))) := rfl

/-- With the sleep status SUSPEND, `DEV_SM_SystemSleep` returns the result of
the straight-line steps. -/
theorem systemSleep_suspend_eq (K : SysConsts) (O : SysOracle) (fuel sleepMode : Nat)
    (s : SysState) (hrun : SuspendRuns K O)
    (hvco : 0 < K.CLOCK_SRC_SYSPLL1_VCO) (hpfd : K.CLOCK_SRC_SYSPLL1_PFD2_DIV2 + 1 < 2 ^ 32)
    (hfuel : K.CLOCK_SRC_SYSPLL1_PFD2_DIV2 + 1 - K.CLOCK_SRC_SYSPLL1_VCO < fuel) :
    DEV_SM_SystemSleep K O fuel s sleepMode =
      some (sleepClose K O (resumeFinish K (resumeDomains O sleepMode (resumeClocks K
        (resumeSysPllM K (suspendHalt K O sleepMode (suspendSysPllM K
          (suspendEntry K O sleepMode (sleepOpen K O s))))))))) := by
  have hseq : suspendSeq K O fuel sleepMode (sleepOpen K O s) =
      some (resumeFinish K (resumeDomains O sleepMode (resumeClocks K
        (resumeSysPllM K (suspendHalt K O sleepMode (suspendSysPllM K
          (suspendEntry K O sleepMode (sleepOpen K O s)))))))) := by
    have hA := suspendSysPll_eq K fuel (suspendEntry K O sleepMode (sleepOpen K O s))
      hvco hpfd hfuel
    unfold suspendSeq
    dsimp only
    unfold suspendEntry at hA
    rw [hA, Option.some_bind, resumeSysPll_eq K fuel _ hpfd hfuel, Option.some_bind]
    rfl
  unfold DEV_SM_SystemSleep
  dsimp only
  unfold SuspendRuns at hrun
  rw [hrun]
  dsimp only
  rw [if_pos rfl, hseq]
  rfl

theorem filter_clock (p : Event → Bool) (h : ∀ e, p e = true → clockEvent e = true)
    (l : List Event) : (l.filter clockEvent).filter p = l.filter p := by
  rw [List.filter_filter]
  congr 1
  funext e
  cases hp : p e
  · simp
  · simp [h e hp]

theorem sleepActive_iff (K : SysConsts) (O : SysOracle) (mode flags : Nat) :
    ((decide (sleepPerfLevel K mode ≠ K.DEV_SM_PERF_LVL_PRK) ||
      decide (flags &&& K.DEV_SM_SSF_OSC24M_ACTIVE_MASK ≠ 0) ||
      decide (O.CPU_LpComputeListGet ≠ 0)) = true) ↔ sleepActive K O mode flags := by
  unfold sleepActive
  simp only [Bool.or_eq_true, decide_eq_true_eq, or_assoc]

/-- The clock-tree writes of a call that runs the suspend sequence: the clears
of the gated roots when the active-sleep decision is false, the SYSPLL nodes
down and up when the level is the parked one, the sets of the gated roots
with the saved contexts when the active-sleep decision is false. -/
theorem systemSleep_clock (K : SysConsts) (O : SysOracle) (fuel sleepMode : Nat)
    (s : SysState) (hrun : SuspendRuns K O)
    (hvco : 0 < K.CLOCK_SRC_SYSPLL1_VCO) (hpfd : K.CLOCK_SRC_SYSPLL1_PFD2_DIV2 + 1 < 2 ^ 32)
    (hfuel : K.CLOCK_SRC_SYSPLL1_PFD2_DIV2 + 1 - K.CLOCK_SRC_SYSPLL1_VCO < fuel) :
    ∃ r, DEV_SM_SystemSleep K O fuel s sleepMode = some r ∧
      r.2.trace.filter clockEvent = s.trace.filter clockEvent ++
        ((if sleepActive K O s.s_sysSleepMode s.s_sysSleepFlags then [] else rootClrEvents K) ++
          (if sleepPerfLevel K s.s_sysSleepMode = K.DEV_SM_PERF_LVL_PRK then
            (sysPllNodes K).reverse.map (fun i => Event.CLOCK_SourceSetEnable i false) ++
              (sysPllNodes K).map (fun i => Event.CLOCK_SourceSetEnable i true)
          else []) ++
          (if sleepActive K O s.s_sysSleepMode s.s_sysSleepFlags then []
            else rootSetEvents K (rootSaved O (fun _ => 0)))) := by
  refine ⟨_, systemSleep_suspend_eq K O fuel sleepMode s hrun hvco hpfd hfuel, ?_⟩
  rw [sleepClose_eq]
  show (cv (sleepCloseM K O _)).1 = _
  simp only [sleepCloseM_cv, resumeFinish_cv, resumeDomains_cv, resumeClocks_cv,
    resumeSysPllM_cv, suspendHalt_cv, suspendSysPllM_cv, suspendEntry_cv, suspendClockRoots_cv,
    suspendSleepMode_cv, suspendWakeSources_cv, suspendHandshakes_cv, suspendWakeup_cv,
    suspendNoc_cv, suspendDdr_cv, suspendPrepare_cv, sleepOpen_cv,
    resumeSysPllM_sv, suspendHalt_sv, suspendSysPllM_sv, suspendEntry_sv,
    suspendClockRoots_sv, suspendSleepMode_sv, suspendWakeSources_sv, suspendHandshakes_sv,
    suspendWakeup_sv, suspendNoc_sv, suspendDdr_sv, suspendPrepare_sv, sleepOpen_sv,
    perfLevel_extract, sleepActive_iff]
  by_cases ha : sleepActive K O s.s_sysSleepMode s.s_sysSleepFlags <;>
    by_cases hp : sleepPerfLevel K s.s_sysSleepMode = K.DEV_SM_PERF_LVL_PRK <;>
    simp [ha, hp, List.append_assoc]

/-- C21, as the code has it: `DEV_SM_SystemSleep` returns and its clock-source enable
requests are exactly `sysPllCalls`: none unless the suspend sequence runs with
the parked level as clamped sleep performance level, whatever the active-sleep
decision is; in that case the SYSPLL nodes are disabled in descending index
order and enabled again in ascending order over the same nodes, and the SYSPLL
bit of the recorded PLL bitmap is cleared from the snapshot.  When the
active-sleep decision is false the level is the parked one, so the nodes are
disabled. -/
theorem systemSleep_syspll (K : SysConsts) (O : SysOracle) (fuel sleepMode : Nat)
    (s : SysState)
    (hvco : 0 < K.CLOCK_SRC_SYSPLL1_VCO) (hpfd : K.CLOCK_SRC_SYSPLL1_PFD2_DIV2 + 1 < 2 ^ 32)
    (hfuel : K.CLOCK_SRC_SYSPLL1_PFD2_DIV2 + 1 - K.CLOCK_SRC_SYSPLL1_VCO < fuel) :
    ∃ r, DEV_SM_SystemSleep K O fuel s sleepMode = some r ∧
      r.2.trace.filter isSourceEnable =
        s.trace.filter isSourceEnable ++ sysPllCalls K O s.s_sysSleepMode ∧
      r.2.sysSleepRecord.pllPwrStat =
        (if SuspendRuns K O ∧ sleepPerfLevel K s.s_sysSleepMode = K.DEV_SM_PERF_LVL_PRK then
          pwrBitmap K.CLOCK_NUM_PLL (fun pllIdx => O.CLOCK_SourceGetEnable (K.s_pllVcoList pllIdx))
            &&& not32 ((1 <<< K.CLOCK_PLL_SYS1) % 2 ^ 32)
        else
          pwrBitmap K.CLOCK_NUM_PLL
            (fun pllIdx => O.CLOCK_SourceGetEnable (K.s_pllVcoList pllIdx))) ∧
      (¬ sleepActive K O s.s_sysSleepMode s.s_sysSleepFlags →
        sleepPerfLevel K s.s_sysSleepMode = K.DEV_SM_PERF_LVL_PRK) ∧
      (sysPllNodes K).Pairwise (fun a b => a < b) := by
  have hsub : ∀ e, isSourceEnable e = true → clockEvent e = true := by
    intro e he
    cases e <;> simp_all [isSourceEnable, clockEvent]
  have hna : ¬ sleepActive K O s.s_sysSleepMode s.s_sysSleepFlags →
      sleepPerfLevel K s.s_sysSleepMode = K.DEV_SM_PERF_LVL_PRK := by
    intro h
    by_contra hc
    exact h (Or.inl hc)
  have hasc : (sysPllNodes K).Pairwise (fun a b => a < b) := List.pairwise_lt_range' _ _
  by_cases hrun : SuspendRuns K O
  · have hclock := systemSleep_clock K O fuel sleepMode s hrun hvco hpfd hfuel
    have heq := systemSleep_suspend_eq K O fuel sleepMode s hrun hvco hpfd hfuel
    refine ⟨_, heq, ?_, ?_, hna, hasc⟩
    · rw [heq] at hclock
      obtain ⟨r, hr, hev⟩ := hclock
      cases hr
      rw [← filter_clock isSourceEnable hsub, hev, List.filter_append,
        filter_clock isSourceEnable hsub]
      refine congrArg (fun l : List Event => List.filter isSourceEnable s.trace ++ l) ?_
      unfold sysPllCalls
      simp only [List.filter_append, apply_ite (List.filter isSourceEnable), List.filter_nil,
        rootClrEvents, rootSetEvents, List.filter_cons, isSourceEnable, if_false, ite_self,
        Bool.false_eq_true, List.nil_append, List.append_nil,
        filter_map_clock _ _ isSourceEnable (fun _ => rfl), hrun, true_and]
    · rw [sleepClose_eq]
      show (sv (sleepCloseM K O _)).sysSleepRecord.pllPwrStat = _
      simp only [sleepCloseM_sv, sleepExitLatency_sv, wakeMaskRestore_sv, sleepDidNotSleep_sv,
        resumeFinish_sv, resumeDomains_sv, resumeDdr_sv, resumeNoc_sv, resumeWakeupPerf_sv,
        resumeWakeup_sv, resumeClocks_sv, resumeSysPllM_sv, suspendHalt_sv, suspendSysPllM_sv,
        suspendEntry_sv, suspendClockRoots_sv, suspendSleepMode_sv, suspendWakeSources_sv,
        suspendHandshakes_sv, suspendWakeup_sv, suspendNoc_sv, suspendDdr_sv, suspendPrepare_sv,
        sleepOpen_sv, perfLevel_extract, hrun, true_and]
  · refine ⟨_, systemSleep_skip K O fuel sleepMode s hrun, ?_, ?_, hna, hasc⟩
    · rw [sleepClose_eq, ← filter_clock isSourceEnable hsub,
        ← filter_clock isSourceEnable hsub s.trace]
      show List.filter isSourceEnable (cv (sleepCloseM K O _)).1 = _
      rw [sleepCloseM_cv, sleepOpen_cv]
      simp [sysPllCalls, hrun]
    · rw [sleepClose_eq]
      show (sv (sleepCloseM K O _)).sysSleepRecord.pllPwrStat = _
      simp only [sleepCloseM_sv, sleepExitLatency_sv, wakeMaskRestore_sv, sleepDidNotSleep_sv,
        sleepOpen_sv, hrun, false_and, if_false]

/-- C21 instance: the sample state with mode 0 and no flag. -/
theorem systemSleep_syspll_witness :
    ∃ r, DEV_SM_SystemSleep exSysK (exSysO (some 3)) 5 exSysS 3 = some r ∧
      r.2.trace.filter isSourceEnable =
        exSysS.trace.filter isSourceEnable ++
          sysPllCalls exSysK (exSysO (some 3)) exSysS.s_sysSleepMode ∧
      r.2.sysSleepRecord.pllPwrStat =
        (if SuspendRuns exSysK (exSysO (some 3)) ∧
            sleepPerfLevel exSysK exSysS.s_sysSleepMode = exSysK.DEV_SM_PERF_LVL_PRK then
          pwrBitmap exSysK.CLOCK_NUM_PLL
              (fun pllIdx => (exSysO (some 3)).CLOCK_SourceGetEnable (exSysK.s_pllVcoList pllIdx))
            &&& not32 ((1 <<< exSysK.CLOCK_PLL_SYS1) % 2 ^ 32)
        else
          pwrBitmap exSysK.CLOCK_NUM_PLL
            (fun pllIdx =>
              (exSysO (some 3)).CLOCK_SourceGetEnable (exSysK.s_pllVcoList pllIdx))) ∧
      (¬ sleepActive exSysK (exSysO (some 3)) exSysS.s_sysSleepMode exSysS.s_sysSleepFlags →
        sleepPerfLevel exSysK exSysS.s_sysSleepMode = exSysK.DEV_SM_PERF_LVL_PRK) ∧
      (sysPllNodes exSysK).Pairwise (fun a b => a < b) :=
  systemSleep_syspll exSysK (exSysO (some 3)) 5 3 exSysS (by decide) (by decide) (by decide)

/-- C21 does not hold as stated: with the parked level in the mode and the
keep-oscillator flag set the active-sleep decision is true (the system moves
to and from the sleep performance level), yet the four SYSPLL nodes are
disabled, 6 down to 3, and the SYSPLL bit 0 of the PLL bitmap 0x3 is
cleared. -/
theorem systemSleep_syspll_off_when_active :
    sleepActive exSysK (exSysO (some 3)) 0x0F 2 ∧
    (DEV_SM_SystemSleep exSysK (exSysO (some 3)) 5 (DEV_SM_SystemSleepModeSet exSysS 0x0F 2)
        3).map (fun r => (r.2.trace.filter isSourceEnable, r.2.sysSleepRecord.pllPwrStat,
          r.2.trace.filter isPerfSystemCall)) =
      some ([Event.CLOCK_SourceSetEnable 6 false, Event.CLOCK_SourceSetEnable 5 false,
          Event.CLOCK_SourceSetEnable 4 false, Event.CLOCK_SourceSetEnable 3 false,
          Event.CLOCK_SourceSetEnable 3 true, Event.CLOCK_SourceSetEnable 4 true,
          Event.CLOCK_SourceSetEnable 5 true, Event.CLOCK_SourceSetEnable 6 true], 0x2,
        [Event.DEV_SM_PerfSystemSleep 0, Event.DEV_SM_PerfSystemWake 0]) ∧
    pwrBitmap exSysK.CLOCK_NUM_PLL
      (fun pllIdx => (exSysO (some 3)).CLOCK_SourceGetEnable (exSysK.s_pllVcoList pllIdx)) =
        0x3 := by
  decide

theorem testBit_not32 (v i : Nat) :
    (not32 v).testBit i = (decide (i < 32) && !v.testBit i) := by
  have h1 : (0xFFFFFFFF : Nat) = 2 ^ 32 - 1 := by norm_num
  unfold not32
  rw [h1, Nat.testBit_xor, Nat.testBit_two_pow_sub_one, Nat.testBit_mod_two_pow]
  by_cases hi : i < 32 <;> simp [hi]

/-- Clearing two masks of a 32-bit value and setting the saved bits of both
gives the value back. -/
theorem clr_set_restore (x M D : Nat) (hx : x < 2 ^ 32) :
    (((x &&& not32 M) &&& not32 D) ||| (x &&& D)) ||| (x &&& M) = x := by
  apply Nat.eq_of_testBit_eq
  intro i
  simp only [Nat.testBit_or, Nat.testBit_and, testBit_not32]
  by_cases hi : i < 32
  · cases x.testBit i <;> cases M.testBit i <;> cases D.testBit i <;> simp [hi]
  · have hxi : x.testBit i = false :=
      Nat.testBit_lt_two_pow (lt_of_lt_of_le hx (Nat.pow_le_pow_right (by norm_num) (by omega)))
    simp [hxi]

/-- C24: when the suspend sequence runs and the active-sleep decision is
false, then for each gated clock root and every 32-bit value `x` that its
control register holds, the writes of the call to the aliases of that register
are, in order: clear of the mux mask, clear of the divider mask, set of
`x & DIV`, set of `x & MUX` (so `x` was saved).  Under the alias semantics the
two clears leave `x` with both fields cleared and the other bits untouched,
and the four writes leave the register equal to `x` again. -/
theorem systemSleep_clock_roots (K : SysConsts) (O : SysOracle) (fuel sleepMode : Nat)
    (s : SysState) (root : ClockRoot) (hrun : SuspendRuns K O)
    (hna : ¬ sleepActive K O s.s_sysSleepMode s.s_sysSleepFlags)
    (hx : O.CLOCK_ROOT_CONTROL root < 2 ^ 32)
    (hvco : 0 < K.CLOCK_SRC_SYSPLL1_VCO) (hpfd : K.CLOCK_SRC_SYSPLL1_PFD2_DIV2 + 1 < 2 ^ 32)
    (hfuel : K.CLOCK_SRC_SYSPLL1_PFD2_DIV2 + 1 - K.CLOCK_SRC_SYSPLL1_VCO < fuel) :
    ∃ r, DEV_SM_SystemSleep K O fuel s sleepMode = some r ∧
      r.2.trace.filter (isRootWrite root) = s.trace.filter (isRootWrite root) ++
        [Event.CLOCK_ROOT_CONTROL_CLR root K.CCM_CLOCK_ROOT_MUX_MASK,
          Event.CLOCK_ROOT_CONTROL_CLR root K.CCM_CLOCK_ROOT_DIV_MASK,
          Event.CLOCK_ROOT_CONTROL_SET root
            (O.CLOCK_ROOT_CONTROL root &&& K.CCM_CLOCK_ROOT_DIV_MASK),
          Event.CLOCK_ROOT_CONTROL_SET root
            (O.CLOCK_ROOT_CONTROL root &&& K.CCM_CLOCK_ROOT_MUX_MASK)] ∧
      [Event.CLOCK_ROOT_CONTROL_CLR root K.CCM_CLOCK_ROOT_MUX_MASK,
          Event.CLOCK_ROOT_CONTROL_CLR root K.CCM_CLOCK_ROOT_DIV_MASK].foldl rootWriteApply
          (O.CLOCK_ROOT_CONTROL root) =
        (O.CLOCK_ROOT_CONTROL root &&& not32 K.CCM_CLOCK_ROOT_MUX_MASK) &&&
          not32 K.CCM_CLOCK_ROOT_DIV_MASK ∧
      [Event.CLOCK_ROOT_CONTROL_CLR root K.CCM_CLOCK_ROOT_MUX_MASK,
          Event.CLOCK_ROOT_CONTROL_CLR root K.CCM_CLOCK_ROOT_DIV_MASK,
          Event.CLOCK_ROOT_CONTROL_SET root
            (O.CLOCK_ROOT_CONTROL root &&& K.CCM_CLOCK_ROOT_DIV_MASK),
          Event.CLOCK_ROOT_CONTROL_SET root
            (O.CLOCK_ROOT_CONTROL root &&& K.CCM_CLOCK_ROOT_MUX_MASK)].foldl rootWriteApply
          (O.CLOCK_ROOT_CONTROL root) = O.CLOCK_ROOT_CONTROL root := by
  have hsub : ∀ e, isRootWrite root e = true → clockEvent e = true := by
    intro e he
    cases e <;> simp_all [isRootWrite, clockEvent]
  obtain ⟨r, hr, hev⟩ := systemSleep_clock K O fuel sleepMode s hrun hvco hpfd hfuel
  refine ⟨r, hr, ?_, rfl, ?_⟩
  · rw [← filter_clock (isRootWrite root) hsub, hev, List.filter_append,
      filter_clock (isRootWrite root) hsub]
    refine congrArg (fun l : List Event => List.filter (isRootWrite root) s.trace ++ l) ?_
    rw [if_neg hna, if_neg hna]
    simp only [List.filter_append, apply_ite (List.filter (isRootWrite root)), List.filter_nil,
      filter_map_clock_nil _ _ (isRootWrite root) (fun _ => rfl), ite_self, List.append_nil]
    cases root <;> simp [rootClrEvents, rootSetEvents, rootSaved, set1, isRootWrite]
  · show (((O.CLOCK_ROOT_CONTROL root &&& not32 K.CCM_CLOCK_ROOT_MUX_MASK) &&&
        not32 K.CCM_CLOCK_ROOT_DIV_MASK) |||
        (O.CLOCK_ROOT_CONTROL root &&& K.CCM_CLOCK_ROOT_DIV_MASK)) |||
        (O.CLOCK_ROOT_CONTROL root &&& K.CCM_CLOCK_ROOT_MUX_MASK) = _
    exact clr_set_restore _ _ _ hx

/-- C24 instance: root ELE with control value 0x123, mux mask 0x300 and
divider mask 0xFF: the two clears leave 0, the two sets restore 0x123. -/
theorem systemSleep_clock_roots_witness :
    (∃ r, DEV_SM_SystemSleep exSysK (exSysO (some 3)) 5 exSysS 3 = some r ∧
      r.2.trace.filter (isRootWrite ClockRoot.CLOCK_ROOT_ELE) =
        exSysS.trace.filter (isRootWrite ClockRoot.CLOCK_ROOT_ELE) ++
        [Event.CLOCK_ROOT_CONTROL_CLR ClockRoot.CLOCK_ROOT_ELE exSysK.CCM_CLOCK_ROOT_MUX_MASK,
          Event.CLOCK_ROOT_CONTROL_CLR ClockRoot.CLOCK_ROOT_ELE exSysK.CCM_CLOCK_ROOT_DIV_MASK,
          Event.CLOCK_ROOT_CONTROL_SET ClockRoot.CLOCK_ROOT_ELE
            ((exSysO (some 3)).CLOCK_ROOT_CONTROL ClockRoot.CLOCK_ROOT_ELE &&& exSysK.CCM_CLOCK_ROOT_DIV_MASK),
          Event.CLOCK_ROOT_CONTROL_SET ClockRoot.CLOCK_ROOT_ELE
            ((exSysO (some 3)).CLOCK_ROOT_CONTROL ClockRoot.CLOCK_ROOT_ELE &&& exSysK.CCM_CLOCK_ROOT_MUX_MASK)] ∧
      [Event.CLOCK_ROOT_CONTROL_CLR ClockRoot.CLOCK_ROOT_ELE exSysK.CCM_CLOCK_ROOT_MUX_MASK,
          Event.CLOCK_ROOT_CONTROL_CLR ClockRoot.CLOCK_ROOT_ELE exSysK.CCM_CLOCK_ROOT_DIV_MASK].foldl
          rootWriteApply ((exSysO (some 3)).CLOCK_ROOT_CONTROL ClockRoot.CLOCK_ROOT_ELE) =
        ((exSysO (some 3)).CLOCK_ROOT_CONTROL ClockRoot.CLOCK_ROOT_ELE &&&
          not32 exSysK.CCM_CLOCK_ROOT_MUX_MASK) &&& not32 exSysK.CCM_CLOCK_ROOT_DIV_MASK ∧
      [Event.CLOCK_ROOT_CONTROL_CLR ClockRoot.CLOCK_ROOT_ELE exSysK.CCM_CLOCK_ROOT_MUX_MASK,
          Event.CLOCK_ROOT_CONTROL_CLR ClockRoot.CLOCK_ROOT_ELE exSysK.CCM_CLOCK_ROOT_DIV_MASK,
          Event.CLOCK_ROOT_CONTROL_SET ClockRoot.CLOCK_ROOT_ELE
            ((exSysO (some 3)).CLOCK_ROOT_CONTROL ClockRoot.CLOCK_ROOT_ELE &&& exSysK.CCM_CLOCK_ROOT_DIV_MASK),
          Event.CLOCK_ROOT_CONTROL_SET ClockRoot.CLOCK_ROOT_ELE
            ((exSysO (some 3)).CLOCK_ROOT_CONTROL ClockRoot.CLOCK_ROOT_ELE &&&
              exSysK.CCM_CLOCK_ROOT_MUX_MASK)].foldl
          rootWriteApply ((exSysO (some 3)).CLOCK_ROOT_CONTROL ClockRoot.CLOCK_ROOT_ELE) =
        (exSysO (some 3)).CLOCK_ROOT_CONTROL ClockRoot.CLOCK_ROOT_ELE) ∧
    (DEV_SM_SystemSleep exSysK (exSysO (some 3)) 5 exSysS 3).map
      (fun r => r.2.trace.filter (isRootWrite ClockRoot.CLOCK_ROOT_ELE)) =
        some [Event.CLOCK_ROOT_CONTROL_CLR ClockRoot.CLOCK_ROOT_ELE 0x300,
          Event.CLOCK_ROOT_CONTROL_CLR ClockRoot.CLOCK_ROOT_ELE 0xFF,
          Event.CLOCK_ROOT_CONTROL_SET ClockRoot.CLOCK_ROOT_ELE 0x23,
          Event.CLOCK_ROOT_CONTROL_SET ClockRoot.CLOCK_ROOT_ELE 0x100] ∧
    [Event.CLOCK_ROOT_CONTROL_CLR ClockRoot.CLOCK_ROOT_ELE 0x300,
      Event.CLOCK_ROOT_CONTROL_CLR ClockRoot.CLOCK_ROOT_ELE 0xFF].foldl rootWriteApply 0x123 = 0 ∧
    [Event.CLOCK_ROOT_CONTROL_CLR ClockRoot.CLOCK_ROOT_ELE 0x300,
      Event.CLOCK_ROOT_CONTROL_CLR ClockRoot.CLOCK_ROOT_ELE 0xFF,
      Event.CLOCK_ROOT_CONTROL_SET ClockRoot.CLOCK_ROOT_ELE 0x23,
      Event.CLOCK_ROOT_CONTROL_SET ClockRoot.CLOCK_ROOT_ELE 0x100].foldl rootWriteApply 0x123 =
        0x123 :=
  ⟨systemSleep_clock_roots exSysK (exSysO (some 3)) 5 3 exSysS ClockRoot.CLOCK_ROOT_ELE
    (by decide) (by decide) (by decide) (by decide) (by decide) (by decide),
    by decide, by decide, by decide⟩

/-! Message profile log -/

/-- The search loop returns: with the first entry that has the attributes of the
current message, or with `idx` at the end of the log when there is none. -/
theorem msgSearchLoop_spec (CNT : Nat) (log : Nat → dev_sm_sys_msg_prof_t)
    (c : dev_sm_sys_msg_prof_t) (hcnt : CNT < 2 ^ 32) :
    ∀ (fuel idx : Nat), idx < CNT → CNT - idx ≤ fuel →
      (∀ j, j < idx → ¬ AttrMatch (log j) c) →
      (∃ i, msgSearchLoop CNT log c fuel idx = some (true, i) ∧ FirstMatch CNT log c i) ∨
      (msgSearchLoop CNT log c fuel idx = some (false, CNT) ∧
        ∀ j, j < CNT → ¬ AttrMatch (log j) c) := by
  intro fuel
  induction fuel with
  | zero => intro idx h1 h2; omega
  | succ n ih =>
    intro idx hidx hf hpre
    unfold msgSearchLoop
    dsimp only
    by_cases hm : AttrMatch (log idx) c
    · left
      refine ⟨idx, ?_, hidx, hm, hpre⟩
      exact if_pos hm
    · have hmod : (idx + 1) % 2 ^ 32 = idx + 1 := Nat.mod_eq_of_lt (by omega)
      have hpre2 : ∀ j, j < idx + 1 → ¬ AttrMatch (log j) c := by
        intro j hj
        by_cases hji : j = idx
        · rw [hji]; exact hm
        · exact hpre j (by omega)
      refine Eq.mpr (congrArg (fun x => (∃ i, x = some (true, i) ∧ FirstMatch CNT log c i) ∨
        (x = some (false, CNT) ∧ ∀ j, j < CNT → ¬ AttrMatch (log j) c)) (if_neg hm)) ?_
      rw [hmod]
      by_cases hlt : idx + 1 < CNT
      · rw [if_pos hlt]
        exact ih (idx + 1) hlt (by omega) hpre2
      · rw [if_neg hlt]
        have : idx + 1 = CNT := by omega
        right
        rw [this]
        refine ⟨rfl, ?_⟩
        intro j hj
        exact hpre2 j (by omega)

/-- The removal loop returns with `j` at the last entry and the entries after
`j` moved up by one. -/
theorem msgRemoveLoop_spec (CNT : Nat) (hcnt : CNT < 2 ^ 32) :
    ∀ (fuel j : Nat) (log : Nat → dev_sm_sys_msg_prof_t), j + 1 ≤ CNT → CNT - (j + 1) < fuel →
      msgRemoveLoop CNT fuel j (j + 1) log =
        some (CNT - 1, fun i => if j ≤ i ∧ i < CNT - 1 then log (i + 1) else log i) := by
  intro fuel
  induction fuel with
  | zero => intro j log h1 h2; omega
  | succ n ih =>
    intro j log hj hf
    unfold msgRemoveLoop
    by_cases hk : j + 1 < CNT
    · have h1 : (j + 1) % 2 ^ 32 = j + 1 := Nat.mod_eq_of_lt (by omega)
      have h2 : (j + 1 + 1) % 2 ^ 32 = j + 1 + 1 := Nat.mod_eq_of_lt (by omega)
      rw [if_pos hk, h1, h2, ih (j + 1) _ (by omega) (by omega)]
      congr 2
      funext i
      simp only [setProf]
      split_ifs <;> first | rfl | (exfalso; omega) | (refine congrArg log ?_; omega)
    · rw [if_neg hk]
      have : j = CNT - 1 := by omega
      congr 2
      funext i
      split_ifs <;> first | rfl | (exfalso; omega)

/-- The shift loop returns with the entries from `idx` to `j - 1` moved down by
one. -/
theorem msgShiftLoop_spec (idx : Nat) :
    ∀ (fuel j k : Nat) (log : Nat → dev_sm_sys_msg_prof_t), idx ≤ j → j < 2 ^ 32 →
      j - idx < fuel → k = (j + 2 ^ 32 - 1) % 2 ^ 32 →
      msgShiftLoop idx fuel j k log =
        some (fun i => if idx < i ∧ i ≤ j then log (i - 1) else log i) := by
  intro fuel
  induction fuel with
  | zero => intro j k log h1 h2 h3; omega
  | succ n ih =>
    intro j k log hj hj2 hf hk
    unfold msgShiftLoop
    by_cases hgt : j > idx
    · have hk2 : k = j - 1 := by omega
      have hrec := ih ((j + 2 ^ 32 - 1) % 2 ^ 32) ((k + 2 ^ 32 - 1) % 2 ^ 32)
        (setProf log j (log k)) (by omega) (by omega) (by omega) (by omega)
      rw [if_pos hgt]
      refine hrec.trans (congrArg some ?_)
      funext i
      simp only [setProf]
      split_ifs <;> first | rfl | (exfalso; omega) | (refine congrArg log ?_; omega)
    · rw [if_neg hgt]
      congr 1
      funext i
      split_ifs <;> first | rfl | (exfalso; omega)

/-- With `bDone` set the insertion loop leaves the log alone. -/
theorem msgInsertLoop_done (CNT : Nat) (c : dev_sm_sys_msg_prof_t) (fuel2 fuel idx : Nat)
    (log : Nat → dev_sm_sys_msg_prof_t) (hf : 0 < fuel) :
    msgInsertLoop CNT c fuel2 fuel idx true log = some log := by
  cases fuel with
  | zero => omega
  | succ n =>
    unfold msgInsertLoop
    rw [if_neg (by simp)]

/-- The insertion loop, entered with `bDone` false, returns: with the message
inserted at the first entry of smaller latency, or with the log as it was when
there is none. -/
theorem msgInsertLoop_spec (CNT : Nat) (c : dev_sm_sys_msg_prof_t) (fuel2 : Nat)
    (hcnt0 : 0 < CNT) (hcnt : CNT < 2 ^ 32) (hf2 : CNT < fuel2) :
    ∀ (fuel idx : Nat) (log : Nat → dev_sm_sys_msg_prof_t), idx ≤ CNT → CNT - idx + 1 < fuel →
      (∃ i, idx ≤ i ∧ i < CNT ∧ c.msgLatUsec > (log i).msgLatUsec ∧
        (∀ j, idx ≤ j → j < i → (log j).msgLatUsec ≥ c.msgLatUsec) ∧
        msgInsertLoop CNT c fuel2 fuel idx false log = some (insertAt CNT i c log)) ∨
      ((∀ j, idx ≤ j → j < CNT → (log j).msgLatUsec ≥ c.msgLatUsec) ∧
        msgInsertLoop CNT c fuel2 fuel idx false log = some log) := by
  intro fuel
  induction fuel with
  | zero => intro idx log h1 h2; omega
  | succ n ih =>
    intro idx log hidx hf
    unfold msgInsertLoop
    dsimp only
    by_cases hlt : idx < CNT
    · have hmod : (idx + 1) % 2 ^ 32 = idx + 1 := Nat.mod_eq_of_lt (by omega)
      rw [if_pos ⟨hlt, rfl⟩, hmod]
      by_cases hgt : c.msgLatUsec > (log idx).msgLatUsec
      · left
        refine ⟨idx, le_refl _, hlt, hgt, fun j h1 h2 => by omega, ?_⟩
        have hj : (CNT + 2 ^ 32 - 1) % 2 ^ 32 = CNT - 1 := by omega
        have hsh := msgShiftLoop_spec idx fuel2 ((CNT + 2 ^ 32 - 1) % 2 ^ 32)
          ((((CNT + 2 ^ 32 - 1) % 2 ^ 32) + 2 ^ 32 - 1) % 2 ^ 32) log (by omega) (by omega)
          (by omega) rfl
        rw [if_pos hgt]
        refine (congrArg (fun o => Option.bind o _) hsh).trans ?_
        rw [Option.some_bind, msgInsertLoop_done CNT c fuel2 n _ _ (by omega)]
        refine congrArg some ?_
        funext i
        simp only [insertAt, setProf]
        split_ifs <;> first | rfl | (exfalso; omega)
      · rw [if_neg hgt]
        rcases ih (idx + 1) log (by omega) (by omega) with ⟨i, h1, h2, h3, h4, h5⟩ | ⟨h1, h2⟩
        · left
          refine ⟨i, by omega, h2, h3, ?_, h5⟩
          intro j hj1 hj2
          by_cases hji : j = idx
          · rw [hji]; omega
          · exact h4 j (by omega) hj2
        · right
          refine ⟨?_, h2⟩
          intro j hj1 hj2
          by_cases hji : j = idx
          · rw [hji]; omega
          · exact h1 j (by omega) hj2
    · rw [if_neg (fun h => hlt h.1)]
      right
      exact ⟨fun j h1 h2 => by omega, rfl⟩

/-- Removing an entry keeps the order. -/
theorem sorted_removeAt (CNT idx : Nat) (log : Nat → dev_sm_sys_msg_prof_t)
    (hs : LogSorted CNT log) : LogSorted CNT (removeAt CNT idx log) := by
  intro j hj i hij
  simp only [removeAt, setProf]
  split_ifs <;> first
    | exact Nat.zero_le _
    | (exfalso; omega)
    | exact hs (j + 1) (by omega) (i + 1) (by omega)
    | exact hs (j + 1) (by omega) i (by omega)
    | exact hs j hj i hij

/-- Inserting before the first entry of smaller latency keeps the order. -/
theorem sorted_insertAt (CNT idx : Nat) (c : dev_sm_sys_msg_prof_t)
    (log : Nat → dev_sm_sys_msg_prof_t) (hs : LogSorted CNT log) (hidx : idx < CNT)
    (hgt : c.msgLatUsec > (log idx).msgLatUsec)
    (hpre : ∀ j, j < idx → (log j).msgLatUsec ≥ c.msgLatUsec) :
    LogSorted CNT (insertAt CNT idx c log) := by
  intro j hj i hij
  simp only [insertAt, setProf]
  by_cases h1 : j = idx
  · rw [if_pos h1]
    split_ifs <;> first
      | exact le_refl _
      | (exfalso; omega)
      | exact hpre i (by omega)
  · rw [if_neg h1]
    by_cases h2 : idx < j ∧ j ≤ CNT - 1
    · rw [if_pos h2]
      have h3 : (log (j - 1)).msgLatUsec ≤ (log idx).msgLatUsec :=
        hs (j - 1) (by omega) idx (by omega)
      split_ifs with h4 h5
      · omega
      · exact hs (j - 1) (by omega) (i - 1) (by omega)
      · have h6 := hpre i (by omega)
        omega
    · rw [if_neg h2]
      split_ifs <;> first
        | (exfalso; omega)
        | exact hs j hj i hij

theorem insertAt_outside (CNT idx : Nat) (c : dev_sm_sys_msg_prof_t)
    (log : Nat → dev_sm_sys_msg_prof_t) (hidx : idx < CNT) (i : Nat) (hi : CNT ≤ i) :
    insertAt CNT idx c log i = log i := by
  simp only [insertAt, setProf]
  split_ifs <;> first | rfl | (exfalso; omega)

theorem removeAt_outside (CNT idx : Nat) (log : Nat → dev_sm_sys_msg_prof_t) (hcnt0 : 0 < CNT)
    (i : Nat) (hi : CNT ≤ i) : removeAt CNT idx log i = log i := by
  simp only [removeAt, setProf]
  split_ifs <;> first | rfl | (exfalso; omega)

/-- The insertion loop, entered with `bDone` false on a sorted log, returns a
sorted log; it is the same log when the latency offered is 0, and entries
outside the log are not written. -/
theorem msgInsertLoop_sorted (CNT : Nat) (c : dev_sm_sys_msg_prof_t) (fuel : Nat)
    (log : Nat → dev_sm_sys_msg_prof_t)
    (hcnt0 : 0 < CNT) (hcnt : CNT < 2 ^ 32) (hfuel : CNT + 1 < fuel)
    (hs : LogSorted CNT log) :
    ∃ log2, msgInsertLoop CNT c fuel fuel 0 false log = some log2 ∧
      LogSorted CNT log2 ∧ (c.msgLatUsec = 0 → log2 = log) ∧
      (∀ i, CNT ≤ i → log2 i = log i) ∧
      ((∃ i, i < CNT ∧ c.msgLatUsec > (log i).msgLatUsec) → ∃ i, i < CNT ∧ log2 i = c) := by
  rcases msgInsertLoop_spec CNT c fuel hcnt0 hcnt (by omega) fuel 0 log (Nat.zero_le _)
    (by omega) with ⟨i, _, h2, h3, h4, h5⟩ | ⟨h1, h2⟩
  · refine ⟨_, h5, sorted_insertAt CNT i c log hs h2 h3 (fun j hj => h4 j (Nat.zero_le _) hj),
      fun h0 => by omega, fun j hj => insertAt_outside CNT i c log h2 j hj, fun _ => ⟨i, h2, ?_⟩⟩
    simp [insertAt, setProf]
  · refine ⟨_, h2, hs, fun _ => rfl, fun _ _ => rfl, ?_⟩
    rintro ⟨i, hi, hgt⟩
    have := h1 i (Nat.zero_le _) hi
    omega

theorem firstMatch_unique (CNT : Nat) (log : Nat → dev_sm_sys_msg_prof_t)
    (c : dev_sm_sys_msg_prof_t) (i j : Nat) (hi : FirstMatch CNT log c i)
    (hj : FirstMatch CNT log c j) : i = j := by
  rcases Nat.lt_trichotomy i j with h | h | h
  · exact absurd hi.2.1 (hj.2.2 i h)
  · exact h
  · exact absurd hj.2.1 (hi.2.2 j h)

/-- The body of `DEV_SM_SystemMsgProfEnd` in terms of the current message. -/
theorem msgProfEnd_eq (CNT fuel now : Nat) (st : MsgState) :
    DEV_SM_SystemMsgProfEnd CNT fuel now st =
      (msgSearchLoop CNT st.msgProf (curMsg now st) fuel 0).bind fun r =>
        (if r.1 = true then
          if curLatency now st > (st.msgProf r.2).msgLatUsec then
            (msgRemoveLoop CNT fuel r.2 ((r.2 + 1) % 2 ^ 32) st.msgProf).map fun q =>
              (false, setProf q.2 q.1 ⟨0, 0, 0, 0, 0⟩)
          else some (true, st.msgProf)
        else some (false, st.msgProf)).bind fun q =>
          (msgInsertLoop CNT (curMsg now st) fuel fuel 0 q.1 q.2).map fun log =>
            { s_curMsgRecord :=
                { msgStartUsec := st.s_curMsgRecord.msgStartUsec, msgEndUsec := now,
                  msgProf := curMsg now st },
              msgProf := log } := rfl

/-- C30: for a log of `CNT` entries (`1 ≤ CNT < 2 ^ 32`) in non-increasing order
of latency, `DEV_SM_SystemMsgProfEnd` returns and the log afterwards is in
non-increasing order of latency, for every current message.  The log is
unchanged when the first entry with the attributes of the message has a
latency that is not below the current one, and when the current latency is 0
(such a message is never inserted).  Entries outside the log are not written.
A message present with a smaller latency, and a new message for which some
entry has a smaller latency, is in the log afterwards. -/
theorem msgProfEnd_sorted (CNT fuel now : Nat) (st : MsgState)
    (hcnt0 : 0 < CNT) (hcnt : CNT < 2 ^ 32) (hfuel : CNT + 1 < fuel)
    (hs : LogSorted CNT st.msgProf) :
    ∃ st2, DEV_SM_SystemMsgProfEnd CNT fuel now st = some st2 ∧
      LogSorted CNT st2.msgProf ∧
      (∀ i, FirstMatch CNT st.msgProf (curMsg now st) i →
        curLatency now st ≤ (st.msgProf i).msgLatUsec → st2.msgProf = st.msgProf) ∧
      (curLatency now st = 0 → st2.msgProf = st.msgProf) ∧
      (∀ i, CNT ≤ i → st2.msgProf i = st.msgProf i) ∧
      st2.s_curMsgRecord.msgProf = curMsg now st ∧
      (∀ i, FirstMatch CNT st.msgProf (curMsg now st) i →
        curLatency now st > (st.msgProf i).msgLatUsec →
        ∃ k, k < CNT ∧ st2.msgProf k = curMsg now st) ∧
      ((∀ j, j < CNT → ¬ AttrMatch (st.msgProf j) (curMsg now st)) →
        (∃ i, i < CNT ∧ curLatency now st > (st.msgProf i).msgLatUsec) →
        ∃ k, k < CNT ∧ st2.msgProf k = curMsg now st) := by
  rw [msgProfEnd_eq]
  rcases msgSearchLoop_spec CNT st.msgProf (curMsg now st) hcnt fuel 0 hcnt0 (by omega)
    (fun j hj => absurd hj (Nat.not_lt_zero j)) with ⟨i, hsearch, hfm⟩ | ⟨hsearch, hnone⟩
  · rw [hsearch, Option.some_bind]
    dsimp only
    rw [if_pos rfl]
    by_cases hgt : curLatency now st > (st.msgProf i).msgLatUsec
    · have hmod : (i + 1) % 2 ^ 32 = i + 1 := Nat.mod_eq_of_lt (by have := hfm.1; omega)
      rw [if_pos hgt, hmod, msgRemoveLoop_spec CNT hcnt fuel i st.msgProf (by have := hfm.1; omega)
        (by omega), Option.map_some', Option.some_bind]
      obtain ⟨log2, h1, h2, h3, h4, h5⟩ := msgInsertLoop_sorted CNT (curMsg now st) fuel
        (removeAt CNT i st.msgProf) hcnt0 hcnt hfuel (sorted_removeAt CNT i st.msgProf hs)
      have hlast : (removeAt CNT i st.msgProf (CNT - 1)).msgLatUsec = 0 := by
        simp [removeAt, setProf]
      have hins := h5 ⟨CNT - 1, by omega, by
        rw [hlast]
        show curLatency now st > 0
        omega⟩
      refine ⟨_, congrArg (Option.map _) h1, h2, ?_, ?_, ?_, rfl, fun _ _ _ => hins, ?_⟩
      rotate_left 3
      · intro hno
        exact absurd hfm.2.1 (hno i hfm.1)
      · intro i2 hfm2 hle
        have := firstMatch_unique CNT _ _ _ _ hfm hfm2
        subst this
        omega
      · intro h0
        omega
      · intro j hj
        show log2 j = _
        rw [h4 j hj, removeAt_outside CNT i _ hcnt0 j hj]
    · rw [if_neg hgt, Option.some_bind]
      dsimp only
      rw [msgInsertLoop_done CNT _ fuel fuel 0 _ (by omega)]
      refine ⟨_, rfl, hs, fun _ _ _ => rfl, fun _ => rfl, fun _ _ => rfl, rfl, ?_, ?_⟩
      · intro i2 hfm2 hgt2
        have := firstMatch_unique CNT _ _ _ _ hfm hfm2
        subst this
        omega
      · intro hno
        exact absurd hfm.2.1 (hno i hfm.1)
  · rw [hsearch, Option.some_bind]
    dsimp only
    rw [if_neg (by simp), Option.some_bind]
    obtain ⟨log2, h1, h2, h3, h4, h5⟩ := msgInsertLoop_sorted CNT (curMsg now st) fuel
      st.msgProf hcnt0 hcnt hfuel hs
    refine ⟨_, congrArg (Option.map _) h1, h2, ?_, ?_, ?_, rfl,
      fun i hfm _ => absurd hfm.2.1 (hnone i hfm.1), fun _ hex => h5 hex⟩
    · intro i hfm _
      exact absurd hfm.2.1 (hnone i hfm.1)
    · intro h0
      exact h3 h0
    · intro j hj
      exact h4 j hj

/-- C30 instance: log latencies 500, 300, 100.  The message of entry 1 with
latency 400 replaces its entry; with latency 200 the log is unchanged; a new
message with latency 400 goes to position 1 and the last entry is dropped; a
new message with latency 0 is not inserted. -/
theorem msgProfEnd_sorted_witness :
    (∃ st2, DEV_SM_SystemMsgProfEnd 3 5 1400 exMsgS = some st2 ∧
      LogSorted 3 st2.msgProf ∧
      (∀ i, FirstMatch 3 exMsgS.msgProf (curMsg 1400 exMsgS) i →
        curLatency 1400 exMsgS ≤ (exMsgS.msgProf i).msgLatUsec →
        st2.msgProf = exMsgS.msgProf) ∧
      (curLatency 1400 exMsgS = 0 → st2.msgProf = exMsgS.msgProf) ∧
      (∀ i, 3 ≤ i → st2.msgProf i = exMsgS.msgProf i) ∧
      st2.s_curMsgRecord.msgProf = curMsg 1400 exMsgS ∧
      (∀ i, FirstMatch 3 exMsgS.msgProf (curMsg 1400 exMsgS) i →
        curLatency 1400 exMsgS > (exMsgS.msgProf i).msgLatUsec →
        ∃ k, k < 3 ∧ st2.msgProf k = curMsg 1400 exMsgS) ∧
      ((∀ j, j < 3 → ¬ AttrMatch (exMsgS.msgProf j) (curMsg 1400 exMsgS)) →
        (∃ i, i < 3 ∧ curLatency 1400 exMsgS > (exMsgS.msgProf i).msgLatUsec) →
        ∃ k, k < 3 ∧ st2.msgProf k = curMsg 1400 exMsgS)) ∧
    (DEV_SM_SystemMsgProfEnd 3 5 1400 exMsgS).map
      (fun s => (List.range 4).map (fun i => ((s.msgProf i).scmiChannel,
        (s.msgProf i).msgLatUsec))) = some [(1, 500), (2, 400), (3, 100), (0, 0)] ∧
    (DEV_SM_SystemMsgProfEnd 3 5 1200 exMsgS).map
      (fun s => (List.range 4).map (fun i => ((s.msgProf i).scmiChannel,
        (s.msgProf i).msgLatUsec))) = some [(1, 500), (2, 300), (3, 100), (0, 0)] ∧
    (DEV_SM_SystemMsgProfEnd 3 5 1400 exMsgSNew).map
      (fun s => (List.range 4).map (fun i => ((s.msgProf i).scmiChannel,
        (s.msgProf i).msgLatUsec))) = some [(1, 500), (9, 400), (2, 300), (0, 0)] ∧
    (DEV_SM_SystemMsgProfEnd 3 5 1000 exMsgSNew).map
      (fun s => (List.range 4).map (fun i => ((s.msgProf i).scmiChannel,
        (s.msgProf i).msgLatUsec))) = some [(1, 500), (2, 300), (3, 100), (0, 0)] :=
  ⟨msgProfEnd_sorted 3 5 1400 exMsgS (by decide) (by decide) (by decide) (by decide),
    by decide, by decide, by decide, by decide⟩

/-! The tail of the resume part -/

/-- C14: the entry capture compares one timer reading with the start and
subtracts the start from the next reading.  With a timer that wraps between
these two readings (start `2 ^ 64 - 1000`, compared reading `2 ^ 64 - 1`,
subtracted reading 499) the recorded entry latency is 1499: not 0, although
the subtracted reading is below the start, and not the 999 microseconds
elapsed up to the compared reading.  With the readings 1000, 2000, 500 it is
4294966796.  The exit latency, captured without a wrap, is 20 in both
runs. -/
theorem systemSleep_latency_wrap_between_reads :
    exSysOWrapMid.usec 0 = 2 ^ 64 - 1000 ∧ exSysOWrapMid.usec 1 = 2 ^ 64 - 1 ∧
    exSysOWrapMid.usec 2 = 499 ∧
    (DEV_SM_SystemSleep exSysK exSysOWrapMid 5 exSysS 3).map
      (fun r => (r.2.sysSleepRecord.sleepEntryUsec, r.2.sysSleepRecord.sleepExitUsec)) =
        some (1499, 20) ∧
    usecDiffL (exSysOWrapMid.usec 1) (exSysOWrapMid.usec 0) = 999 ∧
    exSysOBack.usec 0 = 1000 ∧ exSysOBack.usec 1 = 2000 ∧ exSysOBack.usec 2 = 500 ∧
    (DEV_SM_SystemSleep exSysK exSysOBack 5 exSysS 3).map
      (fun r => (r.2.sysSleepRecord.sleepEntryUsec, r.2.sysSleepRecord.sleepExitUsec)) =
        some (4294966796, 20) := by
  decide

end ImxSm
